import Mathlib

/-!
# ctdb recovery daemon: election, bans, culprit tracking, recovery and monitoring

A shallow embedding of `server/ctdb_recoverd.c` and of the request ids of
`common/ctdb_util.c`.  Machine integers are natural numbers or integers with the
32-bit wrap written out, the clock is an explicit argument, and the requests the
daemon issues are collected in a trace.  The main daemons of the cluster that a
recovery run talks to are a state of their own (`cluster`): a request takes effect
on the node addressed, or fails, and is logged.  One iteration of the monitor loop
reads every reply from an environment record (`monitor_env`) and records the calls
it makes (`monitor_call`).
-/

namespace Ctdb

/-! ## Machine integers and time -/

/-- The `(int)` cast of a `uint32_t`: the two's complement reading of the low 32 bits. -/
def int_of_u32 (x : Nat) : Int :=
  if x % 2 ^ 32 < 2 ^ 31 then ((x % 2 ^ 32 : Nat) : Int) else ((x % 2 ^ 32 : Nat) : Int) - 2 ^ 32

/-- The value an `int` holds after a 32-bit operation whose exact result is `z`
(two's complement wrap-around). -/
def wrap_int (z : Int) : Int :=
  (z + 2 ^ 31) % 2 ^ 32 - 2 ^ 31

/-- The `struct timeval` of the C library: seconds and microseconds. -/
structure timeval where
  tv_sec : Int
  tv_usec : Int
deriving DecidableEq, Repr

/-- Modelled from the spec: `timeval_compare` belongs to the time library, which is
not among the sources.  It orders two instants, seconds first and microseconds
second, and answers `-1`, `0` or `1` as the first is earlier than, equal to or
later than the second ("earlier (smaller) priority_time wins"). -/
def timeval_compare (tv1 tv2 : timeval) : Int :=
  if tv1.tv_sec > tv2.tv_sec then 1
  else if tv1.tv_sec < tv2.tv_sec then -1
  else if tv1.tv_usec > tv2.tv_usec then 1
  else if tv1.tv_usec < tv2.tv_usec then -1
  else 0

/-- Modelled from the spec: `timeval_current_ofs(secs, 0)` of the time library,
the instant `secs` seconds after the clock reading `now`. -/
def timeval_current_ofs (now : timeval) (secs : Nat) : timeval :=
  { now with tv_sec := now.tv_sec + secs }

/-- Modelled from the spec: `timeval_elapsed` of the time library, the time from
`tv` to the clock reading `now`, here in whole microseconds (the library
returns the same quantity as a `double` number of seconds). -/
def timeval_elapsed_usec (now tv : timeval) : Int :=
  (now.tv_sec - tv.tv_sec) * 1000000 + (now.tv_usec - tv.tv_usec)

/-! ## Node flags and the node map -/

/-- Modelled from the spec: the flag bits are declared in a header that is not
among the sources; `DISCONNECTED` is one bit of the per-node flag word. -/
def NODE_FLAGS_DISCONNECTED : Nat := 0x1

/-- Modelled from the spec: the `BANNED` bit of the per-node flag word (header not
among the sources). -/
def NODE_FLAGS_BANNED : Nat := 0x8

/-- The C test `flags & mask`, read as a truth value. -/
def flag_test (flags mask : Nat) : Bool :=
  (flags &&& mask) != 0

/-- One entry of the node map (`struct ctdb_node_and_flags`, address left out). -/
structure ctdb_node_and_flags where
  pnn : Nat
  flags : Nat
deriving DecidableEq, Repr

/-- The node map (`struct ctdb_node_map`); `num` is the length of `nodes`. -/
structure ctdb_node_map where
  nodes : List ctdb_node_and_flags
deriving DecidableEq, Repr

/-- The field `num` of a node map. -/
def ctdb_node_map.num (m : ctdb_node_map) : Nat :=
  m.nodes.length

/-! ## Daemon state -/

/-- The tunables the recovery daemon reads (`ctdb->tunable`); the fields are those
the code names. -/
structure ctdb_tunable where
  enable_bans : Nat
  recovery_grace_period : Nat
  recovery_ban_period : Nat
deriving DecidableEq, Repr

/-- The fields of `struct ctdb_context` the recovery daemon uses; `vnn` says whether
public addresses are configured (the pointer `ctdb->vnn` is not `NULL`). -/
structure ctdb_context where
  pnn : Nat
  num_nodes : Nat
  tunable : ctdb_tunable
  recovery_lock_fd : Int
  recovery_master : Nat := 0
  recovery_mode : Nat := 0
  vnn : Bool := false
deriving DecidableEq, Repr

/-- The payload of a ban timer (`struct ban_state`; the back pointer `rec` is the
one daemon state and is left out). -/
structure ban_state where
  banned_node : Nat
deriving DecidableEq, Repr

/-- The private state of the recovery daemon (`struct ctdb_recoverd`).  An entry of
`banned_nodes` is `NULL` (`none`) or the address of a live `ban_state`. -/
structure ctdb_recoverd where
  last_culprit : Nat
  culprit_counter : Nat
  first_recover_time : timeval
  banned_nodes : List (Option Nat)
  priority_time : timeval
  need_takeover_run : Bool
  need_recovery : Bool
  node_flags : Nat
deriving DecidableEq, Repr

/-- The election message (`struct election_message`). -/
structure election_message where
  num_connected : Nat
  priority_time : timeval
  pnn : Nat
  node_flags : Nat
deriving DecidableEq, Repr

/-! ## Election -/

/-- The loop of `ctdb_election_data` counting the entries without `DISCONNECTED`,
as a 32-bit counter. -/
def count_connected (nodes : List ctdb_node_and_flags) : Nat :=
  nodes.foldl (fun n node =>
    if !(flag_test node.flags NODE_FLAGS_DISCONNECTED) then (n + 1) % 2 ^ 32 else n) 0

/-- Form this node's election data (`ctdb_election_data`).  `reply` is the answer
to the `getnodemap` request to the local node; when the request fails (`none`)
the message keeps `num_connected = 0`. -/
def ctdb_election_data (ctdb : ctdb_context) (rec : ctdb_recoverd)
    (reply : Option ctdb_node_map) : election_message :=
  let em : election_message :=
    { num_connected := 0, priority_time := rec.priority_time,
      pnn := ctdb.pnn, node_flags := rec.node_flags }
  match reply with
  | none => em
  | some nodemap => { em with num_connected := count_connected nodemap.nodes }

/-- See if the given election data wins (`ctdb_election_win`): does the local
node beat the sender of `em`. -/
def ctdb_election_win (ctdb : ctdb_context) (rec : ctdb_recoverd)
    (reply : Option ctdb_node_map) (em : election_message) : Bool :=
  let myem := ctdb_election_data ctdb rec reply
  let cmp : Int := 0
  if flag_test rec.node_flags NODE_FLAGS_BANNED then false
  else if flag_test em.node_flags NODE_FLAGS_BANNED then true
  else
    let cmp := if cmp = 0 then
        wrap_int (int_of_u32 myem.num_connected - int_of_u32 em.num_connected) else cmp
    let cmp := if cmp = 0 then timeval_compare em.priority_time myem.priority_time else cmp
    let cmp := if cmp = 0 then wrap_int (int_of_u32 myem.pnn - int_of_u32 em.pnn) else cmp
    decide (cmp > 0)

/-- The instant `a` is strictly earlier than the instant `b`. -/
def timeval_earlier (a b : timeval) : Bool :=
  decide (a.tv_sec < b.tv_sec) || (decide (a.tv_sec = b.tv_sec) && decide (a.tv_usec < b.tv_usec))

/-- The winning function as the specification words it, for two unbanned nodes:
higher `num_connected` wins, then the earlier `priority_time`, then the higher
`pnn`; equal on all three loses. -/
def beats_reference (me peer : election_message) : Bool :=
  decide (me.num_connected > peer.num_connected)
  || (decide (me.num_connected = peer.num_connected)
      && timeval_earlier me.priority_time peer.priority_time)
  || (decide (me.num_connected = peer.num_connected)
      && decide (me.priority_time = peer.priority_time)
      && decide (me.pnn > peer.pnn))

/-- A node of a cluster as an election sees it: its context, its daemon state and
the node map its own daemon reports. -/
structure candidate where
  ctdb : ctdb_context
  recd : ctdb_recoverd
  reply : Option ctdb_node_map
deriving DecidableEq, Repr

/-- The election message a candidate broadcasts. -/
def candidate.message (c : candidate) : election_message :=
  ctdb_election_data c.ctdb c.recd c.reply

/-- The candidate `me` beats the candidate `peer`: `ctdb_election_win` run by `me` on
the message of `peer`. -/
def candidate.beats (me peer : candidate) : Bool :=
  ctdb_election_win me.ctdb me.recd me.reply peer.message

/-- A candidate with the given `pnn`, flags, start time and node map, everything
else at its start-up value (`num_nodes` is the length of the node map). -/
def mk_candidate (pnn flags : Nat) (prio : timeval) (reply : Option ctdb_node_map) : candidate :=
  { ctdb := { pnn := pnn, num_nodes := (reply.map ctdb_node_map.num).getD 0,
              tunable := { enable_bans := 1, recovery_grace_period := 0, recovery_ban_period := 0 },
              recovery_lock_fd := -1 },
    recd := { last_culprit := 0, culprit_counter := 0, first_recover_time := ⟨0, 0⟩,
              banned_nodes := [], priority_time := prio, need_takeover_run := false,
              need_recovery := false, node_flags := flags },
    reply := reply }

/-! ## The daemon as a whole: allocations, timers and issued requests -/

/-- A request that changes a peer, or a broadcast, as the daemon issues it.
Requests that only read a value are represented by their reply, which the
embedded function takes as an argument. -/
inductive control where
  | modflags (pnn set clear : Nat)
deriving DecidableEq, Repr

/-- A pending timed event.  `parent` is the allocation the event hangs from (it is
released with it) and `private_data` the pointer handed to the handler; for a ban
timer both are the address of the `ban_state`. -/
structure timed_event where
  parent : Nat
  next_event : timeval
  private_data : Nat
deriving DecidableEq, Repr

/-- The recovery daemon with everything its ban code touches: context, private
state, the live `ban_state` allocations by address, the next free address, the
pending timers and the requests issued so far (oldest first). -/
structure daemon where
  ctdb : ctdb_context
  recd : ctdb_recoverd
  heap : List (Nat × ban_state)
  next_addr : Nat
  timers : List timed_event
  sent : List control
deriving DecidableEq, Repr

/-- Modelled from the spec: `ctdb_validate_pnn` is defined outside the sources at
hand; the ban registry has capacity `num_nodes`, so a pnn is valid when it is
below `num_nodes`. -/
def ctdb_validate_pnn (ctdb : ctdb_context) (pnn : Nat) : Bool :=
  decide (pnn < ctdb.num_nodes)

/-- The pointer read `rec->banned_nodes[pnn]`. -/
def banned_entry (rec : ctdb_recoverd) (pnn : Nat) : Option Nat :=
  rec.banned_nodes.getD pnn none

/-- Release an allocation (`talloc_free`) of a `ban_state`: the object goes, and
with it every timed event that hangs from it. -/
def talloc_free (s : daemon) (p : Nat) : daemon :=
  { s with heap := s.heap.filter (fun e => e.1 != p),
           timers := s.timers.filter (fun t => t.parent != p) }

/-- Issue `ctdb_ctrl_modflags` to `pnn`; the reply is not looked at by any caller. -/
def ctdb_ctrl_modflags (s : daemon) (pnn set clear : Nat) : daemon :=
  { s with sent := s.sent ++ [control.modflags pnn set clear] }

/-- Unban a node (`ctdb_unban_node`). -/
def ctdb_unban_node (s : daemon) (pnn : Nat) : daemon :=
  if !(ctdb_validate_pnn s.ctdb pnn) then s
  else
    match banned_entry s.recd pnn with
    | none => s
    | some p =>
      let s := ctdb_ctrl_modflags s pnn 0 NODE_FLAGS_BANNED
      let s := talloc_free s p
      { s with recd := { s.recd with banned_nodes := s.recd.banned_nodes.set pnn none } }

/-- Called when a ban has timed out (`ctdb_ban_timeout`); `p` is the private data of
the timer, the address of a `ban_state`. -/
def ctdb_ban_timeout (s : daemon) (p : Nat) : daemon :=
  match s.heap.lookup p with
  | none => s
  | some state => ctdb_unban_node s state.banned_node

/-- Ban a node for a period of time (`ctdb_ban_node`); `now` is the clock reading.
The allocation of the `ban_state` is taken to succeed (its failure ends the
process). -/
def ctdb_ban_node (s : daemon) (now : timeval) (pnn ban_time : Nat) : daemon :=
  if !(ctdb_validate_pnn s.ctdb pnn) then s
  else if s.ctdb.tunable.enable_bans = 0 then s
  else
    let s := if pnn = s.ctdb.pnn then { s with recd := { s.recd with priority_time := now } } else s
    let s := ctdb_ctrl_modflags s pnn NODE_FLAGS_BANNED 0
    let p := s.next_addr
    let s := { s with heap := s.heap ++ [(p, { banned_node := pnn })],
                      next_addr := p + 1,
                      recd := { s.recd with banned_nodes := s.recd.banned_nodes.set pnn (some p) } }
    if ban_time ≠ 0 then
      { s with timers := s.timers ++
          [{ parent := p, next_event := timeval_current_ofs now ban_time, private_data := p }] }
    else s

/-! ## Culprit tracking and the opening of a recovery run -/

/-- Remember the trouble maker (`ctdb_set_culprit`); `now` is the clock reading.  The
source compares `timeval_elapsed`, a `double` number of seconds, with the grace
period; the comparison is made here on whole microseconds. -/
def ctdb_set_culprit (s : daemon) (now : timeval) (culprit : Nat) : daemon :=
  let rec1 := s.recd
  let rec1 :=
    if rec1.last_culprit ≠ culprit ∨
        timeval_elapsed_usec now rec1.first_recover_time
          > (s.ctdb.tunable.recovery_grace_period : Int) * 1000000 then
      { rec1 with last_culprit := culprit, first_recover_time := now, culprit_counter := 0 }
    else rec1
  { s with recd := { rec1 with culprit_counter := (rec1.culprit_counter + 1) % 2 ^ 32 } }

/-- The first steps of `do_recovery`: mark the recovery as needed, update the
culprit and ban it when its counter is past twice the number of nodes of the node
map (a 32-bit product). -/
def do_recovery_culprit (s : daemon) (now : timeval) (nodemap : ctdb_node_map)
    (culprit : Nat) : daemon :=
  let s := { s with recd := { s.recd with need_recovery := true } }
  let s := ctdb_set_culprit s now culprit
  if s.recd.culprit_counter > (2 * nodemap.num) % 2 ^ 32 then
    ctdb_ban_node s now culprit s.ctdb.tunable.recovery_ban_period
  else s

/-- The opening of `do_recovery`, up to and including the recovery lock.  `lock` is
the outcome of `ctdb_recovery_lock` (the descriptor on success).  The result says
whether the run goes on to its stages (`true`) or has returned `-1` (`false`). -/
def do_recovery_prologue (s : daemon) (now : timeval) (pnn : Nat) (nodemap : ctdb_node_map)
    (culprit : Nat) (lock : Option Int) : daemon × Bool :=
  let s := do_recovery_culprit s now nodemap culprit
  match lock with
  | none => (ctdb_set_culprit s now pnn, false)
  | some fd => ({ s with ctdb := { s.ctdb with recovery_lock_fd := fd } }, true)

/-- Consecutive recovery runs for one culprit, one per clock reading, each
acquiring the lock: the daemon after every run, in order. -/
def recovery_runs (s : daemon) (pnn : Nat) (nodemap : ctdb_node_map) (culprit : Nat)
    (fd : Int) : List timeval → List daemon
  | [] => []
  | now :: rest =>
    let s1 := (do_recovery_prologue s now pnn nodemap culprit (some fd)).1
    s1 :: recovery_runs s1 pnn nodemap culprit fd rest

/-- The observable marks of a ban of `pnn` issued between `before` and `after`: one
more `modflags` request setting `BANNED`, a new `ban_state` for `pnn` in the
registry and, for a non-zero ban time, one more timer for it, due `ban_time` seconds
after `now`. -/
def ban_recorded (before after : daemon) (now : timeval) (pnn ban_time : Nat) : Prop :=
  after.sent = before.sent ++ [control.modflags pnn NODE_FLAGS_BANNED 0]
  ∧ banned_entry after.recd pnn = some before.next_addr
  ∧ after.heap = before.heap ++ [(before.next_addr, { banned_node := pnn })]
  ∧ after.timers = before.timers ++
      (if ban_time ≠ 0 then
        [{ parent := before.next_addr, next_event := timeval_current_ofs now ban_time,
           private_data := before.next_addr }]
       else [])

instance (before after : daemon) (now : timeval) (pnn ban_time : Nat) :
    Decidable (ban_recorded before after now pnn ban_time) := by
  unfold ban_recorded
  infer_instance

/-- No trace of a ban between `before` and `after`: same requests, same registry,
same allocations, same timers. -/
def ban_absent (before after : daemon) : Prop :=
  after.sent = before.sent
  ∧ after.recd.banned_nodes = before.recd.banned_nodes
  ∧ after.heap = before.heap
  ∧ after.next_addr = before.next_addr
  ∧ after.timers = before.timers

instance (before after : daemon) : Decidable (ban_absent before after) := by
  unfold ban_absent
  infer_instance

/-- The daemon `r` is `k` recoveries into tracking `culprit` since the instant `t1`,
and no ban was issued on the way from `s` to `r`. -/
def tracking (s r : daemon) (culprit : Nat) (t1 : timeval) (k : Nat) : Prop :=
  r.recd.last_culprit = culprit
  ∧ r.recd.first_recover_time = t1
  ∧ r.recd.culprit_counter = k
  ∧ r.ctdb.tunable = s.ctdb.tunable
  ∧ r.ctdb.num_nodes = s.ctdb.num_nodes
  ∧ ban_absent s r

/-! ## Administrative ban and unban messages -/

/-- The 32-bit word at byte offset `off` of a message payload (least significant
byte first). -/
def u32_at (data : List Nat) (off : Nat) : Nat :=
  (data.getD off 0) % 256 + 256 * ((data.getD (off + 1) 0) % 256)
    + 65536 * ((data.getD (off + 2) 0) % 256) + 16777216 * ((data.getD (off + 3) 0) % 256)

/-- Handler for when the admin bans a node (`ban_handler`).  `data` is the payload,
a list of bytes (`dsize` is its length; `struct ctdb_ban_info` is the two words
`pnn`, `ban_time`), `recmaster` the reply of `getrecmaster` on the local node
(`none` when the request fails). -/
def ban_handler (s : daemon) (now : timeval) (data : List Nat) (recmaster : Option Nat) : daemon :=
  if data.length ≠ 8 then s
  else
    match recmaster with
    | none => s
    | some rm =>
      if rm ≠ s.ctdb.pnn then s
      else ctdb_ban_node s now (u32_at data 0) (u32_at data 4)

/-- Handler for when the admin unbans a node (`unban_handler`); the payload is one
32-bit word, the pnn. -/
def unban_handler (s : daemon) (data : List Nat) (recmaster : Option Nat) : daemon :=
  if data.length ≠ 4 then s
  else
    let pnn := u32_at data 0
    match recmaster with
    | none => s
    | some rm =>
      if rm ≠ s.ctdb.pnn then s
      else ctdb_unban_node s pnn

/-- A daemon as `monitor_cluster` sets it up: zeroed private state, an empty
registry of `num_nodes` slots, the start time as priority time. -/
def daemon_init (pnn num_nodes : Nat) (tunable : ctdb_tunable) (start : timeval) : daemon :=
  { ctdb := { pnn := pnn, num_nodes := num_nodes, tunable := tunable, recovery_lock_fd := -1 },
    recd := { last_culprit := 0, culprit_counter := 0, first_recover_time := ⟨0, 0⟩,
              banned_nodes := List.replicate num_nodes none, priority_time := start,
              need_takeover_run := false, need_recovery := false, node_flags := 0 },
    heap := [], next_addr := 1, timers := [], sent := [] }

/-- The bytes of a 32-bit word as they lie in a message payload. -/
def u32_bytes (x : Nat) : List Nat :=
  [x % 256, x / 256 % 256, x / 65536 % 256, x / 16777216 % 256]

/-- Modelled from the spec: the payload of a `BAN_NODE` message, `{pnn, ban_time}`
(`struct ctdb_ban_info`, declared in a header that is not among the sources): two
32-bit words, the pnn first. -/
def ctdb_ban_info (pnn ban_time : Nat) : List Nat :=
  u32_bytes pnn ++ u32_bytes ban_time

/-- The candidate `c` wins against the message of every other candidate of `cs`. -/
def wins_all (c : candidate) (cs : List candidate) : Bool :=
  cs.all (fun d => d.ctdb.pnn == c.ctdb.pnn || c.beats d)

/-! ## Concrete clusters used for evaluation -/

/-- A node of a two-node cluster, pnn `0`, unbanned, seeing both nodes connected. -/
def low_node : candidate :=
  mk_candidate 0 0 ⟨100, 0⟩ (some ⟨[⟨0, 0⟩, ⟨2147483648, 0⟩]⟩)

/-- The peer of `low_node`, with pnn `2^31`, started at the same instant. -/
def high_node : candidate :=
  mk_candidate 2147483648 0 ⟨100, 0⟩ (some ⟨[⟨0, 0⟩, ⟨2147483648, 0⟩]⟩)

/-- A node with pnn `0` that sees one connected node. -/
def lone_node : candidate :=
  mk_candidate 0 0 ⟨100, 0⟩ (some ⟨[⟨0, 0⟩]⟩)

/-- An election message claiming `2^32 - 1` connected nodes, from an unbanned node
with pnn `1` started at the same instant as `lone_node`. -/
def crowded_message : election_message :=
  { num_connected := 4294967295, priority_time := ⟨100, 0⟩, pnn := 1, node_flags := 0 }

/-- A node with pnn `0` of a two-node cluster whose other node has pnn `2^32 - 2`. -/
def first_node : candidate :=
  mk_candidate 0 0 ⟨100, 0⟩ (some ⟨[⟨0, 0⟩, ⟨4294967294, 0⟩]⟩)

/-- The peer of `first_node`, with pnn `2^32 - 2`. -/
def last_node : candidate :=
  mk_candidate 4294967294 0 ⟨100, 0⟩ (some ⟨[⟨0, 0⟩, ⟨4294967294, 0⟩]⟩)

/-- A banned node (flags `BANNED`) receiving a message. -/
def banned_node : candidate :=
  mk_candidate 3 NODE_FLAGS_BANNED ⟨5, 0⟩ (some ⟨[⟨3, 0⟩, ⟨4, 0⟩]⟩)

/-- An election message of a banned sender. -/
def banned_message : election_message :=
  { num_connected := 7, priority_time := ⟨1, 0⟩, pnn := 9, node_flags := NODE_FLAGS_BANNED }

/-- A three-node cluster seen from node `0`: bans disabled, grace period of 120
seconds, ban period of 300 seconds. -/
def quiet_daemon : daemon :=
  daemon_init 0 3 { enable_bans := 0, recovery_grace_period := 120, recovery_ban_period := 300 }
    ⟨10, 0⟩

/-- The same cluster with bans enabled. -/
def strict_daemon : daemon :=
  daemon_init 0 3 { enable_bans := 1, recovery_grace_period := 120, recovery_ban_period := 300 }
    ⟨10, 0⟩

/-- The node map of the three-node cluster, every node healthy. -/
def three_nodes : ctdb_node_map :=
  ⟨[⟨0, 0⟩, ⟨1, 0⟩, ⟨2, 0⟩]⟩

/-- The daemon `strict_daemon` after banning node `1` for five seconds at time `20`. -/
def daemon_with_ban : daemon :=
  ctdb_ban_node strict_daemon ⟨20, 0⟩ 1 5

/-- Node `0` of the three-node cluster as an election candidate. -/
def node_a : candidate :=
  mk_candidate 0 0 ⟨100, 0⟩ (some three_nodes)

/-- Node `1` of the three-node cluster, started at the same instant. -/
def node_b : candidate :=
  mk_candidate 1 0 ⟨100, 0⟩ (some three_nodes)

/-- Node `2` of the three-node cluster, started at the same instant. -/
def node_c : candidate :=
  mk_candidate 2 0 ⟨100, 0⟩ (some three_nodes)

/-- Seven clock readings one second apart, from second `11` to second `17`. -/
def seven_ticks : List timeval :=
  [⟨11, 0⟩, ⟨12, 0⟩, ⟨13, 0⟩, ⟨14, 0⟩, ⟨15, 0⟩, ⟨16, 0⟩, ⟨17, 0⟩]

/-- Seven consecutive recovery runs blaming node `2` on the cluster with bans
disabled. -/
def quiet_runs : List daemon :=
  recovery_runs quiet_daemon 0 three_nodes 2 7 seven_ticks

/-- The daemon with bans disabled after six recovery runs blaming node `2`. -/
def quiet_sixth : daemon :=
  quiet_runs.getD 5 quiet_daemon

/-! ## Timer expiry -/

/-- Modelled from the spec: the event loop is not among the sources.  A pending timed
event that comes due is taken off the list and its handler is run on its private
data; the handler of a ban timer is `ctdb_ban_timeout`. -/
def timer_expire (s : daemon) (t : timed_event) : daemon :=
  if t ∈ s.timers then
    ctdb_ban_timeout { s with timers := s.timers.erase t } t.private_data
  else s

/-- Node `1` of the three-node cluster banned for five seconds at second `20` and
banned again, without limit, at second `21`. -/
def double_ban : daemon :=
  ctdb_ban_node (ctdb_ban_node strict_daemon ⟨20, 0⟩ 1 5) ⟨21, 0⟩ 1 0

/-- The timer of the first of the two bans of `double_ban`, due at second `25`. -/
def first_ban_timer : timed_event :=
  { parent := 1, next_event := ⟨25, 0⟩, private_data := 1 }

/-! ## The cluster as the controls of the recovery daemon see it -/

/-- Modelled from the spec: the `UNHEALTHY` bit of the per-node flag word (header not
among the sources). -/
def NODE_FLAGS_UNHEALTHY : Nat := 0x2

/-- Modelled from the spec: the `PERMANENTLY_DISABLED` bit of the per-node flag word
(header not among the sources). -/
def NODE_FLAGS_PERMANENTLY_DISABLED : Nat := 0x4

/-- Modelled from the spec: `DISABLED`, the two bits that disable a node without
making it leave the cluster (header not among the sources). -/
def NODE_FLAGS_DISABLED : Nat := 0x6

/-- Modelled from the spec: the aggregate `INACTIVE`, "any of the disabling bits"
`DISCONNECTED`, `BANNED`, `DISABLED`, `UNHEALTHY`, `PERMANENTLY_DISABLED` (header not
among the sources). -/
def NODE_FLAGS_INACTIVE : Nat := 0xF

/-- Modelled from the spec: recovery mode `NORMAL` (header not among the sources). -/
def CTDB_RECOVERY_NORMAL : Nat := 0

/-- Modelled from the spec: recovery mode `ACTIVE`, mutations frozen (header not
among the sources). -/
def CTDB_RECOVERY_ACTIVE : Nat := 1

/-- Modelled from the spec: the reserved generation, `0`. -/
def INVALID_GENERATION : Nat := 0

/-- The test `!(flags & NODE_FLAGS_INACTIVE)` on a node-map entry. -/
def node_active (n : ctdb_node_and_flags) : Bool :=
  !(flag_test n.flags NODE_FLAGS_INACTIVE)

/-- The vnn map (`struct ctdb_vnn_map`); `map` holds the `size` allocated slots. -/
structure ctdb_vnn_map where
  generation : Nat
  size : Nat
  map : List Nat
deriving DecidableEq, Repr

/-- One entry of a database map (`struct ctdb_dbid`). -/
structure ctdb_dbid where
  dbid : Nat
  persistent : Bool
deriving DecidableEq, Repr

/-- The result of a monitoring fan-out (`enum monitor_result`). -/
inductive monitor_result where
  | MONITOR_OK
  | MONITOR_RECOVERY_NEEDED
  | MONITOR_ELECTION_NEEDED
  | MONITOR_FAILED
deriving DecidableEq, Repr

/-- Modelled from the spec: what the main daemon of one node holds, as far as the
controls of the recovery daemon read or write it: recovery mode, recovery master,
whether it is frozen, its vnn map and its database map. -/
structure peer where
  recmode : Nat
  recmaster : Nat
  frozen : Bool
  vnnmap : ctdb_vnn_map
  dbs : List ctdb_dbid
deriving DecidableEq, Repr

/-- The destination of a broadcast message. -/
inductive destination where
  | all
  | connected
deriving DecidableEq, Repr

/-- The messages the recovery daemon broadcasts, by service id, with their payload. -/
inductive srvid_message where
  | recovery (em : election_message)
  | node_flags_changed (pnn old_flags new_flags : Nat)
  | reconfigure
deriving DecidableEq, Repr

/-- A request of the recovery daemon to the main daemon of a node, or a broadcast.  The
name of a database stands for the dbid it hashes to; a `createdb` whose name was
never filled in (the `getdbname` before it failed) carries `none`. -/
inductive request where
  | freeze (dest : Nat)
  | thaw (dest : Nat)
  | setrecmode (dest mode : Nat)
  | setrecmaster (dest pnn : Nat)
  | setvnnmap (dest : Nat) (vnnmap : ctdb_vnn_map)
  | getdbmap (dest : Nat)
  | getdbname (dest dbid : Nat)
  | createdb (dest : Nat) (name : Option Nat) (persistent : Bool)
  | copydb (src dst dbid : Nat)
  | setdmaster (dest dbid pnn : Nat)
  | get_max_rsn (dest dbid : Nat)
  | set_rsn_nonempty (dest dbid rsn : Nat)
  | delete_low_rsn (dest dbid rsn : Nat)
  | takeover_run
  | message (dst : destination) (m : srvid_message)
deriving DecidableEq, Repr

/-- The nodes a request has to reach to be answered. -/
def request.nodes : request → List Nat
  | .freeze d => [d]
  | .thaw d => [d]
  | .setrecmode d _ => [d]
  | .setrecmaster d _ => [d]
  | .setvnnmap d _ => [d]
  | .getdbmap d => [d]
  | .getdbname d _ => [d]
  | .createdb d _ _ => [d]
  | .copydb s d _ => [s, d]
  | .setdmaster d _ _ => [d]
  | .get_max_rsn d _ => [d]
  | .set_rsn_nonempty d _ _ => [d]
  | .delete_low_rsn d _ _ => [d]
  | .takeover_run => []
  | .message _ _ => []

/-- Modelled from the spec: the cluster around the recovery daemon.  `peers` gives the
main daemon of every node that exists, `max_rsn` the highest record sequence
number of each database on the local node, `fails` says which requests fail (by
position in the log and by content: a non-zero status and a transport failure are
one thing to the caller), `log` lists the requests issued so far with their
success. -/
structure cluster where
  peers : Nat → Option peer
  max_rsn : Nat → Nat
  fails : Nat → request → Bool
  log : List (request × Bool)

/-- Apply `f` to the main daemon of node `pnn`, if there is one. -/
def cluster.update (c : cluster) (pnn : Nat) (f : peer → peer) : cluster :=
  { c with peers := fun q => if q = pnn then (c.peers q).map f else c.peers q }

/-- The database map a node reports (empty for a node that does not exist). -/
def cluster.dbs_of (c : cluster) (pnn : Nat) : List ctdb_dbid :=
  ((c.peers pnn).map (fun p => p.dbs)).getD []

/-- The search loop `for (i...) if (dbid == dbs[i].dbid) break;` followed by the test
`i != num`: the map has an entry with this dbid. -/
def has_db (dbs : List ctdb_dbid) (dbid : Nat) : Bool :=
  dbs.any (fun e => e.dbid == dbid)

/-- Modelled from the spec: what a request does to the cluster when it succeeds.
`create_db` on a node adds the database to that node's map (if it is not there);
copies of records, dmaster and rsn updates and the takeover run touch nothing
that is modelled here. -/
def request.effect (c : cluster) : request → cluster
  | .freeze d => c.update d (fun p => { p with frozen := true })
  | .thaw d => c.update d (fun p => { p with frozen := false })
  | .setrecmode d m => c.update d (fun p => { p with recmode := m })
  | .setrecmaster d m => c.update d (fun p => { p with recmaster := m })
  | .setvnnmap d vm => c.update d (fun p => { p with vnnmap := vm })
  | .createdb d (some name) persistent =>
    c.update d (fun p =>
      if has_db p.dbs name then p
      else { p with dbs := p.dbs ++ [{ dbid := name, persistent := persistent }] })
  | _ => c

/-- Issue one request and wait for its status: it fails when the cluster says so or
when a node it has to reach does not exist; otherwise it takes effect.  Either way
it is logged.  The second component is `ret == 0`. -/
def ctrl (c : cluster) (r : request) : cluster × Bool :=
  if c.fails c.log.length r || !((request.nodes r).all (fun p => (c.peers p).isSome)) then
    ({ c with log := c.log ++ [(r, false)] }, false)
  else
    ({ request.effect c r with log := c.log ++ [(r, true)] }, true)

/-- The broadcast `ctdb_send_message`; its status is looked at by no caller. -/
def ctdb_send_message (c : cluster) (dst : destination) (m : srvid_message) : cluster :=
  { c with log := c.log ++ [(request.message dst m, true)] }

/-- A `for` loop whose body may `return -1`: run `f` over the list, stop at the first
failure.  The second component is `true` when every step succeeded. -/
def each_until {σ α : Type} (f : σ → α → σ × Bool) : σ → List α → σ × Bool
  | s, [] => (s, true)
  | s, a :: rest => if (f s a).2 then each_until f (f s a).1 rest else ((f s a).1, false)

/-! ## The stages of a recovery run -/

/-- Freeze all nodes (`freeze_all_nodes`): a freeze request goes to every active node
and the replies are awaited; one failed reply makes the result
`MONITOR_RECOVERY_NEEDED`, whatever the order of the replies.  Sending is taken to
succeed. -/
def freeze_all_nodes (c : cluster) (nodemap : ctdb_node_map) : cluster × monitor_result :=
  nodemap.nodes.foldl (fun acc n =>
    if flag_test n.flags NODE_FLAGS_INACTIVE then acc
    else
      ((ctrl acc.1 (request.freeze n.pnn)).1,
        if (ctrl acc.1 (request.freeze n.pnn)).2 then acc.2
        else monitor_result.MONITOR_RECOVERY_NEEDED))
    (c, monitor_result.MONITOR_OK)

/-- The loop of `set_recovery_mode` over the nodes: set the mode on every active node
and, for `NORMAL`, thaw it. -/
def set_recovery_mode_loop (c : cluster) (nodemap : ctdb_node_map) (rec_mode : Nat) :
    cluster × Bool :=
  each_until (fun c n =>
    if flag_test n.flags NODE_FLAGS_INACTIVE then (c, true)
    else if !(ctrl c (request.setrecmode n.pnn rec_mode)).2 then
      ((ctrl c (request.setrecmode n.pnn rec_mode)).1, false)
    else if rec_mode = CTDB_RECOVERY_NORMAL then
      ctrl (ctrl c (request.setrecmode n.pnn rec_mode)).1 (request.thaw n.pnn)
    else ((ctrl c (request.setrecmode n.pnn rec_mode)).1, true)) c nodemap.nodes

/-- Change recovery mode on all nodes (`set_recovery_mode`). -/
def set_recovery_mode (c : cluster) (nodemap : ctdb_node_map) (rec_mode : Nat) :
    cluster × Bool :=
  if rec_mode = CTDB_RECOVERY_ACTIVE then
    if (freeze_all_nodes c nodemap).2 ≠ monitor_result.MONITOR_OK then
      ((freeze_all_nodes c nodemap).1, false)
    else set_recovery_mode_loop (freeze_all_nodes c nodemap).1 nodemap rec_mode
  else set_recovery_mode_loop c nodemap rec_mode

/-- Change recovery master on all nodes (`set_recovery_master`). -/
def set_recovery_master (c : cluster) (nodemap : ctdb_node_map) (pnn : Nat) : cluster × Bool :=
  each_until (fun c n =>
    if flag_test n.flags NODE_FLAGS_INACTIVE then (c, true)
    else ctrl c (request.setrecmaster n.pnn pnn)) c nodemap.nodes

/-- The body of the inner loop of `create_missing_remote_databases` for one local
database: when the remote map lacks it, ask the local node for its name and create
it on the remote node.  Neither status is stored in `ret`, so neither is looked at. -/
def create_remote_database (pnn dest : Nat) (remote : List ctdb_dbid) (c : cluster)
    (db : ctdb_dbid) : cluster :=
  if has_db remote db.dbid then c
  else
    (ctrl (ctrl c (request.getdbname pnn db.dbid)).1
      (request.createdb dest
        (if (ctrl c (request.getdbname pnn db.dbid)).2 then some db.dbid else none)
        db.persistent)).1

/-- Ensure all other nodes have attached to any databases that we have
(`create_missing_remote_databases`). -/
def create_missing_remote_databases (c : cluster) (nodemap : ctdb_node_map) (pnn : Nat)
    (dbmap : List ctdb_dbid) : cluster × Bool :=
  each_until (fun c n =>
    if n.pnn = pnn then (c, true)
    else if flag_test n.flags NODE_FLAGS_INACTIVE then (c, true)
    else if !(ctrl c (request.getdbmap n.pnn)).2 then ((ctrl c (request.getdbmap n.pnn)).1, false)
    else
      (dbmap.foldl
        (create_remote_database pnn n.pnn ((ctrl c (request.getdbmap n.pnn)).1.dbs_of n.pnn))
        (ctrl c (request.getdbmap n.pnn)).1, true)) c nodemap.nodes

/-- The body of the inner loop of `create_missing_local_databases` for one remote
database: when the local map lacks it, ask the remote node for its name, create it
locally (neither status is looked at) and read the local map again (this status is). -/
def create_local_database (pnn src : Nat) (s : cluster × List ctdb_dbid) (db : ctdb_dbid) :
    (cluster × List ctdb_dbid) × Bool :=
  if has_db s.2 db.dbid then (s, true)
  else
    let c2 := (ctrl (ctrl s.1 (request.getdbname src db.dbid)).1
      (request.createdb pnn
        (if (ctrl s.1 (request.getdbname src db.dbid)).2 then some db.dbid else none)
        db.persistent)).1
    if !(ctrl c2 (request.getdbmap pnn)).2 then (((ctrl c2 (request.getdbmap pnn)).1, s.2), false)
    else
      (((ctrl c2 (request.getdbmap pnn)).1, (ctrl c2 (request.getdbmap pnn)).1.dbs_of pnn), true)

/-- Ensure we are attached to any databases that anyone else is attached to
(`create_missing_local_databases`); the state is the cluster and the local database
map `*dbmap`. -/
def create_missing_local_databases (s : cluster × List ctdb_dbid) (nodemap : ctdb_node_map)
    (pnn : Nat) : (cluster × List ctdb_dbid) × Bool :=
  each_until (fun s n =>
    if n.pnn = pnn then (s, true)
    else if flag_test n.flags NODE_FLAGS_INACTIVE then (s, true)
    else if !(ctrl s.1 (request.getdbmap n.pnn)).2 then
      (((ctrl s.1 (request.getdbmap n.pnn)).1, s.2), false)
    else
      each_until (create_local_database pnn n.pnn)
        ((ctrl s.1 (request.getdbmap n.pnn)).1, s.2)
        ((ctrl s.1 (request.getdbmap n.pnn)).1.dbs_of n.pnn)) s nodemap.nodes

/-- Pull all the remote database contents into ours (`pull_all_remote_databases`). -/
def pull_all_remote_databases (c : cluster) (nodemap : ctdb_node_map) (pnn : Nat)
    (dbmap : List ctdb_dbid) : cluster × Bool :=
  each_until (fun c db =>
    each_until (fun c n =>
      if n.pnn = pnn then (c, true)
      else if flag_test n.flags NODE_FLAGS_INACTIVE then (c, true)
      else ctrl c (request.copydb n.pnn pnn db.dbid)) c nodemap.nodes) c dbmap

/-- Push out all our database contents to all other nodes (`push_all_local_databases`). -/
def push_all_local_databases (c : cluster) (nodemap : ctdb_node_map) (pnn : Nat)
    (dbmap : List ctdb_dbid) : cluster × Bool :=
  each_until (fun c db =>
    each_until (fun c n =>
      if n.pnn = pnn then (c, true)
      else if flag_test n.flags NODE_FLAGS_INACTIVE then (c, true)
      else ctrl c (request.copydb pnn n.pnn db.dbid)) c nodemap.nodes) c dbmap

/-- Ensure all nodes have the same vnnmap we do (`update_vnnmap_on_all_nodes`). -/
def update_vnnmap_on_all_nodes (c : cluster) (nodemap : ctdb_node_map)
    (vnnmap : ctdb_vnn_map) : cluster × Bool :=
  each_until (fun c n =>
    if flag_test n.flags NODE_FLAGS_INACTIVE then (c, true)
    else ctrl c (request.setvnnmap n.pnn vnnmap)) c nodemap.nodes

/-- Change the dmaster on all databases to point to us
(`update_dmaster_on_all_databases`). -/
def update_dmaster_on_all_databases (c : cluster) (nodemap : ctdb_node_map) (pnn : Nat)
    (dbmap : List ctdb_dbid) : cluster × Bool :=
  each_until (fun c db =>
    each_until (fun c n =>
      if flag_test n.flags NODE_FLAGS_INACTIVE then (c, true)
      else ctrl c (request.setdmaster n.pnn db.dbid pnn)) c nodemap.nodes) c dbmap

/-- Update flags on all active nodes (`update_flags_on_all_nodes`): one broadcast per
node-map entry; it always returns `0`. -/
def update_flags_on_all_nodes (c : cluster) (nodemap : ctdb_node_map) : cluster × Bool :=
  (nodemap.nodes.foldl (fun c n =>
    ctdb_send_message c destination.connected
      (srvid_message.node_flags_changed n.pnn n.flags n.flags)) c, true)

/-- Vacuum one database (`vacuum_db`); `self` is the local node (`CTDB_CURRENT_NODE`),
the watermark `max_rsn + 1` is a 64-bit sum. -/
def vacuum_db (c : cluster) (self db_id : Nat) (nodemap : ctdb_node_map) : cluster × Bool :=
  if !(ctrl c (request.get_max_rsn self db_id)).2 then
    ((ctrl c (request.get_max_rsn self db_id)).1, false)
  else
    let rsn := (c.max_rsn db_id + 1) % 2 ^ 64
    let r1 := each_until (fun c n =>
      if flag_test n.flags NODE_FLAGS_INACTIVE then (c, true)
      else ctrl c (request.set_rsn_nonempty n.pnn db_id rsn))
      (ctrl c (request.get_max_rsn self db_id)).1 nodemap.nodes
    if !r1.2 then r1
    else
      each_until (fun c n =>
        if flag_test n.flags NODE_FLAGS_INACTIVE then (c, true)
        else ctrl c (request.delete_low_rsn n.pnn db_id rsn)) r1.1 nodemap.nodes

/-- Vacuum all attached databases (`vacuum_all_databases`). -/
def vacuum_all_databases (c : cluster) (self : Nat) (nodemap : ctdb_node_map)
    (dbmap : List ctdb_dbid) : cluster × Bool :=
  each_until (fun c db => vacuum_db c self db.dbid nodemap) c dbmap

/-- Create a new random generation id (`new_generation`) from the values the random
source is going to return, in order: the first one that is not
`INVALID_GENERATION` as a 32-bit number, together with the values left.  `none`
when every value of the list is rejected: the loop is still running. -/
def new_generation : List Nat → Option (Nat × List Nat)
  | [] => none
  | r :: rest =>
    if r % 2 ^ 32 ≠ INVALID_GENERATION then some (r % 2 ^ 32, rest) else new_generation rest

/-- The loop of `do_recovery` that fills the new vnn map: `j` is the next slot, `map`
the allocated slots, `oob` the writes that fall past the last slot (index and
value), in order. -/
def fill_vnnmap : List ctdb_node_and_flags → Nat → List Nat → List (Nat × Nat) →
    List Nat × List (Nat × Nat)
  | [], _, map, oob => (map, oob)
  | n :: rest, j, map, oob =>
    if !(flag_test n.flags NODE_FLAGS_INACTIVE) then
      if j < map.length then fill_vnnmap rest (j + 1) (map.set j n.pnn) oob
      else fill_vnnmap rest (j + 1) map (oob ++ [(j, n.pnn)])
    else fill_vnnmap rest j map oob

/-- The variables of a `do_recovery` run: the daemon, the cluster, the values the
random source has yet to return, the vnn map the local variable `vnnmap` points
to, the vnn map object of the caller, the local database map, the writes past the
end of the new vnn map, and whether the run is stuck in `new_generation`. -/
structure recovery_vars where
  d : daemon
  c : cluster
  random : List Nat
  vnnmap : ctdb_vnn_map
  caller_vnnmap : ctdb_vnn_map
  dbmap : List ctdb_dbid
  oob : List (Nat × Nat)
  hung : Bool

/-- Put the result of a cluster operation back into the variables. -/
def recovery_vars.with_cluster (st : recovery_vars) (r : cluster × Bool) :
    recovery_vars × Bool :=
  ({ st with c := r.1 }, r.2)

/-- Stage of `do_recovery`: set recovery mode to active on all nodes. -/
def stage_freeze (nodemap : ctdb_node_map) (st : recovery_vars) : recovery_vars × Bool :=
  st.with_cluster (set_recovery_mode st.c nodemap CTDB_RECOVERY_ACTIVE)

/-- Stage of `do_recovery`: pick a new generation number and set it in the vnn map of
this node only. -/
def stage_generation (pnn : Nat) (st : recovery_vars) : recovery_vars × Bool :=
  match new_generation st.random with
  | none => ({ st with random := [], hung := true }, false)
  | some (generation, rest) =>
    ({ st with random := rest,
               vnnmap := { st.vnnmap with generation := generation },
               caller_vnnmap := { st.vnnmap with generation := generation },
               c := (ctrl st.c (request.setvnnmap pnn
                      { st.vnnmap with generation := generation })).1 },
     (ctrl st.c (request.setvnnmap pnn { st.vnnmap with generation := generation })).2)

/-- Stage of `do_recovery`: get a list of all databases of this node. -/
def stage_dbmap (pnn : Nat) (st : recovery_vars) : recovery_vars × Bool :=
  if !(ctrl st.c (request.getdbmap pnn)).2 then
    ({ st with c := (ctrl st.c (request.getdbmap pnn)).1 }, false)
  else
    ({ st with c := (ctrl st.c (request.getdbmap pnn)).1,
               dbmap := (ctrl st.c (request.getdbmap pnn)).1.dbs_of pnn }, true)

/-- Stage of `do_recovery`: verify that all other nodes have all our databases (it
runs twice). -/
def stage_remote_dbs (pnn : Nat) (nodemap : ctdb_node_map) (st : recovery_vars) :
    recovery_vars × Bool :=
  st.with_cluster (create_missing_remote_databases st.c nodemap pnn st.dbmap)

/-- Stage of `do_recovery`: verify that we have all the databases any other node has. -/
def stage_local_dbs (pnn : Nat) (nodemap : ctdb_node_map) (st : recovery_vars) :
    recovery_vars × Bool :=
  ({ st with c := (create_missing_local_databases (st.c, st.dbmap) nodemap pnn).1.1,
             dbmap := (create_missing_local_databases (st.c, st.dbmap) nodemap pnn).1.2 },
   (create_missing_local_databases (st.c, st.dbmap) nodemap pnn).2)

/-- Stage of `do_recovery`: pull all remote databases onto the local node. -/
def stage_pull (pnn : Nat) (nodemap : ctdb_node_map) (st : recovery_vars) :
    recovery_vars × Bool :=
  st.with_cluster (pull_all_remote_databases st.c nodemap pnn st.dbmap)

/-- Stage of `do_recovery`: push all local databases to the remote nodes. -/
def stage_push (pnn : Nat) (nodemap : ctdb_node_map) (st : recovery_vars) :
    recovery_vars × Bool :=
  st.with_cluster (push_all_local_databases st.c nodemap pnn st.dbmap)

/-- Stage of `do_recovery`: build a new vnn map with a fresh generation, `num_active`
slots and the pnn of every active node; `vnnmap` now points to it. -/
def stage_build_vnnmap (num_active : Nat) (nodemap : ctdb_node_map) (st : recovery_vars) :
    recovery_vars × Bool :=
  match new_generation st.random with
  | none => ({ st with random := [], hung := true }, false)
  | some (generation, rest) =>
    ({ st with random := rest,
               vnnmap := { generation := generation, size := num_active,
                           map := (fill_vnnmap nodemap.nodes 0
                                    (List.replicate num_active 0) []).1 },
               oob := st.oob ++ (fill_vnnmap nodemap.nodes 0
                                  (List.replicate num_active 0) []).2 }, true)

/-- Stage of `do_recovery`: update to the new vnnmap on all nodes. -/
def stage_update_vnnmap (nodemap : ctdb_node_map) (st : recovery_vars) : recovery_vars × Bool :=
  st.with_cluster (update_vnnmap_on_all_nodes st.c nodemap st.vnnmap)

/-- Stage of `do_recovery`: update recmaster to point to us for all nodes. -/
def stage_recmaster (pnn : Nat) (nodemap : ctdb_node_map) (st : recovery_vars) :
    recovery_vars × Bool :=
  st.with_cluster (set_recovery_master st.c nodemap pnn)

/-- Stage of `do_recovery`: repoint all database records to the local node as being
dmaster. -/
def stage_dmaster (pnn : Nat) (nodemap : ctdb_node_map) (st : recovery_vars) :
    recovery_vars × Bool :=
  st.with_cluster (update_dmaster_on_all_databases st.c nodemap pnn st.dbmap)

/-- Stage of `do_recovery`: update all nodes to have the same flags that we have. -/
def stage_flags (nodemap : ctdb_node_map) (st : recovery_vars) : recovery_vars × Bool :=
  st.with_cluster (update_flags_on_all_nodes st.c nodemap)

/-- Stage of `do_recovery`: run a vacuum operation on empty records. -/
def stage_vacuum (nodemap : ctdb_node_map) (st : recovery_vars) : recovery_vars × Bool :=
  st.with_cluster (vacuum_all_databases st.c st.d.ctdb.pnn nodemap st.dbmap)

/-- Stage of `do_recovery`: if public addresses are enabled, clear the pending
takeover flag and tell the nodes to take over their public addresses. -/
def stage_takeover (st : recovery_vars) : recovery_vars × Bool :=
  if st.d.ctdb.vnn then
    ({ st with d := { st.d with recd := { st.d.recd with need_takeover_run := false } },
               c := (ctrl st.c request.takeover_run).1 },
     (ctrl st.c request.takeover_run).2)
  else (st, true)

/-- Stage of `do_recovery`: disable recovery mode (and thaw) on all nodes. -/
def stage_thaw (nodemap : ctdb_node_map) (st : recovery_vars) : recovery_vars × Bool :=
  st.with_cluster (set_recovery_mode st.c nodemap CTDB_RECOVERY_NORMAL)

/-- Stage of `do_recovery`: tell all clients that the cluster has been reconfigured. -/
def stage_reconfigure (st : recovery_vars) : recovery_vars × Bool :=
  ({ st with c := ctdb_send_message st.c destination.connected srvid_message.reconfigure },
   true)

/-- The stages of `do_recovery` after the recovery lock, in the order of the source. -/
def recovery_stages (pnn num_active : Nat) (nodemap : ctdb_node_map) :
    List (recovery_vars → recovery_vars × Bool) :=
  [stage_freeze nodemap, stage_generation pnn, stage_dbmap pnn,
   stage_remote_dbs pnn nodemap, stage_local_dbs pnn nodemap, stage_remote_dbs pnn nodemap,
   stage_pull pnn nodemap, stage_push pnn nodemap,
   stage_build_vnnmap num_active nodemap, stage_update_vnnmap nodemap,
   stage_recmaster pnn nodemap, stage_dmaster pnn nodemap, stage_flags nodemap,
   stage_vacuum nodemap, stage_takeover, stage_thaw nodemap, stage_reconfigure]

/-- What a `do_recovery` run leaves: the variables and the value returned (`0` or
`-1`; `none` when the run never gets out of `new_generation`). -/
structure recovery_run where
  vars : recovery_vars
  ret : Option Int

/-- The variables of a `do_recovery` run when its stages begin: the daemon as the
opening of the run left it, no database map read yet. -/
def recovery_start (d : daemon) (c : cluster) (rs : List Nat) (now : timeval) (pnn : Nat)
    (nodemap : ctdb_node_map) (vnnmap : ctdb_vnn_map) (culprit : Nat) (lock : Option Int) :
    recovery_vars :=
  { d := (do_recovery_prologue d now pnn nodemap culprit lock).1, c := c, random := rs,
    vnnmap := vnnmap, caller_vnnmap := vnnmap, dbmap := [], oob := [], hung := false }

/-- Run the stages in order from `st`, stopping at the first that fails. -/
def run_stages (st : recovery_vars) (stages : List (recovery_vars → recovery_vars × Bool)) :
    recovery_vars × Bool :=
  each_until (fun st stage => stage st) st stages

/-- We are the recmaster, and recovery is needed: start a recovery run
(`do_recovery`).  `rs` are the values the random source is going to return, `now`
the clock reading, `lock` the outcome of `ctdb_recovery_lock`.  A stage that fails
ends the run with `-1`; the last steps of a run that got through clear
`need_recovery` and wait for the rerecovery timeout.  Handlers that the event loop
may run while a request is awaited are not part of the run. -/
def do_recovery (d : daemon) (c : cluster) (rs : List Nat) (now : timeval)
    (pnn num_active : Nat) (nodemap : ctdb_node_map) (vnnmap : ctdb_vnn_map)
    (culprit : Nat) (lock : Option Int) : recovery_run :=
  let st0 := recovery_start d c rs now pnn nodemap vnnmap culprit lock
  if !(do_recovery_prologue d now pnn nodemap culprit lock).2 then
    { vars := st0, ret := some (-1) }
  else
    let r := run_stages st0 (recovery_stages pnn num_active nodemap)
    if r.2 then
      { vars := { r.1 with d := { r.1.d with recd := { r.1.d.recd with need_recovery := false } } },
        ret := some 0 }
    else
      { vars := r.1, ret := if r.1.hung then none else some (-1) }

/-- The variables after the first `k` stages of a run. -/
def after_stages (st : recovery_vars) (stages : List (recovery_vars → recovery_vars × Bool))
    (k : Nat) : recovery_vars :=
  (run_stages st (stages.take k)).1

/-- The step of the monitor loop that follows `verify_recmaster`: when a previous
recovery did not finish, run `do_recovery` again, blaming the local node; `none`
when nothing is pending. -/
def monitor_pending_recovery (d : daemon) (c : cluster) (rs : List Nat) (now : timeval)
    (pnn num_active : Nat) (nodemap : ctdb_node_map) (vnnmap : ctdb_vnn_map)
    (lock : Option Int) : Option recovery_run :=
  if d.recd.need_recovery then
    some (do_recovery d c rs now pnn num_active nodemap vnnmap d.ctdb.pnn lock)
  else none

/-- The cluster `c` is what `c0` becomes after some requests and broadcasts that all
satisfy `Q`. -/
inductive reach (Q : request → Prop) (c0 : cluster) : cluster → Prop where
  | start : reach Q c0 c0
  | step {c : cluster} (r : request) : reach Q c0 c → Q r → reach Q c0 (ctrl c r).1
  | msg {c : cluster} (dst : destination) (m : srvid_message) :
      reach Q c0 c → Q (request.message dst m) → reach Q c0 (ctdb_send_message c dst m)

/-- The kind of a request, as a number: the position of its name in the list
`freeze`, `thaw`, `setrecmode`, `setrecmaster`, `setvnnmap`, `getdbmap`, `getdbname`,
`createdb`, `copydb`, `setdmaster`, `get_max_rsn`, `set_rsn_nonempty`,
`delete_low_rsn`, `takeover_run`, `message`. -/
def request.kind : request → Nat
  | .freeze _ => 0
  | .thaw _ => 1
  | .setrecmode _ _ => 2
  | .setrecmaster _ _ => 3
  | .setvnnmap _ _ => 4
  | .getdbmap _ => 5
  | .getdbname _ _ => 6
  | .createdb _ _ _ => 7
  | .copydb _ _ _ => 8
  | .setdmaster _ _ _ => 9
  | .get_max_rsn _ _ => 10
  | .set_rsn_nonempty _ _ _ => 11
  | .delete_low_rsn _ _ _ => 12
  | .takeover_run => 13
  | .message _ _ => 14

/-- A request that, if it sets a vnn map, sets one with a 32-bit generation other than
`INVALID_GENERATION`. -/
def valid_setvnnmap (r : request) : Prop :=
  ∀ d vm, r = request.setvnnmap d vm →
    vm.generation ≠ INVALID_GENERATION ∧ vm.generation < 2 ^ 32

/-- A main daemon in normal operation with the given database map: recovery master
`0`, vnn map of generation `1` over the nodes `0`, `1`, `2`. -/
def healthy_peer (dbs : List ctdb_dbid) : peer :=
  { recmode := CTDB_RECOVERY_NORMAL, recmaster := 0, frozen := false,
    vnnmap := ⟨1, 3, [0, 1, 2]⟩, dbs := dbs }

/-- The three-node cluster: node `0` holds database `16`, node `1` none, node `2` the
persistent database `32`; no request fails. -/
def small_cluster : cluster :=
  { peers := fun q =>
      if q = 0 then some (healthy_peer [⟨16, false⟩])
      else if q = 1 then some (healthy_peer [])
      else if q = 2 then some (healthy_peer [⟨32, true⟩])
      else none,
    max_rsn := fun _ => 0, fails := fun _ _ => false, log := [] }

/-- A recovery run of node `0` on `small_cluster` blaming node `1`, the random source
returning `0`, `5`, `7`. -/
def small_recovery : recovery_run :=
  do_recovery strict_daemon small_cluster [0, 5, 7] ⟨30, 0⟩ 0 3 three_nodes ⟨1, 3, [0, 1, 2]⟩ 1
    (some 9)

/-- Modelled from the spec: no `getdbname` and no `createdb` request fails by
schedule (the model "in which `create_db` on a node adds the database to that node's
map"). -/
def no_db_failure (c : cluster) : Prop :=
  ∀ (k : Nat) (r : request), r.kind = 6 ∨ r.kind = 7 → c.fails k r = false

/-- The cluster `small_cluster` where creating database `16` on node `1` fails. -/
def createdb_fails_cluster : cluster :=
  { small_cluster with fails := fun _ r => decide (r = request.createdb 1 (some 16) false) }

/-- The cluster `small_cluster` where node `2` fails to give the name of its
database `32`. -/
def getdbname_fails_cluster : cluster :=
  { small_cluster with fails := fun _ r => decide (r = request.getdbname 2 32) }

/-- The recovery run of `small_recovery` on a cluster `c`. -/
def recovery_on (c : cluster) : recovery_run :=
  do_recovery strict_daemon c [0, 5, 7] ⟨30, 0⟩ 0 3 three_nodes ⟨1, 3, [0, 1, 2]⟩ 1 (some 9)

/-- Modelled from the spec: a control request that completed, as its completion
callback sees it: `done` is `state->state == CTDB_CONTROL_DONE` (a reply came),
`status` the 32 bits of `state->status`. -/
structure ctdb_client_control_state where
  done : Bool
  status : Nat
deriving DecidableEq, Repr

/-- The aggregate of the `getrecmode` fan-out (`struct verify_recmode_normal_data`);
`count` is a `uint32_t`. -/
structure verify_recmode_normal_data where
  count : Nat
  status : monitor_result
deriving DecidableEq, Repr

/-- The completion callback of one `getrecmode` request
(`verify_recmode_normal_callback`). -/
def verify_recmode_normal_callback (rmdata : verify_recmode_normal_data)
    (state : ctdb_client_control_state) : verify_recmode_normal_data :=
  let rmdata := { rmdata with count := (rmdata.count + 2 ^ 32 - 1) % 2 ^ 32 }
  if !state.done then
    if rmdata.status = monitor_result.MONITOR_OK then
      { rmdata with status := monitor_result.MONITOR_FAILED }
    else rmdata
  else if state.status ≠ CTDB_RECOVERY_NORMAL then
    { rmdata with status := monitor_result.MONITOR_RECOVERY_NEEDED }
  else rmdata

/-- The loop `while (rmdata->count > 0) event_loop_once(ctdb->ev)` of
`verify_recmode`: `completions` are the requests that complete, in the order in
which the event loop runs their callbacks.  `none`: the loop is still waiting when
no request is left to complete. -/
def verify_recmode_wait (rmdata : verify_recmode_normal_data) :
    List ctdb_client_control_state → Option verify_recmode_normal_data
  | [] => if rmdata.count > 0 then none else some rmdata
  | state :: rest =>
    if rmdata.count > 0 then
      verify_recmode_wait (verify_recmode_normal_callback rmdata state) rest
    else some rmdata

/-- Verify that all nodes are in normal recovery mode (`verify_recmode`).  `sent`
says for which nodes `ctdb_ctrl_getrecmode_send` returns a request. -/
def verify_recmode (nodemap : ctdb_node_map) (sent : Nat → Bool)
    (completions : List ctdb_client_control_state) : Option monitor_result :=
  let r := each_until (fun (rmdata : verify_recmode_normal_data) (n : ctdb_node_and_flags) =>
    if flag_test n.flags NODE_FLAGS_INACTIVE then (rmdata, true)
    else if !(sent n.pnn) then (rmdata, false)
    else ({ rmdata with count := (rmdata.count + 1) % 2 ^ 32 }, true))
    { count := 0, status := monitor_result.MONITOR_OK } nodemap.nodes
  if !r.2 then some monitor_result.MONITOR_FAILED
  else (verify_recmode_wait r.1 completions).map (fun rmdata => rmdata.status)

/-- The aggregate of the `getrecmaster` fan-out (`struct verify_recmaster_data`);
`count` and `pnn` are `uint32_t`. -/
structure verify_recmaster_data where
  count : Nat
  pnn : Nat
  status : monitor_result
deriving DecidableEq, Repr

/-- The completion callback of one `getrecmaster` request
(`verify_recmaster_callback`). -/
def verify_recmaster_callback (rmdata : verify_recmaster_data)
    (state : ctdb_client_control_state) : verify_recmaster_data :=
  let rmdata := { rmdata with count := (rmdata.count + 2 ^ 32 - 1) % 2 ^ 32 }
  if !state.done then
    if rmdata.status = monitor_result.MONITOR_OK then
      { rmdata with status := monitor_result.MONITOR_FAILED }
    else rmdata
  else if state.status ≠ rmdata.pnn then
    { rmdata with status := monitor_result.MONITOR_ELECTION_NEEDED }
  else rmdata

/-- The loop `while (rmdata->count > 0) event_loop_once(ctdb->ev)` of
`verify_recmaster`; see `verify_recmode_wait`. -/
def verify_recmaster_wait (rmdata : verify_recmaster_data) :
    List ctdb_client_control_state → Option verify_recmaster_data
  | [] => if rmdata.count > 0 then none else some rmdata
  | state :: rest =>
    if rmdata.count > 0 then
      verify_recmaster_wait (verify_recmaster_callback rmdata state) rest
    else some rmdata

/-- Verify that all nodes agree that we are the recmaster (`verify_recmaster`). -/
def verify_recmaster (nodemap : ctdb_node_map) (pnn : Nat) (sent : Nat → Bool)
    (completions : List ctdb_client_control_state) : Option monitor_result :=
  let r := each_until (fun (rmdata : verify_recmaster_data) (n : ctdb_node_and_flags) =>
    if flag_test n.flags NODE_FLAGS_INACTIVE then (rmdata, true)
    else if !(sent n.pnn) then (rmdata, false)
    else ({ rmdata with count := (rmdata.count + 1) % 2 ^ 32 }, true))
    { count := 0, pnn := pnn, status := monitor_result.MONITOR_OK } nodemap.nodes
  if !r.2 then some monitor_result.MONITOR_FAILED
  else (verify_recmaster_wait r.1 completions).map (fun rmdata => rmdata.status)

/-- The order of the specification on results: `OK < FAILED < RECOVERY_NEEDED <
ELECTION_NEEDED`. -/
def spec_severity : monitor_result → Nat
  | .MONITOR_OK => 0
  | .MONITOR_FAILED => 1
  | .MONITOR_RECOVERY_NEEDED => 2
  | .MONITOR_ELECTION_NEEDED => 3

/-- The result of one peer in the `getrecmode` fan-out, in the words of the
specification: `FAILED` without a reply, `RECOVERY_NEEDED` for a reply other than
`NORMAL`, `OK` otherwise. -/
def spec_recmode_result (state : ctdb_client_control_state) : monitor_result :=
  if !state.done then monitor_result.MONITOR_FAILED
  else if state.status = CTDB_RECOVERY_NORMAL then monitor_result.MONITOR_OK
  else monitor_result.MONITOR_RECOVERY_NEEDED

/-- The result of one peer in the `getrecmaster` fan-out, in the words of the
specification: `FAILED` without a reply, `ELECTION_NEEDED` for a reply that names
another recovery master, `OK` otherwise. -/
def spec_recmaster_result (pnn : Nat) (state : ctdb_client_control_state) : monitor_result :=
  if !state.done then monitor_result.MONITOR_FAILED
  else if state.status = pnn then monitor_result.MONITOR_OK
  else monitor_result.MONITOR_ELECTION_NEEDED

/-- The value `r` is the maximum of `MONITOR_OK` and the results `l` under the order
of the specification. -/
def spec_worst (l : List monitor_result) (r : monitor_result) : Prop :=
  (r = monitor_result.MONITOR_OK ∨ r ∈ l) ∧ ∀ x ∈ l, spec_severity x ≤ spec_severity r

/-- A node map with an inactive node: node `1` is disconnected. -/
def partial_nodes : ctdb_node_map :=
  ⟨[⟨0, 0⟩, ⟨1, NODE_FLAGS_DISCONNECTED⟩, ⟨2, 0⟩]⟩

/-- How one check of an iteration of `monitor_cluster` ends: it falls through to
the next check (`pass`), the iteration restarts (`goto again`), or `do_recovery` is
called with a culprit and the iteration restarts. -/
inductive check_result where
  | pass
  | again
  | recovery (culprit : Nat)
deriving DecidableEq, Repr

/-- The check `b` follows the check `a` when `a` falls through. -/
def check_result.then_check (a b : check_result) : check_result :=
  match a with
  | .pass => b
  | r => r

/-- A `for` loop whose body is a check: the first element whose check does not fall
through ends the iteration. -/
def check_all {α : Type} (f : α → check_result) : List α → check_result
  | [] => check_result.pass
  | a :: rest => (f a).then_check (check_all f rest)

/-- The body of the loop of `monitor_cluster` that gets the node map of every active
remote node and verifies it is the same as for this node.  `getnodemap` is the reply
of each node to `ctdb_ctrl_getnodemap` (`none`: the request failed). -/
def check_remote_nodemap (nodemap : ctdb_node_map) (pnn : Nat)
    (getnodemap : Nat → Option ctdb_node_map) (n : ctdb_node_and_flags) : check_result :=
  if flag_test n.flags NODE_FLAGS_INACTIVE then check_result.pass
  else if n.pnn = pnn then check_result.pass
  else
    match getnodemap n.pnn with
    | none => check_result.again
    | some remote_nodemap =>
      if remote_nodemap.num ≠ nodemap.num then check_result.recovery n.pnn
      else
        check_all (fun (e : ctdb_node_and_flags × ctdb_node_and_flags) =>
          if e.1.pnn ≠ e.2.pnn then check_result.recovery n.pnn
          else if (e.1.flags &&& NODE_FLAGS_INACTIVE) ≠ (e.2.flags &&& NODE_FLAGS_INACTIVE) then
            check_result.recovery n.pnn
          else check_result.pass) (remote_nodemap.nodes.zip nodemap.nodes)

/-- The search loop `for (i=0; i<vnnmap->size; i++) if (vnnmap->map[i] == pnn) break;`
followed by the test `i == vnnmap->size`, negated: one of the first `size` slots of
the map holds `pnn`. -/
def vnnmap_has (vnnmap : ctdb_vnn_map) (pnn : Nat) : Bool :=
  (List.range vnnmap.size).any (fun i => vnnmap.map[i]? == some pnn)

/-- The body of the loop of `monitor_cluster` that verifies that all active nodes in
the node map also exist in the vnn map. -/
def check_active_in_vnnmap (pnn : Nat) (vnnmap : ctdb_vnn_map) (n : ctdb_node_and_flags) :
    check_result :=
  if flag_test n.flags NODE_FLAGS_INACTIVE then check_result.pass
  else if n.pnn = pnn then check_result.pass
  else if !(vnnmap_has vnnmap n.pnn) then check_result.recovery n.pnn
  else check_result.pass

/-- The body of the loop of `monitor_cluster` that verifies that all other nodes have
the same vnn map and are from the same generation.  `getvnnmap` is the reply of each
node to `ctdb_ctrl_getvnnmap` (`none`: the request failed). -/
def check_remote_vnnmap (pnn : Nat) (vnnmap : ctdb_vnn_map)
    (getvnnmap : Nat → Option ctdb_vnn_map) (n : ctdb_node_and_flags) : check_result :=
  if flag_test n.flags NODE_FLAGS_INACTIVE then check_result.pass
  else if n.pnn = pnn then check_result.pass
  else
    match getvnnmap n.pnn with
    | none => check_result.again
    | some remote_vnnmap =>
      if vnnmap.generation ≠ remote_vnnmap.generation then check_result.recovery n.pnn
      else if vnnmap.size ≠ remote_vnnmap.size then check_result.recovery n.pnn
      else
        check_all (fun i =>
          if remote_vnnmap.map[i]? ≠ vnnmap.map[i]? then check_result.recovery n.pnn
          else check_result.pass) (List.range vnnmap.size)

/-- The consistency checks of a master iteration of `monitor_cluster`, from the
comparison of the remote node maps to the comparison of the remote vnn maps: `pnn` is
the local pnn as `ctdb_ctrl_getpnn` returned it, `ctdb_pnn` the field `ctdb->pnn`,
`nodemap` the local node map after the `BANNED` bits were set from the registry,
`num_active` the count of that loop, `vnnmap` the local vnn map. -/
def monitor_consistency (ctdb_pnn pnn num_active : Nat) (nodemap : ctdb_node_map)
    (vnnmap : ctdb_vnn_map) (getnodemap : Nat → Option ctdb_node_map)
    (getvnnmap : Nat → Option ctdb_vnn_map) : check_result :=
  (check_all (check_remote_nodemap nodemap pnn getnodemap) nodemap.nodes).then_check
    ((if vnnmap.size ≠ num_active then check_result.recovery ctdb_pnn
      else check_result.pass).then_check
      ((check_all (check_active_in_vnnmap pnn vnnmap) nodemap.nodes).then_check
        (check_all (check_remote_vnnmap pnn vnnmap getvnnmap) nodemap.nodes)))

/-- A vnn map of three slots that holds nodes `1` and `2` and a pnn that is no node:
node `0` is not in it. -/
def vnnmap_without_master : ctdb_vnn_map :=
  ⟨1, 3, [1, 2, 7]⟩

/-- Modelled from the spec: the payload of a `NODE_FLAGS_CHANGED` message, `{pnn,
old_flags, new_flags}` (`struct ctdb_node_flag_change`, declared in a header that is
not among the sources): three 32-bit words. -/
structure ctdb_node_flag_change where
  pnn : Nat
  old_flags : Nat
  new_flags : Nat
deriving DecidableEq, Repr

/-- The search loop `for (i=0;i<nodemap->num;i++) if (nodemap->nodes[i].pnn == pnn)
break;`: the index at which it stops, `none` when it ends with `i == nodemap->num`. -/
def node_index : List ctdb_node_and_flags → Nat → Option Nat
  | [], _ => none
  | n :: rest, pnn => if n.pnn = pnn then some 0 else (node_index rest pnn).map (fun i => i + 1)

/-- Handler for when a node changes its flags (`monitor_handler`).  `data` is the
payload, a list of bytes; `getnodemap`, `getrecmaster`, `getrecmode` are the replies
of the local node (`none` when the request fails).  The result is `none` when the
handler dereferences the `NULL` node map that a failed `getnodemap` leaves (its
status is not looked at).  Otherwise it is the daemon, and, unless the payload had
the wrong size, the temporary node map and the message buffer `*c` as they are when
the handler returns.  A request that fails leaves the variable it was to fill as it
was. -/
def monitor_handler (s : daemon) (data : List Nat) (getnodemap : Option ctdb_node_map)
    (getrecmaster getrecmode : Option Nat) :
    Option (daemon × Option (ctdb_node_map × ctdb_node_flag_change)) :=
  let c : ctdb_node_flag_change :=
    { pnn := u32_at data 0, old_flags := u32_at data 4, new_flags := u32_at data 8 }
  if data.length ≠ 12 then some (s, none)
  else
    match getnodemap with
    | none => none
    | some nodemap =>
      match node_index nodemap.nodes c.pnn with
      | none => some (s, some (nodemap, c))
      | some i =>
        let changed_flags := c.old_flags ^^^ c.new_flags
        let flags := (nodemap.nodes.getD i ⟨0, 0⟩).flags
        let c := { c with new_flags := c.new_flags &&& (2 ^ 32 - 1 - NODE_FLAGS_DISCONNECTED) }
        let c := if flag_test flags NODE_FLAGS_DISCONNECTED then
            { c with new_flags := c.new_flags ||| NODE_FLAGS_DISCONNECTED }
          else c
        let nodemap : ctdb_node_map :=
          ⟨nodemap.nodes.set i { nodemap.nodes.getD i ⟨0, 0⟩ with flags := c.new_flags }⟩
        let s := match getrecmaster with
          | none => s
          | some m => { s with ctdb := { s.ctdb with recovery_master := m } }
        let s := match getrecmaster, getrecmode with
          | some _, some m => { s with ctdb := { s.ctdb with recovery_mode := m } }
          | _, _ => s
        let ret_ok := getrecmaster.isSome && getrecmode.isSome
        if ret_ok && decide (s.ctdb.recovery_master = s.ctdb.pnn)
            && decide (s.ctdb.recovery_mode = CTDB_RECOVERY_NORMAL) && s.ctdb.vnn then
          if flag_test changed_flags NODE_FLAGS_DISABLED then
            some ({ s with recd := { s.recd with need_takeover_run := true } },
                  some (nodemap, c))
          else some (s, some (nodemap, c))
        else some (s, some (nodemap, c))

/-- The flags that `monitor_handler` assigns to entry `i` of its node map, when it
assigns any: the flags of that entry in the node map the handler leaves. -/
def applied_flags (r : Option (daemon × Option (ctdb_node_map × ctdb_node_flag_change)))
    (i : Nat) : Option Nat :=
  match r with
  | some (_, some (nodemap, _)) => (nodemap.nodes[i]?).map (fun n => n.flags)
  | _ => none

/-- A node map where node `1` is disconnected and unhealthy. -/
def disconnected_nodes : ctdb_node_map :=
  ⟨[⟨0, 0⟩, ⟨1, 3⟩, ⟨2, 0⟩]⟩

/-- The payload of a message that says node `1` went from flags `3` to flags `4`. -/
def flag_change_payload : List Nat :=
  u32_bytes 1 ++ u32_bytes 3 ++ u32_bytes 4

/-- Modelled from the spec: `ctdb_get_pnn` is defined outside the sources at hand; it
returns the pnn of the local node, `ctdb->pnn`. -/
def ctdb_get_pnn (ctdb : ctdb_context) : Nat :=
  ctdb.pnn

/-- Send out an election request (`send_election_request`): set the recovery master
of node `pnn` to `pnn`, then broadcast the election data of this node.  `getnodemap`
is the reply of the local node for `ctdb_election_data`.  The second component is
`ret == 0`. -/
def send_election_request (s : daemon) (c : cluster) (getnodemap : Option ctdb_node_map)
    (pnn : Nat) : cluster × Bool :=
  let emsg := ctdb_election_data s.ctdb s.recd getnodemap
  if !(ctrl c (request.setrecmaster pnn pnn)).2 then
    ((ctrl c (request.setrecmaster pnn pnn)).1, false)
  else
    (ctdb_send_message (ctrl c (request.setrecmaster pnn pnn)).1 destination.all
      (srvid_message.recovery emsg), true)

/-- Unban all nodes in the cluster (`unban_all_nodes`): a `modflags` request that
clears `BANNED` to every node that the local node map shows connected and banned.
`getnodemap` is the reply of the local node (`none`: the request failed). -/
def unban_all_nodes (s : daemon) (getnodemap : Option ctdb_node_map) : daemon :=
  match getnodemap with
  | none => s
  | some nodemap =>
    nodemap.nodes.foldl (fun s n =>
      if !(flag_test n.flags NODE_FLAGS_DISCONNECTED) && flag_test n.flags NODE_FLAGS_BANNED then
        ctdb_ctrl_modflags s n.pnn 0 NODE_FLAGS_BANNED
      else s) s

/-- Handler for recovery master elections (`election_handler`).  `em` is the payload
(its size is not looked at; it is taken to hold a whole `election_message`); the
three node maps are the replies of the local node to the `getnodemap` requests of
`ctdb_election_win`, `send_election_request` and `unban_all_nodes`.  Closing the
recovery lock leaves `recovery_lock_fd = -1`.  Releasing the registry array frees
the array only: the `ban_state` objects and their timers hang from `rec`. -/
def election_handler (s : daemon) (c : cluster) (em : election_message)
    (nodemap_win nodemap_send nodemap_unban : Option ctdb_node_map) : daemon × cluster :=
  if ctdb_election_win s.ctdb s.recd nodemap_win em then
    (s, (send_election_request s c nodemap_send (ctdb_get_pnn s.ctdb)).1)
  else
    let s :=
      if em.pnn ≠ s.ctdb.pnn ∧ s.ctdb.recovery_lock_fd ≠ -1 then
        unban_all_nodes { s with ctdb := { s.ctdb with recovery_lock_fd := -1 } } nodemap_unban
      else s
    if !(ctrl c (request.setrecmaster (ctdb_get_pnn s.ctdb) em.pnn)).2 then
      (s, (ctrl c (request.setrecmaster (ctdb_get_pnn s.ctdb) em.pnn)).1)
    else
      ({ s with recd := { s.recd with last_culprit := 0xFFFFFFFF,
                                      banned_nodes := List.replicate s.ctdb.num_nodes none } },
       (ctrl c (request.setrecmaster (ctdb_get_pnn s.ctdb) em.pnn)).1)

/-- The daemon `daemon_with_ban` holding the recovery lock. -/
def lock_holder : daemon :=
  { daemon_with_ban with ctdb := { daemon_with_ban.ctdb with recovery_lock_fd := 9 } }

/-- An election message of node `2`, which runs longer than `lock_holder`. -/
def senior_message : election_message :=
  { num_connected := 3, priority_time := ⟨5, 0⟩, pnn := 2, node_flags := 0 }

/-- The node map of the three-node cluster with node `1` banned. -/
def nodes_with_ban : ctdb_node_map :=
  ⟨[⟨0, 0⟩, ⟨1, NODE_FLAGS_BANNED⟩, ⟨2, 0⟩]⟩

/-- The requests issued between the clusters `c0` and `c` that failed were all
`getdbname` or `createdb` requests. -/
def only_db_faults (c0 c : cluster) : Prop :=
  ∃ new, c.log = c0.log ++ new ∧ ∀ e ∈ new, e.2 = false → e.1.kind = 6 ∨ e.1.kind = 7

/-- The pnns of the node-map entries without `INACTIVE` bits, in node-map order. -/
def active_pnns (nodemap : ctdb_node_map) : List Nat :=
  (nodemap.nodes.filter node_active).map (fun n => n.pnn)

/-- A node map where node `1` is unhealthy. -/
def unhealthy_nodes : ctdb_node_map :=
  ⟨[⟨0, 0⟩, ⟨1, NODE_FLAGS_UNHEALTHY⟩, ⟨2, 0⟩]⟩

/-- The timer that `ctdb_ban_node` schedules when the daemon `s` bans a node at `now`
for `seconds` seconds: it hangs from the `ban_state` allocated at the next free
address. -/
def ban_timer (s : daemon) (now : timeval) (seconds : Nat) : timed_event :=
  { parent := s.next_addr, next_event := timeval_current_ofs now seconds,
    private_data := s.next_addr }

/-! ## Request ids (`common/ctdb_util.c`) -/

/-- The conversion of an `int` to `uint32_t`: its value modulo `2^32`. -/
def u32_of_int (z : Int) : Nat :=
  (z % 2 ^ 32).toNat

/-- Modelled from the spec: an object registered under a request id, as far as the
id code looks at it: its address and its talloc type name. -/
structure reqid_state where
  addr : Nat
  type_name : Nat
deriving DecidableEq, Repr

/-- Modelled from the spec: the id allocator of the idr library (`struct
idr_context`), which is not among the sources: the ids in use, each with the pointer
registered under it. -/
structure idr_context where
  used : List (Nat × reqid_state)
deriving DecidableEq, Repr

/-- Modelled from the spec: `idr_get_new(idp, ptr, limit)` registers `ptr` under a
new id and returns the id, or returns `-1` when it has none to give.  Which id it
gives is the choice of the library: `id` is that choice (negative: none). -/
def idr_get_new (idp : idr_context) (ptr : reqid_state) (id : Int) : idr_context × Int :=
  if id < 0 then (idp, -1) else ({ used := (id.toNat, ptr) :: idp.used }, id)

/-- Modelled from the spec: `idr_find(idp, id)`, the pointer registered under `id`
(`NULL`, here `none`, when the id is not in use). -/
def idr_find (idp : idr_context) (id : Nat) : Option reqid_state :=
  idp.used.lookup id

/-- Modelled from the spec: `idr_remove(idp, id)` releases the id; it returns `-1`
when the id is not in use. -/
def idr_remove (idp : idr_context) (id : Nat) : idr_context × Int :=
  if (idp.used.lookup id).isNone then (idp, -1)
  else ({ used := idp.used.filter (fun e => e.1 != id) }, 0)

/-- Modelled from the spec: `talloc_check_name(p, name) != NULL`, the object has the
type name `name`. -/
def talloc_check_name (p : reqid_state) (name : Nat) : Bool :=
  p.type_name == name

/-- The fields of `struct ctdb_context` that the request id code uses.  Modelled from
the spec: the structure is declared in a header that is not among the sources;
`idr_cnt` is an unsigned counter of `idr_cnt_bits` bits. -/
structure reqid_context where
  idr : idr_context
  idr_cnt : Nat
  idr_cnt_bits : Nat
deriving DecidableEq, Repr

/-- Allocate a request id for `state` (`ctdb_reqid_new`); `slot` is the id that
`idr_get_new` gives.  The shift `<<16` of the `int` that `idr_get_new` returns wraps
at 32 bits (two's complement), and the result is converted to `uint32_t`. -/
def ctdb_reqid_new (ctdb : reqid_context) (state : reqid_state) (slot : Int) :
    reqid_context × Nat :=
  let id := ctdb.idr_cnt &&& 0xFFFF
  let ctdb := { ctdb with idr_cnt := (ctdb.idr_cnt + 1) % 2 ^ ctdb.idr_cnt_bits }
  let r := idr_get_new ctdb.idr state slot
  let id := id ||| u32_of_int (wrap_int (r.2 * 2 ^ 16))
  ({ ctdb with idr := r.1 }, id)

/-- A type checking variant of `idr_find` (`_idr_find_type`). -/
def _idr_find_type (idp : idr_context) (id : Nat) (type : Nat) : Option reqid_state :=
  match idr_find idp id with
  | none => none
  | some p => if !(talloc_check_name p type) then none else some p

/-- Find the object of a request id (`_ctdb_reqid_find`). -/
def _ctdb_reqid_find (ctdb : reqid_context) (reqid : Nat) (type : Nat) : Option reqid_state :=
  _idr_find_type ctdb.idr ((reqid >>> 16) &&& 0xFFFF) type

/-- Release a request id (`ctdb_reqid_remove`). -/
def ctdb_reqid_remove (ctdb : reqid_context) (reqid : Nat) : reqid_context :=
  { ctdb with idr := (idr_remove ctdb.idr ((reqid >>> 16) &&& 0xFFFF)).1 }

/-- A context with two ids in use and the counter at `0x1FFFF`. -/
def busy_context : reqid_context :=
  { idr := { used := [(3, ⟨100, 1⟩), (0xFFFF, ⟨200, 2⟩)] }, idr_cnt := 0x1FFFF, idr_cnt_bits := 32 }

/-! ## One iteration of the monitor loop -/

/-- The loop of `monitor_cluster` that counts how many active nodes there are
(lines 1585-1596): on the way it sets the `BANNED` bit of every entry whose pnn has
an entry in the ban registry and clears it for every other entry.
`~NODE_FLAGS_BANNED` is taken in 32 bits and `num_active` is a 32-bit counter; the
registry is read at the pnn of the entry. -/
def count_active_nodes (rec1 : ctdb_recoverd) :
    List ctdb_node_and_flags → Nat → List ctdb_node_and_flags × Nat
  | [], num_active => ([], num_active)
  | n :: rest, num_active =>
    let flags :=
      if (banned_entry rec1 n.pnn).isSome then n.flags ||| NODE_FLAGS_BANNED
      else n.flags &&& (2 ^ 32 - 1 - NODE_FLAGS_BANNED)
    let num_active :=
      if !(flag_test flags NODE_FLAGS_INACTIVE) then (num_active + 1) % 2 ^ 32 else num_active
    ({ n with flags := flags } :: (count_active_nodes rec1 rest num_active).1,
     (count_active_nodes rec1 rest num_active).2)

/-- The loop of `update_local_flags` from entry `j` on: `nodes` are the entries of
the local node map from index `j`.  An entry that is disconnected or is the local
node is skipped; for any other the node map of that node is read and the flags of
its entry `j` are taken over.  A remote node map that has no entry `j` is read as
zero there (the source reads past the array).  The second component is `ret == 0`. -/
def update_local_flags_from (ctdb_pnn : Nat) (getnodemap : Nat → Option ctdb_node_map) :
    List ctdb_node_and_flags → Nat → List ctdb_node_and_flags × Bool
  | [], _ => ([], true)
  | n :: rest, j =>
    if flag_test n.flags NODE_FLAGS_DISCONNECTED then
      (n :: (update_local_flags_from ctdb_pnn getnodemap rest (j + 1)).1,
       (update_local_flags_from ctdb_pnn getnodemap rest (j + 1)).2)
    else if n.pnn = ctdb_pnn then
      (n :: (update_local_flags_from ctdb_pnn getnodemap rest (j + 1)).1,
       (update_local_flags_from ctdb_pnn getnodemap rest (j + 1)).2)
    else
      match getnodemap n.pnn with
      | none => (n :: rest, false)
      | some remote_nodemap =>
        ((if n.flags ≠ (remote_nodemap.nodes.getD j ⟨0, 0⟩).flags then
            { n with flags := (remote_nodemap.nodes.getD j ⟨0, 0⟩).flags }
          else n) :: (update_local_flags_from ctdb_pnn getnodemap rest (j + 1)).1,
         (update_local_flags_from ctdb_pnn getnodemap rest (j + 1)).2)

/-- Update our local flags from all remote connected nodes (`update_local_flags`).
`ctdb_pnn` is `ctdb->pnn`, `getnodemap` the reply of each node to
`ctdb_ctrl_getnodemap` (`none`: the request failed). -/
def update_local_flags (ctdb_pnn : Nat) (nodemap : ctdb_node_map)
    (getnodemap : Nat → Option ctdb_node_map) : ctdb_node_map × Bool :=
  (⟨(update_local_flags_from ctdb_pnn getnodemap nodemap.nodes 0).1⟩,
   (update_local_flags_from ctdb_pnn getnodemap nodemap.nodes 0).2)

/-- How a part of an iteration of `monitor_cluster` ends: it falls through to the
next statement (`pass`), or the iteration restarts (`goto again`), at once or after
a call of `force_election` or of `do_recovery` with a culprit. -/
inductive monitor_step where
  | pass
  | again
  | election
  | recovery (culprit : Nat)
deriving DecidableEq, Repr

/-- The end of a consistency check as the end of a part of the iteration. -/
def check_result.to_step : check_result → monitor_step
  | .pass => monitor_step.pass
  | .again => monitor_step.again
  | .recovery culprit => monitor_step.recovery culprit

/-- The part of `monitor_cluster` that decides whether to force an election, after
the recovery master was read (lines 1606-1646).  `getnodemap` is the reply of the
recovery master to `ctdb_ctrl_getnodemap`; its entry `j` is read as zero if it has
none (the source reads past the array). -/
def monitor_election_check (recmaster : Nat) (nodemap : ctdb_node_map)
    (getnodemap : Option ctdb_node_map) : monitor_step :=
  if recmaster = 0xFFFFFFFF then monitor_step.election
  else
    match node_index nodemap.nodes recmaster with
    | none => monitor_step.election
    | some j =>
      if flag_test (nodemap.nodes.getD j ⟨0, 0⟩).flags NODE_FLAGS_DISCONNECTED then
        monitor_step.election
      else
        match getnodemap with
        | none => monitor_step.again
        | some remote_nodemap =>
          if flag_test (remote_nodemap.nodes.getD j ⟨0, 0⟩).flags NODE_FLAGS_INACTIVE then
            monitor_step.election
          else monitor_step.pass

/-- Modelled from the spec: one public address as the public IP check sees it: the
node that is to serve it (`ips->ips[j].pnn`), whether the local node has it
(`ctdb_sys_have_ip`), and the outcome of the `freeze` and `setrecmode` requests that
the check issues for it when it is in the wrong place. -/
structure public_ip where
  pnn : Nat
  have_ip : Bool
  freeze_ok : Bool
  setrecmode_ok : Bool
deriving DecidableEq, Repr

/-- What an iteration of `monitor_cluster` does besides reading: the calls it makes,
with the arguments that matter. -/
inductive monitor_call where
  | force_election (pnn : Nat) (nodemap : ctdb_node_map)
  | public_ip_check
  | freeze_self
  | setrecmode_self
  | update_local_flags
  | verify_recmaster
  | verify_recmode
  | takeover_run
  | do_recovery (pnn num_active : Nat) (nodemap : ctdb_node_map) (vnnmap : ctdb_vnn_map)
      (culprit : Nat)
deriving DecidableEq, Repr

/-- The loop of the public IP check over the addresses (lines 1656-1693): an address
that the local node should serve and does not have, or has and should not serve,
makes it freeze itself and set its recovery mode to active; a request that fails
ends the iteration (`false`). -/
def check_public_ips (pnn : Nat) : List public_ip → List monitor_call × Bool
  | [] => ([], true)
  | ip :: rest =>
    if ip.pnn = pnn then
      if !ip.have_ip then
        if !ip.freeze_ok then ([monitor_call.freeze_self], false)
        else if !ip.setrecmode_ok then
          ([monitor_call.freeze_self, monitor_call.setrecmode_self], false)
        else
          (monitor_call.freeze_self :: monitor_call.setrecmode_self
            :: (check_public_ips pnn rest).1, (check_public_ips pnn rest).2)
      else check_public_ips pnn rest
    else
      if ip.have_ip then
        if !ip.freeze_ok then ([monitor_call.freeze_self], false)
        else if !ip.setrecmode_ok then
          ([monitor_call.freeze_self, monitor_call.setrecmode_self], false)
        else
          (monitor_call.freeze_self :: monitor_call.setrecmode_self
            :: (check_public_ips pnn rest).1, (check_public_ips pnn rest).2)
      else check_public_ips pnn rest

/-- Modelled from the spec: everything that one iteration of `monitor_cluster` reads
from outside the recovery daemon, each reply where the iteration asks for it
(`none`, or `false`: the request failed).  `getpnn` is the value of
`ctdb_ctrl_getpnn` (`0xFFFFFFFF` on failure); `recmaster_nodemap` the node map of
the recovery master; `flags_nodemap` the node maps read by `update_local_flags`;
`node_public_ips j` the outcome of reading the public addresses of entry `j`; the
`sent` and `completions` of the two fan-outs as in `verify_recmaster` and
`verify_recmode`; `lock_read_ok` the outcome of the read on the recovery lock;
`check_nodemap` and `check_vnnmap` the replies to the consistency checks;
`takeover_ok` the outcome of `ctdb_takeover_run`. -/
structure monitor_env where
  tunables : Option ctdb_tunable
  getpnn : Nat
  getvnnmap : Option ctdb_vnn_map
  getnodemap : Option ctdb_node_map
  getrecmaster : Option Nat
  recmaster_nodemap : Option ctdb_node_map
  public_ips : Option (List public_ip)
  flags_nodemap : Nat → Option ctdb_node_map
  node_public_ips : Nat → Bool
  recmaster_sent : Nat → Bool
  recmaster_completions : List ctdb_client_control_state
  recmode_sent : Nat → Bool
  recmode_completions : List ctdb_client_control_state
  lock_read_ok : Bool
  check_nodemap : Nat → Option ctdb_node_map
  check_vnnmap : Nat → Option ctdb_vnn_map
  takeover_ok : Bool

/-- What one iteration of `monitor_cluster` leaves when it restarts: the daemon as it
is then (before `force_election` or `do_recovery`, if one is called, has run), the
calls made in order, and whether the iteration is still waiting for the replies of a
fan-out that never come. -/
structure monitor_run where
  d : daemon
  calls : List monitor_call
  waiting : Bool
deriving DecidableEq, Repr

/-- The loop of the master that reads the public addresses of every active node
(lines 1709-1729): `false` when a read fails. -/
def refresh_public_ips (node_public_ips : Nat → Bool) :
    List ctdb_node_and_flags → Nat → Bool
  | [], _ => true
  | n :: rest, j =>
    if flag_test n.flags NODE_FLAGS_INACTIVE then refresh_public_ips node_public_ips rest (j + 1)
    else if !(node_public_ips j) then false
    else refresh_public_ips node_public_ips rest (j + 1)

/-- The duties of the recovery master in one iteration of `monitor_cluster`, after
`update_local_flags` left the node map `nodemap` (lines 1709-1930). -/
def monitor_duties (s : daemon) (env : monitor_env) (pnn num_active : Nat)
    (nodemap : ctdb_node_map) (vnnmap : ctdb_vnn_map) : monitor_run :=
  if !(refresh_public_ips env.node_public_ips nodemap.nodes 0) then
    { d := s, calls := [], waiting := false }
  else
    match verify_recmaster nodemap pnn env.recmaster_sent env.recmaster_completions with
    | none => { d := s, calls := [monitor_call.verify_recmaster], waiting := true }
    | some monitor_result.MONITOR_RECOVERY_NEEDED =>
      { d := s, calls := [monitor_call.verify_recmaster], waiting := false }
    | some monitor_result.MONITOR_ELECTION_NEEDED =>
      { d := s, calls := [monitor_call.verify_recmaster,
                          monitor_call.force_election pnn nodemap], waiting := false }
    | some monitor_result.MONITOR_FAILED =>
      { d := s, calls := [monitor_call.verify_recmaster], waiting := false }
    | some monitor_result.MONITOR_OK =>
      if s.recd.need_recovery then
        { d := s, calls := [monitor_call.verify_recmaster,
            monitor_call.do_recovery pnn num_active nodemap vnnmap s.ctdb.pnn],
          waiting := false }
      else
        match verify_recmode nodemap env.recmode_sent env.recmode_completions with
        | none =>
          { d := s, calls := [monitor_call.verify_recmaster, monitor_call.verify_recmode],
            waiting := true }
        | some monitor_result.MONITOR_RECOVERY_NEEDED =>
          { d := s, calls := [monitor_call.verify_recmaster, monitor_call.verify_recmode,
              monitor_call.do_recovery pnn num_active nodemap vnnmap s.ctdb.pnn],
            waiting := false }
        | some monitor_result.MONITOR_FAILED =>
          { d := s, calls := [monitor_call.verify_recmaster, monitor_call.verify_recmode],
            waiting := false }
        | some _ =>
          if s.ctdb.recovery_lock_fd = -1 then
            { d := s, calls := [monitor_call.verify_recmaster, monitor_call.verify_recmode,
                monitor_call.do_recovery pnn num_active nodemap vnnmap s.ctdb.pnn],
              waiting := false }
          else if !env.lock_read_ok then
            { d := { s with ctdb := { s.ctdb with recovery_lock_fd := -1 } },
              calls := [monitor_call.verify_recmaster, monitor_call.verify_recmode,
                monitor_call.do_recovery pnn num_active nodemap vnnmap s.ctdb.pnn],
              waiting := false }
          else
            match monitor_consistency s.ctdb.pnn pnn num_active nodemap vnnmap
                env.check_nodemap env.check_vnnmap with
            | check_result.recovery culprit =>
              { d := s, calls := [monitor_call.verify_recmaster, monitor_call.verify_recmode,
                  monitor_call.do_recovery pnn num_active nodemap vnnmap culprit],
                waiting := false }
            | check_result.again =>
              { d := s, calls := [monitor_call.verify_recmaster, monitor_call.verify_recmode],
                waiting := false }
            | check_result.pass =>
              if s.recd.need_takeover_run then
                if !env.takeover_ok then
                  { d := { s with recd := { s.recd with need_takeover_run := false } },
                    calls := [monitor_call.verify_recmaster, monitor_call.verify_recmode,
                      monitor_call.takeover_run,
                      monitor_call.do_recovery pnn num_active nodemap vnnmap s.ctdb.pnn],
                    waiting := false }
                else
                  { d := { s with recd := { s.recd with need_takeover_run := false } },
                    calls := [monitor_call.verify_recmaster, monitor_call.verify_recmode,
                      monitor_call.takeover_run],
                    waiting := false }
              else
                { d := s, calls := [monitor_call.verify_recmaster, monitor_call.verify_recmode],
                  waiting := false }

/-- The master part of one iteration of `monitor_cluster` (lines 1698-1930): ensure
the local copies of the flags are right, then the duties of `monitor_duties` on the
node map that this leaves.  `num_active` is the count made before. -/
def monitor_master (s : daemon) (env : monitor_env) (pnn num_active : Nat)
    (nodemap : ctdb_node_map) (vnnmap : ctdb_vnn_map) : monitor_run :=
  if !(update_local_flags s.ctdb.pnn nodemap env.flags_nodemap).2 then
    { d := s, calls := [monitor_call.update_local_flags], waiting := false }
  else
    { monitor_duties s env pnn num_active
        (update_local_flags s.ctdb.pnn nodemap env.flags_nodemap).1 vnnmap with
      calls := monitor_call.update_local_flags
        :: (monitor_duties s env pnn num_active
              (update_local_flags s.ctdb.pnn nodemap env.flags_nodemap).1 vnnmap).calls }

/-- The public IP check of one iteration (lines 1649-1696), made when public
addresses are configured (`ctdb->vnn != NULL`): the calls, and whether the iteration
goes on. -/
def monitor_public_ip_check (s : daemon) (env : monitor_env) (pnn : Nat) :
    List monitor_call × Bool :=
  if s.ctdb.vnn then
    match env.public_ips with
    | none => ([monitor_call.public_ip_check], false)
    | some ips =>
      (monitor_call.public_ip_check :: (check_public_ips pnn ips).1,
       (check_public_ips pnn ips).2)
  else ([], true)

/-- One iteration of the main monitoring loop (`monitor_cluster`, from the label
`again` to the next `goto again`), the wait at its start left out. -/
def monitor_iteration (s : daemon) (env : monitor_env) : monitor_run :=
  match env.tunables with
  | none => { d := s, calls := [], waiting := false }
  | some tunable =>
    let s := { s with ctdb := { s.ctdb with tunable := tunable } }
    let pnn := env.getpnn
    if pnn = 0xFFFFFFFF then { d := s, calls := [], waiting := false }
    else
      match env.getvnnmap with
      | none => { d := s, calls := [], waiting := false }
      | some vnnmap =>
        match env.getnodemap with
        | none => { d := s, calls := [], waiting := false }
        | some nodemap =>
          let s := { s with recd := { s.recd with
                      node_flags := (nodemap.nodes.getD pnn ⟨0, 0⟩).flags } }
          let num_active := (count_active_nodes s.recd nodemap.nodes 0).2
          let nodemap : ctdb_node_map := ⟨(count_active_nodes s.recd nodemap.nodes 0).1⟩
          match env.getrecmaster with
          | none => { d := s, calls := [], waiting := false }
          | some recmaster =>
            match monitor_election_check recmaster nodemap env.recmaster_nodemap with
            | monitor_step.election =>
              { d := s, calls := [monitor_call.force_election pnn nodemap], waiting := false }
            | monitor_step.pass =>
              if !(monitor_public_ip_check s env pnn).2 then
                { d := s, calls := (monitor_public_ip_check s env pnn).1, waiting := false }
              else if pnn ≠ recmaster then
                { d := s, calls := (monitor_public_ip_check s env pnn).1, waiting := false }
              else
                { monitor_master s env pnn num_active nodemap vnnmap with
                  calls := (monitor_public_ip_check s env pnn).1
                    ++ (monitor_master s env pnn num_active nodemap vnnmap).calls }
            | _ => { d := s, calls := [], waiting := false }

/-- The iteration of the master, node `0`, in which node `1` has just become healthy
again: the local node map still shows it unhealthy, node `1` reports no flag for
itself, every node has the vnn map `[0, 2]` of the last recovery, and every other
reply is in order. -/
def healed_env : monitor_env :=
  { tunables := some { enable_bans := 1, recovery_grace_period := 120,
                       recovery_ban_period := 300 },
    getpnn := 0,
    getvnnmap := some ⟨5, 2, [0, 2]⟩,
    getnodemap := some unhealthy_nodes,
    getrecmaster := some 0,
    recmaster_nodemap := some unhealthy_nodes,
    public_ips := none,
    flags_nodemap := fun _ => some three_nodes,
    node_public_ips := fun _ => true,
    recmaster_sent := fun _ => true,
    recmaster_completions := [⟨true, 0⟩, ⟨true, 0⟩, ⟨true, 0⟩],
    recmode_sent := fun _ => true,
    recmode_completions := [⟨true, 0⟩, ⟨true, 0⟩, ⟨true, 0⟩],
    lock_read_ok := true,
    check_nodemap := fun _ => some three_nodes,
    check_vnnmap := fun _ => some ⟨5, 2, [0, 2]⟩,
    takeover_ok := true }

/-- The master of the three-node cluster holding the recovery lock. -/
def master_daemon : daemon :=
  { strict_daemon with ctdb := { strict_daemon.ctdb with recovery_lock_fd := 9 } }

/-- The iteration of node `0` when node `1` is the recovery master and the node map
of node `1` shows node `1` banned. -/
def banned_master_env : monitor_env :=
  { healed_env with
    getrecmaster := some 1,
    recmaster_nodemap := some ⟨[⟨0, 0⟩, ⟨1, NODE_FLAGS_BANNED⟩, ⟨2, 0⟩]⟩ }

/-- The node map `remote` that a node returned differs from the local node map in
what the comparison of `monitor_cluster` looks at: the number of entries, or at some
index the pnn or the bits of `INACTIVE`. -/
def nodemap_differs (remote nodemap : ctdb_node_map) : Bool :=
  remote.num != nodemap.num
  || (remote.nodes.zip nodemap.nodes).any (fun e =>
        e.1.pnn != e.2.pnn
        || (e.1.flags &&& NODE_FLAGS_INACTIVE) != (e.2.flags &&& NODE_FLAGS_INACTIVE))

/-- The vnn map `remote` that a node returned differs from the local vnn map in what
the comparison of `monitor_cluster` looks at: the generation, the size, or one of
the first `size` slots. -/
def vnnmap_differs (remote vnnmap : ctdb_vnn_map) : Bool :=
  vnnmap.generation != remote.generation
  || vnnmap.size != remote.size
  || (List.range vnnmap.size).any (fun i => remote.map[i]? != vnnmap.map[i]?)

/-- The iteration of the master, node `0`, of three active nodes when node `2`
returns a vnn map of another generation. -/
def diverged_env : monitor_env :=
  { healed_env with
    getvnnmap := some ⟨5, 3, [0, 1, 2]⟩,
    getnodemap := some three_nodes,
    recmaster_nodemap := some three_nodes,
    check_vnnmap := fun q => if q = 2 then some ⟨4, 3, [0, 1, 2]⟩ else some ⟨5, 3, [0, 1, 2]⟩ }

/-- The iteration of the master, node `0`, of three active nodes when every node
returns the same node map and the same vnn map, of two slots. -/
def short_vnnmap_env : monitor_env :=
  { healed_env with
    getvnnmap := some ⟨5, 2, [1, 2]⟩,
    getnodemap := some three_nodes,
    recmaster_nodemap := some three_nodes,
    check_vnnmap := fun _ => some ⟨5, 2, [1, 2]⟩ }

/-- The payload of a message that says node `1` went from flags `0` to unhealthy. -/
def unhealthy_payload : List Nat :=
  u32_bytes 1 ++ u32_bytes 0 ++ u32_bytes NODE_FLAGS_UNHEALTHY

/-- The daemon of `quiet_daemon` when public addresses are configured. -/
def serving_daemon : daemon :=
  { quiet_daemon with ctdb := { quiet_daemon.ctdb with vnn := true } }

/-- A node map as another node may return it: the three nodes of the cluster in
another order, node `1` first, and node `0` banned. -/
def shuffled_nodes : ctdb_node_map :=
  ⟨[⟨1, 0⟩, ⟨0, NODE_FLAGS_BANNED⟩, ⟨2, 0⟩]⟩

/-- The iteration of node `0` of three nodes without flags when node `1` is the
recovery master and returns `shuffled_nodes` as its node map. -/
def misaligned_master_env : monitor_env :=
  { healed_env with
    getvnnmap := some ⟨5, 3, [0, 1, 2]⟩,
    getnodemap := some three_nodes,
    getrecmaster := some 1,
    recmaster_nodemap := some shuffled_nodes }

/-- The iteration of node `0` of three nodes without flags when node `1` is the
recovery master and returns a node map that lists itself first and banned. -/
def hidden_ban_env : monitor_env :=
  { healed_env with
    getvnnmap := some ⟨5, 3, [0, 1, 2]⟩,
    getnodemap := some three_nodes,
    getrecmaster := some 1,
    recmaster_nodemap := some ⟨[⟨1, NODE_FLAGS_BANNED⟩, ⟨0, 0⟩, ⟨2, 0⟩]⟩ }

/-- The iteration of the master, node `0`, of three active nodes when every node
returns the same node map and the vnn map `vnnmap_without_master`. -/
def unlisted_master_env : monitor_env :=
  { healed_env with
    getvnnmap := some vnnmap_without_master,
    getnodemap := some three_nodes,
    recmaster_nodemap := some three_nodes,
    check_vnnmap := fun _ => some vnnmap_without_master }

/-! ## Theorems: election -/

/-- Beyond pnn values below `2^31`, with the subtraction of the `int` casts wrapping
around at 32 bits: for the two unbanned nodes with pnn `0` and pnn `2^31` and
otherwise identical election data, each side loses against the message of the
other. -/
theorem election_win_not_total :
    low_node.ctdb.pnn ≠ high_node.ctdb.pnn
    ∧ flag_test low_node.recd.node_flags NODE_FLAGS_BANNED = false
    ∧ flag_test high_node.recd.node_flags NODE_FLAGS_BANNED = false
    ∧ low_node.beats high_node = false
    ∧ high_node.beats low_node = false := by
  decide

/-- C2: a node whose own flags contain `BANNED` loses against every election
message, whatever the message and whatever its own node map says. -/
theorem election_win_banned_self (ctdb : ctdb_context) (rec : ctdb_recoverd)
    (reply : Option ctdb_node_map) (em : election_message)
    (h : flag_test rec.node_flags NODE_FLAGS_BANNED = true) :
    ctdb_election_win ctdb rec reply em = false := by
  simp [ctdb_election_win, h]

/-- C2 at a concrete input: a banned node against a message of a banned sender. -/
theorem election_win_banned_self_witness :
    flag_test banned_node.recd.node_flags NODE_FLAGS_BANNED = true
    ∧ ctdb_election_win banned_node.ctdb banned_node.recd banned_node.reply banned_message
        = false :=
  ⟨by decide, election_win_banned_self _ _ _ _ (by decide)⟩

/-- C3: an unbanned node wins against every election message whose `node_flags`
contain `BANNED`, whatever the other fields on either side. -/
theorem election_win_banned_peer (ctdb : ctdb_context) (rec : ctdb_recoverd)
    (reply : Option ctdb_node_map) (em : election_message)
    (hme : flag_test rec.node_flags NODE_FLAGS_BANNED = false)
    (hpeer : flag_test em.node_flags NODE_FLAGS_BANNED = true) :
    ctdb_election_win ctdb rec reply em = true := by
  simp [ctdb_election_win, hme, hpeer]

/-- C3 at a concrete input: the unbanned `lone_node` (one connected node) against a
banned sender claiming seven. -/
theorem election_win_banned_peer_witness :
    flag_test lone_node.recd.node_flags NODE_FLAGS_BANNED = false
    ∧ flag_test banned_message.node_flags NODE_FLAGS_BANNED = true
    ∧ ctdb_election_win lone_node.ctdb lone_node.recd lone_node.reply banned_message = true :=
  ⟨by decide, by decide, election_win_banned_peer _ _ _ _ (by decide) (by decide)⟩

/-- C4, evaluated: the unbanned node `lone_node` has `num_connected = 1`, the
unbanned sender claims `2^32 - 1`; the code lets the local node win, the
lexicographic reference lets it lose. -/
theorem election_win_differs_from_reference :
    lone_node.message.num_connected = 1
    ∧ flag_test lone_node.recd.node_flags NODE_FLAGS_BANNED = false
    ∧ flag_test crowded_message.node_flags NODE_FLAGS_BANNED = false
    ∧ ctdb_election_win lone_node.ctdb lone_node.recd lone_node.reply crowded_message = true
    ∧ beats_reference lone_node.message crowded_message = false := by
  decide

/-- Beyond pnn values below `2^31`: of the two unbanned candidates with pnn `0` and
`2^32 - 2`, equal `num_connected` and equal `priority_time`, the one that wins
against every other candidate is the one with the lowest pnn; the one with the
highest pnn loses. -/
theorem election_highest_pnn_loses :
    first_node.message.num_connected = last_node.message.num_connected
    ∧ first_node.message.priority_time = last_node.message.priority_time
    ∧ first_node.ctdb.pnn < last_node.ctdb.pnn
    ∧ wins_all first_node [first_node, last_node] = true
    ∧ wins_all last_node [first_node, last_node] = false := by
  decide

/-! ## Theorems: bans -/

/-- C6: with the tunable `enable_bans` at `0`, `ctdb_ban_node` leaves the whole
daemon as it was, for every pnn (the local one included) and every ban time: same
registry, same priority time, no request issued, no timer scheduled. -/
theorem ban_node_disabled_noop (s : daemon) (now : timeval) (pnn ban_time : Nat)
    (h : s.ctdb.tunable.enable_bans = 0) :
    ctdb_ban_node s now pnn ban_time = s := by
  unfold ctdb_ban_node
  split
  · rfl
  · simp [h]

/-- C6 at a concrete input: banning the local node `0` for five seconds with bans
disabled. -/
theorem ban_node_disabled_noop_witness :
    quiet_daemon.ctdb.tunable.enable_bans = 0
    ∧ ctdb_ban_node quiet_daemon ⟨20, 0⟩ 0 5 = quiet_daemon :=
  ⟨by decide, ban_node_disabled_noop _ _ _ _ (by decide)⟩

/-- Reading a registry slot other than the one just written gives the old value. -/
theorem getD_set_other (l : List (Option Nat)) (i j : Nat) (v : Option Nat) (h : j ≠ i) :
    (l.set i v).getD j none = l.getD j none := by
  simp [List.getD_eq_getElem?_getD, List.getElem?_set, Ne.symm h]

/-- Reading the registry slot just cleared gives `NULL`. -/
theorem getD_set_none (l : List (Option Nat)) (i : Nat) :
    (l.set i none).getD i none = none := by
  by_cases h : i < l.length <;> simp [List.getD_eq_getElem?_getD, List.getElem?_set, h]

/-- Reading the registry slot just written, inside the array, gives the value written. -/
theorem getD_set_some (l : List (Option Nat)) (i : Nat) (v : Option Nat) (h : i < l.length) :
    (l.set i v).getD i none = v := by
  simp [List.getD_eq_getElem?_getD, List.getElem?_set, h]

/-- An address released from the heap is no longer found in it. -/
theorem lookup_filter_ne (h : List (Nat × ban_state)) (p : Nat) :
    (h.filter (fun e => e.1 != p)).lookup p = none := by
  induction h with
  | nil => rfl
  | cons e rest ih =>
    by_cases hp : e.1 = p
    · have hb : (e.1 != p) = false := by simp [hp]
      have hf : List.filter (fun e => e.1 != p) (e :: rest)
          = List.filter (fun e => e.1 != p) rest :=
        List.filter_cons_of_neg (by simp [hb])
      rw [hf]
      exact ih
    · have hb : (e.1 != p) = true := by simp [hp]
      have hne : (p == e.1) = false := by simpa using Ne.symm hp
      have hf : List.filter (fun e => e.1 != p) (e :: rest)
          = e :: List.filter (fun e => e.1 != p) rest :=
        List.filter_cons_of_pos hb
      rw [hf]
      obtain ⟨a, b⟩ := e
      simp only [List.lookup] at *
      simp only [hne]
      exact ih

/-- The daemon `ctdb_unban_node` leaves when the registry holds the address `p` for a
valid `pnn`. -/
theorem unban_node_eq (s : daemon) (pnn p : Nat) (hv : pnn < s.ctdb.num_nodes)
    (hp : banned_entry s.recd pnn = some p) :
    ctdb_unban_node s pnn =
      { ctdb := s.ctdb,
        recd := { s.recd with banned_nodes := s.recd.banned_nodes.set pnn none },
        heap := s.heap.filter (fun e => e.1 != p),
        next_addr := s.next_addr,
        timers := s.timers.filter (fun t => t.parent != p),
        sent := s.sent ++ [control.modflags pnn 0 NODE_FLAGS_BANNED] } := by
  have hval : ctdb_validate_pnn s.ctdb pnn = true := by simp [ctdb_validate_pnn, hv]
  simp [ctdb_unban_node, hval, hp, ctdb_ctrl_modflags, talloc_free]

/-- C10: `ctdb_unban_node` for a valid pnn.  Without a registry entry for `pnn` the
daemon is unchanged.  With an entry at address `p`, one `modflags` request with set
mask `0` and clear mask `BANNED` goes to `pnn`, the slot of `pnn` becomes `NULL`, the
`ban_state` at `p` and the timers hanging from it are gone, every other timer and
every other registry slot is as before, and nothing else of the daemon changes. -/
theorem unban_node_effect (s : daemon) (pnn : Nat) (hv : pnn < s.ctdb.num_nodes) :
    (banned_entry s.recd pnn = none → ctdb_unban_node s pnn = s)
    ∧ (∀ p, banned_entry s.recd pnn = some p →
        (ctdb_unban_node s pnn).sent = s.sent ++ [control.modflags pnn 0 NODE_FLAGS_BANNED]
        ∧ banned_entry (ctdb_unban_node s pnn).recd pnn = none
        ∧ (ctdb_unban_node s pnn).heap.lookup p = none
        ∧ (ctdb_unban_node s pnn).heap = s.heap.filter (fun e => e.1 != p)
        ∧ (∀ t ∈ (ctdb_unban_node s pnn).timers, t.parent ≠ p)
        ∧ (ctdb_unban_node s pnn).timers = s.timers.filter (fun t => t.parent != p)
        ∧ (∀ q, q ≠ pnn →
            banned_entry (ctdb_unban_node s pnn).recd q = banned_entry s.recd q)
        ∧ (ctdb_unban_node s pnn).recd.banned_nodes.length = s.recd.banned_nodes.length
        ∧ (ctdb_unban_node s pnn).ctdb = s.ctdb
        ∧ (ctdb_unban_node s pnn).recd.priority_time = s.recd.priority_time
        ∧ (ctdb_unban_node s pnn).recd.last_culprit = s.recd.last_culprit
        ∧ (ctdb_unban_node s pnn).recd.culprit_counter = s.recd.culprit_counter) := by
  have hval : ctdb_validate_pnn s.ctdb pnn = true := by simp [ctdb_validate_pnn, hv]
  refine ⟨fun hnone => ?_, fun p hp => ?_⟩
  · simp [ctdb_unban_node, hval, hnone]
  · rw [unban_node_eq s pnn p hv hp]
    refine ⟨rfl, getD_set_none _ _, lookup_filter_ne _ _, rfl, ?_, rfl, ?_, ?_, rfl, rfl, rfl, rfl⟩
    · intro t ht
      have := (List.mem_filter.mp ht).2
      simpa using this
    · intro q hq
      exact getD_set_other _ _ _ _ hq
    · simp

/-- C10 at a concrete input: node `1` of the three-node cluster, banned for five
seconds, is unbanned; node `2`, never banned, is unbanned to no effect. -/
theorem unban_node_effect_witness :
    (1 < daemon_with_ban.ctdb.num_nodes)
    ∧ banned_entry daemon_with_ban.recd 1 = some 1
    ∧ (ctdb_unban_node daemon_with_ban 1).timers = []
    ∧ (ctdb_unban_node daemon_with_ban 1).sent
        = [control.modflags 1 NODE_FLAGS_BANNED 0, control.modflags 1 0 NODE_FLAGS_BANNED]
    ∧ ctdb_unban_node daemon_with_ban 2 = daemon_with_ban :=
  ⟨by decide, by decide,
   by
    have h := ((unban_node_effect daemon_with_ban 1 (by decide)).2 1 (by decide)).2.2.2.2.2.1
    rw [h]; decide,
   by
    have h := ((unban_node_effect daemon_with_ban 1 (by decide)).2 1 (by decide)).1
    rw [h]; decide,
   (unban_node_effect daemon_with_ban 2 (by decide)).1 (by decide)⟩

/-- The word read back from the bytes of a 32-bit value is the value. -/
theorem u32_at_bytes (x : Nat) (rest : List Nat) (h : x < 2 ^ 32) :
    u32_at (u32_bytes x ++ rest) 0 = x := by
  simp only [u32_at, u32_bytes, List.cons_append, List.nil_append, List.getD_cons_zero,
    List.getD_cons_succ, Nat.zero_add]
  omega

/-- The second word of a two-word payload. -/
theorem u32_at_bytes_second (x y : Nat) (h : y < 2 ^ 32) :
    u32_at (u32_bytes x ++ u32_bytes y) 4 = y := by
  simp only [u32_at, u32_bytes, List.cons_append, List.nil_append, List.getD_cons_zero,
    List.getD_cons_succ]
  omega

/-! ## Theorems: administrative messages -/

/-- C9: the admin messages are honoured by the recovery master only.  A `BAN_NODE`
message leaves the daemon untouched when the payload is not eight bytes long or the
recmaster read fails or names another node, and likewise an `UNBAN_NODE` message
(payload of four bytes); when the recmaster read returns the local pnn,
`BAN_NODE{pnn, ban_time}` does what `ctdb_ban_node pnn ban_time` does and
`UNBAN_NODE{pnn}` what `ctdb_unban_node pnn` does. -/
theorem admin_messages_master_only (s : daemon) (now : timeval) (data : List Nat)
    (recmaster : Option Nat) (pnn ban_time : Nat) :
    ((data.length ≠ 8 ∨ recmaster ≠ some s.ctdb.pnn) → ban_handler s now data recmaster = s)
    ∧ ((data.length ≠ 4 ∨ recmaster ≠ some s.ctdb.pnn) → unban_handler s data recmaster = s)
    ∧ (pnn < 2 ^ 32 → ban_time < 2 ^ 32 →
        ban_handler s now (ctdb_ban_info pnn ban_time) (some s.ctdb.pnn)
          = ctdb_ban_node s now pnn ban_time)
    ∧ (pnn < 2 ^ 32 →
        unban_handler s (u32_bytes pnn) (some s.ctdb.pnn) = ctdb_unban_node s pnn) := by
  refine ⟨?_, ?_, ?_, ?_⟩
  · intro h
    unfold ban_handler
    by_cases hl : data.length = 8
    · have hr : recmaster ≠ some s.ctdb.pnn := h.resolve_left (fun hn => hn hl)
      cases recmaster with
      | none => simp
      | some rm =>
        have : rm ≠ s.ctdb.pnn := fun e => hr (by rw [e])
        simp [this]
    · simp [hl]
  · intro h
    unfold unban_handler
    by_cases hl : data.length = 4
    · have hr : recmaster ≠ some s.ctdb.pnn := h.resolve_left (fun hn => hn hl)
      cases recmaster with
      | none => simp
      | some rm =>
        have : rm ≠ s.ctdb.pnn := fun e => hr (by rw [e])
        simp [this]
    · simp [hl]
  · intro hp ht
    have h0 : u32_at (ctdb_ban_info pnn ban_time) 0 = pnn := u32_at_bytes pnn _ hp
    have h4 : u32_at (ctdb_ban_info pnn ban_time) 4 = ban_time := u32_at_bytes_second pnn _ ht
    have hl : (ctdb_ban_info pnn ban_time).length = 8 := by simp [ctdb_ban_info, u32_bytes]
    simp [ban_handler, hl, h0, h4]
  · intro hp
    have h0 : u32_at (u32_bytes pnn) 0 = pnn := by
      have := u32_at_bytes pnn [] hp
      simpa using this
    have hl : (u32_bytes pnn).length = 4 := by simp [u32_bytes]
    simp [unban_handler, hl, h0]

/-- C9 at a concrete input: `BAN_NODE{pnn 1, 5 s}` reaches node `0` of the three-node
cluster; with recmaster `2` nothing happens, with recmaster `0` node `1` is banned
and a timer is set for five seconds later. -/
theorem admin_messages_master_only_witness :
    ban_handler strict_daemon ⟨20, 0⟩ (ctdb_ban_info 1 5) (some 2) = strict_daemon
    ∧ ban_handler strict_daemon ⟨20, 0⟩ (ctdb_ban_info 1 5) (some 0) = daemon_with_ban
    ∧ daemon_with_ban.sent = [control.modflags 1 NODE_FLAGS_BANNED 0]
    ∧ daemon_with_ban.timers = [{ parent := 1, next_event := ⟨25, 0⟩, private_data := 1 }] :=
  ⟨(admin_messages_master_only strict_daemon ⟨20, 0⟩ (ctdb_ban_info 1 5) (some 2) 0 0).1
      (Or.inr (by decide)),
   (admin_messages_master_only strict_daemon ⟨20, 0⟩ [] none 1 5).2.2.1 (by decide) (by decide),
   by decide, by decide⟩

/-! ## Theorems: culprit tracking -/

/-- The daemon after `ctdb_set_culprit` when the tracking restarts. -/
theorem set_culprit_restart (s : daemon) (now : timeval) (culprit : Nat)
    (h : s.recd.last_culprit ≠ culprit ∨
        timeval_elapsed_usec now s.recd.first_recover_time
          > (s.ctdb.tunable.recovery_grace_period : Int) * 1000000) :
    ctdb_set_culprit s now culprit =
      { s with recd := { s.recd with last_culprit := culprit, first_recover_time := now,
                                     culprit_counter := 1 } } := by
  simp only [ctdb_set_culprit, if_pos h]
  rfl

/-- The daemon after `ctdb_set_culprit` when the tracking goes on. -/
theorem set_culprit_again (s : daemon) (now : timeval) (culprit : Nat)
    (h : ¬ (s.recd.last_culprit ≠ culprit ∨
        timeval_elapsed_usec now s.recd.first_recover_time
          > (s.ctdb.tunable.recovery_grace_period : Int) * 1000000)) :
    ctdb_set_culprit s now culprit =
      { s with recd := { s.recd with
          culprit_counter := (s.recd.culprit_counter + 1) % 2 ^ 32 } } := by
  simp only [ctdb_set_culprit, if_neg h]


/-- C8: `ctdb_set_culprit` restarts the tracking exactly when the culprit changes or
the grace period has elapsed: then the last culprit is the new one, the first
recovery time is now and the counter is `1`; otherwise last culprit and first
recovery time stay and the 32-bit counter goes up by one.  Nothing else of the
daemon changes. -/
theorem set_culprit_tracking (s : daemon) (now : timeval) (culprit : Nat) :
    ((s.recd.last_culprit ≠ culprit ∨
        timeval_elapsed_usec now s.recd.first_recover_time
          > (s.ctdb.tunable.recovery_grace_period : Int) * 1000000) →
      (ctdb_set_culprit s now culprit).recd.last_culprit = culprit
      ∧ (ctdb_set_culprit s now culprit).recd.first_recover_time = now
      ∧ (ctdb_set_culprit s now culprit).recd.culprit_counter = 1)
    ∧ (¬ (s.recd.last_culprit ≠ culprit ∨
        timeval_elapsed_usec now s.recd.first_recover_time
          > (s.ctdb.tunable.recovery_grace_period : Int) * 1000000) →
      (ctdb_set_culprit s now culprit).recd.last_culprit = s.recd.last_culprit
      ∧ (ctdb_set_culprit s now culprit).recd.first_recover_time = s.recd.first_recover_time
      ∧ (ctdb_set_culprit s now culprit).recd.culprit_counter
          = (s.recd.culprit_counter + 1) % 2 ^ 32
      ∧ (s.recd.culprit_counter + 1 < 2 ^ 32 →
          (ctdb_set_culprit s now culprit).recd.culprit_counter = s.recd.culprit_counter + 1))
    ∧ (ctdb_set_culprit s now culprit).ctdb = s.ctdb
    ∧ (ctdb_set_culprit s now culprit).recd.banned_nodes = s.recd.banned_nodes
    ∧ (ctdb_set_culprit s now culprit).recd.priority_time = s.recd.priority_time
    ∧ (ctdb_set_culprit s now culprit).recd.need_recovery = s.recd.need_recovery
    ∧ (ctdb_set_culprit s now culprit).recd.need_takeover_run = s.recd.need_takeover_run
    ∧ (ctdb_set_culprit s now culprit).recd.node_flags = s.recd.node_flags
    ∧ (ctdb_set_culprit s now culprit).heap = s.heap
    ∧ (ctdb_set_culprit s now culprit).timers = s.timers
    ∧ (ctdb_set_culprit s now culprit).sent = s.sent := by
  refine ⟨?_, ?_, ?_⟩
  · intro h
    rw [set_culprit_restart s now culprit h]
    exact ⟨rfl, rfl, rfl⟩
  · intro h
    rw [set_culprit_again s now culprit h]
    exact ⟨rfl, rfl, rfl, fun hlt => Nat.mod_eq_of_lt hlt⟩
  · by_cases h : (s.recd.last_culprit ≠ culprit ∨
        timeval_elapsed_usec now s.recd.first_recover_time
          > (s.ctdb.tunable.recovery_grace_period : Int) * 1000000)
    · rw [set_culprit_restart s now culprit h]
      exact ⟨rfl, rfl, rfl, rfl, rfl, rfl, rfl, rfl, rfl⟩
    · rw [set_culprit_again s now culprit h]
      exact ⟨rfl, rfl, rfl, rfl, rfl, rfl, rfl, rfl, rfl⟩

/-- What `ctdb_set_culprit` leaves alone. -/
theorem set_culprit_frame (s : daemon) (now : timeval) (culprit : Nat) :
    (ctdb_set_culprit s now culprit).ctdb = s.ctdb
    ∧ (ctdb_set_culprit s now culprit).recd.banned_nodes = s.recd.banned_nodes
    ∧ (ctdb_set_culprit s now culprit).heap = s.heap
    ∧ (ctdb_set_culprit s now culprit).next_addr = s.next_addr
    ∧ (ctdb_set_culprit s now culprit).timers = s.timers
    ∧ (ctdb_set_culprit s now culprit).sent = s.sent := by
  by_cases h : (s.recd.last_culprit ≠ culprit ∨
      timeval_elapsed_usec now s.recd.first_recover_time
        > (s.ctdb.tunable.recovery_grace_period : Int) * 1000000)
  · rw [set_culprit_restart s now culprit h]
    exact ⟨rfl, rfl, rfl, rfl, rfl, rfl⟩
  · rw [set_culprit_again s now culprit h]
    exact ⟨rfl, rfl, rfl, rfl, rfl, rfl⟩

/-- Marking the recovery as needed does not change what `ctdb_set_culprit` computes. -/
theorem set_culprit_need_recovery (s : daemon) (now : timeval) (culprit : Nat) :
    ctdb_set_culprit { s with recd := { s.recd with need_recovery := true } } now culprit
      = { ctdb_set_culprit s now culprit with
          recd := { (ctdb_set_culprit s now culprit).recd with need_recovery := true } } := by
  by_cases h : (s.recd.last_culprit ≠ culprit ∨
      timeval_elapsed_usec now s.recd.first_recover_time
        > (s.ctdb.tunable.recovery_grace_period : Int) * 1000000)
  · rw [set_culprit_restart { s with recd := { s.recd with need_recovery := true } } now culprit h,
      set_culprit_restart s now culprit h]
  · rw [set_culprit_again { s with recd := { s.recd with need_recovery := true } } now culprit h,
      set_culprit_again s now culprit h]

/-- The daemon `ctdb_ban_node` leaves when bans are enabled and the pnn is valid. -/
theorem ban_node_enabled_eq (s : daemon) (now : timeval) (pnn ban_time : Nat)
    (hv : pnn < s.ctdb.num_nodes) (hen : s.ctdb.tunable.enable_bans ≠ 0) :
    ctdb_ban_node s now pnn ban_time =
      { ctdb := s.ctdb,
        recd := { s.recd with
          priority_time := if pnn = s.ctdb.pnn then now else s.recd.priority_time,
          banned_nodes := s.recd.banned_nodes.set pnn (some s.next_addr) },
        heap := s.heap ++ [(s.next_addr, { banned_node := pnn })],
        next_addr := s.next_addr + 1,
        timers := s.timers ++
          (if ban_time ≠ 0 then
            [{ parent := s.next_addr, next_event := timeval_current_ofs now ban_time,
               private_data := s.next_addr }]
           else []),
        sent := s.sent ++ [control.modflags pnn NODE_FLAGS_BANNED 0] } := by
  have hval : ctdb_validate_pnn s.ctdb pnn = true := by simp [ctdb_validate_pnn, hv]
  unfold ctdb_ban_node
  simp only [hval, Bool.not_true, Bool.false_eq_true, if_false, if_neg hen, ctdb_ctrl_modflags]
  by_cases hself : pnn = s.ctdb.pnn <;> by_cases ht : ban_time = 0 <;> simp [hself, ht]

/-- The first steps of `do_recovery` below the threshold: the culprit update and the
mark, nothing else. -/
theorem recovery_culprit_quiet (s : daemon) (now : timeval) (nodemap : ctdb_node_map)
    (culprit : Nat)
    (h : ¬ (ctdb_set_culprit s now culprit).recd.culprit_counter > (2 * nodemap.num) % 2 ^ 32) :
    do_recovery_culprit s now nodemap culprit
      = { ctdb_set_culprit s now culprit with
          recd := { (ctdb_set_culprit s now culprit).recd with need_recovery := true } } := by
  unfold do_recovery_culprit
  simp only [set_culprit_need_recovery]
  rw [if_neg h]

/-- The first steps of `do_recovery` past the threshold: the culprit update, the mark
and the call of `ctdb_ban_node`. -/
theorem recovery_culprit_ban (s : daemon) (now : timeval) (nodemap : ctdb_node_map)
    (culprit : Nat)
    (h : (ctdb_set_culprit s now culprit).recd.culprit_counter > (2 * nodemap.num) % 2 ^ 32) :
    do_recovery_culprit s now nodemap culprit
      = ctdb_ban_node
          { ctdb_set_culprit s now culprit with
            recd := { (ctdb_set_culprit s now culprit).recd with need_recovery := true } }
          now culprit s.ctdb.tunable.recovery_ban_period := by
  unfold do_recovery_culprit
  simp only [set_culprit_need_recovery]
  rw [if_pos h, (set_culprit_frame s now culprit).1]

/-- Taking the recovery lock, or failing to, leaves requests, registry, allocations
and timers as the first steps of `do_recovery` left them. -/
theorem recovery_prologue_frame (s : daemon) (now : timeval) (pnn : Nat)
    (nodemap : ctdb_node_map) (culprit : Nat) (lock : Option Int) :
    (do_recovery_prologue s now pnn nodemap culprit lock).1.sent
        = (do_recovery_culprit s now nodemap culprit).sent
    ∧ (do_recovery_prologue s now pnn nodemap culprit lock).1.recd.banned_nodes
        = (do_recovery_culprit s now nodemap culprit).recd.banned_nodes
    ∧ (do_recovery_prologue s now pnn nodemap culprit lock).1.heap
        = (do_recovery_culprit s now nodemap culprit).heap
    ∧ (do_recovery_prologue s now pnn nodemap culprit lock).1.next_addr
        = (do_recovery_culprit s now nodemap culprit).next_addr
    ∧ (do_recovery_prologue s now pnn nodemap culprit lock).1.timers
        = (do_recovery_culprit s now nodemap culprit).timers := by
  cases lock with
  | none =>
    have hf := set_culprit_frame (do_recovery_culprit s now nodemap culprit) now pnn
    exact ⟨hf.2.2.2.2.2, hf.2.1, hf.2.2.1, hf.2.2.2.1, hf.2.2.2.2.1⟩
  | some fd => exact ⟨rfl, rfl, rfl, rfl, rfl⟩

/-- Past the threshold, with bans enabled and a valid culprit, the first steps of
`do_recovery` add exactly one ban to the daemon. -/
theorem recovery_culprit_ban_parts (s : daemon) (now : timeval) (nodemap : ctdb_node_map)
    (culprit : Nat)
    (h : (ctdb_set_culprit s now culprit).recd.culprit_counter > (2 * nodemap.num) % 2 ^ 32)
    (hen : s.ctdb.tunable.enable_bans ≠ 0) (hv : culprit < s.ctdb.num_nodes) :
    (do_recovery_culprit s now nodemap culprit).sent
        = s.sent ++ [control.modflags culprit NODE_FLAGS_BANNED 0]
    ∧ (do_recovery_culprit s now nodemap culprit).recd.banned_nodes
        = s.recd.banned_nodes.set culprit (some s.next_addr)
    ∧ (do_recovery_culprit s now nodemap culprit).heap
        = s.heap ++ [(s.next_addr, { banned_node := culprit })]
    ∧ (do_recovery_culprit s now nodemap culprit).next_addr = s.next_addr + 1
    ∧ (do_recovery_culprit s now nodemap culprit).timers
        = s.timers ++
          (if s.ctdb.tunable.recovery_ban_period ≠ 0 then
            [{ parent := s.next_addr,
               next_event := timeval_current_ofs now s.ctdb.tunable.recovery_ban_period,
               private_data := s.next_addr }]
           else []) := by
  obtain ⟨c1, c2, c3, c4, c5, c6⟩ := set_culprit_frame s now culprit
  rw [recovery_culprit_ban s now nodemap culprit h]
  rw [ban_node_enabled_eq _ now culprit _ (by simpa [c1] using hv) (by simpa [c1] using hen)]
  simp only [c1, c2, c3, c4, c5, c6]
  exact ⟨trivial, trivial, trivial, trivial, trivial⟩

/-- With bans enabled, a valid culprit and a registry of `num_nodes` slots, the
opening of `do_recovery` records a ban of the culprit when the counter after the
culprit update is past the threshold, and no ban at all otherwise. -/
theorem recovery_ban_cases (s : daemon) (now : timeval) (pnn : Nat) (nodemap : ctdb_node_map)
    (culprit : Nat) (lock : Option Int)
    (hen : s.ctdb.tunable.enable_bans ≠ 0) (hv : culprit < s.ctdb.num_nodes)
    (hreg : s.recd.banned_nodes.length = s.ctdb.num_nodes) :
    ((ctdb_set_culprit s now culprit).recd.culprit_counter > (2 * nodemap.num) % 2 ^ 32 →
      ban_recorded s (do_recovery_prologue s now pnn nodemap culprit lock).1 now culprit
        s.ctdb.tunable.recovery_ban_period)
    ∧ (¬ (ctdb_set_culprit s now culprit).recd.culprit_counter > (2 * nodemap.num) % 2 ^ 32 →
      ban_absent s (do_recovery_prologue s now pnn nodemap culprit lock).1) := by
  obtain ⟨f1, f2, f3, f4, f5⟩ := recovery_prologue_frame s now pnn nodemap culprit lock
  constructor
  · intro h
    obtain ⟨b1, b2, b3, b4, b5⟩ := recovery_culprit_ban_parts s now nodemap culprit h hen hv
    refine ⟨by rw [f1, b1], ?_, by rw [f3, b3], by rw [f5, b5]⟩
    unfold banned_entry
    rw [f2, b2]
    exact getD_set_some _ _ _ (by rw [hreg]; exact hv)
  · intro h
    obtain ⟨c1, c2, c3, c4, c5, c6⟩ := set_culprit_frame s now culprit
    have e := recovery_culprit_quiet s now nodemap culprit h
    refine ⟨by rw [f1, e]; exact c6, by rw [f2, e]; exact c2, by rw [f3, e]; exact c3,
      by rw [f4, e]; exact c4, by rw [f5, e]; exact c5⟩

/-- A recorded ban and the absence of a ban exclude each other. -/
theorem ban_recorded_not_absent (s r : daemon) (now : timeval) (pnn ban_time : Nat)
    (hr : ban_recorded s r now pnn ban_time) : ¬ ban_absent s r := by
  intro ha
  have h1 := hr.1
  rw [ha.1] at h1
  simp at h1

/-- The first recovery blaming a new culprit on a three-node map starts the tracking
at one, without a ban. -/
theorem tracking_first (s : daemon) (t1 : timeval) (pnn : Nat) (nodemap : ctdb_node_map)
    (culprit : Nat) (fd : Int) (hlast : s.recd.last_culprit ≠ culprit)
    (hn : nodemap.num = 3) :
    tracking s (do_recovery_prologue s t1 pnn nodemap culprit (some fd)).1 culprit t1 1 := by
  have e := set_culprit_restart s t1 culprit (Or.inl hlast)
  have hq : ¬ (ctdb_set_culprit s t1 culprit).recd.culprit_counter
      > (2 * nodemap.num) % 2 ^ 32 := by
    rw [e, hn]
    show ¬ (1 > (2 * 3) % 2 ^ 32)
    decide
  have hc := recovery_culprit_quiet s t1 nodemap culprit hq
  simp only [do_recovery_prologue, hc, e]
  exact ⟨rfl, rfl, rfl, rfl, rfl, rfl, rfl, rfl, rfl, rfl⟩

/-- A further recovery blaming the same culprit inside the grace window, below the
threshold of a three-node map, raises the counter by one, without a ban. -/
theorem tracking_step (s r : daemon) (now : timeval) (pnn : Nat) (nodemap : ctdb_node_map)
    (culprit : Nat) (fd : Int) (t1 : timeval) (k : Nat)
    (ht : tracking s r culprit t1 k) (hk : k < 6) (hn : nodemap.num = 3)
    (hw : ¬ timeval_elapsed_usec now t1
        > (s.ctdb.tunable.recovery_grace_period : Int) * 1000000) :
    tracking s (do_recovery_prologue r now pnn nodemap culprit (some fd)).1 culprit t1 (k + 1) := by
  obtain ⟨h1, h2, h3, h4, h5, a1, a2, a3, a4, a5⟩ := ht
  have hcond : ¬ (r.recd.last_culprit ≠ culprit ∨
      timeval_elapsed_usec now r.recd.first_recover_time
        > (r.ctdb.tunable.recovery_grace_period : Int) * 1000000) := by
    rw [h1, h2, h4]
    rintro (h | h)
    · exact h rfl
    · exact hw h
  have e := set_culprit_again r now culprit hcond
  have hmod : (k + 1) % 2 ^ 32 = k + 1 := Nat.mod_eq_of_lt (by omega)
  have hq : ¬ (ctdb_set_culprit r now culprit).recd.culprit_counter
      > (2 * nodemap.num) % 2 ^ 32 := by
    rw [e, hn]
    show ¬ ((r.recd.culprit_counter + 1) % 2 ^ 32 > (2 * 3) % 2 ^ 32)
    rw [h3, hmod]
    omega
  have hc := recovery_culprit_quiet r now nodemap culprit hq
  simp only [do_recovery_prologue, hc, e]
  exact ⟨h1, h2, by simp only [h3, hmod], h4, h5, a1, a2, a3, a4, a5⟩

/-- The seventh recovery blaming the same culprit inside the grace window on a
three-node map records a ban of the culprit. -/
theorem tracking_ban (s r : daemon) (now : timeval) (pnn : Nat) (nodemap : ctdb_node_map)
    (culprit : Nat) (fd : Int) (t1 : timeval)
    (ht : tracking s r culprit t1 6) (hn : nodemap.num = 3)
    (hw : ¬ timeval_elapsed_usec now t1
        > (s.ctdb.tunable.recovery_grace_period : Int) * 1000000)
    (hen : s.ctdb.tunable.enable_bans ≠ 0) (hv : culprit < s.ctdb.num_nodes)
    (hreg : s.recd.banned_nodes.length = s.ctdb.num_nodes) :
    ban_recorded r (do_recovery_prologue r now pnn nodemap culprit (some fd)).1 now culprit
      s.ctdb.tunable.recovery_ban_period := by
  obtain ⟨h1, h2, h3, h4, h5, a1, a2, a3, a4, a5⟩ := ht
  have hcond : ¬ (r.recd.last_culprit ≠ culprit ∨
      timeval_elapsed_usec now r.recd.first_recover_time
        > (r.ctdb.tunable.recovery_grace_period : Int) * 1000000) := by
    rw [h1, h2, h4]
    rintro (h | h)
    · exact h rfl
    · exact hw h
  have e := set_culprit_again r now culprit hcond
  have hgt : (ctdb_set_culprit r now culprit).recd.culprit_counter
      > (2 * nodemap.num) % 2 ^ 32 := by
    rw [e, hn]
    show (r.recd.culprit_counter + 1) % 2 ^ 32 > (2 * 3) % 2 ^ 32
    rw [h3]
    decide
  have := (recovery_ban_cases r now pnn nodemap culprit (some fd) (by rw [h4]; exact hen)
    (by rw [h5]; exact hv) (by rw [a2, h5]; exact hreg)).1 hgt
  rw [h4] at this
  exact this

/-! ## Theorems: the automatic ban -/

/-- The `(int)` cast keeps a value below `2^31`. -/
theorem int_of_u32_small (x : Nat) (h : x < 2 ^ 31) : int_of_u32 x = (x : Int) := by
  have h1 : x % 2 ^ 32 = x := Nat.mod_eq_of_lt (by omega)
  simp only [int_of_u32, h1, if_pos h]

/-- A difference of two values below `2^31` does not wrap. -/
theorem wrap_int_small (a b : Nat) (ha : a < 2 ^ 31) (hb : b < 2 ^ 31) :
    wrap_int ((a : Int) - (b : Int)) = (a : Int) - (b : Int) := by
  unfold wrap_int
  omega

/-- The comparison of two instants is positive exactly when the second is strictly
earlier, and zero exactly when they are equal. -/
theorem timeval_compare_sign (a b : timeval) :
    (timeval_compare a b > 0 ↔ timeval_earlier b a = true)
    ∧ (timeval_compare a b = 0 ↔ b = a) := by
  obtain ⟨as, au⟩ := a
  obtain ⟨bs, bu⟩ := b
  simp only [timeval_compare, timeval_earlier, timeval.mk.injEq, gt_iff_lt, Bool.or_eq_true,
    Bool.and_eq_true, decide_eq_true_eq]
  constructor
  · split_ifs <;> simp <;> omega
  · split_ifs <;> simp <;> omega

/-- Below `2^31` neither the casts nor the subtractions of `ctdb_election_win` wrap,
and its three comparisons are those of the reference. -/
theorem election_win_below (ctdb : ctdb_context) (rec : ctdb_recoverd)
    (reply : Option ctdb_node_map) (em : election_message)
    (hme : flag_test rec.node_flags NODE_FLAGS_BANNED = false)
    (hpeer : flag_test em.node_flags NODE_FLAGS_BANNED = false)
    (hn : (ctdb_election_data ctdb rec reply).num_connected < 2 ^ 31)
    (hn2 : em.num_connected < 2 ^ 31)
    (hp : ctdb.pnn < 2 ^ 31) (hp2 : em.pnn < 2 ^ 31) :
    ctdb_election_win ctdb rec reply em
      = beats_reference (ctdb_election_data ctdb rec reply) em := by
  have hpn : (ctdb_election_data ctdb rec reply).pnn = ctdb.pnn := by
    cases reply <;> rfl
  have hp1 : (ctdb_election_data ctdb rec reply).pnn < 2 ^ 31 := by rw [hpn]; exact hp
  simp only [ctdb_election_win, hme, hpeer, Bool.false_eq_true, if_false, if_true]
  generalize ctdb_election_data ctdb rec reply = me at *
  obtain ⟨ts, tc⟩ := timeval_compare_sign em.priority_time me.priority_time
  simp only [int_of_u32_small _ hn, int_of_u32_small _ hn2, int_of_u32_small _ hp1,
    int_of_u32_small _ hp2, wrap_int_small _ _ hn hn2, wrap_int_small _ _ hp1 hp2,
    beats_reference]
  rw [Bool.eq_iff_iff]
  simp only [decide_eq_true_eq, Bool.or_eq_true, Bool.and_eq_true]
  have hP : (me.pnn : Int) - (em.pnn : Int) > 0 ↔ me.pnn > em.pnn := by omega
  by_cases h1 : (me.num_connected : Int) - (em.num_connected : Int) = 0
  · have heq : me.num_connected = em.num_connected := by omega
    have hngt : ¬ me.num_connected > em.num_connected := by omega
    rw [if_pos h1]
    by_cases h2 : timeval_compare em.priority_time me.priority_time = 0
    · have hte : me.priority_time = em.priority_time := tc.mp h2
      have hnE : ¬ timeval_earlier me.priority_time em.priority_time = true := by
        intro hx
        have := ts.mpr hx
        omega
      rw [if_pos h2]
      tauto
    · have hte : ¬ me.priority_time = em.priority_time := fun e => h2 (tc.mpr e)
      rw [if_neg h2]
      tauto
  · have hne : ¬ me.num_connected = em.num_connected := by omega
    have hD : (me.num_connected : Int) - (em.num_connected : Int) > 0
        ↔ me.num_connected > em.num_connected := by omega
    rw [if_neg h1, if_neg h1]
    tauto

/-- X1: on election data whose `num_connected` and `pnn` are below `2^31` on both
sides, and with neither side banned, `ctdb_election_win` is the lexicographic
reference comparison. -/
theorem election_win_reference_below (ctdb : ctdb_context) (rec : ctdb_recoverd)
    (reply : Option ctdb_node_map) (em : election_message)
    (hme : flag_test rec.node_flags NODE_FLAGS_BANNED = false)
    (hpeer : flag_test em.node_flags NODE_FLAGS_BANNED = false)
    (hn : (ctdb_election_data ctdb rec reply).num_connected < 2 ^ 31)
    (hn2 : em.num_connected < 2 ^ 31)
    (hp : ctdb.pnn < 2 ^ 31) (hp2 : em.pnn < 2 ^ 31) :
    ctdb_election_win ctdb rec reply em
      = beats_reference (ctdb_election_data ctdb rec reply) em :=
  election_win_below ctdb rec reply em hme hpeer hn hn2 hp hp2

/-- X1 at a concrete input: node `0` of the three-node cluster against the message
of node `2`. -/
theorem election_win_reference_below_witness :
    ctdb_election_win node_a.ctdb node_a.recd node_a.reply node_c.message
      = beats_reference node_a.message node_c.message :=
  election_win_reference_below node_a.ctdb node_a.recd node_a.reply node_c.message
    (by decide) (by decide) (by decide) (by decide) (by decide) (by decide)

/-- The reference comparison is anti-symmetric and total on messages with distinct
pnn. -/
theorem beats_reference_antisymm (m1 m2 : election_message) (h : m1.pnn ≠ m2.pnn) :
    beats_reference m1 m2 = true ↔ beats_reference m2 m1 = false := by
  obtain ⟨n1, ⟨s1, u1⟩, p1, f1⟩ := m1
  obtain ⟨n2, ⟨s2, u2⟩, p2, f2⟩ := m2
  rw [← Bool.not_eq_true]
  simp only [beats_reference, timeval_earlier, timeval.mk.injEq, Bool.or_eq_true,
    Bool.and_eq_true, decide_eq_true_eq, gt_iff_lt]
  simp only [] at h
  omega

/-- Between messages with equal `num_connected` and equal `priority_time` the
reference comparison is the comparison of the pnn. -/
theorem beats_reference_tie (m1 m2 : election_message)
    (hn : m1.num_connected = m2.num_connected) (ht : m1.priority_time = m2.priority_time) :
    beats_reference m1 m2 = true ↔ m1.pnn > m2.pnn := by
  obtain ⟨n1, ⟨s1, u1⟩, p1, f1⟩ := m1
  obtain ⟨n2, ⟨s2, u2⟩, p2, f2⟩ := m2
  simp only [timeval.mk.injEq] at hn ht
  simp only [beats_reference, timeval_earlier, timeval.mk.injEq, Bool.or_eq_true,
    Bool.and_eq_true, decide_eq_true_eq, gt_iff_lt]
  omega

/-- C11, evaluated: node `1` is banned for five seconds and then banned again with
`ban_time = 0`.  The second ban schedules no timer and leaves an entry for node `1`,
but the timer of the first ban is still pending, and when it comes due the entry of
the second ban is removed and `BANNED` is cleared, without any unban message or
election. -/
theorem unlimited_ban_lifted_by_older_timer :
    double_ban.timers = [first_ban_timer]
    ∧ banned_entry double_ban.recd 1 = some 2
    ∧ double_ban.heap = [(1, { banned_node := 1 }), (2, { banned_node := 1 })]
    ∧ banned_entry (timer_expire double_ban first_ban_timer).recd 1 = none
    ∧ (timer_expire double_ban first_ban_timer).sent
        = [control.modflags 1 NODE_FLAGS_BANNED 0, control.modflags 1 NODE_FLAGS_BANNED 0,
           control.modflags 1 0 NODE_FLAGS_BANNED] := by
  decide

/-- After `ctdb_unban_node` of a valid pnn the registry has no entry for it. -/
theorem unban_node_clears (s : daemon) (pnn : Nat) (hv : pnn < s.ctdb.num_nodes) :
    banned_entry (ctdb_unban_node s pnn).recd pnn = none := by
  cases hp : banned_entry s.recd pnn with
  | none =>
    have hval : ctdb_validate_pnn s.ctdb pnn = true := by simp [ctdb_validate_pnn, hv]
    have e : ctdb_unban_node s pnn = s := by simp [ctdb_unban_node, hval, hp]
    rw [e, hp]
  | some p =>
    rw [unban_node_eq s pnn p hv hp]
    exact getD_set_none _ _

/-- An address that is not in use is found where it was just added. -/
theorem lookup_append_fresh (h : List (Nat × ban_state)) (p : Nat) (b : ban_state)
    (hfresh : ∀ e ∈ h, e.1 ≠ p) : (h ++ [(p, b)]).lookup p = some b := by
  induction h with
  | nil => simp [List.lookup]
  | cons e rest ih =>
    obtain ⟨a, x⟩ := e
    have hne : (p == a) = false := by
      have := hfresh (a, x) (List.mem_cons_self _ _)
      simpa using Ne.symm this
    simp only [List.cons_append, List.lookup, hne]
    exact ih (fun e he => hfresh e (List.mem_cons_of_mem _ he))

/-- X4: with bans enabled, a valid pnn, a registry of `num_nodes` slots and a fresh
next address, `ctdb_ban_node pnn seconds` sends one `modflags` request setting
`BANNED` to `pnn` and leaves a registry entry for `pnn`; for `seconds > 0` it adds
exactly one timer, due `seconds` seconds after now, whose expiry runs
`ctdb_unban_node pnn` and leaves no entry for `pnn`; for `seconds = 0` it adds no
timer. -/
theorem ban_node_timer (s : daemon) (now : timeval) (pnn seconds : Nat)
    (hen : s.ctdb.tunable.enable_bans ≠ 0) (hv : pnn < s.ctdb.num_nodes)
    (hreg : s.recd.banned_nodes.length = s.ctdb.num_nodes)
    (hfresh : ∀ e ∈ s.heap, e.1 ≠ s.next_addr) :
    (ctdb_ban_node s now pnn seconds).sent
        = s.sent ++ [control.modflags pnn NODE_FLAGS_BANNED 0]
    ∧ banned_entry (ctdb_ban_node s now pnn seconds).recd pnn = some s.next_addr
    ∧ (seconds = 0 → (ctdb_ban_node s now pnn seconds).timers = s.timers)
    ∧ (seconds ≠ 0 →
        (ctdb_ban_node s now pnn seconds).timers
          = s.timers ++ [{ parent := s.next_addr,
                           next_event := { now with tv_sec := now.tv_sec + seconds },
                           private_data := s.next_addr }]
        ∧ timer_expire (ctdb_ban_node s now pnn seconds)
            { parent := s.next_addr, next_event := { now with tv_sec := now.tv_sec + seconds },
              private_data := s.next_addr }
          = ctdb_unban_node
              { ctdb_ban_node s now pnn seconds with
                timers := (ctdb_ban_node s now pnn seconds).timers.erase
                  { parent := s.next_addr,
                    next_event := { now with tv_sec := now.tv_sec + seconds },
                    private_data := s.next_addr } } pnn
        ∧ banned_entry (timer_expire (ctdb_ban_node s now pnn seconds)
            { parent := s.next_addr, next_event := { now with tv_sec := now.tv_sec + seconds },
              private_data := s.next_addr }).recd pnn = none) := by
  have e := ban_node_enabled_eq s now pnn seconds hv hen
  refine ⟨by rw [e], ?_, ?_, ?_⟩
  · rw [e]
    exact getD_set_some _ _ _ (by rw [hreg]; exact hv)
  · intro h0
    rw [e]
    simp [h0]
  · intro hne
    have ht : (ctdb_ban_node s now pnn seconds).timers
        = s.timers ++ [{ parent := s.next_addr,
                         next_event := { now with tv_sec := now.tv_sec + seconds },
                         private_data := s.next_addr }] := by
      rw [e]
      simp [hne, timeval_current_ofs]
    have hexp : timer_expire (ctdb_ban_node s now pnn seconds)
            { parent := s.next_addr, next_event := { now with tv_sec := now.tv_sec + seconds },
              private_data := s.next_addr }
          = ctdb_unban_node
              { ctdb_ban_node s now pnn seconds with
                timers := (ctdb_ban_node s now pnn seconds).timers.erase
                  { parent := s.next_addr,
                    next_event := { now with tv_sec := now.tv_sec + seconds },
                    private_data := s.next_addr } } pnn := by
      have hmem : ({ parent := s.next_addr,
                     next_event := { now with tv_sec := now.tv_sec + seconds },
                     private_data := s.next_addr } : timed_event)
          ∈ (ctdb_ban_node s now pnn seconds).timers := by
        rw [ht]; simp
      have hheap : (ctdb_ban_node s now pnn seconds).heap.lookup s.next_addr
          = some { banned_node := pnn } := by
        rw [e]
        exact lookup_append_fresh _ _ _ hfresh
      simp only [timer_expire, if_pos hmem, ctdb_ban_timeout, hheap]
    refine ⟨ht, hexp, ?_⟩
    rw [hexp]
    apply unban_node_clears
    rw [e]
    exact hv

/-- X4 at a concrete input: node `1` of the three-node cluster banned for five
seconds at second `20`; the timer is due at second `25`. -/
theorem ban_node_timer_witness :
    (ctdb_ban_node strict_daemon ⟨20, 0⟩ 1 5).timers
      = strict_daemon.timers ++ [{ parent := strict_daemon.next_addr,
                                   next_event := ⟨20 + 5, 0⟩,
                                   private_data := strict_daemon.next_addr }] :=
  ((ban_node_timer strict_daemon ⟨20, 0⟩ 1 5 (by decide) (by decide) (by decide)
    (by decide)).2.2.2 (by decide)).1

/-! ## Theorems: loops with early return -/

/-- A property that every step of the loop keeps holds after the loop. -/
theorem each_until_inv {σ α : Type} (f : σ → α → σ × Bool) (P : σ → Prop) (l : List α)
    (hstep : ∀ s, ∀ a ∈ l, P s → P (f s a).1) (s : σ) (h : P s) :
    P (each_until f s l).1 := by
  induction l generalizing s with
  | nil => exact h
  | cons a rest ih =>
    simp only [each_until]
    split
    · exact ih (fun s b hb => hstep s b (List.mem_cons_of_mem _ hb)) _
        (hstep s a (List.mem_cons_self _ _) h)
    · exact hstep s a (List.mem_cons_self _ _) h

/-- A loop that got through got through its first step, and went on from there. -/
theorem each_until_cons_ok {σ α : Type} (f : σ → α → σ × Bool) (s : σ) (a : α) (l : List α)
    (h : (each_until f s (a :: l)).2 = true) :
    (f s a).2 = true ∧ each_until f s (a :: l) = each_until f (f s a).1 l := by
  simp only [each_until] at h ⊢
  by_cases hs : (f s a).2 = true
  · simp only [hs, if_true] at h ⊢
    exact ⟨trivial, trivial⟩
  · simp only [hs] at h
    exact absurd h (by simp)

/-- After a loop that got through, what a step establishes for its own element and
every later step keeps holds for every element. -/
theorem each_until_establish {σ α : Type} (f : σ → α → σ × Bool) (Q : α → σ → Prop)
    (l : List α)
    (hest : ∀ s, ∀ a ∈ l, (f s a).2 = true → Q a (f s a).1)
    (hkeep : ∀ s, ∀ a ∈ l, ∀ b ∈ l, Q b s → Q b (f s a).1)
    (s : σ) (h : (each_until f s l).2 = true) :
    ∀ a ∈ l, Q a (each_until f s l).1 := by
  induction l generalizing s with
  | nil => intro a ha; exact absurd ha (List.not_mem_nil _)
  | cons x rest ih =>
    obtain ⟨hx, heq⟩ := each_until_cons_ok f s x rest h
    rw [heq] at h ⊢
    intro a ha
    rcases List.mem_cons.mp ha with rfl | hmem
    · exact each_until_inv f (Q a) rest
        (fun s b hb hq => hkeep s b (List.mem_cons_of_mem _ hb) a (List.mem_cons_self _ _) hq)
        _ (hest s a (List.mem_cons_self _ _) hx)
    · exact ih (fun s b hb => hest s b (List.mem_cons_of_mem _ hb))
        (fun s b hb d hd => hkeep s b (List.mem_cons_of_mem _ hb) d (List.mem_cons_of_mem _ hd))
        _ h a hmem

/-- A loop that got through got through every prefix of its list. -/
theorem each_until_take_ok {σ α : Type} (f : σ → α → σ × Bool) (l : List α) (k : Nat)
    (s : σ) (h : (each_until f s l).2 = true) : (each_until f s (l.take k)).2 = true := by
  induction l generalizing s k with
  | nil => simpa using h
  | cons a rest ih =>
    cases k with
    | zero => rfl
    | succ k =>
      obtain ⟨ha, heq⟩ := each_until_cons_ok f s a rest h
      rw [heq] at h
      simp only [List.take_succ_cons, each_until, ha, if_true]
      exact ih k _ h

/-- The loop over one more element: when the prefix got through, the next step runs
on the state the prefix left. -/
theorem each_until_take_succ {σ α : Type} (f : σ → α → σ × Bool) (l : List α) (k : Nat)
    (a : α) (s : σ) (ha : l[k]? = some a) (h : (each_until f s (l.take k)).2 = true) :
    each_until f s (l.take (k + 1)) = f (each_until f s (l.take k)).1 a := by
  induction l generalizing s k with
  | nil => simp at ha
  | cons x rest ih =>
    cases k with
    | zero =>
      simp only [List.getElem?_cons_zero, Option.some.injEq] at ha
      subst ha
      simp only [List.take_succ_cons, List.take_zero, each_until]
      split
      · next hx => exact Prod.ext rfl hx.symm
      · next hx =>
        have hf : (f s x).2 = false := by simpa using hx
        exact Prod.ext rfl hf.symm
    | succ k =>
      simp only [List.getElem?_cons_succ] at ha
      simp only [List.take_succ_cons, each_until] at h ⊢
      by_cases hx : (f s x).2 = true
      · simp only [hx, if_true] at h ⊢
        exact ih k _ ha h
      · simp only [hx] at h
        exact absurd h (by simp)

/-! ## Theorems: what requests do to the cluster -/

/-- A request is logged with its status. -/
theorem ctrl_log (c : cluster) (r : request) :
    (ctrl c r).1.log = c.log ++ [(r, (ctrl c r).2)] := by
  unfold ctrl
  split <;> rfl

/-- The effect of a request leaves the failure schedule, the sequence numbers and
the log alone. -/
theorem effect_static (c : cluster) (r : request) :
    (request.effect c r).fails = c.fails ∧ (request.effect c r).max_rsn = c.max_rsn
    ∧ (request.effect c r).log = c.log := by
  cases r with
  | createdb d nm p => cases nm <;> exact ⟨rfl, rfl, rfl⟩
  | _ => exact ⟨rfl, rfl, rfl⟩

/-- A request leaves the failure schedule and the sequence numbers alone. -/
theorem ctrl_fails (c : cluster) (r : request) :
    (ctrl c r).1.fails = c.fails ∧ (ctrl c r).1.max_rsn = c.max_rsn := by
  unfold ctrl
  split
  · exact ⟨rfl, rfl⟩
  · exact ⟨(effect_static c r).1, (effect_static c r).2.1⟩

/-- A request that succeeded reached its nodes, did not fail, and took effect. -/
theorem ctrl_ok (c : cluster) (r : request) (h : (ctrl c r).2 = true) :
    c.fails c.log.length r = false
    ∧ (∀ p ∈ request.nodes r, (c.peers p).isSome = true)
    ∧ (ctrl c r).1.peers = (request.effect c r).peers := by
  unfold ctrl at h ⊢
  split at h
  · exact absurd h (by simp)
  · next hc =>
    simp only [Bool.or_eq_true, Bool.not_eq_true', not_or, Bool.not_eq_true,
      Bool.not_eq_false] at hc
    refine ⟨hc.1, ?_, ?_⟩
    · intro p hp
      exact (List.all_eq_true.mp hc.2) p hp
    · rw [if_neg (by simp [hc.1, hc.2])]

/-- A request that failed changed no node. -/
theorem ctrl_failed (c : cluster) (r : request) (h : (ctrl c r).2 = false) :
    (ctrl c r).1.peers = c.peers := by
  unfold ctrl at h ⊢
  split
  · rfl
  · next hc => simp [hc] at h

/-- A request that does not fail by schedule and whose nodes exist succeeds. -/
theorem ctrl_succeeds (c : cluster) (r : request) (hf : c.fails c.log.length r = false)
    (hn : ∀ p ∈ request.nodes r, (c.peers p).isSome = true) : (ctrl c r).2 = true := by
  unfold ctrl
  have : (request.nodes r).all (fun p => (c.peers p).isSome) = true :=
    List.all_eq_true.mpr hn
  simp [hf, this]

/-- No request makes a node appear or disappear. -/
theorem effect_isSome (c : cluster) (r : request) (q : Nat) :
    ((request.effect c r).peers q).isSome = (c.peers q).isSome := by
  cases r with
  | createdb d nm p =>
    cases nm with
    | none => rfl
    | some name =>
      simp only [request.effect, cluster.update]
      split <;> simp
  | freeze d => simp only [request.effect, cluster.update]; split <;> simp
  | thaw d => simp only [request.effect, cluster.update]; split <;> simp
  | setrecmode d m => simp only [request.effect, cluster.update]; split <;> simp
  | setrecmaster d m => simp only [request.effect, cluster.update]; split <;> simp
  | setvnnmap d vm => simp only [request.effect, cluster.update]; split <;> simp
  | _ => rfl

/-- Reaching is transitive. -/
theorem reach_trans (Q : request → Prop) (c0 c1 c2 : cluster) (h1 : reach Q c0 c1)
    (h2 : reach Q c1 c2) : reach Q c0 c2 := by
  induction h2 with
  | start => exact h1
  | step r _ hq ih => exact reach.step r ih hq
  | msg dst m _ hq ih => exact reach.msg dst m ih hq

/-- Reaching with requests of one kind is reaching with requests of a wider kind. -/
theorem reach_mono (Q Q2 : request → Prop) (c0 c : cluster) (hQ : ∀ r, Q r → Q2 r)
    (h : reach Q c0 c) : reach Q2 c0 c := by
  induction h with
  | start => exact reach.start
  | step r _ hq ih => exact reach.step r ih (hQ r hq)
  | msg dst m _ hq ih => exact reach.msg dst m ih (hQ _ hq)

/-- The log after requests that all satisfy `Q`: the old log and new entries that
satisfy `Q`. -/
theorem reach_log (Q : request → Prop) (c0 c : cluster) (h : reach Q c0 c) :
    ∃ new, c.log = c0.log ++ new ∧ ∀ e ∈ new, Q e.1 := by
  induction h with
  | start => exact ⟨[], by simp, by simp⟩
  | @step c1 r _ hq ih =>
    obtain ⟨new, hl, hn⟩ := ih
    refine ⟨new ++ [(r, (ctrl c1 r).2)], ?_, ?_⟩
    · rw [ctrl_log, hl, List.append_assoc]
    · intro e he
      rcases List.mem_append.mp he with h1 | h1
      · exact hn e h1
      · simp only [List.mem_singleton] at h1
        rw [h1]; exact hq
  | msg dst m _ hq ih =>
    obtain ⟨new, hl, hn⟩ := ih
    refine ⟨new ++ [(request.message dst m, true)], ?_, ?_⟩
    · simp only [ctdb_send_message, hl, List.append_assoc]
    · intro e he
      rcases List.mem_append.mp he with h1 | h1
      · exact hn e h1
      · simp only [List.mem_singleton] at h1
        rw [h1]; exact hq

/-- No request changes which requests fail, the sequence numbers, or which nodes
exist. -/
theorem reach_static (Q : request → Prop) (c0 c : cluster) (h : reach Q c0 c) :
    c.fails = c0.fails ∧ c.max_rsn = c0.max_rsn
    ∧ ∀ q, (c.peers q).isSome = (c0.peers q).isSome := by
  induction h with
  | start => exact ⟨rfl, rfl, fun _ => rfl⟩
  | @step c1 r _ _ ih =>
    obtain ⟨h1, h2, h3⟩ := ih
    refine ⟨by rw [(ctrl_fails c1 r).1, h1], by rw [(ctrl_fails c1 r).2, h2], fun q => ?_⟩
    cases hok : (ctrl c1 r).2
    · rw [ctrl_failed c1 r hok]; exact h3 q
    · rw [(ctrl_ok c1 r hok).2.2, effect_isSome]; exact h3 q
  | msg dst m _ _ ih => exact ih

/-- A field of the main daemons that no request satisfying `Q` writes is the same
after requests that all satisfy `Q`. -/
theorem reach_frame {β : Type} (g : peer → β) (Q : request → Prop) (c0 c : cluster)
    (hQ : ∀ r, Q r → ∀ (c1 : cluster) (q : Nat),
      ((request.effect c1 r).peers q).map g = (c1.peers q).map g)
    (h : reach Q c0 c) : ∀ q, (c.peers q).map g = (c0.peers q).map g := by
  induction h with
  | start => exact fun _ => rfl
  | @step c1 r _ hq ih =>
    intro q
    cases hok : (ctrl c1 r).2
    · rw [ctrl_failed c1 r hok]; exact ih q
    · rw [(ctrl_ok c1 r hok).2.2, hQ r hq]; exact ih q
  | msg dst m _ _ ih => exact ih

/-! ## Theorems: the requests each stage issues -/

/-- A property that every step of a fold keeps holds after the fold. -/
theorem foldl_inv {σ α : Type} (f : σ → α → σ) (P : σ → Prop) (l : List α)
    (hstep : ∀ s, ∀ a ∈ l, P s → P (f s a)) (s : σ) (h : P s) : P (l.foldl f s) := by
  induction l generalizing s with
  | nil => exact h
  | cons a rest ih =>
    exact ih (fun s b hb => hstep s b (List.mem_cons_of_mem _ hb)) _
      (hstep s a (List.mem_cons_self _ _) h)

/-- `freeze_all_nodes` issues freeze requests only. -/
theorem freeze_all_nodes_reach (Q : request → Prop) (c0 c : cluster)
    (nodemap : ctdb_node_map) (hQ : ∀ d, Q (request.freeze d)) (h : reach Q c0 c) :
    reach Q c0 (freeze_all_nodes c nodemap).1 := by
  unfold freeze_all_nodes
  refine foldl_inv _ (fun acc : cluster × monitor_result => reach Q c0 acc.1) _ ?_ _ h
  intro s a _ hs
  split
  · exact hs
  · exact reach.step _ hs (hQ _)

/-- The loop of `set_recovery_mode` issues `setrecmode` and `thaw` requests only. -/
theorem set_recovery_mode_loop_reach (Q : request → Prop) (c0 c : cluster)
    (nodemap : ctdb_node_map) (mode : Nat) (hQ1 : ∀ d, Q (request.setrecmode d mode))
    (hQ2 : ∀ d, Q (request.thaw d)) (h : reach Q c0 c) :
    reach Q c0 (set_recovery_mode_loop c nodemap mode).1 := by
  unfold set_recovery_mode_loop
  refine each_until_inv _ (reach Q c0) _ ?_ _ h
  intro s a _ hs
  split
  · exact hs
  · split
    · exact reach.step _ hs (hQ1 _)
    · split
      · exact reach.step _ (reach.step _ hs (hQ1 _)) (hQ2 _)
      · exact reach.step _ hs (hQ1 _)

/-- `set_recovery_mode` issues `freeze`, `setrecmode` and `thaw` requests only. -/
theorem set_recovery_mode_reach (Q : request → Prop) (c0 c : cluster)
    (nodemap : ctdb_node_map) (mode : Nat) (hQ0 : ∀ d, Q (request.freeze d))
    (hQ1 : ∀ d, Q (request.setrecmode d mode))
    (hQ2 : ∀ d, Q (request.thaw d)) (h : reach Q c0 c) :
    reach Q c0 (set_recovery_mode c nodemap mode).1 := by
  unfold set_recovery_mode
  split
  · split
    · exact freeze_all_nodes_reach Q c0 c nodemap hQ0 h
    · exact set_recovery_mode_loop_reach Q c0 _ nodemap mode hQ1 hQ2
        (freeze_all_nodes_reach Q c0 c nodemap hQ0 h)
  · exact set_recovery_mode_loop_reach Q c0 c nodemap mode hQ1 hQ2 h

/-- `set_recovery_master` issues `setrecmaster` requests for `pnn` only. -/
theorem set_recovery_master_reach (Q : request → Prop) (c0 c : cluster)
    (nodemap : ctdb_node_map) (pnn : Nat) (hQ : ∀ d, Q (request.setrecmaster d pnn))
    (h : reach Q c0 c) : reach Q c0 (set_recovery_master c nodemap pnn).1 := by
  unfold set_recovery_master
  refine each_until_inv _ (reach Q c0) _ ?_ _ h
  intro s a _ hs
  split
  · exact hs
  · exact reach.step _ hs (hQ _)

/-- `create_missing_remote_databases` issues `getdbmap` and `getdbname` requests, and
`createdb` requests to nodes other than `pnn` for databases of the local map (or
with a name never filled in). -/
theorem create_missing_remote_databases_reach (Q : request → Prop) (c0 c : cluster)
    (nodemap : ctdb_node_map) (pnn : Nat) (dbmap : List ctdb_dbid)
    (hQ1 : ∀ d, Q (request.getdbmap d)) (hQ2 : ∀ d id, Q (request.getdbname d id))
    (hQ3 : ∀ d nm p, d ≠ pnn → (∀ id, nm = some id → ∃ db ∈ dbmap, db.dbid = id) →
      Q (request.createdb d nm p))
    (h : reach Q c0 c) :
    reach Q c0 (create_missing_remote_databases c nodemap pnn dbmap).1 := by
  unfold create_missing_remote_databases
  refine each_until_inv _ (reach Q c0) _ ?_ _ h
  intro s a _ hs
  split
  · exact hs
  · next hne =>
    split
    · exact hs
    · split
      · exact reach.step _ hs (hQ1 _)
      · refine foldl_inv _ (reach Q c0) _ ?_ _ (reach.step _ hs (hQ1 _))
        intro s2 db hdb hs2
        unfold create_remote_database
        split
        · exact hs2
        · refine reach.step _ (reach.step _ hs2 (hQ2 _ _)) (hQ3 _ _ _ hne ?_)
          intro id hid
          split at hid
          · simp only [Option.some.injEq] at hid
            exact ⟨db, hdb, hid⟩
          · exact absurd hid (by simp)

/-- `create_missing_local_databases` issues `getdbmap` and `getdbname` requests, and
`createdb` requests to `pnn`. -/
theorem create_missing_local_databases_reach (Q : request → Prop) (c0 : cluster)
    (s : cluster × List ctdb_dbid) (nodemap : ctdb_node_map) (pnn : Nat)
    (hQ1 : ∀ d, Q (request.getdbmap d)) (hQ2 : ∀ d id, Q (request.getdbname d id))
    (hQ3 : ∀ nm p, Q (request.createdb pnn nm p))
    (h : reach Q c0 s.1) :
    reach Q c0 (create_missing_local_databases s nodemap pnn).1.1 := by
  unfold create_missing_local_databases
  refine each_until_inv _ (fun s : cluster × List ctdb_dbid => reach Q c0 s.1) _ ?_ _ h
  intro s1 a _ hs
  split
  · exact hs
  · split
    · exact hs
    · split
      · exact reach.step _ hs (hQ1 _)
      · refine each_until_inv _ (fun s : cluster × List ctdb_dbid => reach Q c0 s.1) _ ?_ _
          (reach.step _ hs (hQ1 _))
        intro s2 db _ hs2
        unfold create_local_database
        split
        · exact hs2
        · simp only []
          split <;> split <;>
            exact reach.step _ (reach.step _ (reach.step _ hs2 (hQ2 _ _)) (hQ3 _ _)) (hQ1 _)

/-- `pull_all_remote_databases` issues `copydb` requests only. -/
theorem pull_all_remote_databases_reach (Q : request → Prop) (c0 c : cluster)
    (nodemap : ctdb_node_map) (pnn : Nat) (dbmap : List ctdb_dbid)
    (hQ : ∀ a b id, Q (request.copydb a b id)) (h : reach Q c0 c) :
    reach Q c0 (pull_all_remote_databases c nodemap pnn dbmap).1 := by
  unfold pull_all_remote_databases
  refine each_until_inv _ (reach Q c0) _ ?_ _ h
  intro s db _ hs
  refine each_until_inv _ (reach Q c0) _ ?_ _ hs
  intro s2 n _ hs2
  split
  · exact hs2
  · split
    · exact hs2
    · exact reach.step _ hs2 (hQ _ _ _)

/-- `push_all_local_databases` issues `copydb` requests only. -/
theorem push_all_local_databases_reach (Q : request → Prop) (c0 c : cluster)
    (nodemap : ctdb_node_map) (pnn : Nat) (dbmap : List ctdb_dbid)
    (hQ : ∀ a b id, Q (request.copydb a b id)) (h : reach Q c0 c) :
    reach Q c0 (push_all_local_databases c nodemap pnn dbmap).1 := by
  unfold push_all_local_databases
  refine each_until_inv _ (reach Q c0) _ ?_ _ h
  intro s db _ hs
  refine each_until_inv _ (reach Q c0) _ ?_ _ hs
  intro s2 n _ hs2
  split
  · exact hs2
  · split
    · exact hs2
    · exact reach.step _ hs2 (hQ _ _ _)

/-- `update_vnnmap_on_all_nodes` issues `setvnnmap` requests with the given map only. -/
theorem update_vnnmap_on_all_nodes_reach (Q : request → Prop) (c0 c : cluster)
    (nodemap : ctdb_node_map) (vnnmap : ctdb_vnn_map)
    (hQ : ∀ d, Q (request.setvnnmap d vnnmap)) (h : reach Q c0 c) :
    reach Q c0 (update_vnnmap_on_all_nodes c nodemap vnnmap).1 := by
  unfold update_vnnmap_on_all_nodes
  refine each_until_inv _ (reach Q c0) _ ?_ _ h
  intro s a _ hs
  split
  · exact hs
  · exact reach.step _ hs (hQ _)

/-- `update_dmaster_on_all_databases` issues `setdmaster` requests only. -/
theorem update_dmaster_on_all_databases_reach (Q : request → Prop) (c0 c : cluster)
    (nodemap : ctdb_node_map) (pnn : Nat) (dbmap : List ctdb_dbid)
    (hQ : ∀ d id p, Q (request.setdmaster d id p)) (h : reach Q c0 c) :
    reach Q c0 (update_dmaster_on_all_databases c nodemap pnn dbmap).1 := by
  unfold update_dmaster_on_all_databases
  refine each_until_inv _ (reach Q c0) _ ?_ _ h
  intro s db _ hs
  refine each_until_inv _ (reach Q c0) _ ?_ _ hs
  intro s2 n _ hs2
  split
  · exact hs2
  · exact reach.step _ hs2 (hQ _ _ _)

/-- `update_flags_on_all_nodes` sends broadcasts only. -/
theorem update_flags_on_all_nodes_reach (Q : request → Prop) (c0 c : cluster)
    (nodemap : ctdb_node_map) (hQ : ∀ dst m, Q (request.message dst m)) (h : reach Q c0 c) :
    reach Q c0 (update_flags_on_all_nodes c nodemap).1 := by
  unfold update_flags_on_all_nodes
  refine foldl_inv _ (reach Q c0) _ ?_ _ h
  intro s a _ hs
  exact reach.msg _ _ hs (hQ _ _)

/-- `vacuum_db` issues `get_max_rsn`, `set_rsn_nonempty` and `delete_low_rsn` requests
only. -/
theorem vacuum_db_reach (Q : request → Prop) (c0 c : cluster) (self db_id : Nat)
    (nodemap : ctdb_node_map) (hQ1 : ∀ d id, Q (request.get_max_rsn d id))
    (hQ2 : ∀ d id r, Q (request.set_rsn_nonempty d id r))
    (hQ3 : ∀ d id r, Q (request.delete_low_rsn d id r)) (h : reach Q c0 c) :
    reach Q c0 (vacuum_db c self db_id nodemap).1 := by
  unfold vacuum_db
  have h1 : reach Q c0 (ctrl c (request.get_max_rsn self db_id)).1 := reach.step _ h (hQ1 _ _)
  split
  · exact h1
  · simp only []
    have h2 : reach Q c0 (each_until (fun c1 n =>
        if flag_test n.flags NODE_FLAGS_INACTIVE then (c1, true)
        else ctrl c1 (request.set_rsn_nonempty n.pnn db_id ((c.max_rsn db_id + 1) % 2 ^ 64)))
        (ctrl c (request.get_max_rsn self db_id)).1 nodemap.nodes).1 := by
      refine each_until_inv _ (reach Q c0) _ ?_ _ h1
      intro s a _ hs
      split
      · exact hs
      · exact reach.step _ hs (hQ2 _ _ _)
    split
    · exact h2
    · refine each_until_inv _ (reach Q c0) _ ?_ _ h2
      intro s a _ hs
      split
      · exact hs
      · exact reach.step _ hs (hQ3 _ _ _)

/-- `vacuum_all_databases` issues `get_max_rsn`, `set_rsn_nonempty` and
`delete_low_rsn` requests only. -/
theorem vacuum_all_databases_reach (Q : request → Prop) (c0 c : cluster) (self : Nat)
    (nodemap : ctdb_node_map) (dbmap : List ctdb_dbid)
    (hQ1 : ∀ d id, Q (request.get_max_rsn d id))
    (hQ2 : ∀ d id r, Q (request.set_rsn_nonempty d id r))
    (hQ3 : ∀ d id r, Q (request.delete_low_rsn d id r)) (h : reach Q c0 c) :
    reach Q c0 (vacuum_all_databases c self nodemap dbmap).1 := by
  unfold vacuum_all_databases
  refine each_until_inv _ (reach Q c0) _ ?_ _ h
  intro s db _ hs
  exact vacuum_db_reach Q c0 s self db.dbid nodemap hQ1 hQ2 hQ3 hs

/-! ## Theorems: the requests of the stages of `do_recovery` -/

/-- Stages that each issue only requests satisfying `Q` issue, run in order, only
requests satisfying `Q`. -/
theorem run_stages_reach (Q : request → Prop)
    (stages : List (recovery_vars → recovery_vars × Bool))
    (h : ∀ stage ∈ stages, ∀ st : recovery_vars, reach Q st.c (stage st).1.c)
    (st : recovery_vars) : reach Q st.c (run_stages st stages).1.c := by
  unfold run_stages
  refine each_until_inv _ (fun s : recovery_vars => reach Q st.c s.c) _ ?_ _ reach.start
  intro s stage hmem hs
  exact reach_trans Q _ _ _ hs (h stage hmem s)

/-- The requests of `stage_freeze`. -/
theorem stage_freeze_reach (Q : request → Prop) (nodemap : ctdb_node_map)
    (st : recovery_vars) (hQ0 : ∀ d, Q (request.freeze d))
    (hQ1 : ∀ d, Q (request.setrecmode d CTDB_RECOVERY_ACTIVE))
    (hQ2 : ∀ d, Q (request.thaw d)) :
    reach Q st.c (stage_freeze nodemap st).1.c :=
  set_recovery_mode_reach Q st.c st.c nodemap _ hQ0 hQ1 hQ2 reach.start

/-- The requests of `stage_thaw`. -/
theorem stage_thaw_reach (Q : request → Prop) (nodemap : ctdb_node_map)
    (st : recovery_vars) (hQ0 : ∀ d, Q (request.freeze d))
    (hQ1 : ∀ d, Q (request.setrecmode d CTDB_RECOVERY_NORMAL))
    (hQ2 : ∀ d, Q (request.thaw d)) :
    reach Q st.c (stage_thaw nodemap st).1.c :=
  set_recovery_mode_reach Q st.c st.c nodemap _ hQ0 hQ1 hQ2 reach.start

/-- The requests of `stage_generation`: one `setvnnmap` to `pnn` with the generation
that `new_generation` returned. -/
theorem stage_generation_reach (Q : request → Prop) (pnn : Nat) (st : recovery_vars)
    (hQ : ∀ g rest, new_generation st.random = some (g, rest) →
      Q (request.setvnnmap pnn { st.vnnmap with generation := g })) :
    reach Q st.c (stage_generation pnn st).1.c := by
  unfold stage_generation
  split
  · exact reach.start
  · next g rest hg => exact reach.step _ reach.start (hQ g rest hg)

/-- The requests of `stage_dbmap`. -/
theorem stage_dbmap_reach (Q : request → Prop) (pnn : Nat) (st : recovery_vars)
    (hQ : ∀ d, Q (request.getdbmap d)) : reach Q st.c (stage_dbmap pnn st).1.c := by
  unfold stage_dbmap
  split <;> exact reach.step _ reach.start (hQ _)

/-- The requests of `stage_remote_dbs`. -/
theorem stage_remote_dbs_reach (Q : request → Prop) (pnn : Nat) (nodemap : ctdb_node_map)
    (st : recovery_vars)
    (hQ1 : ∀ d, Q (request.getdbmap d)) (hQ2 : ∀ d id, Q (request.getdbname d id))
    (hQ3 : ∀ d nm p, d ≠ pnn → (∀ id, nm = some id → ∃ db ∈ st.dbmap, db.dbid = id) →
      Q (request.createdb d nm p)) :
    reach Q st.c (stage_remote_dbs pnn nodemap st).1.c :=
  create_missing_remote_databases_reach Q st.c st.c nodemap pnn st.dbmap hQ1 hQ2 hQ3
    reach.start

/-- The requests of `stage_local_dbs`. -/
theorem stage_local_dbs_reach (Q : request → Prop) (pnn : Nat) (nodemap : ctdb_node_map)
    (st : recovery_vars)
    (hQ1 : ∀ d, Q (request.getdbmap d)) (hQ2 : ∀ d id, Q (request.getdbname d id))
    (hQ3 : ∀ nm p, Q (request.createdb pnn nm p)) :
    reach Q st.c (stage_local_dbs pnn nodemap st).1.c :=
  create_missing_local_databases_reach Q st.c (st.c, st.dbmap) nodemap pnn hQ1 hQ2 hQ3
    reach.start

/-- The requests of `stage_update_vnnmap`: `setvnnmap` with the map `vnnmap` points to. -/
theorem stage_update_vnnmap_reach (Q : request → Prop) (nodemap : ctdb_node_map)
    (st : recovery_vars) (hQ : ∀ d, Q (request.setvnnmap d st.vnnmap)) :
    reach Q st.c (stage_update_vnnmap nodemap st).1.c :=
  update_vnnmap_on_all_nodes_reach Q st.c st.c nodemap st.vnnmap hQ reach.start

/-- The requests of `stage_recmaster`. -/
theorem stage_recmaster_reach (Q : request → Prop) (pnn : Nat) (nodemap : ctdb_node_map)
    (st : recovery_vars) (hQ : ∀ d, Q (request.setrecmaster d pnn)) :
    reach Q st.c (stage_recmaster pnn nodemap st).1.c :=
  set_recovery_master_reach Q st.c st.c nodemap pnn hQ reach.start

/-- The stages from the pull of the databases to the rebuilding of the vnn map issue
requests of kind `copydb` only. -/
theorem copy_stages_reach (Q : request → Prop) (pnn num_active : Nat)
    (nodemap : ctdb_node_map) (hQ : ∀ r : request, r.kind = 8 → Q r) :
    ∀ stage ∈ [stage_pull pnn nodemap, stage_push pnn nodemap,
        stage_build_vnnmap num_active nodemap],
      ∀ st : recovery_vars, reach Q st.c (stage st).1.c := by
  intro stage hmem st
  simp only [List.mem_cons, List.mem_singleton, List.not_mem_nil, or_false] at hmem
  rcases hmem with rfl | rfl | rfl
  · exact pull_all_remote_databases_reach Q st.c st.c nodemap pnn st.dbmap
      (fun _ _ _ => hQ _ rfl) reach.start
  · exact push_all_local_databases_reach Q st.c st.c nodemap pnn st.dbmap
      (fun _ _ _ => hQ _ rfl) reach.start
  · unfold stage_build_vnnmap
    split <;> exact reach.start

/-- The stages after `set_recovery_master` and before the thaw issue requests of kind
`setdmaster`, `get_max_rsn`, `set_rsn_nonempty`, `delete_low_rsn`, `takeover_run`
and broadcasts only. -/
theorem finishing_stages_reach (Q : request → Prop) (pnn : Nat) (nodemap : ctdb_node_map)
    (hQ : ∀ r : request, r.kind ∈ [9, 10, 11, 12, 13, 14] → Q r) :
    ∀ stage ∈ [stage_dmaster pnn nodemap, stage_flags nodemap, stage_vacuum nodemap,
        stage_takeover],
      ∀ st : recovery_vars, reach Q st.c (stage st).1.c := by
  intro stage hmem st
  simp only [List.mem_cons, List.mem_singleton, List.not_mem_nil, or_false] at hmem
  rcases hmem with rfl | rfl | rfl | rfl
  · exact update_dmaster_on_all_databases_reach Q st.c st.c nodemap pnn st.dbmap
      (fun _ _ _ => hQ _ (by simp [request.kind])) reach.start
  · exact update_flags_on_all_nodes_reach Q st.c st.c nodemap
      (fun _ _ => hQ _ (by simp [request.kind])) reach.start
  · exact vacuum_all_databases_reach Q st.c st.c _ nodemap st.dbmap
      (fun _ _ => hQ _ (by simp [request.kind]))
      (fun _ _ _ => hQ _ (by simp [request.kind]))
      (fun _ _ _ => hQ _ (by simp [request.kind])) reach.start
  · unfold stage_takeover
    split
    · exact reach.step _ reach.start (hQ _ (by simp [request.kind]))
    · exact reach.start

/-- The last stage sends one broadcast. -/
theorem stage_reconfigure_reach (Q : request → Prop) (st : recovery_vars)
    (hQ : ∀ r : request, r.kind = 14 → Q r) :
    reach Q st.c (stage_reconfigure st).1.c :=
  reach.msg _ _ reach.start (hQ _ rfl)

/-! ## Theorems: `need_recovery` -/

/-- `ctdb_ban_node` does not touch `need_recovery`. -/
theorem ban_node_need_recovery (s : daemon) (now : timeval) (pnn ban_time : Nat) :
    (ctdb_ban_node s now pnn ban_time).recd.need_recovery = s.recd.need_recovery := by
  by_cases hv : pnn < s.ctdb.num_nodes
  · by_cases hen : s.ctdb.tunable.enable_bans = 0
    · have hval : ctdb_validate_pnn s.ctdb pnn = true := by simp [ctdb_validate_pnn, hv]
      simp [ctdb_ban_node, hval, hen]
    · rw [ban_node_enabled_eq s now pnn ban_time hv hen]
  · have hval : ctdb_validate_pnn s.ctdb pnn = false := by simp [ctdb_validate_pnn, hv]
    simp [ctdb_ban_node, hval]

/-- `ctdb_set_culprit` does not touch `need_recovery`. -/
theorem set_culprit_need_recovery_same (s : daemon) (now : timeval) (culprit : Nat) :
    (ctdb_set_culprit s now culprit).recd.need_recovery = s.recd.need_recovery := by
  by_cases h : (s.recd.last_culprit ≠ culprit ∨
      timeval_elapsed_usec now s.recd.first_recover_time
        > (s.ctdb.tunable.recovery_grace_period : Int) * 1000000)
  · rw [set_culprit_restart s now culprit h]
  · rw [set_culprit_again s now culprit h]

/-- The opening of `do_recovery` leaves `need_recovery` set, whether or not the lock
is taken. -/
theorem prologue_need_recovery (d : daemon) (now : timeval) (pnn : Nat)
    (nodemap : ctdb_node_map) (culprit : Nat) (lock : Option Int) :
    (do_recovery_prologue d now pnn nodemap culprit lock).1.recd.need_recovery = true := by
  have hc : (do_recovery_culprit d now nodemap culprit).recd.need_recovery = true := by
    by_cases h : (ctdb_set_culprit d now culprit).recd.culprit_counter
        > (2 * nodemap.num) % 2 ^ 32
    · rw [recovery_culprit_ban d now nodemap culprit h, ban_node_need_recovery]
    · rw [recovery_culprit_quiet d now nodemap culprit h]
  unfold do_recovery_prologue
  cases lock with
  | none =>
    show (ctdb_set_culprit _ now pnn).recd.need_recovery = true
    rw [set_culprit_need_recovery_same]
    exact hc
  | some fd => exact hc

/-- No stage of `do_recovery` touches `need_recovery`. -/
theorem stage_need_recovery (pnn num_active : Nat) (nodemap : ctdb_node_map) :
    ∀ stage ∈ recovery_stages pnn num_active nodemap, ∀ st : recovery_vars,
      (stage st).1.d.recd.need_recovery = st.d.recd.need_recovery := by
  intro stage hmem st
  simp only [recovery_stages, List.mem_cons, List.mem_singleton, List.not_mem_nil,
    or_false] at hmem
  rcases hmem with rfl | rfl | rfl | rfl | rfl | rfl | rfl | rfl | rfl | rfl | rfl | rfl
    | rfl | rfl | rfl | rfl | rfl
  · rfl
  · unfold stage_generation; split <;> rfl
  · unfold stage_dbmap; split <;> rfl
  · rfl
  · rfl
  · rfl
  · rfl
  · rfl
  · unfold stage_build_vnnmap; split <;> rfl
  · rfl
  · rfl
  · rfl
  · rfl
  · rfl
  · unfold stage_takeover; split <;> rfl
  · rfl
  · rfl

/-- C18: `need_recovery` tracks the completion of `do_recovery`.  The stages start
from a daemon in which it is set; for every cluster, every schedule of failing
requests and every random source, the flag is clear when the run ends exactly when
the run returns `0`; after any other end it is still set, and the step of the
monitor loop that looks at it runs `do_recovery` again. -/
theorem need_recovery_tracks_completion (d : daemon) (c : cluster) (rs : List Nat)
    (now : timeval) (pnn num_active : Nat) (nodemap : ctdb_node_map)
    (vnnmap : ctdb_vnn_map) (culprit : Nat) (lock : Option Int) :
    (recovery_start d c rs now pnn nodemap vnnmap culprit lock).d.recd.need_recovery = true
    ∧ ((do_recovery d c rs now pnn num_active nodemap vnnmap culprit lock).ret = some 0
        ↔ (do_recovery d c rs now pnn num_active nodemap vnnmap culprit
            lock).vars.d.recd.need_recovery = false)
    ∧ ((do_recovery d c rs now pnn num_active nodemap vnnmap culprit lock).ret ≠ some 0 →
        ∀ (c2 : cluster) (rs2 : List Nat) (now2 : timeval) (n2 : Nat) (nm2 : ctdb_node_map)
          (vm2 : ctdb_vnn_map) (lock2 : Option Int),
          monitor_pending_recovery
              (do_recovery d c rs now pnn num_active nodemap vnnmap culprit lock).vars.d
              c2 rs2 now2 pnn n2 nm2 vm2 lock2
            = some (do_recovery
                (do_recovery d c rs now pnn num_active nodemap vnnmap culprit lock).vars.d
                c2 rs2 now2 pnn n2 nm2 vm2
                (do_recovery d c rs now pnn num_active nodemap vnnmap culprit
                  lock).vars.d.ctdb.pnn lock2)) := by
  have hstart : (recovery_start d c rs now pnn nodemap vnnmap culprit
      lock).d.recd.need_recovery = true :=
    prologue_need_recovery d now pnn nodemap culprit lock
  have hrun : (run_stages (recovery_start d c rs now pnn nodemap vnnmap culprit lock)
      (recovery_stages pnn num_active nodemap)).1.d.recd.need_recovery = true := by
    unfold run_stages
    refine each_until_inv _ (fun s : recovery_vars => s.d.recd.need_recovery = true) _ ?_ _
      hstart
    intro s stage hmem hs
    show (stage s).1.d.recd.need_recovery = true
    rw [stage_need_recovery pnn num_active nodemap stage hmem s]
    exact hs
  have key : ((do_recovery d c rs now pnn num_active nodemap vnnmap culprit lock).ret = some 0
        ↔ (do_recovery d c rs now pnn num_active nodemap vnnmap culprit
            lock).vars.d.recd.need_recovery = false) := by
    unfold do_recovery
    simp only []
    split
    · simp [hstart]
    · split
      · simp
      · simp only [hrun]
        split <;> simp
  refine ⟨hstart, key, ?_⟩
  intro hne c2 rs2 now2 n2 nm2 vm2 lock2
  have hset : (do_recovery d c rs now pnn num_active nodemap vnnmap culprit
      lock).vars.d.recd.need_recovery = true := by
    cases hx : (do_recovery d c rs now pnn num_active nodemap vnnmap culprit
      lock).vars.d.recd.need_recovery
    · exact absurd (key.mpr hx) hne
    · rfl
  simp only [monitor_pending_recovery, hset, if_true]

/-! ## Theorems: generations -/

/-- What `new_generation` returns is a 32-bit value other than `INVALID_GENERATION`. -/
theorem new_generation_valid (rs : List Nat) (g : Nat) (rest : List Nat)
    (h : new_generation rs = some (g, rest)) : g ≠ INVALID_GENERATION ∧ g < 2 ^ 32 := by
  induction rs with
  | nil => simp [new_generation] at h
  | cons r tail ih =>
    simp only [new_generation] at h
    split at h
    · next hr =>
      simp only [Option.some.injEq, Prod.mk.injEq] at h
      rw [← h.1]
      exact ⟨hr, Nat.mod_lt _ (by decide)⟩
    · exact ih h

/-- The loop of `new_generation` is still running exactly when every value the random
source returned so far was `INVALID_GENERATION` as a 32-bit number. -/
theorem new_generation_none (rs : List Nat) :
    new_generation rs = none ↔ ∀ r ∈ rs, r % 2 ^ 32 = INVALID_GENERATION := by
  induction rs with
  | nil => simp [new_generation]
  | cons r tail ih =>
    simp only [new_generation, List.mem_cons, forall_eq_or_imp]
    split
    · next hr =>
      constructor
      · intro h; exact absurd h (by simp)
      · intro h; exact absurd h.1 hr
    · next hr =>
      have hr2 : r % 2 ^ 32 = INVALID_GENERATION := by
        by_contra hne
        exact hr hne
      rw [ih]
      exact ⟨fun h => ⟨hr2, h⟩, fun h => h.2⟩

/-- A stage running on a valid generation and having issued only valid `setvnnmap`
requests leaves things so. -/
theorem stage_keeps_generation (c0 : cluster) (pnn num_active : Nat)
    (nodemap : ctdb_node_map) :
    ∀ stage ∈ [stage_dbmap pnn, stage_remote_dbs pnn nodemap, stage_local_dbs pnn nodemap,
        stage_remote_dbs pnn nodemap, stage_pull pnn nodemap, stage_push pnn nodemap,
        stage_build_vnnmap num_active nodemap, stage_update_vnnmap nodemap,
        stage_recmaster pnn nodemap, stage_dmaster pnn nodemap, stage_flags nodemap,
        stage_vacuum nodemap, stage_takeover, stage_thaw nodemap, stage_reconfigure],
      ∀ st : recovery_vars,
        (reach valid_setvnnmap c0 st.c
          ∧ st.vnnmap.generation ≠ INVALID_GENERATION ∧ st.vnnmap.generation < 2 ^ 32) →
        (reach valid_setvnnmap c0 (stage st).1.c
          ∧ (stage st).1.vnnmap.generation ≠ INVALID_GENERATION
          ∧ (stage st).1.vnnmap.generation < 2 ^ 32) := by
  intro stage hmem st hst
  obtain ⟨hr, hg⟩ := hst
  have other : ∀ r : request, r.kind ≠ 4 → valid_setvnnmap r := by
    intro r hk d vm he
    rw [he] at hk
    exact absurd rfl hk
  simp only [List.mem_cons, List.mem_singleton, List.not_mem_nil, or_false] at hmem
  rcases hmem with rfl | rfl | rfl | rfl | rfl | rfl | rfl | rfl | rfl | rfl | rfl | rfl
    | rfl | rfl | rfl
  · refine ⟨reach_trans _ _ _ _ hr (stage_dbmap_reach _ pnn st
      (fun _ => other _ (by simp [request.kind]))), ?_⟩
    unfold stage_dbmap; split <;> exact hg
  · exact ⟨reach_trans _ _ _ _ hr (stage_remote_dbs_reach _ pnn nodemap st
      (fun _ => other _ (by simp [request.kind]))
      (fun _ _ => other _ (by simp [request.kind]))
      (fun _ _ _ _ _ => other _ (by simp [request.kind]))), hg⟩
  · exact ⟨reach_trans _ _ _ _ hr (stage_local_dbs_reach _ pnn nodemap st
      (fun _ => other _ (by simp [request.kind]))
      (fun _ _ => other _ (by simp [request.kind]))
      (fun _ _ => other _ (by simp [request.kind]))), hg⟩
  · exact ⟨reach_trans _ _ _ _ hr (stage_remote_dbs_reach _ pnn nodemap st
      (fun _ => other _ (by simp [request.kind]))
      (fun _ _ => other _ (by simp [request.kind]))
      (fun _ _ _ _ _ => other _ (by simp [request.kind]))), hg⟩
  · exact ⟨reach_trans _ _ _ _ hr (copy_stages_reach _ pnn num_active nodemap
      (fun r hk => other r (by omega)) _ (by simp) st), hg⟩
  · exact ⟨reach_trans _ _ _ _ hr (copy_stages_reach _ pnn num_active nodemap
      (fun r hk => other r (by omega)) _ (by simp) st), hg⟩
  · refine ⟨reach_trans _ _ _ _ hr (copy_stages_reach _ pnn num_active nodemap
      (fun r hk => other r (by omega)) _ (by simp) st), ?_⟩
    unfold stage_build_vnnmap
    split
    · exact hg
    · next g rest hnew => exact new_generation_valid _ g rest hnew
  · exact ⟨reach_trans _ _ _ _ hr (stage_update_vnnmap_reach _ nodemap st
      (fun d d2 vm he => by
        simp only [request.setvnnmap.injEq] at he
        rw [← he.2]; exact hg)), hg⟩
  · exact ⟨reach_trans _ _ _ _ hr (stage_recmaster_reach _ pnn nodemap st
      (fun _ => other _ (by simp [request.kind]))), hg⟩
  · exact ⟨reach_trans _ _ _ _ hr (finishing_stages_reach _ pnn nodemap
      (fun r hk => other r (by simp at hk; omega)) _ (by simp) st), hg⟩
  · exact ⟨reach_trans _ _ _ _ hr (finishing_stages_reach _ pnn nodemap
      (fun r hk => other r (by simp at hk; omega)) _ (by simp) st), hg⟩
  · exact ⟨reach_trans _ _ _ _ hr (finishing_stages_reach _ pnn nodemap
      (fun r hk => other r (by simp at hk; omega)) _ (by simp) st), hg⟩
  · refine ⟨reach_trans _ _ _ _ hr (finishing_stages_reach _ pnn nodemap
      (fun r hk => other r (by simp at hk; omega)) _ (by simp) st), ?_⟩
    unfold stage_takeover; split <;> exact hg
  · exact ⟨reach_trans _ _ _ _ hr (stage_thaw_reach _ nodemap st
      (fun _ => other _ (by simp [request.kind]))
      (fun _ => other _ (by simp [request.kind]))
      (fun _ => other _ (by simp [request.kind]))), hg⟩
  · exact ⟨reach_trans _ _ _ _ hr (stage_reconfigure_reach _ st
      (fun r hk => other r (by omega))), hg⟩

/-- Running stages one after the other: the first, and when it got through the rest. -/
theorem run_stages_cons (st : recovery_vars) (a : recovery_vars → recovery_vars × Bool)
    (l : List (recovery_vars → recovery_vars × Bool)) :
    run_stages st (a :: l)
      = if (a st).2 then run_stages (a st).1 l else ((a st).1, false) := rfl

/-- Every request a `do_recovery` run issues that sets a vnn map carries a valid
generation. -/
theorem do_recovery_reach_valid (d : daemon) (c : cluster) (rs : List Nat)
    (now : timeval) (pnn num_active : Nat) (nodemap : ctdb_node_map)
    (vnnmap : ctdb_vnn_map) (culprit : Nat) (lock : Option Int) :
    reach valid_setvnnmap c
      (do_recovery d c rs now pnn num_active nodemap vnnmap culprit lock).vars.c := by
  have other : ∀ r : request, r.kind ≠ 4 → valid_setvnnmap r := by
    intro r hk d vm he
    rw [he] at hk
    exact absurd rfl hk
  have hrun : reach valid_setvnnmap c
      (run_stages (recovery_start d c rs now pnn nodemap vnnmap culprit lock)
        (recovery_stages pnn num_active nodemap)).1.c := by
    generalize hst0 : recovery_start d c rs now pnn nodemap vnnmap culprit lock = st0
    have hc0 : st0.c = c := by rw [← hst0]; rfl
    have h1 : reach valid_setvnnmap c (stage_freeze nodemap st0).1.c := by
      have := stage_freeze_reach valid_setvnnmap nodemap st0
        (fun _ => other _ (by simp [request.kind]))
        (fun _ => other _ (by simp [request.kind]))
        (fun _ => other _ (by simp [request.kind]))
      rw [hc0] at this
      exact this
    have h2 : reach valid_setvnnmap c (stage_generation pnn (stage_freeze nodemap st0).1).1.c :=
      reach_trans _ _ _ _ h1 (stage_generation_reach _ pnn _ (fun g rest hg d2 vm he => by
        simp only [request.setvnnmap.injEq] at he
        rw [← he.2]
        exact new_generation_valid _ g rest hg))
    have hl : recovery_stages pnn num_active nodemap
        = stage_freeze nodemap :: stage_generation pnn ::
          [stage_dbmap pnn, stage_remote_dbs pnn nodemap, stage_local_dbs pnn nodemap,
           stage_remote_dbs pnn nodemap, stage_pull pnn nodemap, stage_push pnn nodemap,
           stage_build_vnnmap num_active nodemap, stage_update_vnnmap nodemap,
           stage_recmaster pnn nodemap, stage_dmaster pnn nodemap, stage_flags nodemap,
           stage_vacuum nodemap, stage_takeover, stage_thaw nodemap, stage_reconfigure] := rfl
    rw [hl, run_stages_cons, run_stages_cons]
    split
    · split
      · have hgen : (stage_generation pnn (stage_freeze nodemap st0).1).1.vnnmap.generation
            ≠ INVALID_GENERATION
          ∧ (stage_generation pnn (stage_freeze nodemap st0).1).1.vnnmap.generation
            < 2 ^ 32 := by
          rename_i hok
          unfold stage_generation at hok ⊢
          split
          · next hnone => simp [hnone] at hok
          · next g rest hnew => exact new_generation_valid _ g rest hnew
        exact (each_until_inv (fun st stage => stage st)
          (fun s : recovery_vars => reach valid_setvnnmap c s.c
            ∧ s.vnnmap.generation ≠ INVALID_GENERATION ∧ s.vnnmap.generation < 2 ^ 32) _
          (fun s stage hmem hs => stage_keeps_generation c pnn num_active nodemap stage hmem s hs)
          _ ⟨h2, hgen⟩).1
      · exact h2
    · exact h1
  unfold do_recovery
  simp only []
  split
  · exact reach.start
  · split
    · exact hrun
    · exact hrun

/-- C14: every vnn map that a `do_recovery` run passes to `setvnnmap`, to the local
node or to a peer, in a run that ends well, ends badly or is still waiting for its
random source, has a generation other than `INVALID_GENERATION`; `new_generation`
never returns `INVALID_GENERATION`, and it returns as soon as the random source
yields a value that is not `INVALID_GENERATION`. -/
theorem set_vnnmap_generation_valid (d : daemon) (c : cluster) (rs : List Nat)
    (now : timeval) (pnn num_active : Nat) (nodemap : ctdb_node_map)
    (vnnmap : ctdb_vnn_map) (culprit : Nat) (lock : Option Int) :
    (∃ new, (do_recovery d c rs now pnn num_active nodemap vnnmap culprit lock).vars.c.log
        = c.log ++ new
      ∧ ∀ e ∈ new, ∀ dest vm, e.1 = request.setvnnmap dest vm →
          vm.generation ≠ INVALID_GENERATION ∧ vm.generation < 2 ^ 32)
    ∧ (∀ (src : List Nat) (g : Nat) (rest : List Nat),
        new_generation src = some (g, rest) → g ≠ INVALID_GENERATION ∧ g < 2 ^ 32)
    ∧ (∀ src : List Nat, (∃ r ∈ src, r % 2 ^ 32 ≠ INVALID_GENERATION) →
        (new_generation src).isSome = true) := by
  refine ⟨reach_log _ _ _
    (do_recovery_reach_valid d c rs now pnn num_active nodemap vnnmap culprit lock),
    fun src g rest h => new_generation_valid src g rest h, ?_⟩
  intro src hex
  cases hn : new_generation src with
  | none =>
    obtain ⟨r, hr, hne⟩ := hex
    exact absurd ((new_generation_none src).mp hn r hr) hne
  | some v => rfl

/-! ## Theorems: recovery master and recovery mode after a recovery -/

/-- After a loop that got through, with an invariant `I` of the loop: what a step
establishes for its own element and every later step keeps holds for every
element. -/
theorem each_until_establish_inv {σ α : Type} (f : σ → α → σ × Bool) (I : σ → Prop)
    (Q : α → σ → Prop) (l : List α)
    (hinv : ∀ s, ∀ a ∈ l, I s → I (f s a).1)
    (hest : ∀ s, ∀ a ∈ l, I s → (f s a).2 = true → Q a (f s a).1)
    (hkeep : ∀ s, ∀ a ∈ l, ∀ b ∈ l, I s → Q b s → Q b (f s a).1)
    (s : σ) (hI : I s) (h : (each_until f s l).2 = true) :
    ∀ a ∈ l, Q a (each_until f s l).1 := by
  induction l generalizing s with
  | nil => intro a ha; exact absurd ha (List.not_mem_nil _)
  | cons x rest ih =>
    obtain ⟨hx, heq⟩ := each_until_cons_ok f s x rest h
    rw [heq] at h ⊢
    have hI1 : I (f s x).1 := hinv s x (List.mem_cons_self _ _) hI
    intro a ha
    rcases List.mem_cons.mp ha with rfl | hmem
    · have := each_until_inv f (fun s => I s ∧ Q a s) rest
        (fun s b hb hq => ⟨hinv s b (List.mem_cons_of_mem _ hb) hq.1,
          hkeep s b (List.mem_cons_of_mem _ hb) a (List.mem_cons_self _ _) hq.1 hq.2⟩)
        _ ⟨hI1, hest s a (List.mem_cons_self _ _) hI hx⟩
      exact this.2
    · exact ih (fun s b hb => hinv s b (List.mem_cons_of_mem _ hb))
        (fun s b hb => hest s b (List.mem_cons_of_mem _ hb))
        (fun s b hb d hd => hkeep s b (List.mem_cons_of_mem _ hb) d (List.mem_cons_of_mem _ hd))
        _ hI1 h a hmem

/-- Requests other than `setrecmaster` leave every recovery master as it is. -/
theorem frame_recmaster (c0 c : cluster) (h : reach (fun r => r.kind ≠ 3) c0 c) (q : Nat) :
    (c.peers q).map (fun p => p.recmaster) = (c0.peers q).map (fun p => p.recmaster) := by
  refine reach_frame (fun p => p.recmaster) _ c0 c ?_ h q
  intro r hr c1 q
  cases r with
  | setrecmaster d m => exact absurd rfl hr
  | createdb d nm p =>
    cases nm with
    | none => rfl
    | some name =>
      simp only [request.effect, cluster.update]
      split
      · cases c1.peers q with
        | none => rfl
        | some x => simp only [Option.map_some']; split <;> rfl
      · rfl
  | freeze d => simp only [request.effect, cluster.update]; split <;> simp [Option.map_map]; rfl
  | thaw d => simp only [request.effect, cluster.update]; split <;> simp [Option.map_map]; rfl
  | setrecmode d m =>
    simp only [request.effect, cluster.update]; split <;> simp [Option.map_map]; rfl
  | setvnnmap d vm =>
    simp only [request.effect, cluster.update]; split <;> simp [Option.map_map]; rfl
  | _ => rfl

/-- After a request every node is as before, or the request succeeded and took
effect. -/
theorem ctrl_peers_cases (c : cluster) (r : request) :
    ((ctrl c r).2 = false ∧ (ctrl c r).1.peers = c.peers)
    ∨ ((ctrl c r).2 = true ∧ (∀ p ∈ request.nodes r, (c.peers p).isSome = true)
        ∧ (ctrl c r).1.peers = (request.effect c r).peers) := by
  cases hok : (ctrl c r).2
  · exact Or.inl ⟨rfl, ctrl_failed c r hok⟩
  · exact Or.inr ⟨rfl, (ctrl_ok c r hok).2.1, (ctrl_ok c r hok).2.2⟩

/-- After `set_recovery_master` got through, every active node of the node map
exists, has the new recovery master, and was sent a `setrecmaster` request that
succeeded. -/
theorem set_recovery_master_ok (c : cluster) (nodemap : ctdb_node_map) (pnn : Nat)
    (h : (set_recovery_master c nodemap pnn).2 = true) :
    ∀ n ∈ nodemap.nodes, node_active n = true →
      (∃ p, (set_recovery_master c nodemap pnn).1.peers n.pnn = some p ∧ p.recmaster = pnn)
      ∧ ∃ new, (set_recovery_master c nodemap pnn).1.log = c.log ++ new
          ∧ (request.setrecmaster n.pnn pnn, true) ∈ new := by
  unfold set_recovery_master at h ⊢
  refine each_until_establish_inv _ (fun s : cluster => ∃ new, s.log = c.log ++ new)
    (fun n s => node_active n = true →
      (∃ p, s.peers n.pnn = some p ∧ p.recmaster = pnn)
      ∧ ∃ new, s.log = c.log ++ new ∧ (request.setrecmaster n.pnn pnn, true) ∈ new)
    _ ?_ ?_ ?_ c ⟨[], by simp⟩ h
  · intro s a _ hI
    obtain ⟨new, hnew⟩ := hI
    split
    · exact ⟨new, hnew⟩
    · exact ⟨new ++ [(request.setrecmaster a.pnn pnn,
        (ctrl s (request.setrecmaster a.pnn pnn)).2)],
        by rw [ctrl_log, hnew, List.append_assoc]⟩
  · intro s a _ hI hok hact
    obtain ⟨new, hnew⟩ := hI
    have hflag : flag_test a.flags NODE_FLAGS_INACTIVE = false := by
      simpa [node_active] using hact
    simp only [hflag, Bool.false_eq_true, if_false] at hok ⊢
    obtain ⟨_, hex, hp⟩ := ctrl_ok s _ hok
    have hsome := hex a.pnn (by simp [request.nodes])
    obtain ⟨p, hpe⟩ := Option.isSome_iff_exists.mp hsome
    refine ⟨⟨{ p with recmaster := pnn }, ?_, rfl⟩,
      new ++ [(request.setrecmaster a.pnn pnn, true)], ?_, by simp⟩
    · rw [hp]
      simp [request.effect, cluster.update, hpe]
    · rw [ctrl_log, hnew, List.append_assoc, hok]
  · intro s a _ b _ hI hQ hact
    obtain ⟨⟨p, hpe, hrm⟩, new, hnew, hmem⟩ := hQ hact
    split
    · exact ⟨⟨p, hpe, hrm⟩, new, hnew, hmem⟩
    · refine ⟨?_, new ++ [(request.setrecmaster a.pnn pnn,
          (ctrl s (request.setrecmaster a.pnn pnn)).2)],
        by rw [ctrl_log, hnew, List.append_assoc], List.mem_append_left _ hmem⟩
      rcases ctrl_peers_cases s (request.setrecmaster a.pnn pnn) with ⟨_, hsame⟩ | ⟨_, _, heff⟩
      · rw [hsame]; exact ⟨p, hpe, hrm⟩
      · rw [heff]
        simp only [request.effect, cluster.update]
        by_cases hq : b.pnn = a.pnn
        · rw [if_pos hq, hpe]
          exact ⟨{ p with recmaster := pnn }, rfl, rfl⟩
        · rw [if_neg hq]
          exact ⟨p, hpe, hrm⟩

/-- After the loop of `set_recovery_mode` for `NORMAL` got through, every active node
of the node map exists, is in recovery mode `NORMAL`, is thawed, and was sent a
`setrecmode` and a `thaw` request that succeeded. -/
theorem set_recovery_mode_normal_ok (c : cluster) (nodemap : ctdb_node_map)
    (h : (set_recovery_mode_loop c nodemap CTDB_RECOVERY_NORMAL).2 = true) :
    ∀ n ∈ nodemap.nodes, node_active n = true →
      (∃ p, (set_recovery_mode_loop c nodemap CTDB_RECOVERY_NORMAL).1.peers n.pnn = some p
        ∧ p.recmode = CTDB_RECOVERY_NORMAL ∧ p.frozen = false)
      ∧ ∃ new, (set_recovery_mode_loop c nodemap CTDB_RECOVERY_NORMAL).1.log = c.log ++ new
          ∧ (request.setrecmode n.pnn CTDB_RECOVERY_NORMAL, true) ∈ new
          ∧ (request.thaw n.pnn, true) ∈ new := by
  unfold set_recovery_mode_loop at h ⊢
  refine each_until_establish_inv _ (fun s : cluster => ∃ new, s.log = c.log ++ new)
    (fun n s => node_active n = true →
      (∃ p, s.peers n.pnn = some p ∧ p.recmode = CTDB_RECOVERY_NORMAL ∧ p.frozen = false)
      ∧ ∃ new, s.log = c.log ++ new
          ∧ (request.setrecmode n.pnn CTDB_RECOVERY_NORMAL, true) ∈ new
          ∧ (request.thaw n.pnn, true) ∈ new)
    _ ?_ ?_ ?_ c ⟨[], by simp⟩ h
  · intro s a _ hI
    obtain ⟨new, hnew⟩ := hI
    split
    · exact ⟨new, hnew⟩
    · split
      · exact ⟨new ++ [(request.setrecmode a.pnn CTDB_RECOVERY_NORMAL, (ctrl s (request.setrecmode a.pnn CTDB_RECOVERY_NORMAL)).2)], by rw [ctrl_log, hnew, List.append_assoc]⟩
      · simp only [if_true]
        exact ⟨new ++ [(request.setrecmode a.pnn CTDB_RECOVERY_NORMAL, (ctrl s (request.setrecmode a.pnn CTDB_RECOVERY_NORMAL)).2)] ++ [(request.thaw a.pnn, (ctrl (ctrl s (request.setrecmode a.pnn CTDB_RECOVERY_NORMAL)).1 (request.thaw a.pnn)).2)], by rw [ctrl_log, ctrl_log, hnew]; simp⟩
  · intro s a _ hI hok hact
    obtain ⟨new, hnew⟩ := hI
    have hflag : flag_test a.flags NODE_FLAGS_INACTIVE = false := by
      simpa [node_active] using hact
    simp only [hflag, Bool.false_eq_true, if_false, if_true] at hok ⊢
    have hok1 : (ctrl s (request.setrecmode a.pnn CTDB_RECOVERY_NORMAL)).2 = true := by
      by_contra hne
      simp [hne] at hok
    simp only [hok1, Bool.not_true, Bool.false_eq_true, if_false] at hok ⊢
    obtain ⟨_, hex, hp⟩ := ctrl_ok s _ hok1
    obtain ⟨_, _, hp2⟩ := ctrl_ok _ _ hok
    have hsome := hex a.pnn (by simp [request.nodes])
    obtain ⟨p, hpe⟩ := Option.isSome_iff_exists.mp hsome
    refine ⟨⟨{ p with recmode := CTDB_RECOVERY_NORMAL, frozen := false }, ?_, rfl, rfl⟩,
      new ++ [(request.setrecmode a.pnn CTDB_RECOVERY_NORMAL, true)]
        ++ [(request.thaw a.pnn, true)], ?_, by simp, by simp⟩
    · rw [hp2]
      simp only [request.effect, cluster.update, if_true]
      rw [hp]
      simp [request.effect, cluster.update, hpe]
    · rw [ctrl_log, ctrl_log, hnew, hok, hok1]; simp
  · intro s a _ b _ hI hQ hact
    obtain ⟨⟨p, hpe, hrm, hfr⟩, new, hnew, hmem1, hmem2⟩ := hQ hact
    have keep1 : ∃ p, (ctrl s (request.setrecmode a.pnn CTDB_RECOVERY_NORMAL)).1.peers b.pnn
        = some p ∧ p.recmode = CTDB_RECOVERY_NORMAL ∧ p.frozen = false := by
      rcases ctrl_peers_cases s (request.setrecmode a.pnn CTDB_RECOVERY_NORMAL) with
        ⟨_, hsame⟩ | ⟨_, _, heff⟩
      · rw [hsame]; exact ⟨p, hpe, hrm, hfr⟩
      · rw [heff]
        simp only [request.effect, cluster.update]
        by_cases hq : b.pnn = a.pnn
        · rw [if_pos hq, hpe]
          exact ⟨{ p with recmode := CTDB_RECOVERY_NORMAL }, rfl, rfl, hfr⟩
        · rw [if_neg hq]
          exact ⟨p, hpe, hrm, hfr⟩
    split
    · exact ⟨⟨p, hpe, hrm, hfr⟩, new, hnew, hmem1, hmem2⟩
    · split
      · exact ⟨keep1, new ++ [(request.setrecmode a.pnn CTDB_RECOVERY_NORMAL, (ctrl s (request.setrecmode a.pnn CTDB_RECOVERY_NORMAL)).2)], by rw [ctrl_log, hnew, List.append_assoc],
          List.mem_append_left _ hmem1, List.mem_append_left _ hmem2⟩
      · simp only [if_true]
        refine ⟨?_, new ++ [(request.setrecmode a.pnn CTDB_RECOVERY_NORMAL, (ctrl s (request.setrecmode a.pnn CTDB_RECOVERY_NORMAL)).2)] ++ [(request.thaw a.pnn, (ctrl (ctrl s (request.setrecmode a.pnn CTDB_RECOVERY_NORMAL)).1 (request.thaw a.pnn)).2)], by rw [ctrl_log, ctrl_log, hnew]; simp,
          List.mem_append_left _ (List.mem_append_left _ hmem1),
          List.mem_append_left _ (List.mem_append_left _ hmem2)⟩
        obtain ⟨p1, hpe1, hrm1, hfr1⟩ := keep1
        rcases ctrl_peers_cases (ctrl s (request.setrecmode a.pnn CTDB_RECOVERY_NORMAL)).1
          (request.thaw a.pnn) with ⟨_, hsame⟩ | ⟨_, _, heff⟩
        · rw [hsame]; exact ⟨p1, hpe1, hrm1, hfr1⟩
        · rw [heff]
          simp only [request.effect, cluster.update]
          by_cases hq : b.pnn = a.pnn
          · rw [if_pos hq, hpe1]
            exact ⟨{ p1 with frozen := false }, rfl, hrm1, rfl⟩
          · rw [if_neg hq]
            exact ⟨p1, hpe1, hrm1, hfr1⟩

/-- When all stages got through, stage `k` ran on what the first `k` stages left, and
got through. -/
theorem run_stages_step (st0 : recovery_vars)
    (stages : List (recovery_vars → recovery_vars × Bool)) (k : Nat)
    (stage : recovery_vars → recovery_vars × Bool) (hk : stages[k]? = some stage)
    (h : (run_stages st0 stages).2 = true) :
    after_stages st0 stages (k + 1) = (stage (after_stages st0 stages k)).1
    ∧ (stage (after_stages st0 stages k)).2 = true := by
  unfold run_stages at h
  have h1 := each_until_take_ok _ stages k st0 h
  have h2 := each_until_take_ok _ stages (k + 1) st0 h
  have h3 := each_until_take_succ (fun st stage => stage st) stages k stage st0 hk h1
  unfold after_stages run_stages
  rw [h3] at h2 ⊢
  exact ⟨rfl, h2⟩

/-- A `do_recovery` run that returns `0` took the lock and got through all its
stages; it leaves the cluster as the last stage left it. -/
theorem do_recovery_ok (d : daemon) (c : cluster) (rs : List Nat)
    (now : timeval) (pnn num_active : Nat) (nodemap : ctdb_node_map)
    (vnnmap : ctdb_vnn_map) (culprit : Nat) (lock : Option Int)
    (h : (do_recovery d c rs now pnn num_active nodemap vnnmap culprit lock).ret = some 0) :
    (run_stages (recovery_start d c rs now pnn nodemap vnnmap culprit lock)
      (recovery_stages pnn num_active nodemap)).2 = true
    ∧ (do_recovery d c rs now pnn num_active nodemap vnnmap culprit lock).vars.c
      = (after_stages (recovery_start d c rs now pnn nodemap vnnmap culprit lock)
          (recovery_stages pnn num_active nodemap) 17).c := by
  unfold do_recovery at h ⊢
  simp only [] at h ⊢
  split at h
  · simp at h
  · next hp =>
    rw [if_neg hp]
    split at h
    · next hr =>
      rw [if_pos hr]
      exact ⟨hr, rfl⟩
    · split at h <;> simp at h

/-- Every stage of `do_recovery` issues requests. -/
theorem any_stage_reach (pnn num_active : Nat) (nodemap : ctdb_node_map) :
    ∀ stage ∈ recovery_stages pnn num_active nodemap, ∀ st : recovery_vars,
      reach (fun _ => True) st.c (stage st).1.c := by
  intro stage hmem st
  simp only [recovery_stages, List.mem_cons, List.mem_singleton, List.not_mem_nil,
    or_false] at hmem
  rcases hmem with rfl | rfl | rfl | rfl | rfl | rfl | rfl | rfl | rfl | rfl | rfl | rfl
    | rfl | rfl | rfl | rfl | rfl
  · exact stage_freeze_reach _ nodemap st (fun _ => trivial) (fun _ => trivial)
      (fun _ => trivial)
  · exact stage_generation_reach _ pnn st (fun _ _ _ => trivial)
  · exact stage_dbmap_reach _ pnn st (fun _ => trivial)
  · exact stage_remote_dbs_reach _ pnn nodemap st (fun _ => trivial) (fun _ _ => trivial)
      (fun _ _ _ _ _ => trivial)
  · exact stage_local_dbs_reach _ pnn nodemap st (fun _ => trivial) (fun _ _ => trivial)
      (fun _ _ => trivial)
  · exact stage_remote_dbs_reach _ pnn nodemap st (fun _ => trivial) (fun _ _ => trivial)
      (fun _ _ _ _ _ => trivial)
  · exact copy_stages_reach _ pnn num_active nodemap (fun _ _ => trivial) _ (by simp) st
  · exact copy_stages_reach _ pnn num_active nodemap (fun _ _ => trivial) _ (by simp) st
  · exact copy_stages_reach _ pnn num_active nodemap (fun _ _ => trivial) _ (by simp) st
  · exact stage_update_vnnmap_reach _ nodemap st (fun _ => trivial)
  · exact stage_recmaster_reach _ pnn nodemap st (fun _ => trivial)
  · exact finishing_stages_reach _ pnn nodemap (fun _ _ => trivial) _ (by simp) st
  · exact finishing_stages_reach _ pnn nodemap (fun _ _ => trivial) _ (by simp) st
  · exact finishing_stages_reach _ pnn nodemap (fun _ _ => trivial) _ (by simp) st
  · exact finishing_stages_reach _ pnn nodemap (fun _ _ => trivial) _ (by simp) st
  · exact stage_thaw_reach _ nodemap st (fun _ => trivial) (fun _ => trivial)
      (fun _ => trivial)
  · exact stage_reconfigure_reach _ st (fun _ _ => trivial)

/-- What the first `k` stages leave is reached from the start by requests. -/
theorem after_stages_reach (st0 : recovery_vars) (pnn num_active : Nat)
    (nodemap : ctdb_node_map) (k : Nat) :
    reach (fun _ => True) st0.c
      (after_stages st0 (recovery_stages pnn num_active nodemap) k).c := by
  unfold after_stages
  exact run_stages_reach _ _
    (fun stage hmem st => any_stage_reach pnn num_active nodemap stage
      (List.mem_of_mem_take hmem) st) st0

/-- For recovery mode `NORMAL`, `set_recovery_mode` is its loop: nothing is frozen. -/
theorem set_recovery_mode_normal (c : cluster) (nodemap : ctdb_node_map) :
    set_recovery_mode c nodemap CTDB_RECOVERY_NORMAL
      = set_recovery_mode_loop c nodemap CTDB_RECOVERY_NORMAL := by
  unfold set_recovery_mode
  rw [if_neg (by decide)]

/-! ## Theorems: the cluster after a recovery run -/

/-- C16: after `do_recovery` returns success (`0`), every node-map entry without
`INACTIVE` bits (the local node included) names a main daemon that has recovery mode
`NORMAL`, is thawed and reports the local pnn as recovery master; and the log of the
run holds a successful `setrecmaster(pnn)` to it followed, later, by a successful
`setrecmode(NORMAL)` and a successful `thaw` to it. -/
theorem recovery_leaves_cluster_normal (d : daemon) (c : cluster) (rs : List Nat)
    (now : timeval) (pnn num_active : Nat) (nodemap : ctdb_node_map)
    (vnnmap : ctdb_vnn_map) (culprit : Nat) (lock : Option Int)
    (h : (do_recovery d c rs now pnn num_active nodemap vnnmap culprit lock).ret = some 0) :
    ∃ l1 l2,
      (do_recovery d c rs now pnn num_active nodemap vnnmap culprit lock).vars.c.log
        = c.log ++ l1 ++ l2
      ∧ ∀ n ∈ nodemap.nodes, node_active n = true →
          (∃ p, (do_recovery d c rs now pnn num_active nodemap vnnmap culprit lock).vars.c.peers
                  n.pnn = some p
            ∧ p.recmode = CTDB_RECOVERY_NORMAL ∧ p.frozen = false ∧ p.recmaster = pnn)
          ∧ (request.setrecmaster n.pnn pnn, true) ∈ l1
          ∧ (request.setrecmode n.pnn CTDB_RECOVERY_NORMAL, true) ∈ l2
          ∧ (request.thaw n.pnn, true) ∈ l2 := by
  obtain ⟨hrun, hc⟩ := do_recovery_ok d c rs now pnn num_active nodemap vnnmap culprit lock h
  rw [hc]
  generalize hst0 : recovery_start d c rs now pnn nodemap vnnmap culprit lock = st0 at hrun
  have hc0 : st0.c = c := by rw [← hst0]; rfl
  generalize hstages : recovery_stages pnn num_active nodemap = stages at hrun
  have s10 := run_stages_step st0 stages 10 (stage_recmaster pnn nodemap)
    (by rw [← hstages]; rfl) hrun
  have s11 := run_stages_step st0 stages 11 (stage_dmaster pnn nodemap)
    (by rw [← hstages]; rfl) hrun
  have s12 := run_stages_step st0 stages 12 (stage_flags nodemap)
    (by rw [← hstages]; rfl) hrun
  have s13 := run_stages_step st0 stages 13 (stage_vacuum nodemap)
    (by rw [← hstages]; rfl) hrun
  have s14 := run_stages_step st0 stages 14 stage_takeover
    (by rw [← hstages]; rfl) hrun
  have s15 := run_stages_step st0 stages 15 (stage_thaw nodemap)
    (by rw [← hstages]; rfl) hrun
  have s16 := run_stages_step st0 stages 16 stage_reconfigure
    (by rw [← hstages]; rfl) hrun
  have hpre : reach (fun _ => True) st0.c (after_stages st0 stages 10).c := by
    rw [← hstages]; exact after_stages_reach st0 pnn num_active nodemap 10
  generalize after_stages st0 stages 10 = a10 at s10 hpre
  generalize after_stages st0 stages 11 = a11 at s10 s11
  generalize after_stages st0 stages 12 = a12 at s11 s12
  generalize after_stages st0 stages 13 = a13 at s12 s13
  generalize after_stages st0 stages 14 = a14 at s13 s14
  generalize after_stages st0 stages 15 = a15 at s14 s15
  generalize after_stages st0 stages 16 = a16 at s15 s16
  generalize after_stages st0 stages 17 = a17 at s16
  -- the requests between the two stages do not set the recovery master
  have hfin : ∀ stage ∈ [stage_dmaster pnn nodemap, stage_flags nodemap,
      stage_vacuum nodemap, stage_takeover], ∀ st : recovery_vars,
      reach (fun r => r.kind ≠ 3) st.c (stage st).1.c :=
    finishing_stages_reach _ pnn nodemap (fun r hr => by
      simp only [List.mem_cons, List.mem_singleton, List.not_mem_nil, or_false] at hr
      omega)
  have h12 : reach (fun r => r.kind ≠ 3) a11.c a12.c := by
    rw [s11.1]; exact hfin _ (by simp) a11
  have h13 : reach (fun r => r.kind ≠ 3) a12.c a13.c := by
    rw [s12.1]; exact hfin _ (by simp) a12
  have h14 : reach (fun r => r.kind ≠ 3) a13.c a14.c := by
    rw [s13.1]; exact hfin _ (by simp) a13
  have h15 : reach (fun r => r.kind ≠ 3) a14.c a15.c := by
    rw [s14.1]; exact hfin _ (by simp) a14
  have h16 : reach (fun r => r.kind ≠ 3) a15.c a16.c := by
    rw [s15.1]
    exact stage_thaw_reach _ nodemap a15 (fun _ => by simp [request.kind])
      (fun _ => by simp [request.kind]) (fun _ => by simp [request.kind])
  have hmid : reach (fun r => r.kind ≠ 3) a11.c a15.c :=
    reach_trans _ _ _ _ (reach_trans _ _ _ _ (reach_trans _ _ _ _ h12 h13) h14) h15
  have hall : reach (fun r => r.kind ≠ 3) a11.c a16.c := reach_trans _ _ _ _ hmid h16
  -- the two establishing stages
  have hm : (set_recovery_master a10.c nodemap pnn).2 = true := s10.2
  have hm1 : a11.c = (set_recovery_master a10.c nodemap pnn).1 := by rw [s10.1]; rfl
  have ht : (set_recovery_mode_loop a15.c nodemap CTDB_RECOVERY_NORMAL).2 = true := by
    rw [← set_recovery_mode_normal]; exact s15.2
  have ht1 : a16.c = (set_recovery_mode_loop a15.c nodemap CTDB_RECOVERY_NORMAL).1 := by
    rw [s15.1, ← set_recovery_mode_normal]; rfl
  have h17p : a17.c.peers = a16.c.peers := by rw [s16.1]; rfl
  have h17l : a17.c.log
      = a16.c.log ++ [(request.message destination.connected srvid_message.reconfigure, true)] := by
    rw [s16.1]; rfl
  -- the log, cut after the recovery master stage
  obtain ⟨pre, hpre_log, _⟩ := reach_log _ _ _ hpre
  obtain ⟨mid, hmid_log, _⟩ := reach_log _ _ _ hmid
  have hm_log : ∃ new1, a11.c.log = a10.c.log ++ new1
      ∧ ∀ n ∈ nodemap.nodes, node_active n = true →
          (request.setrecmaster n.pnn pnn, true) ∈ new1 := by
    obtain ⟨new1, hl1, _⟩ := reach_log _ _ _
      (stage_recmaster_reach (fun _ => True) pnn nodemap a10 (fun _ => trivial))
    rw [← s10.1] at hl1
    refine ⟨new1, hl1, fun n hn ha => ?_⟩
    obtain ⟨_, new, hl, hmem⟩ := set_recovery_master_ok a10.c nodemap pnn hm n hn ha
    rw [← hm1, hl1] at hl
    rw [List.append_cancel_left hl]; exact hmem
  have ht_log : ∃ new2, a16.c.log = a15.c.log ++ new2
      ∧ ∀ n ∈ nodemap.nodes, node_active n = true →
          (request.setrecmode n.pnn CTDB_RECOVERY_NORMAL, true) ∈ new2
          ∧ (request.thaw n.pnn, true) ∈ new2 := by
    obtain ⟨new2, hl2, _⟩ := reach_log _ _ _ h16
    refine ⟨new2, hl2, fun n hn ha => ?_⟩
    obtain ⟨_, new, hl, hmem⟩ := set_recovery_mode_normal_ok a15.c nodemap ht n hn ha
    rw [← ht1, hl2] at hl
    rw [List.append_cancel_left hl]; exact hmem
  obtain ⟨new1, hl1, hmem1⟩ := hm_log
  obtain ⟨new2, hl2, hmem2⟩ := ht_log
  refine ⟨pre ++ new1,
    mid ++ new2 ++ [(request.message destination.connected srvid_message.reconfigure, true)],
    ?_, ?_⟩
  · rw [h17l, hl2, hmid_log, hl1, hpre_log, hc0]
    simp only [List.append_assoc]
  · intro n hn ha
    refine ⟨?_, List.mem_append_right _ (hmem1 n hn ha),
      List.mem_append_left _ (List.mem_append_right _ (hmem2 n hn ha).1),
      List.mem_append_left _ (List.mem_append_right _ (hmem2 n hn ha).2)⟩
    obtain ⟨⟨p1, hp1, hrm⟩, _⟩ := set_recovery_master_ok a10.c nodemap pnn hm n hn ha
    obtain ⟨⟨p2, hp2, hmode, hfrozen⟩, _⟩ :=
      set_recovery_mode_normal_ok a15.c nodemap ht n hn ha
    rw [← hm1] at hp1
    rw [← ht1] at hp2
    refine ⟨p2, by rw [h17p]; exact hp2, hmode, hfrozen, ?_⟩
    have hf := frame_recmaster a11.c a16.c hall n.pnn
    rw [hp1, hp2] at hf
    simp only [Option.map_some'] at hf
    rw [← hrm]; exact Option.some.inj hf

/-- The recovery run of node `0` on `small_cluster` returns `0`. -/
theorem recovery_leaves_cluster_normal_witness :
    ∃ l1 l2,
      small_recovery.vars.c.log = small_cluster.log ++ l1 ++ l2
      ∧ ∀ n ∈ three_nodes.nodes, node_active n = true →
          (∃ p, small_recovery.vars.c.peers n.pnn = some p
            ∧ p.recmode = CTDB_RECOVERY_NORMAL ∧ p.frozen = false ∧ p.recmaster = 0)
          ∧ (request.setrecmaster n.pnn 0, true) ∈ l1
          ∧ (request.setrecmode n.pnn CTDB_RECOVERY_NORMAL, true) ∈ l2
          ∧ (request.thaw n.pnn, true) ∈ l2 :=
  recovery_leaves_cluster_normal strict_daemon small_cluster [0, 5, 7] ⟨30, 0⟩ 0 3 three_nodes
    ⟨1, 3, [0, 1, 2]⟩ 1 (some 9) (by decide)

/-! ## Theorems: the database maps -/

/-- A request that is not a `createdb` to node `q` leaves the database map of `q`
alone when it takes effect. -/
theorem effect_dbs_frame (c : cluster) (r : request) (q : Nat)
    (hr : ∀ nm p, r ≠ request.createdb q nm p) :
    (request.effect c r).dbs_of q = c.dbs_of q := by
  cases r with
  | createdb d nm p =>
    cases nm with
    | none => rfl
    | some name =>
      have hne : q ≠ d := fun hq => hr (some name) p (by rw [hq])
      simp only [request.effect, cluster.update, cluster.dbs_of, if_neg hne]
  | freeze d =>
    simp only [request.effect, cluster.update, cluster.dbs_of]
    split <;> cases c.peers q <;> rfl
  | thaw d =>
    simp only [request.effect, cluster.update, cluster.dbs_of]
    split <;> cases c.peers q <;> rfl
  | setrecmode d m =>
    simp only [request.effect, cluster.update, cluster.dbs_of]
    split <;> cases c.peers q <;> rfl
  | setrecmaster d m =>
    simp only [request.effect, cluster.update, cluster.dbs_of]
    split <;> cases c.peers q <;> rfl
  | setvnnmap d vm =>
    simp only [request.effect, cluster.update, cluster.dbs_of]
    split <;> cases c.peers q <;> rfl
  | _ => rfl

/-- The database maps after a `createdb` with a name took effect: the named database
is added to the map of the node addressed, if that node exists. -/
theorem effect_createdb (c : cluster) (d name : Nat) (p : Bool) (q id : Nat) :
    has_db ((request.effect c (request.createdb d (some name) p)).dbs_of q) id
      = (has_db (c.dbs_of q) id
          || (decide (q = d) && (c.peers q).isSome && decide (name = id))) := by
  by_cases hq : q = d
  · subst hq
    simp only [request.effect, cluster.update, cluster.dbs_of, if_true]
    cases hp : c.peers q with
    | none => simp [has_db]
    | some pr =>
      simp only [Option.map_some', Option.getD_some, decide_True, Option.isSome_some,
        Bool.true_and]
      by_cases hh : has_db pr.dbs name = true
      · rw [if_pos hh]
        by_cases hid : name = id
        · subst hid; simp [hh]
        · simp [hid]
      · rw [if_neg hh]
        simp only [has_db, List.any_append, List.any_cons, List.any_nil, Bool.or_false,
          beq_iff_eq]
        by_cases hid : name = id <;> simp [hid]
  · rw [effect_dbs_frame c _ q (fun nm p2 he => hq (by cases he; rfl))]
    simp [hq]

/-- The effect of a request removes no database from any map. -/
theorem effect_dbs_mono (c : cluster) (r : request) (q id : Nat)
    (h : has_db (c.dbs_of q) id = true) :
    has_db ((request.effect c r).dbs_of q) id = true := by
  cases r with
  | createdb d nm p =>
    cases nm with
    | none => exact h
    | some name => rw [effect_createdb, h]; rfl
  | freeze d => rw [effect_dbs_frame _ _ _ (fun _ _ he => by cases he)]; exact h
  | thaw d => rw [effect_dbs_frame _ _ _ (fun _ _ he => by cases he)]; exact h
  | setrecmode d m => rw [effect_dbs_frame _ _ _ (fun _ _ he => by cases he)]; exact h
  | setrecmaster d m => rw [effect_dbs_frame _ _ _ (fun _ _ he => by cases he)]; exact h
  | setvnnmap d vm => rw [effect_dbs_frame _ _ _ (fun _ _ he => by cases he)]; exact h
  | _ => exact h

/-- The database map of a node after a request: as before, or as the effect of the
request leaves it. -/
theorem ctrl_dbs_cases (c : cluster) (r : request) (q : Nat) :
    (ctrl c r).1.dbs_of q = c.dbs_of q
    ∨ ((ctrl c r).2 = true ∧ (ctrl c r).1.dbs_of q = (request.effect c r).dbs_of q) := by
  rcases ctrl_peers_cases c r with ⟨_, h⟩ | ⟨hok, _, h⟩
  · left; unfold cluster.dbs_of; rw [h]
  · right; exact ⟨hok, by unfold cluster.dbs_of; rw [h]⟩

/-- No request removes a database from a map. -/
theorem reach_dbs_mono (Q : request → Prop) (c0 c : cluster) (h : reach Q c0 c)
    (q id : Nat) (h0 : has_db (c0.dbs_of q) id = true) : has_db (c.dbs_of q) id = true := by
  induction h with
  | start => exact h0
  | @step c1 r _ _ ih =>
    rcases ctrl_dbs_cases c1 r q with h1 | ⟨_, h1⟩
    · rw [h1]; exact ih
    · rw [h1]; exact effect_dbs_mono c1 r q id ih
  | msg dst m _ _ ih => exact ih

/-- Requests that are not a `createdb` to node `q` leave the database map of `q`
alone. -/
theorem reach_dbs_frame (q : Nat) (c0 c : cluster)
    (h : reach (fun r => ∀ nm p, r ≠ request.createdb q nm p) c0 c) :
    c.dbs_of q = c0.dbs_of q := by
  induction h with
  | start => rfl
  | @step c1 r _ hq ih =>
    rcases ctrl_dbs_cases c1 r q with h1 | ⟨_, h1⟩
    · rw [h1]; exact ih
    · rw [h1, effect_dbs_frame c1 r q hq]; exact ih
  | msg dst m _ _ ih => exact ih

/-- After requests whose `createdb` all name a database of `dbmap`, a map holds only
what it held before and databases of `dbmap`. -/
theorem reach_dbs_bound (dbmap : List ctdb_dbid) (c0 c : cluster)
    (h : reach (fun r => ∀ d name p, r = request.createdb d (some name) p →
      has_db dbmap name = true) c0 c)
    (q id : Nat) (h1 : has_db (c.dbs_of q) id = true) :
    has_db (c0.dbs_of q) id = true ∨ has_db dbmap id = true := by
  induction h with
  | start => exact Or.inl h1
  | @step c1 r _ hq ih =>
    rcases ctrl_dbs_cases c1 r q with h2 | ⟨_, h2⟩
    · rw [h2] at h1; exact ih h1
    · rw [h2] at h1
      cases r with
      | createdb d nm p =>
        cases nm with
        | none => exact ih h1
        | some name =>
          rw [effect_createdb] at h1
          simp only [Bool.or_eq_true, Bool.and_eq_true, decide_eq_true_eq] at h1
          rcases h1 with h1 | ⟨_, hid⟩
          · exact ih h1
          · right; rw [← hid]; exact hq d name p rfl
      | freeze d => rw [effect_dbs_frame _ _ _ (fun _ _ he => by cases he)] at h1; exact ih h1
      | thaw d => rw [effect_dbs_frame _ _ _ (fun _ _ he => by cases he)] at h1; exact ih h1
      | setrecmode d m =>
        rw [effect_dbs_frame _ _ _ (fun _ _ he => by cases he)] at h1; exact ih h1
      | setrecmaster d m =>
        rw [effect_dbs_frame _ _ _ (fun _ _ he => by cases he)] at h1; exact ih h1
      | setvnnmap d vm =>
        rw [effect_dbs_frame _ _ _ (fun _ _ he => by cases he)] at h1; exact ih h1
      | _ => exact ih h1
  | msg dst m _ _ ih => exact ih h1
/-- A loop over one element runs its body once. -/
theorem each_until_single {σ α : Type} (f : σ → α → σ × Bool) (s : σ) (a : α) :
    (each_until f s [a]).1 = (f s a).1 ∧ (each_until f s [a]).2 = (f s a).2 := by
  simp only [each_until]
  split
  · next h => exact ⟨rfl, h.symm⟩
  · next h => exact ⟨rfl, by simpa using h⟩

/-- A property that every step that gets through keeps holds after a loop that got
through. -/
theorem each_until_inv_ok {σ α : Type} (f : σ → α → σ × Bool) (I : σ → Prop) (l : List α)
    (hinv : ∀ s, ∀ a ∈ l, I s → (f s a).2 = true → I (f s a).1)
    (s : σ) (hI : I s) (h : (each_until f s l).2 = true) : I (each_until f s l).1 := by
  induction l generalizing s with
  | nil => exact hI
  | cons x rest ih =>
    obtain ⟨hx, heq⟩ := each_until_cons_ok f s x rest h
    rw [heq] at h ⊢
    exact ih (fun s b hb => hinv s b (List.mem_cons_of_mem _ hb)) _
      (hinv s x (List.mem_cons_self _ _) hI hx) h

/-- After a loop that got through, what each step that gets through establishes for
its element holds for every element, if later steps that get through keep it. -/
theorem each_until_establish_ok {σ α : Type} (f : σ → α → σ × Bool) (I : σ → Prop)
    (Q : α → σ → Prop) (l : List α)
    (hinv : ∀ s, ∀ a ∈ l, I s → (f s a).2 = true → I (f s a).1)
    (hest : ∀ s, ∀ a ∈ l, I s → (f s a).2 = true → Q a (f s a).1)
    (hkeep : ∀ s, ∀ a ∈ l, ∀ b ∈ l, I s → (f s a).2 = true → Q b s → Q b (f s a).1)
    (s : σ) (hI : I s) (h : (each_until f s l).2 = true) :
    ∀ a ∈ l, Q a (each_until f s l).1 := by
  induction l generalizing s with
  | nil => intro a ha; exact absurd ha (List.not_mem_nil _)
  | cons x rest ih =>
    obtain ⟨hx, heq⟩ := each_until_cons_ok f s x rest h
    rw [heq] at h ⊢
    have hI1 : I (f s x).1 := hinv s x (List.mem_cons_self _ _) hI hx
    intro a ha
    rcases List.mem_cons.mp ha with rfl | hmem
    · have := each_until_inv_ok f (fun s => I s ∧ Q a s) rest
        (fun s b hb hq hok => ⟨hinv s b (List.mem_cons_of_mem _ hb) hq.1 hok,
          hkeep s b (List.mem_cons_of_mem _ hb) a (List.mem_cons_self _ _) hq.1 hok hq.2⟩)
        _ ⟨hI1, hest s a (List.mem_cons_self _ _) hI hx⟩ h
      exact this.2
    · exact ih (fun s b hb => hinv s b (List.mem_cons_of_mem _ hb))
        (fun s b hb => hest s b (List.mem_cons_of_mem _ hb))
        (fun s b hb d hd => hkeep s b (List.mem_cons_of_mem _ hb) d (List.mem_cons_of_mem _ hd))
        _ hI1 h a hmem

/-- The map has an entry for the dbid of each of its entries, and only for those. -/
theorem has_db_iff (dbs : List ctdb_dbid) (id : Nat) :
    has_db dbs id = true ↔ ∃ db ∈ dbs, db.dbid = id := by
  simp [has_db, List.any_eq_true]

/-- No request changes which database requests fail. -/
theorem reach_no_db_failure (Q : request → Prop) (c0 c : cluster) (h : reach Q c0 c)
    (hnf : no_db_failure c0) : no_db_failure c := by
  intro k r hr
  rw [(reach_static Q c0 c h).1]
  exact hnf k r hr

/-- A node that existed before requests exists after them. -/
theorem reach_isSome (Q : request → Prop) (c0 c : cluster) (h : reach Q c0 c) (q : Nat)
    (hq : (c0.peers q).isSome = true) : (c.peers q).isSome = true := by
  rw [(reach_static Q c0 c h).2.2 q]; exact hq

/-- One request is one step. -/
theorem ctrl_ok_reach (c : cluster) (r : request) :
    reach (fun _ => True) c (ctrl c r).1 :=
  reach.step r reach.start trivial

/-- When no database request fails and both nodes exist, asking `src` for the name
of a database and creating it on `d` leaves `d` with the database. -/
theorem createdb_adds (c : cluster) (src d id : Nat) (p : Bool) (hnf : no_db_failure c)
    (hsrc : (c.peers src).isSome = true) (hd : (c.peers d).isSome = true) :
    has_db ((ctrl (ctrl c (request.getdbname src id)).1
      (request.createdb d
        (if (ctrl c (request.getdbname src id)).2 then some id else none) p)).1.dbs_of d) id
      = true := by
  have h1 : (ctrl c (request.getdbname src id)).2 = true :=
    ctrl_succeeds c _ (hnf _ _ (Or.inl rfl)) (fun q hq => by
      simp only [request.nodes, List.mem_singleton] at hq; rw [hq]; exact hsrc)
  rw [if_pos h1]
  have hr1 := ctrl_ok_reach c (request.getdbname src id)
  generalize (ctrl c (request.getdbname src id)).1 = c1 at hr1
  have hnf1 := reach_no_db_failure _ _ _ hr1 hnf
  have hd1 := reach_isSome _ _ _ hr1 d hd
  have h2 : (ctrl c1 (request.createdb d (some id) p)).2 = true :=
    ctrl_succeeds c1 _ (hnf1 _ _ (Or.inr rfl)) (fun q hq => by
      simp only [request.nodes, List.mem_singleton] at hq; rw [hq]; exact hd1)
  rcases ctrl_dbs_cases c1 (request.createdb d (some id) p) d with h3 | ⟨_, h3⟩
  · have := (ctrl_ok c1 _ h2).2.2
    unfold cluster.dbs_of
    rw [this]
    have h4 := effect_createdb c1 d id p d id
    unfold cluster.dbs_of at h4
    rw [h4]; simp [hd1]
  · rw [h3, effect_createdb]; simp [hd1]

/-- The requests of `create_remote_database`. -/
theorem create_remote_database_reach (pnn dest : Nat) (remote : List ctdb_dbid)
    (c : cluster) (db : ctdb_dbid) :
    reach (fun _ => True) c (create_remote_database pnn dest remote c db) := by
  unfold create_remote_database
  split
  · exact reach.start
  · exact reach.step _ (reach.step _ reach.start trivial) trivial

/-- The inner loop of `create_missing_remote_databases`: when no database request
fails, the remote node ends up with every database of the local map. -/
theorem create_remote_fold (pnn dest : Nat) (remote dbmap : List ctdb_dbid) (c : cluster)
    (hnf : no_db_failure c) (hpnn : (c.peers pnn).isSome = true)
    (hdest : (c.peers dest).isSome = true)
    (hremote : ∀ id, has_db remote id = true → has_db (c.dbs_of dest) id = true) :
    ∀ db ∈ dbmap,
      has_db ((dbmap.foldl (create_remote_database pnn dest remote) c).dbs_of dest) db.dbid
        = true := by
  induction dbmap generalizing c with
  | nil => intro db hdb; exact absurd hdb (List.not_mem_nil _)
  | cons x rest ih =>
    have hr := create_remote_database_reach pnn dest remote c x
    have hx : has_db ((create_remote_database pnn dest remote c x).dbs_of dest) x.dbid
        = true := by
      unfold create_remote_database
      split
      · next hh => exact hremote _ hh
      · exact createdb_adds c pnn dest x.dbid x.persistent hnf hpnn hdest
    intro db hdb
    rw [List.foldl_cons]
    rcases List.mem_cons.mp hdb with rfl | hmem
    · refine reach_dbs_mono (fun _ => True) _ _ ?_ dest _ hx
      exact foldl_inv _ (reach (fun _ => True) _) rest
        (fun s a _ hs => reach_trans _ _ _ _ hs (create_remote_database_reach pnn dest remote s a))
        _ reach.start
    · exact ih _ (reach_no_db_failure _ _ _ hr hnf) (reach_isSome _ _ _ hr pnn hpnn)
        (reach_isSome _ _ _ hr dest hdest)
        (fun id hid => reach_dbs_mono _ _ _ hr dest id (hremote id hid)) db hmem

/-- After `create_missing_remote_databases` got through, when no database request
fails and the local node exists: every active node of the node map other than the
local one has every database of the local map. -/
theorem create_missing_remote_databases_ok (c : cluster) (nodemap : ctdb_node_map)
    (pnn : Nat) (dbmap : List ctdb_dbid) (hnf : no_db_failure c)
    (hpnn : (c.peers pnn).isSome = true)
    (h : (create_missing_remote_databases c nodemap pnn dbmap).2 = true) :
    ∀ n ∈ nodemap.nodes, node_active n = true → n.pnn ≠ pnn →
      ∀ id, has_db dbmap id = true →
        has_db ((create_missing_remote_databases c nodemap pnn dbmap).1.dbs_of n.pnn) id
          = true := by
  have hbody : ∀ (s : cluster) (a : ctdb_node_and_flags),
      reach (fun _ => True) s (create_missing_remote_databases s ⟨[a]⟩ pnn dbmap).1 :=
    fun s a => create_missing_remote_databases_reach _ s s ⟨[a]⟩ pnn dbmap
      (fun _ => trivial) (fun _ _ => trivial) (fun _ _ _ _ _ => trivial) reach.start
  unfold create_missing_remote_databases at h hbody ⊢
  refine each_until_establish_inv _ (fun s : cluster => reach (fun _ => True) c s)
    (fun n s => node_active n = true → n.pnn ≠ pnn → ∀ id, has_db dbmap id = true →
      has_db (s.dbs_of n.pnn) id = true) _ ?_ ?_ ?_ c reach.start h
  · intro s a _ hI
    have := hbody s a
    rw [(each_until_single _ _ _).1] at this
    exact reach_trans _ _ _ _ hI this
  · intro s a _ hI hok hact hne id hid
    simp only [] at hok ⊢
    rw [if_neg hne] at hok ⊢
    have hfl : flag_test a.flags NODE_FLAGS_INACTIVE = false := by
      simpa [node_active] using hact
    simp only [hfl, Bool.false_eq_true, if_false] at hok ⊢
    split at hok
    · exact absurd hok (by simp)
    · next hg =>
      rw [if_neg hg]
      have hg1 : (ctrl s (request.getdbmap a.pnn)).2 = true := by simpa using hg
      have hr1 := ctrl_ok_reach s (request.getdbmap a.pnn)
      have hex : (s.peers a.pnn).isSome = true :=
        (ctrl_ok s _ hg1).2.1 a.pnn (by simp [request.nodes])
      obtain ⟨db, hdb, hdbid⟩ := (has_db_iff dbmap id).mp hid
      rw [← hdbid]
      exact create_remote_fold pnn a.pnn _ dbmap _
        (reach_no_db_failure _ _ _ (reach_trans _ _ _ _ hI hr1) hnf)
        (reach_isSome _ _ _ (reach_trans _ _ _ _ hI hr1) pnn hpnn)
        (reach_isSome _ _ _ hr1 a.pnn hex) (fun _ hh => hh) db hdb
  · intro s a _ b _ hI hQ hact hne id hid
    have := hbody s a
    rw [(each_until_single _ _ _).1] at this
    exact reach_dbs_mono _ _ _ this b.pnn id (hQ hact hne id hid)
/-- Reading a database map changes no database map. -/
theorem getdbmap_dbs (c : cluster) (d q : Nat) :
    (ctrl c (request.getdbmap d)).1.dbs_of q = c.dbs_of q := by
  rcases ctrl_dbs_cases c (request.getdbmap d) q with h | ⟨_, h⟩
  · exact h
  · rw [h]; rfl

/-- The requests of `create_local_database`: `getdbname`, `createdb` to `pnn`,
`getdbmap`. -/
theorem create_local_database_reach (Q : request → Prop) (pnn src : Nat)
    (s : cluster × List ctdb_dbid) (db : ctdb_dbid)
    (hQ1 : ∀ d, Q (request.getdbmap d)) (hQ2 : ∀ d id, Q (request.getdbname d id))
    (hQ3 : ∀ nm p, Q (request.createdb pnn nm p)) :
    reach Q s.1 (create_local_database pnn src s db).1.1 := by
  unfold create_local_database
  split
  · exact reach.start
  · simp only []
    split <;> split <;>
      exact reach.step _ (reach.step _ (reach.step _ reach.start (hQ2 _ _)) (hQ3 _ _)) (hQ1 _)

/-- One step of the inner loop of `create_missing_local_databases` that got through,
when no database request fails: the local map is still the map of the local node,
and it has the database. -/
theorem create_local_database_ok (pnn src : Nat) (s : cluster × List ctdb_dbid)
    (db : ctdb_dbid) (hnf : no_db_failure s.1) (hpnn : (s.1.peers pnn).isSome = true)
    (hsrc : (s.1.peers src).isSome = true) (hsync : s.2 = s.1.dbs_of pnn)
    (h : (create_local_database pnn src s db).2 = true) :
    (create_local_database pnn src s db).1.2 = (create_local_database pnn src s db).1.1.dbs_of pnn
    ∧ has_db (create_local_database pnn src s db).1.2 db.dbid = true := by
  have hadd := createdb_adds s.1 src pnn db.dbid db.persistent hnf hsrc hpnn
  unfold create_local_database at h ⊢
  by_cases hh : has_db s.2 db.dbid = true
  · rw [if_pos hh]; exact ⟨hsync, hh⟩
  · rw [if_neg hh] at h ⊢
    simp only [] at h ⊢
    generalize (ctrl (ctrl s.1 (request.getdbname src db.dbid)).1
      (request.createdb pnn
        (if (ctrl s.1 (request.getdbname src db.dbid)).2 then some db.dbid else none)
        db.persistent)).1 = c2 at h hadd ⊢
    by_cases hg : (!(ctrl c2 (request.getdbmap pnn)).2) = true
    · rw [if_pos hg] at h; exact absurd h (by simp)
    · rw [if_neg hg]
      refine ⟨rfl, ?_⟩
      simp only []
      rw [getdbmap_dbs]
      exact hadd

/-- After `create_missing_local_databases` got through, when no database request
fails, the local node exists and the local map was the map of the local node: the
local map is the map of the local node, and it has every database that an active
node of the node map other than the local one had. -/
theorem create_missing_local_databases_ok (s0 : cluster × List ctdb_dbid)
    (nodemap : ctdb_node_map) (pnn : Nat) (hnf : no_db_failure s0.1)
    (hpnn : (s0.1.peers pnn).isSome = true) (hsync : s0.2 = s0.1.dbs_of pnn)
    (h : (create_missing_local_databases s0 nodemap pnn).2 = true) :
    (create_missing_local_databases s0 nodemap pnn).1.2
      = (create_missing_local_databases s0 nodemap pnn).1.1.dbs_of pnn
    ∧ ∀ n ∈ nodemap.nodes, node_active n = true → n.pnn ≠ pnn →
        ∀ id, has_db (s0.1.dbs_of n.pnn) id = true →
          has_db (create_missing_local_databases s0 nodemap pnn).1.2 id = true := by
  -- the inner loop
  have hinner : ∀ (src : Nat) (s : cluster × List ctdb_dbid) (dbs : List ctdb_dbid),
      reach (fun _ => True) s0.1 s.1 → (s.1.peers src).isSome = true →
      s.2 = s.1.dbs_of pnn →
      (each_until (create_local_database pnn src) s dbs).2 = true →
      (reach (fun _ => True) s0.1 (each_until (create_local_database pnn src) s dbs).1.1
        ∧ (each_until (create_local_database pnn src) s dbs).1.2
          = (each_until (create_local_database pnn src) s dbs).1.1.dbs_of pnn)
      ∧ ∀ db ∈ dbs,
          has_db (each_until (create_local_database pnn src) s dbs).1.2 db.dbid = true := by
    intro src s dbs hr hsrc hs hok
    have hstep : ∀ (s1 : cluster × List ctdb_dbid) (a : ctdb_dbid),
        reach (fun _ => True) s0.1 s1.1 →
        reach (fun _ => True) s0.1 (create_local_database pnn src s1 a).1.1 :=
      fun s1 a hr1 => reach_trans _ _ _ _ hr1
        (create_local_database_reach _ pnn src s1 a (fun _ => trivial) (fun _ _ => trivial)
          (fun _ _ => trivial))
    have hex : ∀ s1 : cluster × List ctdb_dbid, reach (fun _ => True) s0.1 s1.1 →
        (s1.1.peers src).isSome = true := by
      intro s1 hr1
      rw [(reach_static _ _ _ hr1).2.2 src, ← (reach_static _ _ _ hr).2.2 src]
      exact hsrc
    have hI := each_until_inv_ok (create_local_database pnn src)
      (fun s1 : cluster × List ctdb_dbid =>
        reach (fun _ => True) s0.1 s1.1 ∧ s1.2 = s1.1.dbs_of pnn) dbs
      (fun s1 a _ hI1 hok1 => ⟨hstep s1 a hI1.1,
        (create_local_database_ok pnn src s1 a (reach_no_db_failure _ _ _ hI1.1 hnf)
          (reach_isSome _ _ _ hI1.1 pnn hpnn) (hex s1 hI1.1) hI1.2 hok1).1⟩)
      s ⟨hr, hs⟩ hok
    refine ⟨hI, ?_⟩
    refine each_until_establish_ok (create_local_database pnn src)
      (fun s1 : cluster × List ctdb_dbid =>
        reach (fun _ => True) s0.1 s1.1 ∧ s1.2 = s1.1.dbs_of pnn)
      (fun db s1 => has_db s1.2 db.dbid = true) dbs ?_ ?_ ?_ s ⟨hr, hs⟩ hok
    · exact fun s1 a _ hI1 hok1 => ⟨hstep s1 a hI1.1,
        (create_local_database_ok pnn src s1 a (reach_no_db_failure _ _ _ hI1.1 hnf)
          (reach_isSome _ _ _ hI1.1 pnn hpnn) (hex s1 hI1.1) hI1.2 hok1).1⟩
    · exact fun s1 a _ hI1 hok1 =>
        (create_local_database_ok pnn src s1 a (reach_no_db_failure _ _ _ hI1.1 hnf)
          (reach_isSome _ _ _ hI1.1 pnn hpnn) (hex s1 hI1.1) hI1.2 hok1).2
    · intro s1 a _ b _ hI1 hok1 hQ
      have h2 := (create_local_database_ok pnn src s1 a (reach_no_db_failure _ _ _ hI1.1 hnf)
        (reach_isSome _ _ _ hI1.1 pnn hpnn) (hex s1 hI1.1) hI1.2 hok1).1
      simp only [] at hQ ⊢
      rw [h2]
      rw [hI1.2] at hQ
      exact reach_dbs_mono (fun _ => True) _ _
        (create_local_database_reach _ pnn src s1 a (fun _ => trivial) (fun _ _ => trivial)
          (fun _ _ => trivial)) pnn _ hQ
  -- the loop over the nodes
  unfold create_missing_local_databases at h ⊢
  have hbody : ∀ (s : cluster × List ctdb_dbid) (a : ctdb_node_and_flags),
      reach (fun _ => True) s0.1 s.1 ∧ s.2 = s.1.dbs_of pnn →
      ((fun (s : cluster × List ctdb_dbid) (n : ctdb_node_and_flags) =>
        if n.pnn = pnn then (s, true)
        else if flag_test n.flags NODE_FLAGS_INACTIVE then (s, true)
        else if !(ctrl s.1 (request.getdbmap n.pnn)).2 then
          (((ctrl s.1 (request.getdbmap n.pnn)).1, s.2), false)
        else
          each_until (create_local_database pnn n.pnn)
            ((ctrl s.1 (request.getdbmap n.pnn)).1, s.2)
            ((ctrl s.1 (request.getdbmap n.pnn)).1.dbs_of n.pnn)) s a).2 = true →
      (reach (fun _ => True) s0.1
          ((fun (s : cluster × List ctdb_dbid) (n : ctdb_node_and_flags) =>
        if n.pnn = pnn then (s, true)
        else if flag_test n.flags NODE_FLAGS_INACTIVE then (s, true)
        else if !(ctrl s.1 (request.getdbmap n.pnn)).2 then
          (((ctrl s.1 (request.getdbmap n.pnn)).1, s.2), false)
        else
          each_until (create_local_database pnn n.pnn)
            ((ctrl s.1 (request.getdbmap n.pnn)).1, s.2)
            ((ctrl s.1 (request.getdbmap n.pnn)).1.dbs_of n.pnn)) s a).1.1
        ∧ ((fun (s : cluster × List ctdb_dbid) (n : ctdb_node_and_flags) =>
        if n.pnn = pnn then (s, true)
        else if flag_test n.flags NODE_FLAGS_INACTIVE then (s, true)
        else if !(ctrl s.1 (request.getdbmap n.pnn)).2 then
          (((ctrl s.1 (request.getdbmap n.pnn)).1, s.2), false)
        else
          each_until (create_local_database pnn n.pnn)
            ((ctrl s.1 (request.getdbmap n.pnn)).1, s.2)
            ((ctrl s.1 (request.getdbmap n.pnn)).1.dbs_of n.pnn)) s a).1.2
          = ((fun (s : cluster × List ctdb_dbid) (n : ctdb_node_and_flags) =>
        if n.pnn = pnn then (s, true)
        else if flag_test n.flags NODE_FLAGS_INACTIVE then (s, true)
        else if !(ctrl s.1 (request.getdbmap n.pnn)).2 then
          (((ctrl s.1 (request.getdbmap n.pnn)).1, s.2), false)
        else
          each_until (create_local_database pnn n.pnn)
            ((ctrl s.1 (request.getdbmap n.pnn)).1, s.2)
            ((ctrl s.1 (request.getdbmap n.pnn)).1.dbs_of n.pnn)) s a).1.1.dbs_of pnn)
      ∧ (node_active a = true → a.pnn ≠ pnn → ∀ id, has_db (s.1.dbs_of a.pnn) id = true →
          has_db ((fun (s : cluster × List ctdb_dbid) (n : ctdb_node_and_flags) =>
        if n.pnn = pnn then (s, true)
        else if flag_test n.flags NODE_FLAGS_INACTIVE then (s, true)
        else if !(ctrl s.1 (request.getdbmap n.pnn)).2 then
          (((ctrl s.1 (request.getdbmap n.pnn)).1, s.2), false)
        else
          each_until (create_local_database pnn n.pnn)
            ((ctrl s.1 (request.getdbmap n.pnn)).1, s.2)
            ((ctrl s.1 (request.getdbmap n.pnn)).1.dbs_of n.pnn)) s a).1.2 id = true) := by
    intro s a hI hok
    simp only [] at hok ⊢
    split
    · next he => exact ⟨hI, fun _ hne => absurd he hne⟩
    · next hne =>
      rw [if_neg hne] at hok
      split
      · next hfl =>
        refine ⟨hI, fun hact => ?_⟩
        simp [node_active, hfl] at hact
      · next hfl =>
        rw [if_neg hfl] at hok
        split
        · next hg => rw [if_pos hg] at hok; exact absurd hok (by simp)
        · next hg =>
          rw [if_neg hg] at hok
          have hg1 : (ctrl s.1 (request.getdbmap a.pnn)).2 = true := by simpa using hg
          have hex : (s.1.peers a.pnn).isSome = true :=
            (ctrl_ok s.1 _ hg1).2.1 a.pnn (by simp [request.nodes])
          have hr1 := ctrl_ok_reach s.1 (request.getdbmap a.pnn)
          have := hinner a.pnn ((ctrl s.1 (request.getdbmap a.pnn)).1, s.2)
            ((ctrl s.1 (request.getdbmap a.pnn)).1.dbs_of a.pnn)
            (reach_trans _ _ _ _ hI.1 hr1) (reach_isSome _ _ _ hr1 a.pnn hex)
            (by simp only []; rw [getdbmap_dbs]; exact hI.2) hok
          refine ⟨this.1, fun _ _ id hid => ?_⟩
          rw [← getdbmap_dbs s.1 a.pnn a.pnn] at hid
          obtain ⟨db, hdb, hdbid⟩ := (has_db_iff _ id).mp hid
          rw [← hdbid]
          exact this.2 db hdb
  have hI := each_until_inv_ok _
    (fun s : cluster × List ctdb_dbid =>
      reach (fun _ => True) s0.1 s.1 ∧ s.2 = s.1.dbs_of pnn) nodemap.nodes
    (fun s a _ hI1 hok1 => (hbody s a hI1 hok1).1) s0 ⟨reach.start, hsync⟩ h
  refine ⟨hI.2, ?_⟩
  refine each_until_establish_ok _
    (fun s : cluster × List ctdb_dbid =>
      reach (fun _ => True) s0.1 s.1 ∧ s.2 = s.1.dbs_of pnn)
    (fun n s => node_active n = true → n.pnn ≠ pnn →
      ∀ id, has_db (s0.1.dbs_of n.pnn) id = true → has_db s.2 id = true)
    nodemap.nodes ?_ ?_ ?_ s0 ⟨reach.start, hsync⟩ h
  · exact fun s a _ hI1 hok1 => (hbody s a hI1 hok1).1
  · intro s a _ hI1 hok1 hact hne id hid
    exact (hbody s a hI1 hok1).2 hact hne id (reach_dbs_mono _ _ _ hI1.1 a.pnn id hid)
  · intro s a _ b _ hI1 hok1 hQ hact hne id hid
    have h2 := (hbody s a hI1 hok1).1
    have h3 := hQ hact hne id hid
    rw [h2.2]
    rw [hI1.2] at h3
    have hs : reach (fun _ => True) s.1 _ :=
      create_missing_local_databases_reach (fun _ => True) s.1 s ⟨[a]⟩ pnn
        (fun _ => trivial) (fun _ _ => trivial) (fun _ _ => trivial) reach.start
    unfold create_missing_local_databases at hs
    rw [(each_until_single _ _ _).1] at hs
    exact reach_dbs_mono _ _ _ hs pnn id h3
/-- In a run that got through, the stages from `j` up to `m` issue requests of the
kind that each of them issues. -/
theorem after_stages_reach_between (Q : request → Prop) (st0 : recovery_vars)
    (stages : List (recovery_vars → recovery_vars × Bool))
    (hrun : (run_stages st0 stages).2 = true) (j m : Nat) (hjm : j ≤ m)
    (hm : m ≤ stages.length)
    (hQ : ∀ k, j ≤ k → k < m → ∀ stage, stages[k]? = some stage →
      ∀ st : recovery_vars, reach Q st.c (stage st).1.c) :
    reach Q (after_stages st0 stages j).c (after_stages st0 stages m).c := by
  induction m with
  | zero =>
    have : j = 0 := by omega
    rw [this]; exact reach.start
  | succ m ih =>
    by_cases hj : j = m + 1
    · rw [hj]; exact reach.start
    · have hlt : m < stages.length := by omega
      have hk : stages[m]? = some (stages.get ⟨m, hlt⟩) := by
        rw [List.getElem?_eq_getElem hlt]; rfl
      have hs := run_stages_step st0 stages m _ hk hrun
      rw [hs.1]
      exact reach_trans _ _ _ _
        (ih (by omega) (by omega) (fun k h1 h2 => hQ k h1 (by omega)))
        (hQ m (by omega) (by omega) _ hk _)

/-- The stages of `do_recovery` after the second `create_missing_remote_databases`
issue no `createdb` request. -/
theorem late_stages_reach (st0 : recovery_vars) (pnn num_active : Nat)
    (nodemap : ctdb_node_map)
    (hrun : (run_stages st0 (recovery_stages pnn num_active nodemap)).2 = true) :
    reach (fun r => r.kind ≠ 7)
      (after_stages st0 (recovery_stages pnn num_active nodemap) 6).c
      (after_stages st0 (recovery_stages pnn num_active nodemap) 17).c := by
  refine after_stages_reach_between _ st0 _ hrun 6 17 (by omega) (by simp [recovery_stages]) ?_
  intro k h1 h2 stage hk st
  have hcopy := copy_stages_reach (fun r => r.kind ≠ 7) pnn num_active nodemap
    (fun r hr => by omega)
  have hfin := finishing_stages_reach (fun r => r.kind ≠ 7) pnn nodemap (fun r hr => by
    simp only [List.mem_cons, List.mem_singleton, List.not_mem_nil, or_false] at hr
    omega)
  interval_cases k <;> simp only [recovery_stages, List.getElem?_cons_succ,
    List.getElem?_cons_zero, Option.some.injEq] at hk <;> subst hk
  · exact hcopy _ (by simp) st
  · exact hcopy _ (by simp) st
  · exact hcopy _ (by simp) st
  · exact stage_update_vnnmap_reach _ nodemap st (fun _ => by simp [request.kind])
  · exact stage_recmaster_reach _ pnn nodemap st (fun _ => by simp [request.kind])
  · exact hfin _ (by simp) st
  · exact hfin _ (by simp) st
  · exact hfin _ (by simp) st
  · exact hfin _ (by simp) st
  · exact stage_thaw_reach _ nodemap st (fun _ => by simp [request.kind])
      (fun _ => by simp [request.kind]) (fun _ => by simp [request.kind])
  · exact stage_reconfigure_reach _ st (fun r hr => by omega)

/-- Requests that are no `createdb` change no database map. -/
theorem reach_dbs_same (c0 c : cluster) (h : reach (fun r => r.kind ≠ 7) c0 c) (q : Nat) :
    c.dbs_of q = c0.dbs_of q :=
  reach_dbs_frame q c0 c (reach_mono _ _ c0 c (fun r hr nm p he => by
    rw [he] at hr; exact hr rfl) h)

/-- After `stage_dbmap` got through, the local map is the map of the local node, and
the local node exists. -/
theorem stage_dbmap_ok (pnn : Nat) (st : recovery_vars)
    (h : (stage_dbmap pnn st).2 = true) :
    (stage_dbmap pnn st).1.dbmap = (stage_dbmap pnn st).1.c.dbs_of pnn
    ∧ ((stage_dbmap pnn st).1.c.peers pnn).isSome = true := by
  unfold stage_dbmap at h ⊢
  split at h
  · exact absurd h (by simp)
  · next hg =>
    rw [if_neg hg]
    have hg1 : (ctrl st.c (request.getdbmap pnn)).2 = true := by simpa using hg
    exact ⟨rfl, reach_isSome _ _ _ (ctrl_ok_reach st.c (request.getdbmap pnn)) pnn
      ((ctrl_ok st.c _ hg1).2.1 pnn (by simp [request.nodes]))⟩

/-- X3: after `do_recovery` returns success (`0`), when no `getdbname` and no
`createdb` request failed (so every `createdb` added the database to the map of the
node addressed): every active node of the node map has a database if and only if
the local node has it, whatever databases the nodes had before. -/
theorem recovery_equalises_dbmaps (d : daemon) (c : cluster) (rs : List Nat)
    (now : timeval) (pnn num_active : Nat) (nodemap : ctdb_node_map)
    (vnnmap : ctdb_vnn_map) (culprit : Nat) (lock : Option Int)
    (hnf : no_db_failure c)
    (h : (do_recovery d c rs now pnn num_active nodemap vnnmap culprit lock).ret = some 0) :
    ∀ n ∈ nodemap.nodes, node_active n = true → ∀ id,
      has_db ((do_recovery d c rs now pnn num_active nodemap vnnmap culprit lock).vars.c.dbs_of
          n.pnn) id
        = has_db ((do_recovery d c rs now pnn num_active nodemap vnnmap culprit lock).vars.c.dbs_of
            pnn) id := by
  obtain ⟨hrun, hc⟩ := do_recovery_ok d c rs now pnn num_active nodemap vnnmap culprit lock h
  rw [hc]
  generalize hst0 : recovery_start d c rs now pnn nodemap vnnmap culprit lock = st0 at hrun
  have hc0 : st0.c = c := by rw [← hst0]; rfl
  have hlate := late_stages_reach st0 pnn num_active nodemap hrun
  have hpre : ∀ k, reach (fun _ => True) st0.c
      (after_stages st0 (recovery_stages pnn num_active nodemap) k).c :=
    fun k => after_stages_reach st0 pnn num_active nodemap k
  generalize hstages : recovery_stages pnn num_active nodemap = stages at hrun hlate hpre
  have s2 := run_stages_step st0 stages 2 (stage_dbmap pnn) (by rw [← hstages]; rfl) hrun
  have s3 := run_stages_step st0 stages 3 (stage_remote_dbs pnn nodemap)
    (by rw [← hstages]; rfl) hrun
  have s4 := run_stages_step st0 stages 4 (stage_local_dbs pnn nodemap)
    (by rw [← hstages]; rfl) hrun
  have s5 := run_stages_step st0 stages 5 (stage_remote_dbs pnn nodemap)
    (by rw [← hstages]; rfl) hrun
  have hnf0 : no_db_failure st0.c := by rw [hc0]; exact hnf
  have hnf4 := reach_no_db_failure _ _ _ (hpre 4) hnf0
  have hnf5 := reach_no_db_failure _ _ _ (hpre 5) hnf0
  have hr34 := hpre 4
  have hr35 := hpre 5
  generalize after_stages st0 stages 2 = a2 at s2
  generalize after_stages st0 stages 3 = a3 at s2 s3
  generalize after_stages st0 stages 4 = a4 at s3 s4 hnf4 hr34
  generalize after_stages st0 stages 5 = a5 at s4 s5 hnf5 hr35
  generalize after_stages st0 stages 6 = a6 at s5 hlate
  generalize after_stages st0 stages 17 = a17 at hlate
  -- the local map after reading it
  obtain ⟨hsync3, hex3⟩ : a3.dbmap = a3.c.dbs_of pnn ∧ (a3.c.peers pnn).isSome = true := by
    rw [s2.1]; exact stage_dbmap_ok pnn a2 s2.2
  -- the first pass over the remote nodes leaves the local node alone
  have hfoot : ∀ (s : cluster) (dbmap : List ctdb_dbid),
      reach (fun r => (∀ nm p, r ≠ request.createdb pnn nm p)
          ∧ ∀ d name p, r = request.createdb d (some name) p → has_db dbmap name = true)
        s (create_missing_remote_databases s nodemap pnn dbmap).1 :=
    fun s dbmap => create_missing_remote_databases_reach _ s s nodemap pnn dbmap
      (fun _ => ⟨fun _ _ he => (by cases he), fun _ _ _ he => (by cases he)⟩)
      (fun _ _ => ⟨fun _ _ he => (by cases he), fun _ _ _ he => (by cases he)⟩)
      (fun d nm p hd hnm => ⟨fun _ _ he => hd (by cases he; rfl),
        fun d2 name p2 he => (has_db_iff dbmap name).mpr
          (hnm name (by cases he; rfl))⟩) reach.start
  have h4c : a4.c = (create_missing_remote_databases a3.c nodemap pnn a3.dbmap).1 := by
    rw [s3.1]; rfl
  have h4d : a4.dbmap = a3.dbmap := by rw [s3.1]; rfl
  have hr4 := hfoot a3.c a3.dbmap
  rw [← h4c] at hr4
  have hsync4 : a4.dbmap = a4.c.dbs_of pnn := by
    rw [h4d, hsync3]
    exact (reach_dbs_frame pnn _ _ (reach_mono _ _ _ _ (fun r hr => hr.1) hr4)).symm
  have hex4 : (a4.c.peers pnn).isSome = true := reach_isSome _ _ _ hr4 pnn hex3
  -- the pass over the local node
  have h5ok : (create_missing_local_databases (a4.c, a4.dbmap) nodemap pnn).2 = true := s4.2
  have h5c : a5.c = (create_missing_local_databases (a4.c, a4.dbmap) nodemap pnn).1.1 := by
    rw [s4.1]; rfl
  have h5d : a5.dbmap = (create_missing_local_databases (a4.c, a4.dbmap) nodemap pnn).1.2 := by
    rw [s4.1]; rfl
  obtain ⟨hsync5, hest5⟩ := create_missing_local_databases_ok (a4.c, a4.dbmap) nodemap pnn
    hnf4 hex4 hsync4 h5ok
  rw [← h5c, ← h5d] at hsync5
  rw [← h5d] at hest5
  have hframe5 : ∀ q, q ≠ pnn → a5.c.dbs_of q = a4.c.dbs_of q := by
    intro q hq
    rw [h5c]
    exact reach_dbs_frame q _ _
      (create_missing_local_databases_reach _ a4.c (a4.c, a4.dbmap) nodemap pnn
        (fun _ _ _ he => by cases he) (fun _ _ _ _ he => by cases he)
        (fun _ _ _ _ he => hq (by cases he; rfl)) reach.start)
  have hex5 : (a5.c.peers pnn).isSome = true := by
    rw [h5c]
    exact reach_isSome _ _ _
      (create_missing_local_databases_reach (fun _ => True) a4.c (a4.c, a4.dbmap) nodemap pnn
        (fun _ => trivial) (fun _ _ => trivial) (fun _ _ => trivial) reach.start) pnn hex4
  -- the second pass over the remote nodes
  have h6ok : (create_missing_remote_databases a5.c nodemap pnn a5.dbmap).2 = true := s5.2
  have h6c : a6.c = (create_missing_remote_databases a5.c nodemap pnn a5.dbmap).1 := by
    rw [s5.1]; rfl
  have hr6 := hfoot a5.c a5.dbmap
  have hest6 := create_missing_remote_databases_ok a5.c nodemap pnn a5.dbmap hnf5 hex5 h6ok
  rw [← h6c] at hr6 hest6
  have hmaster6 : a6.c.dbs_of pnn = a5.c.dbs_of pnn :=
    reach_dbs_frame pnn _ _ (reach_mono _ _ _ _ (fun r hr => hr.1) hr6)
  have hbound6 := reach_dbs_bound a5.dbmap a5.c a6.c
    (reach_mono _ _ _ _ (fun r hr => hr.2) hr6)
  -- together
  intro n hn hact id
  rw [reach_dbs_same _ _ hlate n.pnn, reach_dbs_same _ _ hlate pnn]
  by_cases hne : n.pnn = pnn
  · rw [hne]
  · rw [Bool.eq_iff_iff]
    constructor
    · intro h1
      rw [hmaster6, ← hsync5]
      rcases hbound6 n.pnn id h1 with h2 | h2
      · rw [hframe5 n.pnn hne] at h2
        exact hest5 n hn hact hne id h2
      · exact h2
    · intro h1
      rw [hmaster6, ← hsync5] at h1
      exact hest6 n hn hact hne id h1

/-- The recovery run of node `0` on `small_cluster`, where database `16` is on node
`0` only and database `32` on node `2` only, leaves every node with both. -/
theorem recovery_equalises_dbmaps_witness :
    no_db_failure small_cluster ∧ small_recovery.ret = some 0
    ∧ ∀ n ∈ three_nodes.nodes, node_active n = true → ∀ id,
        has_db (small_recovery.vars.c.dbs_of n.pnn) id
          = has_db (small_recovery.vars.c.dbs_of 0) id :=
  ⟨fun _ _ _ => rfl, by decide,
    recovery_equalises_dbmaps strict_daemon small_cluster [0, 5, 7] ⟨30, 0⟩ 0 3 three_nodes
      ⟨1, 3, [0, 1, 2]⟩ 1 (some 9) (fun _ _ _ => rfl) (by decide)⟩

/-! ## Theorems: failed requests inside a recovery run -/

/-- C17, evaluated: the recovery run of node `0` on three active nodes, where
database `16` is on node `0` only and database `32` on node `2` only.  When node `2`
fails to give the name of database `32`, every `createdb` request of the run
succeeds and the run returns `0`, yet node `2` has the databases `32` and `16` and
the master has `16` alone.  When creating database `16` on node `1` fails, the run
returns `0` as well, and node `1` is left with `32` alone while the master has
both. -/
theorem recovery_leaves_dbmaps_unequal :
    (recovery_on getdbname_fails_cluster).ret = some 0
    ∧ (∀ e ∈ (recovery_on getdbname_fails_cluster).vars.c.log,
        e.2 = false → e.1 = request.getdbname 2 32)
    ∧ (∀ n ∈ three_nodes.nodes, node_active n = true)
    ∧ ((recovery_on getdbname_fails_cluster).vars.c.dbs_of 0).map (fun e => e.dbid) = [16]
    ∧ ((recovery_on getdbname_fails_cluster).vars.c.dbs_of 1).map (fun e => e.dbid) = [16]
    ∧ ((recovery_on getdbname_fails_cluster).vars.c.dbs_of 2).map (fun e => e.dbid)
        = [32, 16]
    ∧ (recovery_on createdb_fails_cluster).ret = some 0
    ∧ ((recovery_on createdb_fails_cluster).vars.c.dbs_of 0).map (fun e => e.dbid)
        = [16, 32]
    ∧ ((recovery_on createdb_fails_cluster).vars.c.dbs_of 1).map (fun e => e.dbid) = [32]
    ∧ ((recovery_on createdb_fails_cluster).vars.c.dbs_of 2).map (fun e => e.dbid)
        = [32, 16] := by
  decide

/-- C19, evaluation: a `createdb` request that fails during
`create_missing_remote_databases`, or a `getdbname` request that fails during
`create_missing_local_databases`, does not abort the run: `do_recovery` returns `0`
with `need_recovery` cleared, the later stages ran (the nodes were thawed and the
reconfigure message went out), and the database maps differ. -/
theorem failed_createdb_not_noticed :
    (recovery_on createdb_fails_cluster).ret = some 0
    ∧ (recovery_on createdb_fails_cluster).vars.d.recd.need_recovery = false
    ∧ (request.createdb 1 (some 16) false, false)
        ∈ (recovery_on createdb_fails_cluster).vars.c.log
    ∧ (recovery_on createdb_fails_cluster).vars.c.log.getLast?
        = some (request.message destination.connected srvid_message.reconfigure, true)
    ∧ has_db ((recovery_on createdb_fails_cluster).vars.c.dbs_of 0) 16 = true
    ∧ has_db ((recovery_on createdb_fails_cluster).vars.c.dbs_of 1) 16 = false
    ∧ (recovery_on getdbname_fails_cluster).ret = some 0
    ∧ (recovery_on getdbname_fails_cluster).vars.d.recd.need_recovery = false
    ∧ (request.getdbname 2 32, false) ∈ (recovery_on getdbname_fails_cluster).vars.c.log
    ∧ (request.createdb 0 none true, true) ∈ (recovery_on getdbname_fails_cluster).vars.c.log
    ∧ (recovery_on getdbname_fails_cluster).vars.c.log.getLast?
        = some (request.message destination.connected srvid_message.reconfigure, true)
    ∧ has_db ((recovery_on getdbname_fails_cluster).vars.c.dbs_of 2) 32 = true
    ∧ has_db ((recovery_on getdbname_fails_cluster).vars.c.dbs_of 0) 32 = false := by
  decide

/-! ## Theorems: the aggregate of a fan-out -/

/-- One `getrecmode` completion takes one off the counter. -/
theorem recmode_callback_count (rm : verify_recmode_normal_data)
    (st : ctdb_client_control_state) :
    (verify_recmode_normal_callback rm st).count = (rm.count + 2 ^ 32 - 1) % 2 ^ 32 := by
  unfold verify_recmode_normal_callback
  simp only []
  split
  · split <;> rfl
  · split <;> rfl

/-- One `getrecmode` completion: the status becomes the more severe of the old status
and the result of this peer, as long as the old status is not `ELECTION_NEEDED`. -/
theorem recmode_callback_worse (rm : verify_recmode_normal_data)
    (st : ctdb_client_control_state)
    (h : rm.status ≠ monitor_result.MONITOR_ELECTION_NEEDED) :
    (verify_recmode_normal_callback rm st).status ≠ monitor_result.MONITOR_ELECTION_NEEDED
    ∧ ((verify_recmode_normal_callback rm st).status = rm.status
        ∨ (verify_recmode_normal_callback rm st).status = spec_recmode_result st)
    ∧ spec_severity rm.status ≤ spec_severity (verify_recmode_normal_callback rm st).status
    ∧ spec_severity (spec_recmode_result st)
        ≤ spec_severity (verify_recmode_normal_callback rm st).status := by
  obtain ⟨cnt, status⟩ := rm
  obtain ⟨done, reply⟩ := st
  simp only [] at h
  unfold verify_recmode_normal_callback
  simp only []
  generalize (cnt + 2 ^ 32 - 1) % 2 ^ 32 = c2
  cases done <;> by_cases hr : reply = CTDB_RECOVERY_NORMAL <;> cases status <;>
    simp [spec_recmode_result, spec_severity, hr] at h ⊢

/-- One `getrecmaster` completion takes one off the counter and leaves `pnn`. -/
theorem recmaster_callback_count (rm : verify_recmaster_data)
    (st : ctdb_client_control_state) :
    (verify_recmaster_callback rm st).count = (rm.count + 2 ^ 32 - 1) % 2 ^ 32
    ∧ (verify_recmaster_callback rm st).pnn = rm.pnn := by
  unfold verify_recmaster_callback
  simp only []
  split
  · split <;> exact ⟨rfl, rfl⟩
  · split <;> exact ⟨rfl, rfl⟩

/-- One `getrecmaster` completion: the status becomes the more severe of the old
status and the result of this peer, as long as the old status is not
`RECOVERY_NEEDED`. -/
theorem recmaster_callback_worse (rm : verify_recmaster_data)
    (st : ctdb_client_control_state)
    (h : rm.status ≠ monitor_result.MONITOR_RECOVERY_NEEDED) :
    (verify_recmaster_callback rm st).status ≠ monitor_result.MONITOR_RECOVERY_NEEDED
    ∧ ((verify_recmaster_callback rm st).status = rm.status
        ∨ (verify_recmaster_callback rm st).status = spec_recmaster_result rm.pnn st)
    ∧ spec_severity rm.status ≤ spec_severity (verify_recmaster_callback rm st).status
    ∧ spec_severity (spec_recmaster_result rm.pnn st)
        ≤ spec_severity (verify_recmaster_callback rm st).status := by
  obtain ⟨cnt, pnn, status⟩ := rm
  obtain ⟨done, reply⟩ := st
  simp only [] at h
  unfold verify_recmaster_callback
  simp only []
  generalize (cnt + 2 ^ 32 - 1) % 2 ^ 32 = c2
  cases done <;> by_cases hr : reply = pnn <;> cases status <;>
    simp [spec_recmaster_result, spec_severity, hr] at h ⊢

/-- The wait loop of `verify_recmode` ends when as many requests complete as the
counter says, with the most severe of the old status and the results of the
peers. -/
theorem verify_recmode_wait_worst (l : List ctdb_client_control_state) :
    ∀ rm : verify_recmode_normal_data, rm.count = l.length → l.length < 2 ^ 32 →
      rm.status ≠ monitor_result.MONITOR_ELECTION_NEEDED →
      ∃ r, verify_recmode_wait rm l = some r
        ∧ (r.status = rm.status ∨ r.status ∈ l.map spec_recmode_result)
        ∧ spec_severity rm.status ≤ spec_severity r.status
        ∧ ∀ x ∈ l.map spec_recmode_result, spec_severity x ≤ spec_severity r.status := by
  induction l with
  | nil =>
    intro rm hc _ _
    refine ⟨rm, ?_, Or.inl rfl, le_refl _, fun x hx => absurd hx (List.not_mem_nil _)⟩
    simp only [List.length_nil] at hc
    simp [verify_recmode_wait, hc]
  | cons st rest ih =>
    intro rm hc hlen hs
    simp only [List.length_cons] at hc hlen
    have h1 := recmode_callback_count rm st
    obtain ⟨h2, h3, h4, h5⟩ := recmode_callback_worse rm st hs
    have hcnt : (verify_recmode_normal_callback rm st).count = rest.length := by
      rw [h1, hc]; omega
    obtain ⟨r, hr, hr1, hr2, hr3⟩ := ih _ hcnt (by omega) h2
    refine ⟨r, ?_, ?_, le_trans h4 hr2, ?_⟩
    · simp only [verify_recmode_wait]
      rw [if_pos (by omega)]; exact hr
    · rcases hr1 with hr1 | hr1
      · rcases h3 with h3 | h3
        · left; rw [hr1, h3]
        · right; rw [hr1, h3]; simp
      · right; simp only [List.map_cons, List.mem_cons]; exact Or.inr hr1
    · intro x hx
      simp only [List.map_cons, List.mem_cons] at hx
      rcases hx with rfl | hx
      · exact le_trans h5 hr2
      · exact hr3 x hx

/-- The wait loop of `verify_recmaster` ends when as many requests complete as the
counter says, with the most severe of the old status and the results of the
peers. -/
theorem verify_recmaster_wait_worst (l : List ctdb_client_control_state) :
    ∀ rm : verify_recmaster_data, rm.count = l.length → l.length < 2 ^ 32 →
      rm.status ≠ monitor_result.MONITOR_RECOVERY_NEEDED →
      ∃ r, verify_recmaster_wait rm l = some r
        ∧ (r.status = rm.status ∨ r.status ∈ l.map (spec_recmaster_result rm.pnn))
        ∧ spec_severity rm.status ≤ spec_severity r.status
        ∧ ∀ x ∈ l.map (spec_recmaster_result rm.pnn),
            spec_severity x ≤ spec_severity r.status := by
  induction l with
  | nil =>
    intro rm hc _ _
    refine ⟨rm, ?_, Or.inl rfl, le_refl _, fun x hx => absurd hx (List.not_mem_nil _)⟩
    simp only [List.length_nil] at hc
    simp [verify_recmaster_wait, hc]
  | cons st rest ih =>
    intro rm hc hlen hs
    simp only [List.length_cons] at hc hlen
    obtain ⟨h1, hp⟩ := recmaster_callback_count rm st
    obtain ⟨h2, h3, h4, h5⟩ := recmaster_callback_worse rm st hs
    have hcnt : (verify_recmaster_callback rm st).count = rest.length := by
      rw [h1, hc]; omega
    obtain ⟨r, hr, hr1, hr2, hr3⟩ := ih _ hcnt (by omega) h2
    rw [hp] at hr1 hr3
    refine ⟨r, ?_, ?_, le_trans h4 hr2, ?_⟩
    · simp only [verify_recmaster_wait]
      rw [if_pos (by omega)]; exact hr
    · rcases hr1 with hr1 | hr1
      · rcases h3 with h3 | h3
        · left; rw [hr1, h3]
        · right; rw [hr1, h3]; simp
      · right; simp only [List.map_cons, List.mem_cons]; exact Or.inr hr1
    · intro x hx
      simp only [List.map_cons, List.mem_cons] at hx
      rcases hx with rfl | hx
      · exact le_trans h5 hr2
      · exact hr3 x hx

/-- The send loop of a fan-out, when every request is sent: it gets through, having
counted the active nodes. -/
theorem fanout_send_count {σ : Type} (count : σ → Nat) (bump : σ → σ) (sent : Nat → Bool)
    (hbump : ∀ s, count (bump s) = (count s + 1) % 2 ^ 32)
    (I : σ → Prop) (hI : ∀ s, I s → I (bump s)) (nodes : List ctdb_node_and_flags) :
    ∀ s : σ, I s → count s + (nodes.filter node_active).length < 2 ^ 32 →
      (∀ n ∈ nodes, node_active n = true → sent n.pnn = true) →
      (each_until (fun (s : σ) (n : ctdb_node_and_flags) =>
        if flag_test n.flags NODE_FLAGS_INACTIVE then (s, true)
        else if !(sent n.pnn) then (s, false)
        else (bump s, true)) s nodes).2 = true
      ∧ I (each_until (fun (s : σ) (n : ctdb_node_and_flags) =>
        if flag_test n.flags NODE_FLAGS_INACTIVE then (s, true)
        else if !(sent n.pnn) then (s, false)
        else (bump s, true)) s nodes).1
      ∧ count (each_until (fun (s : σ) (n : ctdb_node_and_flags) =>
        if flag_test n.flags NODE_FLAGS_INACTIVE then (s, true)
        else if !(sent n.pnn) then (s, false)
        else (bump s, true)) s nodes).1 = count s + (nodes.filter node_active).length := by
  induction nodes with
  | nil => intro s hs _ _; exact ⟨rfl, hs, rfl⟩
  | cons n rest ih =>
    intro s hs hlt hsent
    by_cases hfl : flag_test n.flags NODE_FLAGS_INACTIVE = true
    · have hna : node_active n = false := by simp [node_active, hfl]
      rw [List.filter_cons_of_neg (by simp [hna])] at hlt ⊢
      simp only [each_until, hfl, if_true]
      exact ih s hs hlt (fun m hm => hsent m (List.mem_cons_of_mem _ hm))
    · have hna : node_active n = true := by simpa [node_active] using hfl
      have hs1 := hsent n (List.mem_cons_self _ _) hna
      rw [List.filter_cons_of_pos hna] at hlt ⊢
      simp only [List.length_cons] at hlt ⊢
      simp only [each_until, hfl, hs1, Bool.not_true, Bool.false_eq_true, if_false, if_true]
      have hc : count (bump s) = count s + 1 := by rw [hbump]; omega
      obtain ⟨h1, h2, h3⟩ := ih (bump s) (hI s hs) (by rw [hc]; omega)
        (fun m hm => hsent m (List.mem_cons_of_mem _ hm))
      exact ⟨h1, h2, by rw [h3, hc]; omega⟩

/-- C20: for `verify_recmode` and `verify_recmaster`, when every request is sent,
whatever the outcome of each request to an active node and in whatever order the
completion callbacks run, the function returns, and the status returned is the
maximum of the results of the peers under the order `OK < FAILED < RECOVERY_NEEDED <
ELECTION_NEEDED`. -/
theorem fanout_aggregate_is_worst (nodemap : ctdb_node_map) (pnn : Nat) (sent : Nat → Bool)
    (outcomes order : List ctdb_client_control_state)
    (hnum : nodemap.nodes.length < 2 ^ 32)
    (hsent : ∀ n ∈ nodemap.nodes, node_active n = true → sent n.pnn = true)
    (hlen : outcomes.length = (nodemap.nodes.filter node_active).length)
    (hperm : order.Perm outcomes) :
    (∃ r, verify_recmode nodemap sent order = some r
      ∧ spec_worst (outcomes.map spec_recmode_result) r)
    ∧ (∃ r, verify_recmaster nodemap pnn sent order = some r
      ∧ spec_worst (outcomes.map (spec_recmaster_result pnn)) r) := by
  have hact : (nodemap.nodes.filter node_active).length < 2 ^ 32 :=
    lt_of_le_of_lt (List.length_filter_le _ _) hnum
  have hol : order.length = (nodemap.nodes.filter node_active).length := by
    rw [hperm.length_eq, hlen]
  constructor
  · obtain ⟨h1, h2, h3⟩ := fanout_send_count (fun s : verify_recmode_normal_data => s.count)
      (fun s => { s with count := (s.count + 1) % 2 ^ 32 }) sent (fun _ => rfl)
      (fun s => s.status = monitor_result.MONITOR_OK) (fun _ hs => hs) nodemap.nodes
      { count := 0, status := monitor_result.MONITOR_OK } rfl (by simpa using hact) hsent
    simp only [Nat.zero_add] at h3
    unfold verify_recmode
    simp only []
    rw [if_neg (by rw [h1]; simp)]
    obtain ⟨r, hr, hr1, _, hr3⟩ := verify_recmode_wait_worst order _ (by rw [h3, hol])
      (by rw [hol]; exact hact) (by rw [h2]; simp)
    rw [hr]
    refine ⟨r.status, rfl, ?_, ?_⟩
    · rcases hr1 with hr1 | hr1
      · left; rw [hr1, h2]
      · right
        obtain ⟨st, hst, hres⟩ := List.mem_map.mp hr1
        exact List.mem_map.mpr ⟨st, hperm.mem_iff.mp hst, hres⟩
    · intro x hx
      obtain ⟨st, hst, hres⟩ := List.mem_map.mp hx
      exact hr3 x (List.mem_map.mpr ⟨st, hperm.mem_iff.mpr hst, hres⟩)
  · obtain ⟨h1, h2, h3⟩ := fanout_send_count (fun s : verify_recmaster_data => s.count)
      (fun s => { s with count := (s.count + 1) % 2 ^ 32 }) sent (fun _ => rfl)
      (fun s => s.status = monitor_result.MONITOR_OK ∧ s.pnn = pnn) (fun _ hs => hs)
      nodemap.nodes { count := 0, pnn := pnn, status := monitor_result.MONITOR_OK }
      ⟨rfl, rfl⟩ (by simpa using hact) hsent
    simp only [Nat.zero_add] at h3
    unfold verify_recmaster
    simp only []
    rw [if_neg (by rw [h1]; simp)]
    obtain ⟨r, hr, hr1, _, hr3⟩ := verify_recmaster_wait_worst order _ (by rw [h3, hol])
      (by rw [hol]; exact hact) (by rw [h2.1]; simp)
    rw [h2.2] at hr1 hr3
    rw [hr]
    refine ⟨r.status, rfl, ?_, ?_⟩
    · rcases hr1 with hr1 | hr1
      · left; rw [hr1, h2.1]
      · right
        obtain ⟨st, hst, hres⟩ := List.mem_map.mp hr1
        exact List.mem_map.mpr ⟨st, hperm.mem_iff.mp hst, hres⟩
    · intro x hx
      obtain ⟨st, hst, hres⟩ := List.mem_map.mp hx
      exact hr3 x (List.mem_map.mpr ⟨st, hperm.mem_iff.mpr hst, hres⟩)

/-- Two active nodes, one that does not reply and one that replies `1` (in recovery,
and naming node `1` as recovery master), the callbacks running in the other order:
`verify_recmode` returns `RECOVERY_NEEDED` and `verify_recmaster` for node `0`
returns `ELECTION_NEEDED`. -/
theorem fanout_aggregate_is_worst_witness :
    (∃ r, verify_recmode partial_nodes (fun _ => true) [⟨true, 1⟩, ⟨false, 0⟩] = some r
      ∧ spec_worst ([⟨false, 0⟩, ⟨true, 1⟩].map spec_recmode_result) r)
    ∧ (∃ r, verify_recmaster partial_nodes 0 (fun _ => true) [⟨true, 1⟩, ⟨false, 0⟩] = some r
      ∧ spec_worst ([⟨false, 0⟩, ⟨true, 1⟩].map (spec_recmaster_result 0)) r) :=
  fanout_aggregate_is_worst partial_nodes 0 (fun _ => true) [⟨false, 0⟩, ⟨true, 1⟩]
    [⟨true, 1⟩, ⟨false, 0⟩] (by decide) (fun _ _ _ => rfl) (by decide)
    (List.Perm.swap _ _ _)

/-! ## Theorems: the consistency checks of the monitor loop -/

/-- A sequence of two checks falls through only when both do. -/
theorem then_check_pass (a b : check_result) (h : a.then_check b = check_result.pass) :
    a = check_result.pass ∧ b = check_result.pass := by
  cases a with
  | pass => exact ⟨rfl, h⟩
  | again => exact absurd h (by simp [check_result.then_check])
  | recovery c => exact absurd h (by simp [check_result.then_check])

/-- A loop of checks falls through only when the check of every element does. -/
theorem check_all_pass {α : Type} (f : α → check_result) (l : List α)
    (h : check_all f l = check_result.pass) : ∀ a ∈ l, f a = check_result.pass := by
  induction l with
  | nil => intro a ha; exact absurd ha (List.not_mem_nil _)
  | cons x rest ih =>
    obtain ⟨h1, h2⟩ := then_check_pass _ _ h
    intro a ha
    rcases List.mem_cons.mp ha with rfl | hmem
    · exact h1
    · exact ih h2 a hmem

/-- The search loop finds `pnn` exactly when one of the first `size` slots holds it. -/
theorem vnnmap_has_iff (vnnmap : ctdb_vnn_map) (pnn : Nat) :
    vnnmap_has vnnmap pnn = true ↔ ∃ i, i < vnnmap.size ∧ vnnmap.map[i]? = some pnn := by
  simp [vnnmap_has, List.any_eq_true]

/-- X2: when the consistency checks of a master iteration all fall through (no
`do_recovery`, no restart), the vnn map has `num_active` slots and every active node
of the node map other than the local node is in one of them. -/
theorem clean_tick_vnnmap (ctdb_pnn pnn num_active : Nat) (nodemap : ctdb_node_map)
    (vnnmap : ctdb_vnn_map) (getnodemap : Nat → Option ctdb_node_map)
    (getvnnmap : Nat → Option ctdb_vnn_map)
    (h : monitor_consistency ctdb_pnn pnn num_active nodemap vnnmap getnodemap getvnnmap
      = check_result.pass) :
    vnnmap.size = num_active
    ∧ ∀ n ∈ nodemap.nodes, node_active n = true → n.pnn ≠ pnn →
        ∃ i, i < vnnmap.size ∧ vnnmap.map[i]? = some n.pnn := by
  unfold monitor_consistency at h
  obtain ⟨_, h1⟩ := then_check_pass _ _ h
  obtain ⟨h2, h3⟩ := then_check_pass _ _ h1
  obtain ⟨h4, _⟩ := then_check_pass _ _ h3
  constructor
  · by_contra hne
    rw [if_pos hne] at h2
    exact absurd h2 (by simp)
  · intro n hn hact hpnn
    have h5 := check_all_pass _ _ h4 n hn
    unfold check_active_in_vnnmap at h5
    have hfl : flag_test n.flags NODE_FLAGS_INACTIVE = false := by
      simpa [node_active] using hact
    rw [hfl, if_neg (by simp), if_neg hpnn] at h5
    by_cases hhas : vnnmap_has vnnmap n.pnn = true
    · exact (vnnmap_has_iff vnnmap n.pnn).mp hhas
    · rw [if_pos (by simpa using hhas)] at h5
      exact absurd h5 (by simp)

/-- Three active nodes that all report the same node map and the vnn map `[0, 1, 2]`:
the checks of node `0` fall through. -/
theorem clean_tick_vnnmap_witness :
    (⟨1, 3, [0, 1, 2]⟩ : ctdb_vnn_map).size = 3
    ∧ ∀ n ∈ three_nodes.nodes, node_active n = true → n.pnn ≠ 0 →
        ∃ i, i < (⟨1, 3, [0, 1, 2]⟩ : ctdb_vnn_map).size
          ∧ (⟨1, 3, [0, 1, 2]⟩ : ctdb_vnn_map).map[i]? = some n.pnn :=
  clean_tick_vnnmap 0 0 3 three_nodes ⟨1, 3, [0, 1, 2]⟩ (fun _ => some three_nodes)
    (fun _ => some ⟨1, 3, [0, 1, 2]⟩) (by decide)

/-- C15, evaluated: three active nodes that all report the same node map and the vnn
map `[1, 2, 7]`.  Every consistency check of the master, node `0`, falls through,
and its iteration ends without a call of `do_recovery` or `force_election`; yet the
active node `0` is not in the vnn map, and the map holds `7`, which is the pnn of no
node-map entry. -/
theorem clean_tick_misses_master :
    monitor_consistency 0 0 3 three_nodes vnnmap_without_master (fun _ => some three_nodes)
        (fun _ => some vnnmap_without_master) = check_result.pass
    ∧ (monitor_iteration master_daemon unlisted_master_env).calls
        = [monitor_call.update_local_flags, monitor_call.verify_recmaster,
           monitor_call.verify_recmode]
    ∧ (three_nodes.nodes.filter node_active).length = 3
    ∧ ¬ (∀ n ∈ three_nodes.nodes, node_active n = true → n.pnn ∈ vnnmap_without_master.map)
    ∧ ¬ (∀ p ∈ vnnmap_without_master.map,
          ∃ n ∈ three_nodes.nodes, n.pnn = p ∧ node_active n = true) := by
  decide

/-! ## Theorems: flag changes reported by other nodes -/

/-- A word of a payload is a 32-bit value. -/
theorem u32_at_lt (data : List Nat) (off : Nat) : u32_at data off < 2 ^ 32 := by
  unfold u32_at
  omega

/-- The index at which the search loop stops holds an entry with the pnn looked
for. -/
theorem node_index_some (nodes : List ctdb_node_and_flags) (pnn : Nat) :
    ∀ i, node_index nodes pnn = some i → ∃ n, nodes[i]? = some n ∧ n.pnn = pnn := by
  induction nodes with
  | nil => intro i h; exact absurd h (by simp [node_index])
  | cons x rest ih =>
    intro i h
    unfold node_index at h
    split at h
    · next hx =>
      have : i = 0 := by simpa using h.symm
      subst this
      exact ⟨x, by simp, hx⟩
    · cases hr : node_index rest pnn with
      | none => rw [hr] at h; exact absurd h (by simp)
      | some j =>
        rw [hr] at h
        have : i = j + 1 := by simpa using h.symm
        subst this
        obtain ⟨n, hn, hp⟩ := ih j hr
        exact ⟨n, by simpa using hn, hp⟩

/-- The test of the `DISCONNECTED` flag reads bit `0`. -/
theorem flag_test_disconnected (x : Nat) :
    flag_test x NODE_FLAGS_DISCONNECTED = x.testBit 0 := by
  unfold flag_test NODE_FLAGS_DISCONNECTED
  rw [Nat.and_one_is_mod, Nat.testBit_zero]
  rcases Nat.mod_two_eq_zero_or_one x with h | h <;> simp [h]

/-- The flags that the handler puts together from the local flags and the new flags
of the message: bit `0` of the local flags, the other bits of the new flags. -/
theorem merged_flags_bits (flags new_flags : Nat) (hnew : new_flags < 2 ^ 32) :
    (if flag_test flags NODE_FLAGS_DISCONNECTED then
        (new_flags &&& (2 ^ 32 - 1 - NODE_FLAGS_DISCONNECTED)) ||| NODE_FLAGS_DISCONNECTED
      else new_flags &&& (2 ^ 32 - 1 - NODE_FLAGS_DISCONNECTED)).testBit 0 = flags.testBit 0
    ∧ ∀ k, k ≠ 0 →
        (if flag_test flags NODE_FLAGS_DISCONNECTED then
          (new_flags &&& (2 ^ 32 - 1 - NODE_FLAGS_DISCONNECTED)) ||| NODE_FLAGS_DISCONNECTED
        else new_flags &&& (2 ^ 32 - 1 - NODE_FLAGS_DISCONNECTED)).testBit k
          = new_flags.testBit k := by
  have hmask : ∀ k, k < 32 → k ≠ 0 → (2 ^ 32 - 1 - NODE_FLAGS_DISCONNECTED).testBit k = true := by
    decide
  have hmask0 : (2 ^ 32 - 1 - NODE_FLAGS_DISCONNECTED).testBit 0 = false := by decide
  have hone : ∀ k, k ≠ 0 → NODE_FLAGS_DISCONNECTED.testBit k = false := by
    intro k hk
    have : NODE_FLAGS_DISCONNECTED = 2 ^ 0 := rfl
    rw [this, Nat.testBit_two_pow]
    simpa using fun h => hk h.symm
  have hone0 : NODE_FLAGS_DISCONNECTED.testBit 0 = true := by decide
  rw [flag_test_disconnected]
  constructor
  · cases hb : flags.testBit 0
    · simp only [Bool.false_eq_true, if_false, Nat.testBit_land, hmask0, Bool.and_false]
    · simp only [if_true, Nat.testBit_lor, hone0, Bool.or_true]
  · intro k hk
    have hand : (new_flags &&& (2 ^ 32 - 1 - NODE_FLAGS_DISCONNECTED)).testBit k
        = new_flags.testBit k := by
      rw [Nat.testBit_land]
      by_cases hk32 : k < 32
      · rw [hmask k hk32 hk, Bool.and_true]
      · have : new_flags.testBit k = false :=
          Nat.testBit_lt_two_pow (lt_of_lt_of_le hnew
            (Nat.pow_le_pow_right (by decide) (by omega)))
        rw [this, Bool.false_and]
    cases hb : flags.testBit 0
    · simp only [Bool.false_eq_true, if_false]; exact hand
    · simp only [if_true, Nat.testBit_lor, hone k hk, Bool.or_false]; exact hand

/-- C12: for every `NODE_FLAGS_CHANGED` message of the right size, when the local
node map was read: if the message names a node of the node map, the flags that
`monitor_handler` assigns to the entry of that node have the `DISCONNECTED` bit of
the entry as it was and every other bit as in `new_flags` of the message, and no
other entry changes; if the message names a pnn that is not in the node map, the
handler changes nothing. -/
theorem remote_flags_keep_local_disconnected (s : daemon) (data : List Nat)
    (nodemap : ctdb_node_map) (getrecmaster getrecmode : Option Nat)
    (hlen : data.length = 12) :
    (∀ i, node_index nodemap.nodes (u32_at data 0) = some i →
      ∃ n applied, nodemap.nodes[i]? = some n ∧ n.pnn = u32_at data 0
        ∧ applied_flags (monitor_handler s data (some nodemap) getrecmaster getrecmode) i
            = some applied
        ∧ flag_test applied NODE_FLAGS_DISCONNECTED
            = flag_test n.flags NODE_FLAGS_DISCONNECTED
        ∧ (∀ k, NODE_FLAGS_DISCONNECTED.testBit k = false →
            applied.testBit k = (u32_at data 8).testBit k)
        ∧ ∀ j, j ≠ i →
            applied_flags (monitor_handler s data (some nodemap) getrecmaster getrecmode) j
              = (nodemap.nodes[j]?).map (fun m => m.flags))
    ∧ (node_index nodemap.nodes (u32_at data 0) = none →
        monitor_handler s data (some nodemap) getrecmaster getrecmode
          = some (s, some (nodemap, ⟨u32_at data 0, u32_at data 4, u32_at data 8⟩))) := by
  constructor
  · intro i hi
    obtain ⟨n, hn, hp⟩ := node_index_some _ _ i hi
    have hlt : i < nodemap.nodes.length := by
      rcases Nat.lt_or_ge i nodemap.nodes.length with h | h
      · exact h
      · rw [List.getElem?_eq_none h] at hn; exact absurd hn (by simp)
    have hget : nodemap.nodes.getD i ⟨0, 0⟩ = n := by
      rw [List.getD_eq_getElem?_getD, hn]; rfl
    obtain ⟨hb0, hbk⟩ := merged_flags_bits n.flags (u32_at data 8) (u32_at_lt data 8)
    refine ⟨n, (if flag_test n.flags NODE_FLAGS_DISCONNECTED then
        (u32_at data 8 &&& (2 ^ 32 - 1 - NODE_FLAGS_DISCONNECTED)) ||| NODE_FLAGS_DISCONNECTED
        else u32_at data 8 &&& (2 ^ 32 - 1 - NODE_FLAGS_DISCONNECTED)), hn, hp, ?_, ?_, ?_, ?_⟩
    · unfold monitor_handler
      simp only [hlen, ne_eq, not_true_eq_false, if_false, hi, hget]
      split <;> (try split) <;>
        (simp only [applied_flags, List.getElem?_set_self hlt, Option.map_some'];
         split <;> rfl)
    · rw [flag_test_disconnected, flag_test_disconnected]
      rw [flag_test_disconnected] at hb0
      exact hb0
    · intro k hk
      have hk0 : k ≠ 0 := by
        intro h0; rw [h0] at hk; exact absurd hk (by decide)
      exact hbk k hk0
    · intro j hj
      unfold monitor_handler
      simp only [hlen, ne_eq, not_true_eq_false, if_false, hi, hget]
      split <;> (try split) <;>
        simp only [applied_flags, List.getElem?_set_ne (Ne.symm hj)]
  · intro hnone
    unfold monitor_handler
    simp only [hlen, ne_eq, not_true_eq_false, if_false, hnone]

/-- Node `1` is disconnected and unhealthy (flags `3`) in the local node map; a
message says its flags are now `4`: the handler assigns it the flags `5`. -/
theorem remote_flags_keep_local_disconnected_witness :
    (∀ i, node_index disconnected_nodes.nodes (u32_at flag_change_payload 0) = some i →
      ∃ n applied, disconnected_nodes.nodes[i]? = some n ∧ n.pnn = u32_at flag_change_payload 0
        ∧ applied_flags (monitor_handler quiet_daemon flag_change_payload
            (some disconnected_nodes) (some 0) (some 0)) i = some applied
        ∧ flag_test applied NODE_FLAGS_DISCONNECTED
            = flag_test n.flags NODE_FLAGS_DISCONNECTED
        ∧ (∀ k, NODE_FLAGS_DISCONNECTED.testBit k = false →
            applied.testBit k = (u32_at flag_change_payload 8).testBit k)
        ∧ ∀ j, j ≠ i →
            applied_flags (monitor_handler quiet_daemon flag_change_payload
              (some disconnected_nodes) (some 0) (some 0)) j
              = (disconnected_nodes.nodes[j]?).map (fun m => m.flags))
    ∧ (node_index disconnected_nodes.nodes (u32_at flag_change_payload 0) = none →
        monitor_handler quiet_daemon flag_change_payload (some disconnected_nodes) (some 0)
            (some 0)
          = some (quiet_daemon, some (disconnected_nodes,
              ⟨u32_at flag_change_payload 0, u32_at flag_change_payload 4,
               u32_at flag_change_payload 8⟩))) :=
  remote_flags_keep_local_disconnected quiet_daemon flag_change_payload disconnected_nodes
    (some 0) (some 0) (by decide)

/-- The handler run of the example: node `1` keeps its `DISCONNECTED` bit and takes
the other bits of the message. -/
theorem monitor_handler_example :
    node_index disconnected_nodes.nodes (u32_at flag_change_payload 0) = some 1
    ∧ applied_flags (monitor_handler quiet_daemon flag_change_payload
        (some disconnected_nodes) (some 0) (some 0)) 1 = some 5 := by
  decide

/-! ## Theorems: accepting an election -/

/-- The requests of `unban_all_nodes`: it touches nothing but the list of requests
sent, to which it adds a `modflags` that clears `BANNED` for every connected banned
node of the node map. -/
theorem unban_all_nodes_eq (s : daemon) (nodemap : ctdb_node_map) :
    unban_all_nodes s (some nodemap)
      = { s with sent := s.sent ++ List.map (fun n => control.modflags n.pnn 0 NODE_FLAGS_BANNED)
                            (nodemap.nodes.filter (fun n =>
                              !(flag_test n.flags NODE_FLAGS_DISCONNECTED)
                                && flag_test n.flags NODE_FLAGS_BANNED)) } := by
  unfold unban_all_nodes
  simp only []
  generalize nodemap.nodes = nodes
  induction nodes generalizing s with
  | nil => simp
  | cons n rest ih =>
    rw [List.foldl_cons]
    by_cases hn : (!(flag_test n.flags NODE_FLAGS_DISCONNECTED)
        && flag_test n.flags NODE_FLAGS_BANNED) = true
    · rw [if_pos hn, ih]
      simp [List.filter_cons, hn, ctdb_ctrl_modflags]
    · rw [if_neg hn, ih]
      simp [List.filter_cons, hn]

/-- The daemon after `unban_all_nodes`: only the list of requests sent may differ. -/
theorem unban_all_nodes_frame (s : daemon) (getnodemap : Option ctdb_node_map) :
    (unban_all_nodes s getnodemap).ctdb = s.ctdb
    ∧ (unban_all_nodes s getnodemap).recd = s.recd
    ∧ (unban_all_nodes s getnodemap).heap = s.heap
    ∧ (unban_all_nodes s getnodemap).timers = s.timers := by
  cases getnodemap with
  | none => exact ⟨rfl, rfl, rfl, rfl⟩
  | some nodemap => rw [unban_all_nodes_eq]; exact ⟨rfl, rfl, rfl, rfl⟩

/-- An empty registry has no entry for any pnn. -/
theorem banned_entry_replicate (rec1 : ctdb_recoverd) (n pnn : Nat)
    (h : rec1.banned_nodes = List.replicate n none) : banned_entry rec1 pnn = none := by
  unfold banned_entry
  rw [h, List.getD_eq_getElem?_getD]
  by_cases hp : pnn < n
  · simp [hp]
  · simp [hp]

/-- C13: when the local node does not beat a received election message and the
`setrecmaster` request to the local node succeeds, `election_handler` leaves the
local main daemon with the sender as recovery master, the ban registry without an
entry for any pnn, and `last_culprit` at `0xFFFFFFFF`, so that the next
`ctdb_set_culprit` for any other pnn sets the counter to `1`; and when the sender is
another node and the local node held the recovery lock, the lock is released and
`unban_all_nodes` has run: every node that the local node map shows connected and
banned was sent one `modflags` request clearing `BANNED`, in node-map order, and no
other request was sent (none at all when the node map cannot be read); otherwise
the lock and the requests sent are as before. -/
theorem election_accepts_sender (s : daemon) (c : cluster) (em : election_message)
    (nodemap_win nodemap_send nodemap_unban : Option ctdb_node_map)
    (hwin : ctdb_election_win s.ctdb s.recd nodemap_win em = false)
    (hset : (ctrl c (request.setrecmaster s.ctdb.pnn em.pnn)).2 = true) :
    (∃ p, (election_handler s c em nodemap_win nodemap_send nodemap_unban).2.peers s.ctdb.pnn
        = some p ∧ p.recmaster = em.pnn)
    ∧ (∀ pnn, banned_entry
        (election_handler s c em nodemap_win nodemap_send nodemap_unban).1.recd pnn = none)
    ∧ (election_handler s c em nodemap_win nodemap_send nodemap_unban).1.recd.last_culprit
        = 0xFFFFFFFF
    ∧ (∀ now culprit, culprit ≠ 0xFFFFFFFF →
        (ctdb_set_culprit (election_handler s c em nodemap_win nodemap_send nodemap_unban).1
          now culprit).recd.culprit_counter = 1
        ∧ (ctdb_set_culprit (election_handler s c em nodemap_win nodemap_send nodemap_unban).1
          now culprit).recd.last_culprit = culprit)
    ∧ (em.pnn ≠ s.ctdb.pnn ∧ s.ctdb.recovery_lock_fd ≠ -1 →
        (election_handler s c em nodemap_win nodemap_send nodemap_unban).1.ctdb.recovery_lock_fd
          = -1
        ∧ (∀ nodemap, nodemap_unban = some nodemap →
            (election_handler s c em nodemap_win nodemap_send nodemap_unban).1.sent
              = s.sent ++ List.map (fun n => control.modflags n.pnn 0 NODE_FLAGS_BANNED)
                  (nodemap.nodes.filter (fun n =>
                    !(flag_test n.flags NODE_FLAGS_DISCONNECTED)
                      && flag_test n.flags NODE_FLAGS_BANNED)))
        ∧ (nodemap_unban = none →
            (election_handler s c em nodemap_win nodemap_send nodemap_unban).1.sent
              = s.sent))
    ∧ (¬ (em.pnn ≠ s.ctdb.pnn ∧ s.ctdb.recovery_lock_fd ≠ -1) →
        (election_handler s c em nodemap_win nodemap_send nodemap_unban).1.ctdb = s.ctdb
        ∧ (election_handler s c em nodemap_win nodemap_send nodemap_unban).1.sent = s.sent) := by
  -- the daemon after the lock is released
  have hpre : ∀ s1 : daemon, s1.ctdb.pnn = s.ctdb.pnn →
      (ctrl c (request.setrecmaster (ctdb_get_pnn s1.ctdb) em.pnn)).2 = true := by
    intro s1 h1
    unfold ctdb_get_pnn
    rw [h1]; exact hset
  have hpeer : ∃ p, (ctrl c (request.setrecmaster s.ctdb.pnn em.pnn)).1.peers s.ctdb.pnn
      = some p ∧ p.recmaster = em.pnn := by
    obtain ⟨_, hex, hp⟩ := ctrl_ok c _ hset
    have hex1 := hex s.ctdb.pnn (by simp [request.nodes])
    rw [hp]
    cases hq : c.peers s.ctdb.pnn with
    | none => rw [hq] at hex1; exact absurd hex1 (by simp)
    | some p0 =>
      refine ⟨{ p0 with recmaster := em.pnn }, ?_, rfl⟩
      simp [request.effect, cluster.update, hq]
  unfold election_handler
  rw [hwin]
  simp only [Bool.false_eq_true, if_false]
  by_cases hlock : em.pnn ≠ s.ctdb.pnn ∧ s.ctdb.recovery_lock_fd ≠ -1
  · rw [if_pos hlock]
    obtain ⟨h1, h2, _, _⟩ := unban_all_nodes_frame
      { s with ctdb := { s.ctdb with recovery_lock_fd := -1 } } nodemap_unban
    have hsent : (unban_all_nodes { s with ctdb := { s.ctdb with recovery_lock_fd := -1 } }
        nodemap_unban).sent = (unban_all_nodes s nodemap_unban).sent := by
      cases nodemap_unban with
      | none => rfl
      | some nodemap => rw [unban_all_nodes_eq, unban_all_nodes_eq]
    generalize unban_all_nodes { s with ctdb := { s.ctdb with recovery_lock_fd := -1 } }
      nodemap_unban = s1 at h1 h2 hsent
    have hp1 : s1.ctdb.pnn = s.ctdb.pnn := by rw [h1]
    have hg : ctdb_get_pnn s1.ctdb = s.ctdb.pnn := hp1
    rw [if_neg (by rw [hpre s1 hp1]; simp), hg]
    refine ⟨hpeer, fun pnn => banned_entry_replicate _ _ pnn rfl, rfl, ?_, ?_, ?_⟩
    · intro now culprit hc
      unfold ctdb_set_culprit
      simp only []
      rw [if_pos (Or.inl (fun h => hc h.symm))]
      exact ⟨rfl, rfl⟩
    · intro _
      refine ⟨by simp only []; rw [h1], ?_, ?_⟩
      · intro nodemap hnm
        exact hsent.trans (by rw [hnm, unban_all_nodes_eq])
      · intro hnm
        exact hsent.trans (by rw [hnm]; rfl)
    · intro hn; exact absurd hlock hn
  · rw [if_neg hlock]
    have hg : ctdb_get_pnn s.ctdb = s.ctdb.pnn := rfl
    rw [if_neg (by rw [hpre s rfl]; simp), hg]
    refine ⟨hpeer, fun pnn => banned_entry_replicate _ _ pnn rfl, rfl, ?_, ?_, ?_⟩
    · intro now culprit hc
      unfold ctdb_set_culprit
      simp only []
      rw [if_pos (Or.inl (fun h => hc h.symm))]
      exact ⟨rfl, rfl⟩
    · intro hy; exact absurd hy hlock
    · intro _; exact ⟨rfl, rfl⟩

/-- Node `0` holds the recovery lock and a ban on node `1`, and receives the message
of node `2`, which runs longer. -/
theorem election_accepts_sender_witness :
    (∃ p, (election_handler lock_holder small_cluster senior_message (some nodes_with_ban)
        (some nodes_with_ban) (some nodes_with_ban)).2.peers lock_holder.ctdb.pnn
        = some p ∧ p.recmaster = senior_message.pnn)
    ∧ (∀ pnn, banned_entry
        (election_handler lock_holder small_cluster senior_message (some nodes_with_ban)
          (some nodes_with_ban) (some nodes_with_ban)).1.recd pnn = none)
    ∧ (election_handler lock_holder small_cluster senior_message (some nodes_with_ban)
        (some nodes_with_ban) (some nodes_with_ban)).1.recd.last_culprit = 0xFFFFFFFF
    ∧ (∀ now culprit, culprit ≠ 0xFFFFFFFF →
        (ctdb_set_culprit (election_handler lock_holder small_cluster senior_message
          (some nodes_with_ban) (some nodes_with_ban) (some nodes_with_ban)).1
          now culprit).recd.culprit_counter = 1
        ∧ (ctdb_set_culprit (election_handler lock_holder small_cluster senior_message
          (some nodes_with_ban) (some nodes_with_ban) (some nodes_with_ban)).1
          now culprit).recd.last_culprit = culprit)
    ∧ (senior_message.pnn ≠ lock_holder.ctdb.pnn ∧ lock_holder.ctdb.recovery_lock_fd ≠ -1 →
        (election_handler lock_holder small_cluster senior_message (some nodes_with_ban)
          (some nodes_with_ban) (some nodes_with_ban)).1.ctdb.recovery_lock_fd = -1
        ∧ (∀ nodemap, some nodes_with_ban = some nodemap →
            (election_handler lock_holder small_cluster senior_message (some nodes_with_ban)
              (some nodes_with_ban) (some nodes_with_ban)).1.sent
              = lock_holder.sent
                ++ List.map (fun n => control.modflags n.pnn 0 NODE_FLAGS_BANNED)
                  (nodemap.nodes.filter (fun n =>
                    !(flag_test n.flags NODE_FLAGS_DISCONNECTED)
                      && flag_test n.flags NODE_FLAGS_BANNED)))
        ∧ (some nodes_with_ban = none →
            (election_handler lock_holder small_cluster senior_message (some nodes_with_ban)
              (some nodes_with_ban) (some nodes_with_ban)).1.sent = lock_holder.sent))
    ∧ (¬ (senior_message.pnn ≠ lock_holder.ctdb.pnn ∧ lock_holder.ctdb.recovery_lock_fd ≠ -1) →
        (election_handler lock_holder small_cluster senior_message (some nodes_with_ban)
          (some nodes_with_ban) (some nodes_with_ban)).1.ctdb = lock_holder.ctdb
        ∧ (election_handler lock_holder small_cluster senior_message (some nodes_with_ban)
          (some nodes_with_ban) (some nodes_with_ban)).1.sent = lock_holder.sent) :=
  election_accepts_sender lock_holder small_cluster senior_message (some nodes_with_ban)
    (some nodes_with_ban) (some nodes_with_ban) (by decide) (by decide)

/-- The handler run of the example: the lock is released, node `1` is sent a
`modflags` that clears `BANNED`, the registry is empty; the `ban_state` of the ban
and its timer are still there. -/
theorem election_handler_example :
    (election_handler lock_holder small_cluster senior_message (some nodes_with_ban)
      (some nodes_with_ban) (some nodes_with_ban)).1.ctdb.recovery_lock_fd = -1
    ∧ (election_handler lock_holder small_cluster senior_message (some nodes_with_ban)
      (some nodes_with_ban) (some nodes_with_ban)).1.sent
        = [control.modflags 1 NODE_FLAGS_BANNED 0, control.modflags 1 0 NODE_FLAGS_BANNED]
    ∧ (election_handler lock_holder small_cluster senior_message (some nodes_with_ban)
      (some nodes_with_ban) (some nodes_with_ban)).1.recd.banned_nodes = [none, none, none]
    ∧ (election_handler lock_holder small_cluster senior_message (some nodes_with_ban)
      (some nodes_with_ban) (some nodes_with_ban)).1.timers = lock_holder.timers
    ∧ lock_holder.timers.length = 1
    ∧ (election_handler lock_holder small_cluster senior_message (some nodes_with_ban)
      (some nodes_with_ban) (some nodes_with_ban)).2.log
        = [(request.setrecmaster 0 2, true)] := by
  decide

/-! ## Theorems: which failed requests a run that returns `0` can hold -/

/-- Nothing issued, nothing failed. -/
theorem only_db_faults_refl (c : cluster) : only_db_faults c c :=
  ⟨[], by simp, fun e he => absurd he (List.not_mem_nil _)⟩

/-- A request that succeeded adds no failure. -/
theorem only_db_faults_ok (c0 c : cluster) (r : request) (h : only_db_faults c0 c)
    (hok : (ctrl c r).2 = true) : only_db_faults c0 (ctrl c r).1 := by
  obtain ⟨new, hl, hn⟩ := h
  refine ⟨new ++ [(r, (ctrl c r).2)], by rw [ctrl_log, hl, List.append_assoc], ?_⟩
  intro e he hf
  rcases List.mem_append.mp he with h1 | h1
  · exact hn e h1 hf
  · simp only [List.mem_singleton] at h1
    rw [h1] at hf
    simp only [] at hf
    rw [hok] at hf
    exact absurd hf (by simp)

/-- A `getdbname` or `createdb` request adds at most a failure of that kind. -/
theorem only_db_faults_db (c0 c : cluster) (r : request) (h : only_db_faults c0 c)
    (hr : r.kind = 6 ∨ r.kind = 7) : only_db_faults c0 (ctrl c r).1 := by
  obtain ⟨new, hl, hn⟩ := h
  refine ⟨new ++ [(r, (ctrl c r).2)], by rw [ctrl_log, hl, List.append_assoc], ?_⟩
  intro e he hf
  rcases List.mem_append.mp he with h1 | h1
  · exact hn e h1 hf
  · simp only [List.mem_singleton] at h1
    rw [h1]; exact hr

/-- A broadcast adds no failure. -/
theorem only_db_faults_msg (c0 c : cluster) (dst : destination) (m : srvid_message)
    (h : only_db_faults c0 c) : only_db_faults c0 (ctdb_send_message c dst m) := by
  obtain ⟨new, hl, hn⟩ := h
  refine ⟨new ++ [(request.message dst m, true)], by
    simp only [ctdb_send_message, hl, List.append_assoc], ?_⟩
  intro e he hf
  rcases List.mem_append.mp he with h1 | h1
  · exact hn e h1 hf
  · simp only [List.mem_singleton] at h1
    rw [h1] at hf
    exact absurd hf (by simp)

/-- When `freeze_all_nodes` returns `MONITOR_OK`, no `freeze` request failed. -/
theorem freeze_all_nodes_faults (c0 c : cluster) (nodemap : ctdb_node_map)
    (h : only_db_faults c0 c)
    (hok : (freeze_all_nodes c nodemap).2 = monitor_result.MONITOR_OK) :
    only_db_faults c0 (freeze_all_nodes c nodemap).1 := by
  unfold freeze_all_nodes at hok ⊢
  have key := foldl_inv
    (fun (acc : cluster × monitor_result) (n : ctdb_node_and_flags) =>
      if flag_test n.flags NODE_FLAGS_INACTIVE then acc
      else
        ((ctrl acc.1 (request.freeze n.pnn)).1,
          if (ctrl acc.1 (request.freeze n.pnn)).2 then acc.2
          else monitor_result.MONITOR_RECOVERY_NEEDED))
    (fun acc : cluster × monitor_result =>
      acc.2 = monitor_result.MONITOR_OK → only_db_faults c0 acc.1) nodemap.nodes
    (by
      intro s n _ hs
      simp only []
      by_cases hfl : flag_test n.flags NODE_FLAGS_INACTIVE = true
      · rw [if_pos hfl]; exact hs
      · rw [if_neg hfl]
        intro h2
        simp only [] at h2 ⊢
        by_cases hf : (ctrl s.1 (request.freeze n.pnn)).2 = true
        · rw [if_pos hf] at h2
          exact only_db_faults_ok c0 s.1 _ (hs h2) hf
        · rw [if_neg hf] at h2
          exact absurd h2 (by simp))
    (c, monitor_result.MONITOR_OK) (fun _ => h)
  exact key hok

/-- When `set_recovery_mode_loop` got through, no request of it failed. -/
theorem set_recovery_mode_loop_faults (c0 c : cluster) (nodemap : ctdb_node_map)
    (rec_mode : Nat) (h : only_db_faults c0 c)
    (hok : (set_recovery_mode_loop c nodemap rec_mode).2 = true) :
    only_db_faults c0 (set_recovery_mode_loop c nodemap rec_mode).1 := by
  unfold set_recovery_mode_loop at hok ⊢
  refine each_until_inv_ok _ (only_db_faults c0) nodemap.nodes ?_ c h hok
  intro s n _ hs hstep
  simp only [] at hstep ⊢
  by_cases h1 : flag_test n.flags NODE_FLAGS_INACTIVE = true
  · rw [if_pos h1]; exact hs
  · rw [if_neg h1] at hstep ⊢
    by_cases h2 : (!(ctrl s (request.setrecmode n.pnn rec_mode)).2) = true
    · rw [if_pos h2] at hstep; exact absurd hstep (by simp)
    · rw [if_neg h2] at hstep ⊢
      have h3 : (ctrl s (request.setrecmode n.pnn rec_mode)).2 = true := by simpa using h2
      have h4 := only_db_faults_ok c0 s _ hs h3
      by_cases h5 : rec_mode = CTDB_RECOVERY_NORMAL
      · rw [if_pos h5] at hstep ⊢
        exact only_db_faults_ok c0 _ _ h4 hstep
      · rw [if_neg h5]; exact h4

/-- When `set_recovery_mode` got through, no request of it failed. -/
theorem set_recovery_mode_faults (c0 c : cluster) (nodemap : ctdb_node_map)
    (rec_mode : Nat) (h : only_db_faults c0 c)
    (hok : (set_recovery_mode c nodemap rec_mode).2 = true) :
    only_db_faults c0 (set_recovery_mode c nodemap rec_mode).1 := by
  unfold set_recovery_mode at hok ⊢
  by_cases h1 : rec_mode = CTDB_RECOVERY_ACTIVE
  · rw [if_pos h1] at hok ⊢
    by_cases h2 : (freeze_all_nodes c nodemap).2 ≠ monitor_result.MONITOR_OK
    · rw [if_pos h2] at hok; exact absurd hok (by simp)
    · rw [if_neg h2] at hok ⊢
      exact set_recovery_mode_loop_faults c0 _ nodemap rec_mode
        (freeze_all_nodes_faults c0 c nodemap h (by simpa using h2)) hok
  · rw [if_neg h1] at hok ⊢
    exact set_recovery_mode_loop_faults c0 c nodemap rec_mode h hok

/-- When `set_recovery_master` got through, no request of it failed. -/
theorem set_recovery_master_faults (c0 c : cluster) (nodemap : ctdb_node_map) (pnn : Nat)
    (h : only_db_faults c0 c) (hok : (set_recovery_master c nodemap pnn).2 = true) :
    only_db_faults c0 (set_recovery_master c nodemap pnn).1 := by
  unfold set_recovery_master at hok ⊢
  refine each_until_inv_ok _ (only_db_faults c0) nodemap.nodes ?_ c h hok
  intro s n _ hs hstep
  simp only [] at hstep ⊢
  by_cases h1 : flag_test n.flags NODE_FLAGS_INACTIVE = true
  · rw [if_pos h1]; exact hs
  · rw [if_neg h1] at hstep ⊢
    exact only_db_faults_ok c0 s _ hs hstep

/-- When `update_vnnmap_on_all_nodes` got through, no request of it failed. -/
theorem update_vnnmap_on_all_nodes_faults (c0 c : cluster) (nodemap : ctdb_node_map)
    (vnnmap : ctdb_vnn_map) (h : only_db_faults c0 c)
    (hok : (update_vnnmap_on_all_nodes c nodemap vnnmap).2 = true) :
    only_db_faults c0 (update_vnnmap_on_all_nodes c nodemap vnnmap).1 := by
  unfold update_vnnmap_on_all_nodes at hok ⊢
  refine each_until_inv_ok _ (only_db_faults c0) nodemap.nodes ?_ c h hok
  intro s n _ hs hstep
  simp only [] at hstep ⊢
  by_cases h1 : flag_test n.flags NODE_FLAGS_INACTIVE = true
  · rw [if_pos h1]; exact hs
  · rw [if_neg h1] at hstep ⊢
    exact only_db_faults_ok c0 s _ hs hstep

/-- The requests of `create_remote_database` that fail are `getdbname` or `createdb`
requests. -/
theorem create_remote_database_faults (c0 c : cluster) (pnn dest : Nat)
    (remote : List ctdb_dbid) (db : ctdb_dbid) (h : only_db_faults c0 c) :
    only_db_faults c0 (create_remote_database pnn dest remote c db) := by
  unfold create_remote_database
  split
  · exact h
  · exact only_db_faults_db c0 _ _ (only_db_faults_db c0 c _ h (Or.inl rfl)) (Or.inr rfl)

/-- When `create_missing_remote_databases` got through, the requests of it that failed
are `getdbname` or `createdb` requests. -/
theorem create_missing_remote_databases_faults (c0 c : cluster) (nodemap : ctdb_node_map)
    (pnn : Nat) (dbmap : List ctdb_dbid) (h : only_db_faults c0 c)
    (hok : (create_missing_remote_databases c nodemap pnn dbmap).2 = true) :
    only_db_faults c0 (create_missing_remote_databases c nodemap pnn dbmap).1 := by
  unfold create_missing_remote_databases at hok ⊢
  refine each_until_inv_ok _ (only_db_faults c0) nodemap.nodes ?_ c h hok
  intro s n _ hs hstep
  simp only [] at hstep ⊢
  by_cases h0 : n.pnn = pnn
  · rw [if_pos h0]; exact hs
  · rw [if_neg h0] at hstep ⊢
    by_cases h1 : flag_test n.flags NODE_FLAGS_INACTIVE = true
    · rw [if_pos h1]; exact hs
    · rw [if_neg h1] at hstep ⊢
      by_cases h2 : (!(ctrl s (request.getdbmap n.pnn)).2) = true
      · rw [if_pos h2] at hstep; exact absurd hstep (by simp)
      · rw [if_neg h2]
        have h3 : (ctrl s (request.getdbmap n.pnn)).2 = true := by simpa using h2
        exact foldl_inv _ (only_db_faults c0) dbmap
          (fun s2 db _ hs2 => create_remote_database_faults c0 s2 pnn n.pnn _ db hs2) _
          (only_db_faults_ok c0 s _ hs h3)

/-- When `create_local_database` got through, the requests of it that failed are
`getdbname` or `createdb` requests. -/
theorem create_local_database_faults (c0 : cluster) (pnn src : Nat)
    (s : cluster × List ctdb_dbid) (db : ctdb_dbid) (h : only_db_faults c0 s.1)
    (hok : (create_local_database pnn src s db).2 = true) :
    only_db_faults c0 (create_local_database pnn src s db).1.1 := by
  unfold create_local_database at hok ⊢
  by_cases hh : has_db s.2 db.dbid = true
  · rw [if_pos hh]; exact h
  · rw [if_neg hh] at hok ⊢
    simp only [] at hok ⊢
    have h2 := only_db_faults_db c0 _
      (request.createdb pnn
        (if (ctrl s.1 (request.getdbname src db.dbid)).2 then some db.dbid else none)
        db.persistent)
      (only_db_faults_db c0 s.1 (request.getdbname src db.dbid) h (Or.inl rfl)) (Or.inr rfl)
    generalize (ctrl (ctrl s.1 (request.getdbname src db.dbid)).1
      (request.createdb pnn
        (if (ctrl s.1 (request.getdbname src db.dbid)).2 then some db.dbid else none)
        db.persistent)).1 = c2 at hok h2 ⊢
    by_cases hg : (!(ctrl c2 (request.getdbmap pnn)).2) = true
    · rw [if_pos hg] at hok; exact absurd hok (by simp)
    · rw [if_neg hg]
      exact only_db_faults_ok c0 c2 _ h2 (by simpa using hg)

/-- When `create_missing_local_databases` got through, the requests of it that failed
are `getdbname` or `createdb` requests. -/
theorem create_missing_local_databases_faults (c0 : cluster) (s0 : cluster × List ctdb_dbid)
    (nodemap : ctdb_node_map) (pnn : Nat) (h : only_db_faults c0 s0.1)
    (hok : (create_missing_local_databases s0 nodemap pnn).2 = true) :
    only_db_faults c0 (create_missing_local_databases s0 nodemap pnn).1.1 := by
  unfold create_missing_local_databases at hok ⊢
  refine each_until_inv_ok _ (fun s : cluster × List ctdb_dbid => only_db_faults c0 s.1)
    nodemap.nodes ?_ s0 h hok
  intro s n _ hs hstep
  simp only [] at hstep ⊢
  by_cases h0 : n.pnn = pnn
  · rw [if_pos h0]; exact hs
  · rw [if_neg h0] at hstep ⊢
    by_cases h1 : flag_test n.flags NODE_FLAGS_INACTIVE = true
    · rw [if_pos h1]; exact hs
    · rw [if_neg h1] at hstep ⊢
      by_cases h2 : (!(ctrl s.1 (request.getdbmap n.pnn)).2) = true
      · rw [if_pos h2] at hstep; exact absurd hstep (by simp)
      · rw [if_neg h2] at hstep ⊢
        have h3 : (ctrl s.1 (request.getdbmap n.pnn)).2 = true := by simpa using h2
        exact each_until_inv_ok _ (fun s : cluster × List ctdb_dbid => only_db_faults c0 s.1) _
          (fun s2 db _ hs2 hok2 => create_local_database_faults c0 pnn n.pnn s2 db hs2 hok2) _
          (only_db_faults_ok c0 s.1 _ hs h3) hstep

/-- When `pull_all_remote_databases` got through, no request of it failed. -/
theorem pull_all_remote_databases_faults (c0 c : cluster) (nodemap : ctdb_node_map)
    (pnn : Nat) (dbmap : List ctdb_dbid) (h : only_db_faults c0 c)
    (hok : (pull_all_remote_databases c nodemap pnn dbmap).2 = true) :
    only_db_faults c0 (pull_all_remote_databases c nodemap pnn dbmap).1 := by
  unfold pull_all_remote_databases at hok ⊢
  refine each_until_inv_ok _ (only_db_faults c0) dbmap ?_ c h hok
  intro s db _ hs hstep
  refine each_until_inv_ok _ (only_db_faults c0) nodemap.nodes ?_ s hs hstep
  intro s2 n _ hs2 hstep2
  simp only [] at hstep2 ⊢
  by_cases h0 : n.pnn = pnn
  · rw [if_pos h0]; exact hs2
  · rw [if_neg h0] at hstep2 ⊢
    by_cases h1 : flag_test n.flags NODE_FLAGS_INACTIVE = true
    · rw [if_pos h1]; exact hs2
    · rw [if_neg h1] at hstep2 ⊢
      exact only_db_faults_ok c0 s2 _ hs2 hstep2

/-- When `push_all_local_databases` got through, no request of it failed. -/
theorem push_all_local_databases_faults (c0 c : cluster) (nodemap : ctdb_node_map)
    (pnn : Nat) (dbmap : List ctdb_dbid) (h : only_db_faults c0 c)
    (hok : (push_all_local_databases c nodemap pnn dbmap).2 = true) :
    only_db_faults c0 (push_all_local_databases c nodemap pnn dbmap).1 := by
  unfold push_all_local_databases at hok ⊢
  refine each_until_inv_ok _ (only_db_faults c0) dbmap ?_ c h hok
  intro s db _ hs hstep
  refine each_until_inv_ok _ (only_db_faults c0) nodemap.nodes ?_ s hs hstep
  intro s2 n _ hs2 hstep2
  simp only [] at hstep2 ⊢
  by_cases h0 : n.pnn = pnn
  · rw [if_pos h0]; exact hs2
  · rw [if_neg h0] at hstep2 ⊢
    by_cases h1 : flag_test n.flags NODE_FLAGS_INACTIVE = true
    · rw [if_pos h1]; exact hs2
    · rw [if_neg h1] at hstep2 ⊢
      exact only_db_faults_ok c0 s2 _ hs2 hstep2

/-- When `update_dmaster_on_all_databases` got through, no request of it failed. -/
theorem update_dmaster_on_all_databases_faults (c0 c : cluster) (nodemap : ctdb_node_map)
    (pnn : Nat) (dbmap : List ctdb_dbid) (h : only_db_faults c0 c)
    (hok : (update_dmaster_on_all_databases c nodemap pnn dbmap).2 = true) :
    only_db_faults c0 (update_dmaster_on_all_databases c nodemap pnn dbmap).1 := by
  unfold update_dmaster_on_all_databases at hok ⊢
  refine each_until_inv_ok _ (only_db_faults c0) dbmap ?_ c h hok
  intro s db _ hs hstep
  refine each_until_inv_ok _ (only_db_faults c0) nodemap.nodes ?_ s hs hstep
  intro s2 n _ hs2 hstep2
  simp only [] at hstep2 ⊢
  by_cases h1 : flag_test n.flags NODE_FLAGS_INACTIVE = true
  · rw [if_pos h1]; exact hs2
  · rw [if_neg h1] at hstep2 ⊢
    exact only_db_faults_ok c0 s2 _ hs2 hstep2

/-- The broadcasts of `update_flags_on_all_nodes` do not fail. -/
theorem update_flags_on_all_nodes_faults (c0 c : cluster) (nodemap : ctdb_node_map)
    (h : only_db_faults c0 c) :
    only_db_faults c0 (update_flags_on_all_nodes c nodemap).1 := by
  unfold update_flags_on_all_nodes
  exact foldl_inv _ (only_db_faults c0) nodemap.nodes
    (fun s n _ hs => only_db_faults_msg c0 s _ _ hs) c h

/-- When `vacuum_db` got through, no request of it failed. -/
theorem vacuum_db_faults (c0 c : cluster) (self db_id : Nat) (nodemap : ctdb_node_map)
    (h : only_db_faults c0 c) (hok : (vacuum_db c self db_id nodemap).2 = true) :
    only_db_faults c0 (vacuum_db c self db_id nodemap).1 := by
  unfold vacuum_db at hok ⊢
  by_cases h1 : (!(ctrl c (request.get_max_rsn self db_id)).2) = true
  · rw [if_pos h1] at hok; exact absurd hok (by simp)
  · rw [if_neg h1] at hok ⊢
    simp only [] at hok ⊢
    have h2 := only_db_faults_ok c0 c _ h (by simpa using h1)
    generalize (ctrl c (request.get_max_rsn self db_id)).1 = c1 at hok h2 ⊢
    have hloop : ∀ (mk : Nat → request) (s : cluster), only_db_faults c0 s →
        (each_until (fun (c : cluster) (n : ctdb_node_and_flags) =>
          if flag_test n.flags NODE_FLAGS_INACTIVE then (c, true)
          else ctrl c (mk n.pnn)) s nodemap.nodes).2 = true →
        only_db_faults c0 (each_until (fun (c : cluster) (n : ctdb_node_and_flags) =>
          if flag_test n.flags NODE_FLAGS_INACTIVE then (c, true)
          else ctrl c (mk n.pnn)) s nodemap.nodes).1 := by
      intro mk s hs hok2
      refine each_until_inv_ok _ (only_db_faults c0) nodemap.nodes ?_ s hs hok2
      intro s2 n _ hs2 hstep2
      simp only [] at hstep2 ⊢
      by_cases h3 : flag_test n.flags NODE_FLAGS_INACTIVE = true
      · rw [if_pos h3]; exact hs2
      · rw [if_neg h3] at hstep2 ⊢
        exact only_db_faults_ok c0 s2 _ hs2 hstep2
    split at hok
    · next h4 =>
      rw [if_pos h4]
      have : (each_until (fun (s : cluster) (n : ctdb_node_and_flags) =>
          if flag_test n.flags NODE_FLAGS_INACTIVE then (s, true)
          else ctrl s (request.set_rsn_nonempty n.pnn db_id ((c.max_rsn db_id + 1) % 2 ^ 64)))
          c1 nodemap.nodes).2 = false := by simpa using h4
      rw [this] at hok
      exact absurd hok (by simp)
    · next h4 =>
      rw [if_neg h4]
      exact hloop (fun q => request.delete_low_rsn q db_id ((c.max_rsn db_id + 1) % 2 ^ 64)) _
        (hloop (fun q => request.set_rsn_nonempty q db_id ((c.max_rsn db_id + 1) % 2 ^ 64))
          c1 h2 (by simpa using h4)) hok

/-- When `vacuum_all_databases` got through, no request of it failed. -/
theorem vacuum_all_databases_faults (c0 c : cluster) (self : Nat) (nodemap : ctdb_node_map)
    (dbmap : List ctdb_dbid) (h : only_db_faults c0 c)
    (hok : (vacuum_all_databases c self nodemap dbmap).2 = true) :
    only_db_faults c0 (vacuum_all_databases c self nodemap dbmap).1 := by
  unfold vacuum_all_databases at hok ⊢
  exact each_until_inv_ok _ (only_db_faults c0) dbmap
    (fun s db _ hs hstep => vacuum_db_faults c0 s self db.dbid nodemap hs hstep) c h hok

/-- When a stage of `do_recovery` got through, the requests of it that failed are
`getdbname` or `createdb` requests. -/
theorem stage_faults (c0 : cluster) (pnn num_active : Nat) (nodemap : ctdb_node_map) :
    ∀ stage ∈ recovery_stages pnn num_active nodemap, ∀ st : recovery_vars,
      only_db_faults c0 st.c → (stage st).2 = true → only_db_faults c0 (stage st).1.c := by
  intro stage hmem st hs hok
  simp only [recovery_stages, List.mem_cons, List.mem_singleton, List.not_mem_nil,
    or_false] at hmem
  rcases hmem with rfl | rfl | rfl | rfl | rfl | rfl | rfl | rfl | rfl | rfl | rfl | rfl
    | rfl | rfl | rfl | rfl | rfl
  · exact set_recovery_mode_faults c0 st.c nodemap _ hs hok
  · unfold stage_generation at hok ⊢
    cases hg : new_generation st.random with
    | none => rw [hg] at hok; exact absurd hok (by simp)
    | some v =>
      rw [hg] at hok
      exact only_db_faults_ok c0 st.c _ hs hok
  · unfold stage_dbmap at hok ⊢
    by_cases hg : (!(ctrl st.c (request.getdbmap pnn)).2) = true
    · rw [if_pos hg] at hok; exact absurd hok (by simp)
    · rw [if_neg hg]
      exact only_db_faults_ok c0 st.c _ hs (by simpa using hg)
  · exact create_missing_remote_databases_faults c0 st.c nodemap pnn st.dbmap hs hok
  · exact create_missing_local_databases_faults c0 (st.c, st.dbmap) nodemap pnn hs hok
  · exact create_missing_remote_databases_faults c0 st.c nodemap pnn st.dbmap hs hok
  · exact pull_all_remote_databases_faults c0 st.c nodemap pnn st.dbmap hs hok
  · exact push_all_local_databases_faults c0 st.c nodemap pnn st.dbmap hs hok
  · unfold stage_build_vnnmap at hok ⊢
    cases hg : new_generation st.random with
    | none => rw [hg] at hok; exact absurd hok (by simp)
    | some v => exact hs
  · exact update_vnnmap_on_all_nodes_faults c0 st.c nodemap st.vnnmap hs hok
  · exact set_recovery_master_faults c0 st.c nodemap pnn hs hok
  · exact update_dmaster_on_all_databases_faults c0 st.c nodemap pnn st.dbmap hs hok
  · exact update_flags_on_all_nodes_faults c0 st.c nodemap hs
  · exact vacuum_all_databases_faults c0 st.c _ nodemap st.dbmap hs hok
  · unfold stage_takeover at hok ⊢
    by_cases hv : st.d.ctdb.vnn = true
    · rw [if_pos hv] at hok ⊢
      exact only_db_faults_ok c0 st.c _ hs hok
    · rw [if_neg hv]; exact hs
  · exact set_recovery_mode_faults c0 st.c nodemap _ hs hok
  · exact only_db_faults_msg c0 st.c _ _ hs

/-- X5: in a `do_recovery` run that returns `0`, every request that failed is a
`getdbname` or a `createdb` request: a failed request of any other kind, in any
stage, makes the run return without success. -/
theorem recovery_success_faults (d : daemon) (c : cluster) (rs : List Nat)
    (now : timeval) (pnn num_active : Nat) (nodemap : ctdb_node_map)
    (vnnmap : ctdb_vnn_map) (culprit : Nat) (lock : Option Int)
    (h : (do_recovery d c rs now pnn num_active nodemap vnnmap culprit lock).ret = some 0) :
    ∃ new, (do_recovery d c rs now pnn num_active nodemap vnnmap culprit lock).vars.c.log
        = c.log ++ new
      ∧ ∀ e ∈ new, e.2 = false → e.1.kind = 6 ∨ e.1.kind = 7 := by
  obtain ⟨hrun, hc⟩ := do_recovery_ok d c rs now pnn num_active nodemap vnnmap culprit lock h
  rw [hc]
  have h17 : after_stages (recovery_start d c rs now pnn nodemap vnnmap culprit lock)
      (recovery_stages pnn num_active nodemap) 17
      = (run_stages (recovery_start d c rs now pnn nodemap vnnmap culprit lock)
          (recovery_stages pnn num_active nodemap)).1 := rfl
  rw [h17]
  unfold run_stages at hrun ⊢
  exact each_until_inv_ok _ (fun st : recovery_vars => only_db_faults c st.c) _
    (fun st stage hmem hs hok => stage_faults c pnn num_active nodemap stage hmem st hs hok)
    _ (only_db_faults_refl c) hrun

/-- The run on `createdb_fails_cluster` returns `0`; the only request of it that
failed is the `createdb` to node `1`. -/
theorem recovery_success_faults_witness :
    (recovery_on createdb_fails_cluster).ret = some 0
    ∧ ∃ new, (recovery_on createdb_fails_cluster).vars.c.log
        = createdb_fails_cluster.log ++ new
      ∧ ∀ e ∈ new, e.2 = false → e.1.kind = 6 ∨ e.1.kind = 7 :=
  ⟨by decide,
    recovery_success_faults strict_daemon createdb_fails_cluster [0, 5, 7] ⟨30, 0⟩ 0 3
      three_nodes ⟨1, 3, [0, 1, 2]⟩ 1 (some 9) (by decide)⟩

/-! ## Theorems: the vnn map built by a recovery run -/

/-- Writing the slot just past a prefix. -/
theorem set_after_prefix (pre : List Nat) (a x : Nat) (rest : List Nat) :
    (pre ++ a :: rest).set pre.length x = pre ++ x :: rest := by
  induction pre with
  | nil => rfl
  | cons p ps ih => simp only [List.cons_append, List.length_cons, List.set_cons_succ, ih]

/-- The fill loop on a map with enough zeroed slots left: the pnns of the active
entries follow what was filled before, in order, the slots left stay zero, and
nothing is written past the end. -/
theorem fill_vnnmap_room (nodes : List ctdb_node_and_flags) :
    ∀ (pre : List Nat) (m : Nat) (oob : List (Nat × Nat)),
      ((nodes.filter node_active).map (fun n => n.pnn)).length ≤ m →
      fill_vnnmap nodes pre.length (pre ++ List.replicate m 0) oob
        = (pre ++ (nodes.filter node_active).map (fun n => n.pnn)
            ++ List.replicate (m - ((nodes.filter node_active).map (fun n => n.pnn)).length) 0,
           oob) := by
  induction nodes with
  | nil => intro pre m oob _; simp [fill_vnnmap]
  | cons n rest ih =>
    intro pre m oob hm
    by_cases hact : node_active n = true
    · have hfl : flag_test n.flags NODE_FLAGS_INACTIVE = false := by
        simpa [node_active] using hact
      simp only [List.filter_cons, hact, if_true, List.map_cons, List.length_cons] at hm ⊢
      obtain ⟨m1, rfl⟩ : ∃ m1, m = m1 + 1 := ⟨m - 1, by omega⟩
      have hlt : pre.length < (pre ++ List.replicate (m1 + 1) 0).length := by
        simp
      unfold fill_vnnmap
      simp only [hfl, Bool.not_false, if_true, if_pos hlt]
      rw [List.replicate_succ, set_after_prefix]
      have e : pre ++ n.pnn :: List.replicate m1 0 = (pre ++ [n.pnn]) ++ List.replicate m1 0 := by
        simp
      have el : pre.length + 1 = (pre ++ [n.pnn]).length := by simp
      rw [e, el, ih (pre ++ [n.pnn]) m1 oob (by omega)]
      simp
    · have hfl : flag_test n.flags NODE_FLAGS_INACTIVE = true := by
        simpa [node_active] using hact
      simp only [List.filter_cons, hact, Bool.false_eq_true, if_false] at hm ⊢
      unfold fill_vnnmap
      simp only [hfl, Bool.not_true, Bool.false_eq_true, if_false]
      exact ih pre m oob hm

/-- C21: the vnn map that the build stage of `do_recovery` leaves, for every node map
and for `num_active` the number of node-map entries without `INACTIVE` bits: its
size is `num_active`, its map is the pnns of exactly those entries in node-map order
(no padding), its generation is the one `new_generation` returned, and the loop wrote
no slot past the end. -/
theorem built_vnnmap_is_active_pnns (num_active : Nat) (nodemap : ctdb_node_map)
    (st : recovery_vars) (g : Nat) (rest : List Nat)
    (hnum : num_active = (nodemap.nodes.filter node_active).length)
    (hgen : new_generation st.random = some (g, rest)) :
    (stage_build_vnnmap num_active nodemap st).2 = true
    ∧ (stage_build_vnnmap num_active nodemap st).1.vnnmap
        = { generation := g, size := num_active, map := active_pnns nodemap }
    ∧ (active_pnns nodemap).length = num_active
    ∧ (stage_build_vnnmap num_active nodemap st).1.oob = st.oob := by
  have hlen : ((nodemap.nodes.filter node_active).map (fun n => n.pnn)).length = num_active := by
    rw [List.length_map, hnum]
  have h := fill_vnnmap_room nodemap.nodes [] num_active [] (by rw [hlen])
  simp only [List.length_nil, List.nil_append, hlen, Nat.sub_self, List.replicate_zero,
    List.append_nil] at h
  unfold stage_build_vnnmap
  rw [hgen]
  simp only []
  rw [h]
  refine ⟨by simp, ?_, hlen, by simp⟩
  rfl

/-- Node `1` of three is unhealthy and `num_active` is `2`: the map built is
`[0, 2]`. -/
theorem built_vnnmap_is_active_pnns_witness :
    (stage_build_vnnmap 2 unhealthy_nodes
        (recovery_start strict_daemon small_cluster [7] ⟨30, 0⟩ 0 unhealthy_nodes
          ⟨1, 3, [0, 1, 2]⟩ 1 (some 9))).2 = true
    ∧ (stage_build_vnnmap 2 unhealthy_nodes
        (recovery_start strict_daemon small_cluster [7] ⟨30, 0⟩ 0 unhealthy_nodes
          ⟨1, 3, [0, 1, 2]⟩ 1 (some 9))).1.vnnmap
        = { generation := 7, size := 2, map := active_pnns unhealthy_nodes }
    ∧ (active_pnns unhealthy_nodes).length = 2
    ∧ (stage_build_vnnmap 2 unhealthy_nodes
        (recovery_start strict_daemon small_cluster [7] ⟨30, 0⟩ 0 unhealthy_nodes
          ⟨1, 3, [0, 1, 2]⟩ 1 (some 9))).1.oob
        = (recovery_start strict_daemon small_cluster [7] ⟨30, 0⟩ 0 unhealthy_nodes
          ⟨1, 3, [0, 1, 2]⟩ 1 (some 9)).oob :=
  built_vnnmap_is_active_pnns 2 unhealthy_nodes _ 7 [] (by decide) (by decide)

/-- The map of the example. -/
theorem built_vnnmap_example : active_pnns unhealthy_nodes = [0, 2] := by
  decide

/-! ## Theorems: a second ban of the same node -/

/-- What is found in a list of allocations is found when more are added behind. -/
theorem lookup_append_some (h t : List (Nat × ban_state)) (p : Nat) (b : ban_state)
    (hp : h.lookup p = some b) : (h ++ t).lookup p = some b := by
  induction h with
  | nil => exact absurd hp (by simp [List.lookup])
  | cons e rest ih =>
    obtain ⟨a, x⟩ := e
    simp only [List.cons_append, List.lookup] at hp ⊢
    split
    · next heq => rw [heq] at hp; exact hp
    · next hne => rw [hne] at hp; exact ih hp

/-- C28: with bans enabled and a valid pnn `p`, a ban of `p` for `t1 > 0` seconds
followed by a second ban of `p` (for any `t2`, `0` included) leaves the timer of the
first ban pending and the registry with the entry of the second ban; when the first
timer comes due it runs `ctdb_unban_node p`, which sends a `modflags` clearing
`BANNED` to `p` and removes the registry entry that the second ban created. -/
theorem later_ban_keeps_earlier_timer (s : daemon) (now1 now2 : timeval) (p t1 t2 : Nat)
    (hen : s.ctdb.tunable.enable_bans ≠ 0) (hv : p < s.ctdb.num_nodes)
    (hreg : s.recd.banned_nodes.length = s.ctdb.num_nodes)
    (hfresh : ∀ e ∈ s.heap, e.1 < s.next_addr) (ht1 : t1 ≠ 0) :
    ban_timer s now1 t1 ∈ (ctdb_ban_node (ctdb_ban_node s now1 p t1) now2 p t2).timers
    ∧ banned_entry (ctdb_ban_node (ctdb_ban_node s now1 p t1) now2 p t2).recd p
        = some (s.next_addr + 1)
    ∧ (ctdb_ban_node (ctdb_ban_node s now1 p t1) now2 p t2).heap.lookup (s.next_addr + 1)
        = some { banned_node := p }
    ∧ timer_expire (ctdb_ban_node (ctdb_ban_node s now1 p t1) now2 p t2) (ban_timer s now1 t1)
        = ctdb_unban_node
            { ctdb_ban_node (ctdb_ban_node s now1 p t1) now2 p t2 with
              timers := (ctdb_ban_node (ctdb_ban_node s now1 p t1) now2 p t2).timers.erase
                (ban_timer s now1 t1) } p
    ∧ (timer_expire (ctdb_ban_node (ctdb_ban_node s now1 p t1) now2 p t2)
        (ban_timer s now1 t1)).sent
        = s.sent ++ [control.modflags p NODE_FLAGS_BANNED 0, control.modflags p NODE_FLAGS_BANNED 0,
                     control.modflags p 0 NODE_FLAGS_BANNED]
    ∧ banned_entry (timer_expire (ctdb_ban_node (ctdb_ban_node s now1 p t1) now2 p t2)
        (ban_timer s now1 t1)).recd p = none
    ∧ (timer_expire (ctdb_ban_node (ctdb_ban_node s now1 p t1) now2 p t2)
        (ban_timer s now1 t1)).heap.lookup (s.next_addr + 1) = none := by
  have e1 := ban_node_enabled_eq s now1 p t1 hv hen
  have hv1 : p < (ctdb_ban_node s now1 p t1).ctdb.num_nodes := by rw [e1]; exact hv
  have hen1 : (ctdb_ban_node s now1 p t1).ctdb.tunable.enable_bans ≠ 0 := by rw [e1]; exact hen
  have e2 := ban_node_enabled_eq (ctdb_ban_node s now1 p t1) now2 p t2 hv1 hen1
  have hnext : (ctdb_ban_node s now1 p t1).next_addr = s.next_addr + 1 := by rw [e1]
  have hheap1 : (ctdb_ban_node s now1 p t1).heap
      = s.heap ++ [(s.next_addr, { banned_node := p })] := by rw [e1]
  have htim1 : (ctdb_ban_node s now1 p t1).timers = s.timers ++ [ban_timer s now1 t1] := by
    rw [e1]; simp [ht1, ban_timer]
  have hsent1 : (ctdb_ban_node s now1 p t1).sent
      = s.sent ++ [control.modflags p NODE_FLAGS_BANNED 0] := by rw [e1]
  have hreg1 : (ctdb_ban_node s now1 p t1).recd.banned_nodes.length = s.ctdb.num_nodes := by
    rw [e1]; simp [hreg]
  generalize ctdb_ban_node s now1 p t1 = s1 at e2 hv1 hen1 hnext hheap1 htim1 hsent1 hreg1
  have hmem : ban_timer s now1 t1 ∈ (ctdb_ban_node s1 now2 p t2).timers := by
    rw [e2, htim1]; simp
  have hentry : banned_entry (ctdb_ban_node s1 now2 p t2).recd p = some (s.next_addr + 1) := by
    rw [e2, hnext]
    exact getD_set_some _ _ _ (by rw [hreg1]; exact hv)
  have hlook1 : (ctdb_ban_node s1 now2 p t2).heap.lookup s.next_addr
      = some { banned_node := p } := by
    rw [e2, hheap1]
    exact lookup_append_some _ _ _ _
      (lookup_append_fresh _ _ _ (fun e he => Nat.ne_of_lt (hfresh e he)))
  have hlook2 : (ctdb_ban_node s1 now2 p t2).heap.lookup (s.next_addr + 1)
      = some { banned_node := p } := by
    rw [e2, hheap1, hnext]
    refine lookup_append_fresh _ _ _ ?_
    intro e he
    rcases List.mem_append.mp he with h1 | h1
    · exact Nat.ne_of_lt (Nat.lt_succ_of_lt (hfresh e h1))
    · simp only [List.mem_singleton] at h1
      rw [h1]; simp
  have hexp : timer_expire (ctdb_ban_node s1 now2 p t2) (ban_timer s now1 t1)
      = ctdb_unban_node
          { ctdb_ban_node s1 now2 p t2 with
            timers := (ctdb_ban_node s1 now2 p t2).timers.erase (ban_timer s now1 t1) } p := by
    have hpd : (ban_timer s now1 t1).private_data = s.next_addr := rfl
    simp only [timer_expire, if_pos hmem, ctdb_ban_timeout, hpd, hlook1]
  have hv2 : p < (ctdb_ban_node s1 now2 p t2).ctdb.num_nodes := by rw [e2]; exact hv1
  have hun := unban_node_eq
    { ctdb_ban_node s1 now2 p t2 with
      timers := (ctdb_ban_node s1 now2 p t2).timers.erase (ban_timer s now1 t1) } p
    (s.next_addr + 1) hv2 hentry
  refine ⟨hmem, hentry, hlook2, hexp, ?_, ?_, ?_⟩
  · rw [hexp, hun]
    simp only []
    rw [e2, hsent1]
    simp
  · rw [hexp]
    exact unban_node_clears _ p hv2
  · rw [hexp, hun]
    exact lookup_filter_ne _ _

/-- Node `1` of the three-node cluster banned for five seconds at second `20` and
banned again, without limit, at second `21`. -/
theorem later_ban_keeps_earlier_timer_witness :
    ban_timer strict_daemon ⟨20, 0⟩ 5
        ∈ (ctdb_ban_node (ctdb_ban_node strict_daemon ⟨20, 0⟩ 1 5) ⟨21, 0⟩ 1 0).timers
    ∧ banned_entry (ctdb_ban_node (ctdb_ban_node strict_daemon ⟨20, 0⟩ 1 5) ⟨21, 0⟩ 1 0).recd 1
        = some (strict_daemon.next_addr + 1)
    ∧ (ctdb_ban_node (ctdb_ban_node strict_daemon ⟨20, 0⟩ 1 5) ⟨21, 0⟩ 1 0).heap.lookup
        (strict_daemon.next_addr + 1) = some { banned_node := 1 }
    ∧ timer_expire (ctdb_ban_node (ctdb_ban_node strict_daemon ⟨20, 0⟩ 1 5) ⟨21, 0⟩ 1 0)
        (ban_timer strict_daemon ⟨20, 0⟩ 5)
        = ctdb_unban_node
            { ctdb_ban_node (ctdb_ban_node strict_daemon ⟨20, 0⟩ 1 5) ⟨21, 0⟩ 1 0 with
              timers := (ctdb_ban_node (ctdb_ban_node strict_daemon ⟨20, 0⟩ 1 5)
                ⟨21, 0⟩ 1 0).timers.erase (ban_timer strict_daemon ⟨20, 0⟩ 5) } 1
    ∧ (timer_expire (ctdb_ban_node (ctdb_ban_node strict_daemon ⟨20, 0⟩ 1 5) ⟨21, 0⟩ 1 0)
        (ban_timer strict_daemon ⟨20, 0⟩ 5)).sent
        = strict_daemon.sent ++ [control.modflags 1 NODE_FLAGS_BANNED 0,
            control.modflags 1 NODE_FLAGS_BANNED 0, control.modflags 1 0 NODE_FLAGS_BANNED]
    ∧ banned_entry (timer_expire (ctdb_ban_node (ctdb_ban_node strict_daemon ⟨20, 0⟩ 1 5)
        ⟨21, 0⟩ 1 0) (ban_timer strict_daemon ⟨20, 0⟩ 5)).recd 1 = none
    ∧ (timer_expire (ctdb_ban_node (ctdb_ban_node strict_daemon ⟨20, 0⟩ 1 5) ⟨21, 0⟩ 1 0)
        (ban_timer strict_daemon ⟨20, 0⟩ 5)).heap.lookup (strict_daemon.next_addr + 1) = none :=
  later_ban_keeps_earlier_timer strict_daemon ⟨20, 0⟩ ⟨21, 0⟩ 1 5 0 (by decide) (by decide)
    (by decide) (by decide) (by decide)

/-! ## Theorems: a recovery run that cannot take the recovery lock -/

/-- After `ctdb_set_culprit` the last culprit is the culprit given. -/
theorem set_culprit_last (s : daemon) (now : timeval) (culprit : Nat) :
    (ctdb_set_culprit s now culprit).recd.last_culprit = culprit := by
  by_cases h : (s.recd.last_culprit ≠ culprit ∨
      timeval_elapsed_usec now s.recd.first_recover_time
        > (s.ctdb.tunable.recovery_grace_period : Int) * 1000000)
  · rw [set_culprit_restart s now culprit h]
  · rw [set_culprit_again s now culprit h]
    by_contra hne
    exact h (Or.inl hne)

/-- `ctdb_ban_node` does not touch the culprit tracking. -/
theorem ban_node_last_culprit (s : daemon) (now : timeval) (pnn ban_time : Nat) :
    (ctdb_ban_node s now pnn ban_time).recd.last_culprit = s.recd.last_culprit := by
  by_cases hv : pnn < s.ctdb.num_nodes
  · by_cases hen : s.ctdb.tunable.enable_bans = 0
    · have hval : ctdb_validate_pnn s.ctdb pnn = true := by simp [ctdb_validate_pnn, hv]
      simp [ctdb_ban_node, hval, hen]
    · rw [ban_node_enabled_eq s now pnn ban_time hv hen]
  · have hval : ctdb_validate_pnn s.ctdb pnn = false := by simp [ctdb_validate_pnn, hv]
    simp [ctdb_ban_node, hval]

/-- After the first steps of `do_recovery` the last culprit is the culprit given. -/
theorem recovery_culprit_last (s : daemon) (now : timeval) (nodemap : ctdb_node_map)
    (culprit : Nat) :
    (do_recovery_culprit s now nodemap culprit).recd.last_culprit = culprit := by
  unfold do_recovery_culprit
  simp only []
  split
  · rw [ban_node_last_culprit]; exact set_culprit_last _ now culprit
  · exact set_culprit_last _ now culprit

/-- C29: for every call of `do_recovery` with a culprit other than the local pnn in
which `ctdb_recovery_lock` fails: the run returns `-1`, the last culprit is the
local pnn with a counter of `1` (whatever had been counted for the culprit given),
`need_recovery` is set, and the cluster was sent no request of any stage (no
`freeze`, no `setrecmode`, no `setvnnmap`): its state and its log are as before. -/
theorem lock_failure_blames_local (d : daemon) (c : cluster) (rs : List Nat)
    (now : timeval) (pnn num_active : Nat) (nodemap : ctdb_node_map)
    (vnnmap : ctdb_vnn_map) (culprit : Nat) (hne : culprit ≠ pnn) :
    (do_recovery d c rs now pnn num_active nodemap vnnmap culprit none).ret = some (-1)
    ∧ (do_recovery d c rs now pnn num_active nodemap vnnmap culprit
        none).vars.d.recd.last_culprit = pnn
    ∧ (do_recovery d c rs now pnn num_active nodemap vnnmap culprit
        none).vars.d.recd.culprit_counter = 1
    ∧ (do_recovery d c rs now pnn num_active nodemap vnnmap culprit
        none).vars.d.recd.need_recovery = true
    ∧ (do_recovery d c rs now pnn num_active nodemap vnnmap culprit none).vars.c = c := by
  have hp : do_recovery_prologue d now pnn nodemap culprit none
      = (ctdb_set_culprit (do_recovery_culprit d now nodemap culprit) now pnn, false) := rfl
  have hrun : do_recovery d c rs now pnn num_active nodemap vnnmap culprit none
      = { vars := recovery_start d c rs now pnn nodemap vnnmap culprit none,
          ret := some (-1) } := by
    unfold do_recovery
    simp only [hp, Bool.not_false, if_true]
  have hd : (recovery_start d c rs now pnn nodemap vnnmap culprit none).d
      = ctdb_set_culprit (do_recovery_culprit d now nodemap culprit) now pnn := rfl
  have hlast : (do_recovery_culprit d now nodemap culprit).recd.last_culprit ≠ pnn := by
    rw [recovery_culprit_last]; exact hne
  rw [hrun]
  refine ⟨rfl, ?_, ?_, ?_, rfl⟩
  · show (recovery_start d c rs now pnn nodemap vnnmap culprit none).d.recd.last_culprit = pnn
    rw [hd]; exact set_culprit_last _ now pnn
  · show (recovery_start d c rs now pnn nodemap vnnmap culprit none).d.recd.culprit_counter = 1
    rw [hd, set_culprit_restart _ now pnn (Or.inl hlast)]
  · exact prologue_need_recovery d now pnn nodemap culprit none

/-- The sixth run of the quiet daemon blamed node `2` six times; a seventh call for
node `2` that cannot take the lock leaves node `0`, the local node, as the culprit
with a counter of `1`. -/
theorem lock_failure_blames_local_witness :
    (do_recovery quiet_sixth small_cluster [] ⟨70, 0⟩ 0 3 three_nodes ⟨1, 3, [0, 1, 2]⟩ 2
        none).ret = some (-1)
    ∧ (do_recovery quiet_sixth small_cluster [] ⟨70, 0⟩ 0 3 three_nodes ⟨1, 3, [0, 1, 2]⟩ 2
        none).vars.d.recd.last_culprit = 0
    ∧ (do_recovery quiet_sixth small_cluster [] ⟨70, 0⟩ 0 3 three_nodes ⟨1, 3, [0, 1, 2]⟩ 2
        none).vars.d.recd.culprit_counter = 1
    ∧ (do_recovery quiet_sixth small_cluster [] ⟨70, 0⟩ 0 3 three_nodes ⟨1, 3, [0, 1, 2]⟩ 2
        none).vars.d.recd.need_recovery = true
    ∧ (do_recovery quiet_sixth small_cluster [] ⟨70, 0⟩ 0 3 three_nodes ⟨1, 3, [0, 1, 2]⟩ 2
        none).vars.c = small_cluster :=
  lock_failure_blames_local quiet_sixth small_cluster [] ⟨70, 0⟩ 0 3 three_nodes
    ⟨1, 3, [0, 1, 2]⟩ 2 (by decide)

/-! ## Theorems: request ids -/

/-- A slot id shifted into the upper half of an id is a 32-bit value as it stands. -/
theorem u32_of_shifted_slot (slot : Nat) (hslot : slot ≤ 0xFFFF) :
    u32_of_int (wrap_int ((slot : Int) * 2 ^ 16)) = 2 ^ 16 * slot := by
  unfold u32_of_int wrap_int
  have h : (((slot : Int) * 2 ^ 16 + 2 ^ 31) % 2 ^ 32 - 2 ^ 31) % 2 ^ 32
      = ((2 ^ 16 * slot : Nat) : Int) := by
    push_cast
    omega
  rw [h]
  exact Int.toNat_natCast _

/-- The two halves of an id put together from a counter and a slot id. -/
theorem reqid_halves (cnt slot : Nat) (hslot : slot ≤ 0xFFFF) :
    ((cnt &&& 0xFFFF) ||| 2 ^ 16 * slot) < 2 ^ 32
    ∧ (((cnt &&& 0xFFFF) ||| 2 ^ 16 * slot) >>> 16) &&& 0xFFFF = slot
    ∧ ((cnt &&& 0xFFFF) ||| 2 ^ 16 * slot) &&& 0xFFFF = cnt % 2 ^ 16 := by
  have hm : cnt &&& 0xFFFF = cnt % 2 ^ 16 := Nat.and_pow_two_sub_one_eq_mod cnt 16
  have hlt : cnt % 2 ^ 16 < 2 ^ 16 := Nat.mod_lt _ (by decide)
  have h : (cnt % 2 ^ 16) ||| 2 ^ 16 * slot = 2 ^ 16 * slot + cnt % 2 ^ 16 := by
    rw [Nat.mul_add_lt_is_or hlt slot, Nat.or_comm]
  rw [hm, h]
  refine ⟨by omega, ?_, ?_⟩
  · rw [Nat.shiftRight_eq_div_pow]
    have e : (2 ^ 16 * slot + cnt % 2 ^ 16) / 2 ^ 16 = slot := by omega
    rw [e]
    have := Nat.and_pow_two_sub_one_eq_mod slot 16
    simp only [Nat.reducePow, Nat.add_one_sub_one] at this ⊢
    rw [this]; omega
  · have := Nat.and_pow_two_sub_one_eq_mod (2 ^ 16 * slot + cnt % 2 ^ 16) 16
    simp only [Nat.reducePow, Nat.add_one_sub_one] at this ⊢
    rw [this]; omega

/-- An id released is no longer found. -/
theorem lookup_filter_self {β : Type} (l : List (Nat × β)) (p : Nat) :
    (l.filter (fun e => e.1 != p)).lookup p = none := by
  induction l with
  | nil => rfl
  | cons e rest ih =>
    obtain ⟨a, x⟩ := e
    by_cases hp : a = p
    · simp only [List.filter_cons, hp, bne_self_eq_false, Bool.false_eq_true, if_false]
      exact ih
    · have hb : (a != p) = true := by simpa using hp
      have hq : (p == a) = false := by simpa using Ne.symm hp
      simp only [List.filter_cons, hb, if_true, List.lookup, hq]
      exact ih

/-- Releasing an id leaves what is registered under the other ids. -/
theorem lookup_filter_other {β : Type} (l : List (Nat × β)) (p k : Nat) (hk : k ≠ p) :
    (l.filter (fun e => e.1 != p)).lookup k = l.lookup k := by
  induction l with
  | nil => rfl
  | cons e rest ih =>
    obtain ⟨a, x⟩ := e
    by_cases hp : a = p
    · subst hp
      have hq : (k == a) = false := by simpa using hk
      simp only [List.filter_cons, bne_self_eq_false, Bool.false_eq_true, if_false,
        List.lookup, hq]
      exact ih
    · have hb : (a != p) = true := by simpa using hp
      simp only [List.filter_cons, hb, if_true, List.lookup]
      split
      · rfl
      · exact ih

/-- C30: for every counter value and every slot id in `[0, 0xFFFF]` that the
allocator gives for `state`, the id `r` that `ctdb_reqid_new` returns is a 32-bit
value with the slot id in its upper half and the counter modulo `2^16` in its lower
half; `_ctdb_reqid_find r` for the type of `state` returns `state`;
`ctdb_reqid_remove r` releases that slot and no other; and the counter has gone up
by one. -/
theorem reqid_round_trip (ctdb : reqid_context) (state : reqid_state) (slot : Nat)
    (hslot : slot ≤ 0xFFFF) :
    (ctdb_reqid_new ctdb state slot).2 < 2 ^ 32
    ∧ ((ctdb_reqid_new ctdb state slot).2 >>> 16) &&& 0xFFFF = slot
    ∧ (ctdb_reqid_new ctdb state slot).2 &&& 0xFFFF = ctdb.idr_cnt % 2 ^ 16
    ∧ _ctdb_reqid_find (ctdb_reqid_new ctdb state slot).1 (ctdb_reqid_new ctdb state slot).2
        state.type_name = some state
    ∧ idr_find (ctdb_reqid_remove (ctdb_reqid_new ctdb state slot).1
        (ctdb_reqid_new ctdb state slot).2).idr slot = none
    ∧ (∀ k, k ≠ slot →
        idr_find (ctdb_reqid_remove (ctdb_reqid_new ctdb state slot).1
          (ctdb_reqid_new ctdb state slot).2).idr k = idr_find ctdb.idr k)
    ∧ (ctdb_reqid_new ctdb state slot).1.idr_cnt
        = (ctdb.idr_cnt + 1) % 2 ^ ctdb.idr_cnt_bits := by
  have hget : idr_get_new ctdb.idr state (slot : Int)
      = ({ used := (slot, state) :: ctdb.idr.used }, (slot : Int)) := by
    unfold idr_get_new
    rw [if_neg (by omega)]
    simp
  have hid : (ctdb_reqid_new ctdb state slot).2 = (ctdb.idr_cnt &&& 0xFFFF) ||| 2 ^ 16 * slot := by
    unfold ctdb_reqid_new
    simp only [hget]
    rw [u32_of_shifted_slot slot hslot]
  have hctx : (ctdb_reqid_new ctdb state slot).1
      = { ctdb with idr := { used := (slot, state) :: ctdb.idr.used },
                    idr_cnt := (ctdb.idr_cnt + 1) % 2 ^ ctdb.idr_cnt_bits } := by
    unfold ctdb_reqid_new
    simp only [hget]
  obtain ⟨h1, h2, h3⟩ := reqid_halves ctdb.idr_cnt slot hslot
  rw [hid, hctx]
  refine ⟨h1, h2, h3, ?_, ?_, ?_, rfl⟩
  · unfold _ctdb_reqid_find _idr_find_type idr_find
    simp only [h2]
    simp [List.lookup, talloc_check_name]
  · unfold ctdb_reqid_remove idr_remove idr_find
    simp only [h2]
    simp only [List.lookup, beq_self_eq_true, Option.isNone_some, Bool.false_eq_true, if_false]
    exact lookup_filter_self _ slot
  · intro k hk
    unfold ctdb_reqid_remove idr_remove idr_find
    simp only [h2]
    simp only [List.lookup, beq_self_eq_true, Option.isNone_some, Bool.false_eq_true, if_false]
    rw [lookup_filter_other _ slot k hk]
    have hq : (k == slot) = false := by simpa using hk
    simp only [List.lookup, hq]

/-- The counter is at `0x1FFFF` and the allocator gives slot `0x8000`: the id is
`0x8000FFFF`. -/
theorem reqid_round_trip_witness :
    (ctdb_reqid_new busy_context ⟨300, 7⟩ (0x8000 : Nat)).2 < 2 ^ 32
    ∧ ((ctdb_reqid_new busy_context ⟨300, 7⟩ (0x8000 : Nat)).2 >>> 16) &&& 0xFFFF = 0x8000
    ∧ (ctdb_reqid_new busy_context ⟨300, 7⟩ (0x8000 : Nat)).2 &&& 0xFFFF
        = busy_context.idr_cnt % 2 ^ 16
    ∧ _ctdb_reqid_find (ctdb_reqid_new busy_context ⟨300, 7⟩ (0x8000 : Nat)).1
        (ctdb_reqid_new busy_context ⟨300, 7⟩ (0x8000 : Nat)).2
        (⟨300, 7⟩ : reqid_state).type_name = some ⟨300, 7⟩
    ∧ idr_find (ctdb_reqid_remove (ctdb_reqid_new busy_context ⟨300, 7⟩ (0x8000 : Nat)).1
        (ctdb_reqid_new busy_context ⟨300, 7⟩ (0x8000 : Nat)).2).idr 0x8000 = none
    ∧ (∀ k, k ≠ 0x8000 →
        idr_find (ctdb_reqid_remove (ctdb_reqid_new busy_context ⟨300, 7⟩ (0x8000 : Nat)).1
          (ctdb_reqid_new busy_context ⟨300, 7⟩ (0x8000 : Nat)).2).idr k
          = idr_find busy_context.idr k)
    ∧ (ctdb_reqid_new busy_context ⟨300, 7⟩ (0x8000 : Nat)).1.idr_cnt
        = (busy_context.idr_cnt + 1) % 2 ^ busy_context.idr_cnt_bits :=
  reqid_round_trip busy_context ⟨300, 7⟩ 0x8000 (by decide)

/-- The id of the example. -/
theorem reqid_example :
    (ctdb_reqid_new busy_context ⟨300, 7⟩ 0x8000).2 = 0x8000FFFF
    ∧ (ctdb_reqid_new busy_context ⟨300, 7⟩ 0x8000).1.idr_cnt = 0x20000 := by
  decide

/-! ## Theorems: the `BANNED` view and the count of active nodes -/

/-- The test of the `BANNED` flag reads bit `3`. -/
theorem flag_test_banned (x : Nat) : flag_test x NODE_FLAGS_BANNED = x.testBit 3 := by
  unfold flag_test NODE_FLAGS_BANNED
  have h := Nat.and_two_pow x 3
  simp only [Nat.reducePow] at h
  rw [show (0x8 : Nat) = 8 from rfl, h]
  cases x.testBit 3 <;> simp

/-- The flags that the counting loop leaves for an entry: the `BANNED` bit as the
registry says, every other bit as it was. -/
theorem reconciled_flags_bits (flags : Nat) (banned : Bool) (hflags : flags < 2 ^ 32) :
    flag_test (if banned then flags ||| NODE_FLAGS_BANNED
        else flags &&& (2 ^ 32 - 1 - NODE_FLAGS_BANNED)) NODE_FLAGS_BANNED = banned
    ∧ ∀ k, NODE_FLAGS_BANNED.testBit k = false →
        (if banned then flags ||| NODE_FLAGS_BANNED
          else flags &&& (2 ^ 32 - 1 - NODE_FLAGS_BANNED)).testBit k = flags.testBit k := by
  have hmask : ∀ k, k < 32 → k ≠ 3 → (2 ^ 32 - 1 - NODE_FLAGS_BANNED).testBit k = true := by
    decide
  have hmask3 : (2 ^ 32 - 1 - NODE_FLAGS_BANNED).testBit 3 = false := by decide
  have hb3 : NODE_FLAGS_BANNED.testBit 3 = true := by decide
  rw [flag_test_banned]
  cases banned
  · simp only [Bool.false_eq_true, if_false]
    refine ⟨by rw [Nat.testBit_land, hmask3, Bool.and_false], fun k hk => ?_⟩
    have hk3 : k ≠ 3 := by
      intro h3; rw [h3, hb3] at hk; exact absurd hk (by simp)
    rw [Nat.testBit_land]
    by_cases hk32 : k < 32
    · rw [hmask k hk32 hk3, Bool.and_true]
    · have : flags.testBit k = false :=
        Nat.testBit_lt_two_pow (lt_of_lt_of_le hflags
          (Nat.pow_le_pow_right (by decide) (by omega)))
      rw [this, Bool.false_and]
  · simp only [if_true]
    refine ⟨by rw [Nat.testBit_lor, hb3, Bool.or_true], fun k hk => ?_⟩
    rw [Nat.testBit_lor, hk, Bool.or_false]

/-- The counting loop as a whole: every entry gets its `BANNED` bit from the
registry, and the counter goes up by the number of entries that are then active. -/
theorem count_active_nodes_eq (rec1 : ctdb_recoverd) (nodes : List ctdb_node_and_flags) :
    ∀ k, k + nodes.length < 2 ^ 32 →
      (count_active_nodes rec1 nodes k).1
        = nodes.map (fun n => { n with flags :=
            if (banned_entry rec1 n.pnn).isSome then n.flags ||| NODE_FLAGS_BANNED
            else n.flags &&& (2 ^ 32 - 1 - NODE_FLAGS_BANNED) })
      ∧ (count_active_nodes rec1 nodes k).2
        = k + ((count_active_nodes rec1 nodes k).1.filter node_active).length := by
  induction nodes with
  | nil => intro k _; exact ⟨rfl, rfl⟩
  | cons n rest ih =>
    intro k hk
    simp only [List.length_cons] at hk
    unfold count_active_nodes
    simp only [List.map_cons]
    generalize (if (banned_entry rec1 n.pnn).isSome then n.flags ||| NODE_FLAGS_BANNED
        else n.flags &&& (2 ^ 32 - 1 - NODE_FLAGS_BANNED)) = f
    by_cases hact : flag_test f NODE_FLAGS_INACTIVE = true
    · simp only [hact, Bool.not_true, Bool.false_eq_true, if_false]
      obtain ⟨h1, h2⟩ := ih k (by omega)
      refine ⟨by rw [h1], ?_⟩
      have hna : node_active { n with flags := f } = false := by
        unfold node_active; rw [hact]; rfl
      rw [List.filter_cons_of_neg (by rw [hna]; simp)]
      exact h2
    · have hact2 : flag_test f NODE_FLAGS_INACTIVE = false := by simpa using hact
      simp only [hact2, Bool.not_false, if_true]
      have hk1 : (k + 1) % 2 ^ 32 = k + 1 := Nat.mod_eq_of_lt (by omega)
      rw [hk1]
      obtain ⟨h1, h2⟩ := ih (k + 1) (by omega)
      refine ⟨by rw [h1], ?_⟩
      have hna : node_active { n with flags := f } = true := by
        unfold node_active; rw [hact2]; rfl
      rw [List.filter_cons_of_pos hna, h2]
      simp only [List.length_cons]
      omega

/-- C24: after the loop of a monitor iteration that rebuilds the `BANNED` view, for
every node map of 32-bit flags: the node map has the same length, every entry has
its pnn, its `BANNED` bit is set if and only if the ban registry has an entry for its
pnn, every other flag bit is as before, and `num_active` is the number of entries
whose flags, as the loop left them, have no `INACTIVE` bit. -/
theorem banned_view_rebuilt (rec1 : ctdb_recoverd) (nodemap : ctdb_node_map)
    (hflags : ∀ n ∈ nodemap.nodes, n.flags < 2 ^ 32)
    (hlen : nodemap.nodes.length < 2 ^ 32) :
    (count_active_nodes rec1 nodemap.nodes 0).1.length = nodemap.nodes.length
    ∧ (∀ (i : Nat) (n : ctdb_node_and_flags), nodemap.nodes[i]? = some n →
        ∃ m : ctdb_node_and_flags, (count_active_nodes rec1 nodemap.nodes 0).1[i]? = some m
          ∧ m.pnn = n.pnn
          ∧ flag_test m.flags NODE_FLAGS_BANNED = (banned_entry rec1 n.pnn).isSome
          ∧ ∀ k, NODE_FLAGS_BANNED.testBit k = false → m.flags.testBit k = n.flags.testBit k)
    ∧ (count_active_nodes rec1 nodemap.nodes 0).2
        = ((count_active_nodes rec1 nodemap.nodes 0).1.filter node_active).length := by
  obtain ⟨h1, h2⟩ := count_active_nodes_eq rec1 nodemap.nodes 0 (by omega)
  refine ⟨by rw [h1, List.length_map], ?_, by rw [h2, Nat.zero_add]⟩
  intro i n hn
  have hmem : n ∈ nodemap.nodes := List.getElem?_mem hn
  obtain ⟨hb, hk⟩ := reconciled_flags_bits n.flags (banned_entry rec1 n.pnn).isSome
    (hflags n hmem)
  exact ⟨{ n with flags :=
      if (banned_entry rec1 n.pnn).isSome then n.flags ||| NODE_FLAGS_BANNED
      else n.flags &&& (2 ^ 32 - 1 - NODE_FLAGS_BANNED) },
    by rw [h1, List.getElem?_map, hn]; rfl, rfl, hb, hk⟩

/-- The registry of `daemon_with_ban` has an entry for node `1`; the node map shows
node `1` unhealthy and node `2` banned. -/
theorem banned_view_rebuilt_witness :
    (count_active_nodes daemon_with_ban.recd
        (⟨[⟨0, 0⟩, ⟨1, NODE_FLAGS_UNHEALTHY⟩, ⟨2, NODE_FLAGS_BANNED⟩]⟩ : ctdb_node_map).nodes
        0).1.length
      = (⟨[⟨0, 0⟩, ⟨1, NODE_FLAGS_UNHEALTHY⟩, ⟨2, NODE_FLAGS_BANNED⟩]⟩ : ctdb_node_map).nodes.length
    ∧ (∀ (i : Nat) (n : ctdb_node_and_flags),
        (⟨[⟨0, 0⟩, ⟨1, NODE_FLAGS_UNHEALTHY⟩, ⟨2, NODE_FLAGS_BANNED⟩]⟩
          : ctdb_node_map).nodes[i]? = some n →
        ∃ m : ctdb_node_and_flags, (count_active_nodes daemon_with_ban.recd
            (⟨[⟨0, 0⟩, ⟨1, NODE_FLAGS_UNHEALTHY⟩, ⟨2, NODE_FLAGS_BANNED⟩]⟩
              : ctdb_node_map).nodes 0).1[i]? = some m
          ∧ m.pnn = n.pnn
          ∧ flag_test m.flags NODE_FLAGS_BANNED
              = (banned_entry daemon_with_ban.recd n.pnn).isSome
          ∧ ∀ k, NODE_FLAGS_BANNED.testBit k = false → m.flags.testBit k = n.flags.testBit k)
    ∧ (count_active_nodes daemon_with_ban.recd
        (⟨[⟨0, 0⟩, ⟨1, NODE_FLAGS_UNHEALTHY⟩, ⟨2, NODE_FLAGS_BANNED⟩]⟩ : ctdb_node_map).nodes 0).2
      = ((count_active_nodes daemon_with_ban.recd
          (⟨[⟨0, 0⟩, ⟨1, NODE_FLAGS_UNHEALTHY⟩, ⟨2, NODE_FLAGS_BANNED⟩]⟩
            : ctdb_node_map).nodes 0).1.filter node_active).length :=
  banned_view_rebuilt daemon_with_ban.recd
    ⟨[⟨0, 0⟩, ⟨1, NODE_FLAGS_UNHEALTHY⟩, ⟨2, NODE_FLAGS_BANNED⟩]⟩ (by decide) (by decide)

/-- The loop of the example: node `1` is now unhealthy and banned, node `2` has no
flag, and two nodes are active. -/
theorem count_active_nodes_example :
    count_active_nodes daemon_with_ban.recd
        [⟨0, 0⟩, ⟨1, NODE_FLAGS_UNHEALTHY⟩, ⟨2, NODE_FLAGS_BANNED⟩] 0
      = ([⟨0, 0⟩, ⟨1, 10⟩, ⟨2, 0⟩], 2) := by
  decide
/-! ## Theorems: `update_local_flags` -/

/-- The entry that `update_local_flags` leaves when it takes over flags: the same pnn,
the flags taken over. -/
theorem adopt_flags (n : ctdb_node_and_flags) (flags : Nat) :
    (if n.flags ≠ flags then { n with flags := flags } else n).pnn = n.pnn
    ∧ (if n.flags ≠ flags then { n with flags := flags } else n).flags = flags := by
  by_cases h : n.flags = flags
  · rw [if_neg (by simpa using h)]; exact ⟨rfl, h⟩
  · rw [if_pos h]; exact ⟨rfl, rfl⟩

/-- The loop of `update_local_flags` from entry `j` on, when every node asked returns
a node map that has that node at the index where the local map has it. -/
theorem update_local_flags_from_ok (ctdb_pnn : Nat) (getnodemap : Nat → Option ctdb_node_map)
    (nodes : List ctdb_node_and_flags) :
    ∀ j : Nat,
      (∀ (i : Nat) (n : ctdb_node_and_flags), nodes[i]? = some n →
        flag_test n.flags NODE_FLAGS_DISCONNECTED = false → n.pnn ≠ ctdb_pnn →
        ∃ (remote : ctdb_node_map) (m : ctdb_node_and_flags),
          getnodemap n.pnn = some remote ∧ remote.nodes[j + i]? = some m ∧ m.pnn = n.pnn) →
      (update_local_flags_from ctdb_pnn getnodemap nodes j).2 = true
      ∧ (update_local_flags_from ctdb_pnn getnodemap nodes j).1.length = nodes.length
      ∧ ∀ (i : Nat) (n : ctdb_node_and_flags), nodes[i]? = some n →
          ∃ n2 : ctdb_node_and_flags,
            (update_local_flags_from ctdb_pnn getnodemap nodes j).1[i]? = some n2
            ∧ n2.pnn = n.pnn
            ∧ ((flag_test n.flags NODE_FLAGS_DISCONNECTED = true ∨ n.pnn = ctdb_pnn) → n2 = n)
            ∧ (flag_test n.flags NODE_FLAGS_DISCONNECTED = false → n.pnn ≠ ctdb_pnn →
                ∃ (remote : ctdb_node_map) (m : ctdb_node_and_flags),
                  getnodemap n.pnn = some remote ∧ remote.nodes[j + i]? = some m
                  ∧ m.pnn = n.pnn ∧ n2.flags = m.flags) := by
  induction nodes with
  | nil =>
    intro j _
    refine ⟨rfl, rfl, fun i n hn => ?_⟩
    simp at hn
  | cons x rest ih =>
    intro j hwf
    have hrest := ih (j + 1) (fun i n hn hd hp => by
      have := hwf (i + 1) n (by simpa using hn) hd hp
      rwa [show j + (i + 1) = j + 1 + i by omega] at this)
    obtain ⟨hr1, hr2, hr3⟩ := hrest
    have tail : ∀ (x2 : ctdb_node_and_flags) (i : Nat) (n : ctdb_node_and_flags),
        (x :: rest)[i + 1]? = some n →
        ∃ n2 : ctdb_node_and_flags,
          (x2 :: (update_local_flags_from ctdb_pnn getnodemap rest (j + 1)).1)[i + 1]? = some n2
          ∧ n2.pnn = n.pnn
          ∧ ((flag_test n.flags NODE_FLAGS_DISCONNECTED = true ∨ n.pnn = ctdb_pnn) → n2 = n)
          ∧ (flag_test n.flags NODE_FLAGS_DISCONNECTED = false → n.pnn ≠ ctdb_pnn →
              ∃ (remote : ctdb_node_map) (m : ctdb_node_and_flags),
                getnodemap n.pnn = some remote ∧ remote.nodes[j + (i + 1)]? = some m
                ∧ m.pnn = n.pnn ∧ n2.flags = m.flags) := by
      intro x2 i n hn
      obtain ⟨n2, h1, h2, h3, h4⟩ := hr3 i n (by simpa using hn)
      refine ⟨n2, by simpa using h1, h2, h3, fun hd hp => ?_⟩
      have := h4 hd hp
      rwa [show j + 1 + i = j + (i + 1) by omega] at this
    by_cases hd : flag_test x.flags NODE_FLAGS_DISCONNECTED = true
    · unfold update_local_flags_from
      rw [if_pos hd]
      refine ⟨hr1, by simp [hr2], fun i n hn => ?_⟩
      cases i with
      | zero =>
        have hx : x = n := by simpa using hn
        subst hx
        exact ⟨x, by simp, rfl, fun _ => rfl, fun hd2 => by rw [hd] at hd2; exact absurd hd2 (by simp)⟩
      | succ i => exact tail x i n hn
    · have hd2 : flag_test x.flags NODE_FLAGS_DISCONNECTED = false := by simpa using hd
      by_cases hp : x.pnn = ctdb_pnn
      · unfold update_local_flags_from
        rw [if_neg hd, if_pos hp]
        refine ⟨hr1, by simp [hr2], fun i n hn => ?_⟩
        cases i with
        | zero =>
          have hx : x = n := by simpa using hn
          subst hx
          exact ⟨x, by simp, rfl, fun _ => rfl, fun _ hp2 => absurd hp hp2⟩
        | succ i => exact tail x i n hn
      · obtain ⟨remote, m, hg, hm, hmp⟩ := hwf 0 x (by simp) hd2 hp
        have hgetD : (remote.nodes.getD j ⟨0, 0⟩) = m := by
          rw [List.getD_eq_getElem?_getD]
          rw [Nat.add_zero] at hm
          rw [hm]; rfl
        unfold update_local_flags_from
        rw [if_neg hd, if_neg hp, hg]
        simp only [hgetD]
        obtain ⟨ha1, ha2⟩ := adopt_flags x m.flags
        refine ⟨hr1, by simp [hr2], fun i n hn => ?_⟩
        cases i with
        | zero =>
          have hx : x = n := by simpa using hn
          subst hx
          refine ⟨_, by simp, ha1, fun h => ?_, fun _ _ => ⟨remote, m, hg, hm, hmp, ha2⟩⟩
          rcases h with h | h
          · rw [hd2] at h; exact absurd h (by simp)
          · exact absurd h hp
        | succ i => exact tail _ i n hn

/-- X8: `update_local_flags`, when every node asked returns a node map, and a node map
that lists that node where the local map lists it: the function returns `0`, the
node map has the same length and every entry its pnn; the entry of the local node
and every entry that is `DISCONNECTED` locally are unchanged; every other entry has
the flags that its node reports for itself. -/
theorem update_local_flags_adopts (ctdb_pnn : Nat) (nodemap : ctdb_node_map)
    (getnodemap : Nat → Option ctdb_node_map)
    (hreply : ∀ (i : Nat) (n : ctdb_node_and_flags), nodemap.nodes[i]? = some n →
      flag_test n.flags NODE_FLAGS_DISCONNECTED = false → n.pnn ≠ ctdb_pnn →
      ∃ (remote : ctdb_node_map) (m : ctdb_node_and_flags),
        getnodemap n.pnn = some remote ∧ remote.nodes[i]? = some m ∧ m.pnn = n.pnn) :
    (update_local_flags ctdb_pnn nodemap getnodemap).2 = true
    ∧ (update_local_flags ctdb_pnn nodemap getnodemap).1.nodes.length = nodemap.nodes.length
    ∧ ∀ (i : Nat) (n : ctdb_node_and_flags), nodemap.nodes[i]? = some n →
        ∃ n2 : ctdb_node_and_flags,
          (update_local_flags ctdb_pnn nodemap getnodemap).1.nodes[i]? = some n2
          ∧ n2.pnn = n.pnn
          ∧ ((flag_test n.flags NODE_FLAGS_DISCONNECTED = true ∨ n.pnn = ctdb_pnn) → n2 = n)
          ∧ (flag_test n.flags NODE_FLAGS_DISCONNECTED = false → n.pnn ≠ ctdb_pnn →
              ∃ (remote : ctdb_node_map) (m : ctdb_node_and_flags),
                getnodemap n.pnn = some remote ∧ remote.nodes[i]? = some m
                ∧ m.pnn = n.pnn ∧ n2.flags = m.flags) := by
  have h := update_local_flags_from_ok ctdb_pnn getnodemap nodemap.nodes 0
    (fun i n hn hd hp => by rw [Nat.zero_add]; exact hreply i n hn hd hp)
  simp only [Nat.zero_add] at h
  exact h

/-- X8 at a concrete input: node `1` is unhealthy in the local node map and every
node returns the node map of three healthy nodes. -/
theorem update_local_flags_adopts_witness :
    (update_local_flags 0 unhealthy_nodes (fun _ => some three_nodes)).2 = true
    ∧ (update_local_flags 0 unhealthy_nodes (fun _ => some three_nodes)).1.nodes.length
        = unhealthy_nodes.nodes.length
    ∧ ∀ (i : Nat) (n : ctdb_node_and_flags), unhealthy_nodes.nodes[i]? = some n →
        ∃ n2 : ctdb_node_and_flags,
          (update_local_flags 0 unhealthy_nodes (fun _ => some three_nodes)).1.nodes[i]?
            = some n2
          ∧ n2.pnn = n.pnn
          ∧ ((flag_test n.flags NODE_FLAGS_DISCONNECTED = true ∨ n.pnn = 0) → n2 = n)
          ∧ (flag_test n.flags NODE_FLAGS_DISCONNECTED = false → n.pnn ≠ 0 →
              ∃ (remote : ctdb_node_map) (m : ctdb_node_and_flags),
                (fun _ => some three_nodes : Nat → Option ctdb_node_map) n.pnn = some remote
                ∧ remote.nodes[i]? = some m ∧ m.pnn = n.pnn ∧ n2.flags = m.flags) :=
  update_local_flags_adopts 0 unhealthy_nodes (fun _ => some three_nodes)
    (fun i n hn hd hp => by
      match i, hn with
      | 0, hn =>
        have hx : (⟨0, 0⟩ : ctdb_node_and_flags) = n := by simpa [unhealthy_nodes] using hn
        subst hx
        exact absurd rfl hp
      | 1, hn =>
        have hx : (⟨1, NODE_FLAGS_UNHEALTHY⟩ : ctdb_node_and_flags) = n := by
          simpa [unhealthy_nodes] using hn
        subst hx
        exact ⟨three_nodes, ⟨1, 0⟩, rfl, rfl, rfl⟩
      | 2, hn =>
        have hx : (⟨2, 0⟩ : ctdb_node_and_flags) = n := by simpa [unhealthy_nodes] using hn
        subst hx
        exact ⟨three_nodes, ⟨2, 0⟩, rfl, rfl, rfl⟩
      | k + 3, hn => simp [unhealthy_nodes] at hn)

/-- Node 1 is unhealthy in the local node map and reports itself healthy: its entry
is healthy afterwards. -/
theorem update_local_flags_example :
    update_local_flags 0 unhealthy_nodes (fun _ => some three_nodes) = (three_nodes, true) := by
  decide

/-- C27, evaluated: the local node map of node `0` lists the nodes `0`, `1`, `2`, all
without flags; node `1` returns a node map that lists itself first, without flags,
and node `0` second, banned; node `2` returns the local node map.  No request
fails.  `update_local_flags` gives the entry of node `1` the flags of entry `1` of
the reply of node `1`, which is the entry of node `0`: node `1` is banned in the
local node map afterwards, though it reports no flag for itself. -/
theorem update_local_flags_takes_other_entry :
    update_local_flags 0 three_nodes (fun q => if q = 1 then some shuffled_nodes
        else some three_nodes)
      = (⟨[⟨0, 0⟩, ⟨1, NODE_FLAGS_BANNED⟩, ⟨2, 0⟩]⟩, true)
    ∧ three_nodes.nodes[1]? = some ⟨1, 0⟩
    ∧ flag_test (0 : Nat) NODE_FLAGS_DISCONNECTED = false
    ∧ (∀ m ∈ shuffled_nodes.nodes, m.pnn = 1 → m.flags = 0)
    ∧ shuffled_nodes.nodes[1]? = some ⟨0, NODE_FLAGS_BANNED⟩ := by
  decide

/-! ## Theorems: the election-forcing decision of an iteration -/

/-- The node map that the counting loop leaves, as a map over the entries. -/
theorem count_active_nodes_fst (rec1 : ctdb_recoverd) (nodes : List ctdb_node_and_flags) :
    ∀ k, (count_active_nodes rec1 nodes k).1
      = nodes.map (fun n => { n with flags :=
          if (banned_entry rec1 n.pnn).isSome then n.flags ||| NODE_FLAGS_BANNED
          else n.flags &&& (2 ^ 32 - 1 - NODE_FLAGS_BANNED) }) := by
  induction nodes with
  | nil => intro k; rfl
  | cons n rest ih =>
    intro k
    unfold count_active_nodes
    simp only [List.map_cons]
    rw [ih]

/-- The index of a pnn is the same after a change of the entries that keeps every
pnn. -/
theorem node_index_map (f : ctdb_node_and_flags → ctdb_node_and_flags)
    (hf : ∀ n, (f n).pnn = n.pnn) (nodes : List ctdb_node_and_flags) (pnn : Nat) :
    node_index (nodes.map f) pnn = node_index nodes pnn := by
  induction nodes with
  | nil => rfl
  | cons n rest ih =>
    simp only [List.map_cons]
    unfold node_index
    rw [hf, ih]

/-- No index is found exactly when no entry has the pnn. -/
theorem node_index_none (nodes : List ctdb_node_and_flags) (pnn : Nat) :
    node_index nodes pnn = none ↔ ∀ n ∈ nodes, n.pnn ≠ pnn := by
  induction nodes with
  | nil => simp [node_index]
  | cons x rest ih =>
    unfold node_index
    by_cases hx : x.pnn = pnn
    · rw [if_pos hx]
      simp [hx]
    · rw [if_neg hx]
      simp [hx, ih]

/-- The counting loop leaves the `DISCONNECTED` bit of an entry as it was. -/
theorem reconciled_disconnected (flags : Nat) (banned : Bool) :
    flag_test (if banned then flags ||| NODE_FLAGS_BANNED
        else flags &&& (2 ^ 32 - 1 - NODE_FLAGS_BANNED)) NODE_FLAGS_DISCONNECTED
      = flag_test flags NODE_FLAGS_DISCONNECTED := by
  rw [flag_test_disconnected, flag_test_disconnected]
  have h1 : NODE_FLAGS_BANNED.testBit 0 = false := by decide
  have h2 : (2 ^ 32 - 1 - NODE_FLAGS_BANNED).testBit 0 = true := by decide
  cases banned
  · simp only [Bool.false_eq_true, if_false]
    rw [Nat.testBit_land, h2, Bool.and_true]
  · simp only [if_true]
    rw [Nat.testBit_lor, h1, Bool.or_false]

/-- The calls of the public IP check are none, or begin with the check. -/
theorem monitor_public_ip_check_calls (s : daemon) (env : monitor_env) (pnn : Nat) :
    (monitor_public_ip_check s env pnn).1 = []
    ∨ ∃ rest, (monitor_public_ip_check s env pnn).1 = monitor_call.public_ip_check :: rest := by
  unfold monitor_public_ip_check
  by_cases hv : s.ctdb.vnn = true
  · rw [if_pos hv]
    cases env.public_ips with
    | none => exact Or.inr ⟨[], rfl⟩
    | some ips => exact Or.inr ⟨_, rfl⟩
  · rw [if_neg hv]
    exact Or.inl rfl

/-- The calls of the master part begin with `update_local_flags`. -/
theorem monitor_master_calls (s : daemon) (env : monitor_env) (pnn num_active : Nat)
    (nodemap : ctdb_node_map) (vnnmap : ctdb_vnn_map) :
    ∃ rest, (monitor_master s env pnn num_active nodemap vnnmap).calls
      = monitor_call.update_local_flags :: rest := by
  unfold monitor_master
  by_cases h : (!(update_local_flags s.ctdb.pnn nodemap env.flags_nodemap).2) = true
  · rw [if_pos h]; exact ⟨[], rfl⟩
  · rw [if_neg h]; exact ⟨_, rfl⟩

/-- The decision of `monitor_election_check` when the node map of the recovery master
was read. -/
theorem monitor_election_check_cases (recmaster : Nat) (nodemap remote : ctdb_node_map) :
    (monitor_election_check recmaster nodemap (some remote) = monitor_step.election
      ∧ (recmaster = 0xFFFFFFFF ∨ node_index nodemap.nodes recmaster = none
        ∨ ∃ j, node_index nodemap.nodes recmaster = some j
            ∧ (flag_test (nodemap.nodes.getD j ⟨0, 0⟩).flags NODE_FLAGS_DISCONNECTED = true
              ∨ flag_test (remote.nodes.getD j ⟨0, 0⟩).flags NODE_FLAGS_INACTIVE = true)))
    ∨ (monitor_election_check recmaster nodemap (some remote) = monitor_step.pass
      ∧ recmaster ≠ 0xFFFFFFFF
      ∧ ∃ j, node_index nodemap.nodes recmaster = some j
          ∧ flag_test (nodemap.nodes.getD j ⟨0, 0⟩).flags NODE_FLAGS_DISCONNECTED = false
          ∧ flag_test (remote.nodes.getD j ⟨0, 0⟩).flags NODE_FLAGS_INACTIVE = false) := by
  unfold monitor_election_check
  by_cases hr : recmaster = 0xFFFFFFFF
  · rw [if_pos hr]; exact Or.inl ⟨rfl, Or.inl hr⟩
  · rw [if_neg hr]
    cases hj : node_index nodemap.nodes recmaster with
    | none => exact Or.inl ⟨rfl, Or.inr (Or.inl rfl)⟩
    | some j =>
      simp only []
      by_cases hd : flag_test (nodemap.nodes.getD j ⟨0, 0⟩).flags NODE_FLAGS_DISCONNECTED = true
      · rw [if_pos hd]; exact Or.inl ⟨rfl, Or.inr (Or.inr ⟨j, rfl, Or.inl hd⟩)⟩
      · rw [if_neg hd]
        by_cases hi : flag_test (remote.nodes.getD j ⟨0, 0⟩).flags NODE_FLAGS_INACTIVE = true
        · rw [if_pos hi]; exact Or.inl ⟨rfl, Or.inr (Or.inr ⟨j, rfl, Or.inr hi⟩)⟩
        · rw [if_neg hi]
          exact Or.inr ⟨rfl, hr, j, rfl, by simpa using hd, by simpa using hi⟩

/-- The calls of a public IP check alone. -/
theorem calls_shape_ip (a : List monitor_call)
    (ha : a = [] ∨ ∃ rest, a = monitor_call.public_ip_check :: rest) :
    a = [] ∨ (∃ rest, a = monitor_call.public_ip_check :: rest)
    ∨ (∃ rest, a = monitor_call.update_local_flags :: rest) := by
  rcases ha with h | h
  · exact Or.inl h
  · exact Or.inr (Or.inl h)

/-- The calls of a public IP check followed by the master part. -/
theorem calls_shape (a b : List monitor_call)
    (ha : a = [] ∨ ∃ rest, a = monitor_call.public_ip_check :: rest)
    (hb : ∃ rest, b = monitor_call.update_local_flags :: rest) :
    a ++ b = [] ∨ (∃ rest, a ++ b = monitor_call.public_ip_check :: rest)
    ∨ (∃ rest, a ++ b = monitor_call.update_local_flags :: rest) := by
  obtain ⟨rb, hb⟩ := hb
  rcases ha with h | ⟨ra, h⟩
  · rw [h, hb]; exact Or.inr (Or.inr ⟨rb, rfl⟩)
  · rw [h]; exact Or.inr (Or.inl ⟨_, rfl⟩)

/-- The calls of an iteration whose reads succeed, by the decision of
`monitor_election_check`. -/
theorem monitor_iteration_calls (s : daemon) (env : monitor_env) (tunable : ctdb_tunable)
    (vnnmap : ctdb_vnn_map) (nodemap : ctdb_node_map) (recmaster : Nat)
    (ht : env.tunables = some tunable) (hpnn : env.getpnn ≠ 0xFFFFFFFF)
    (hv : env.getvnnmap = some vnnmap) (hn : env.getnodemap = some nodemap)
    (hr : env.getrecmaster = some recmaster) :
    (monitor_election_check recmaster
        ⟨(count_active_nodes s.recd nodemap.nodes 0).1⟩ env.recmaster_nodemap
          = monitor_step.election →
      (monitor_iteration s env).calls
        = [monitor_call.force_election env.getpnn
            ⟨(count_active_nodes s.recd nodemap.nodes 0).1⟩])
    ∧ (monitor_election_check recmaster
        ⟨(count_active_nodes s.recd nodemap.nodes 0).1⟩ env.recmaster_nodemap
          = monitor_step.pass →
      (monitor_iteration s env).calls = []
      ∨ (∃ rest, (monitor_iteration s env).calls = monitor_call.public_ip_check :: rest)
      ∨ (∃ rest, (monitor_iteration s env).calls = monitor_call.update_local_flags :: rest)) := by
  have hc : ∀ k, (count_active_nodes { s.recd with
        node_flags := (nodemap.nodes.getD env.getpnn ⟨0, 0⟩).flags } nodemap.nodes k).1
      = (count_active_nodes s.recd nodemap.nodes k).1 := by
    intro k
    rw [count_active_nodes_fst, count_active_nodes_fst]
    rfl
  unfold monitor_iteration
  rw [ht]
  simp only []
  rw [if_neg hpnn, hv]
  simp only []
  rw [hn]
  simp only []
  rw [hr]
  simp only [hc]
  constructor
  · intro he
    rw [he]
  · intro hp
    rw [hp]
    simp only []
    split_ifs with hip hm
    · exact calls_shape_ip _ (monitor_public_ip_check_calls _ _ _)
    · exact calls_shape_ip _ (monitor_public_ip_check_calls _ _ _)
    · exact calls_shape _ _ (monitor_public_ip_check_calls _ _ _)
        (monitor_master_calls _ _ _ _ _ _)

/-- X7: the election-forcing decision of an iteration of `monitor_cluster` in which
every read succeeds and the node map of the recovery master has an entry at the
index where the local map lists the master: the iteration calls `force_election`
(with the local pnn and the reconciled node map) and nothing else if and only if the
recovery master read is `-1`, or no entry of the node map has its pnn, or the first
entry that has it is `DISCONNECTED` in the local map, or the entry at that index of
the master's own node map has a bit of `INACTIVE`. -/
theorem election_forced_iff (s : daemon) (env : monitor_env) (tunable : ctdb_tunable)
    (vnnmap : ctdb_vnn_map) (nodemap remote : ctdb_node_map) (recmaster : Nat)
    (ht : env.tunables = some tunable) (hpnn : env.getpnn ≠ 0xFFFFFFFF)
    (hv : env.getvnnmap = some vnnmap) (hn : env.getnodemap = some nodemap)
    (hr : env.getrecmaster = some recmaster) (hrn : env.recmaster_nodemap = some remote)
    (hown : ∀ j, node_index nodemap.nodes recmaster = some j → j < remote.nodes.length) :
    (monitor_iteration s env).calls
        = [monitor_call.force_election env.getpnn
            ⟨(count_active_nodes s.recd nodemap.nodes 0).1⟩]
    ↔ (recmaster = 0xFFFFFFFF
       ∨ (∀ n ∈ nodemap.nodes, n.pnn ≠ recmaster)
       ∨ (∃ (j : Nat) (n : ctdb_node_and_flags), node_index nodemap.nodes recmaster = some j
            ∧ nodemap.nodes[j]? = some n
            ∧ flag_test n.flags NODE_FLAGS_DISCONNECTED = true)
       ∨ (∃ (j : Nat) (m : ctdb_node_and_flags), node_index nodemap.nodes recmaster = some j
            ∧ remote.nodes[j]? = some m
            ∧ flag_test m.flags NODE_FLAGS_INACTIVE = true)) := by
  obtain ⟨hE, hP⟩ := monitor_iteration_calls s env tunable vnnmap nodemap recmaster
    ht hpnn hv hn hr
  rw [hrn] at hE hP
  have hidx : node_index (count_active_nodes s.recd nodemap.nodes 0).1 recmaster
      = node_index nodemap.nodes recmaster := by
    rw [count_active_nodes_fst]
    apply node_index_map
    intro n
    rfl
  have hdisc : ∀ (j : Nat) (n : ctdb_node_and_flags), nodemap.nodes[j]? = some n →
      flag_test (((count_active_nodes s.recd nodemap.nodes 0).1).getD j ⟨0, 0⟩).flags
          NODE_FLAGS_DISCONNECTED
        = flag_test n.flags NODE_FLAGS_DISCONNECTED := by
    intro j n hj
    rw [count_active_nodes_fst, List.getD_eq_getElem?_getD, List.getElem?_map, hj]
    simp only [Option.map, Option.getD]
    exact reconciled_disconnected _ _
  have hrem : ∀ (j : Nat) (m : ctdb_node_and_flags), remote.nodes[j]? = some m →
      remote.nodes.getD j ⟨0, 0⟩ = m := by
    intro j m hm
    rw [List.getD_eq_getElem?_getD, hm]; rfl
  rcases monitor_election_check_cases recmaster
      ⟨(count_active_nodes s.recd nodemap.nodes 0).1⟩ remote with
    ⟨he, hc⟩ | ⟨hp, hne, j, hj, hd, hi⟩
  · refine ⟨fun _ => ?_, fun _ => hE he⟩
    rcases hc with h | h | ⟨j, hj, h⟩
    · exact Or.inl h
    · rw [hidx] at h
      exact Or.inr (Or.inl ((node_index_none _ _).mp h))
    · rw [hidx] at hj
      obtain ⟨n, hnj, _⟩ := node_index_some _ _ j hj
      rcases h with h | h
      · rw [hdisc j n hnj] at h
        exact Or.inr (Or.inr (Or.inl ⟨j, n, hj, hnj, h⟩))
      · have hlt := hown j hj
        have hm : remote.nodes[j]? = some (remote.nodes.get ⟨j, hlt⟩) := by
          simp [List.getElem?_eq_getElem hlt]
        rw [hrem j _ hm] at h
        exact Or.inr (Or.inr (Or.inr ⟨j, _, hj, hm, h⟩))
  · rw [hidx] at hj
    obtain ⟨n, hnj, _⟩ := node_index_some _ _ j hj
    rw [hdisc j n hnj] at hd
    constructor
    · intro hcalls
      rcases hP hp with h | ⟨rest, h⟩ | ⟨rest, h⟩
      · rw [hcalls] at h; exact absurd h (by simp)
      · rw [hcalls] at h; exact absurd h (by simp)
      · rw [hcalls] at h; exact absurd h (by simp)
    · intro hrhs
      rcases hrhs with h | h | ⟨j2, n2, hj2, hn2, h⟩ | ⟨j2, m, hj2, hm, h⟩
      · exact absurd h hne
      · rw [(node_index_none _ _).mpr h] at hj
        exact absurd hj (by simp)
      · rw [hj] at hj2
        have hjj : j = j2 := by simpa using hj2
        subst hjj
        rw [hnj] at hn2
        have hnn : n = n2 := by simpa using hn2
        subst hnn
        rw [hd] at h
        exact absurd h (by simp)
      · rw [hj] at hj2
        have hjj : j = j2 := by simpa using hj2
        subst hjj
        rw [hrem j m hm, h] at hi
        exact absurd hi (by simp)

theorem election_forced_iff_witness :
    (monitor_iteration master_daemon banned_master_env).calls
        = [monitor_call.force_election banned_master_env.getpnn
            ⟨(count_active_nodes master_daemon.recd unhealthy_nodes.nodes 0).1⟩]
    ↔ ((1 : Nat) = 0xFFFFFFFF
       ∨ (∀ n ∈ unhealthy_nodes.nodes, n.pnn ≠ 1)
       ∨ (∃ (j : Nat) (n : ctdb_node_and_flags), node_index unhealthy_nodes.nodes 1 = some j
            ∧ unhealthy_nodes.nodes[j]? = some n
            ∧ flag_test n.flags NODE_FLAGS_DISCONNECTED = true)
       ∨ (∃ (j : Nat) (m : ctdb_node_and_flags), node_index unhealthy_nodes.nodes 1 = some j
            ∧ (⟨[⟨0, 0⟩, ⟨1, NODE_FLAGS_BANNED⟩, ⟨2, 0⟩]⟩ : ctdb_node_map).nodes[j]? = some m
            ∧ flag_test m.flags NODE_FLAGS_INACTIVE = true)) :=
  election_forced_iff master_daemon banned_master_env
    { enable_bans := 1, recovery_grace_period := 120, recovery_ban_period := 300 }
    ⟨5, 2, [0, 2]⟩ unhealthy_nodes ⟨[⟨0, 0⟩, ⟨1, NODE_FLAGS_BANNED⟩, ⟨2, 0⟩]⟩ 1
    rfl (by decide) rfl rfl rfl rfl
    (fun j hj => by
      have h1 : node_index unhealthy_nodes.nodes 1 = some 1 := by decide
      rw [h1] at hj
      have hj1 : 1 = j := by simpa using hj
      subst hj1
      decide)

/-- C25, evaluated: node `0` runs an iteration with node `1` as recovery master; the
local node map lists the nodes `0`, `1`, `2` without flags and every read succeeds.
When node `1` returns a node map that lists itself first, without flags, and node
`0` second, banned, the iteration calls `force_election` and nothing else, though
the recovery master is not `-1`, has an entry in the local node map that is not
`DISCONNECTED`, and its own entry in its own node map has no bit of `INACTIVE`: the
code tests entry `1` of the reply, the entry of node `0`.  When node `1` returns a
node map that lists itself first, banned, and node `0` second without flags, the
iteration calls nothing, though the recovery master shows itself banned. -/
theorem election_check_reads_other_entry :
    (monitor_iteration master_daemon misaligned_master_env).calls
      = [monitor_call.force_election 0 three_nodes]
    ∧ misaligned_master_env.getrecmaster = some 1
    ∧ misaligned_master_env.getnodemap = some three_nodes
    ∧ node_index three_nodes.nodes 1 = some 1
    ∧ three_nodes.nodes[1]? = some ⟨1, 0⟩
    ∧ flag_test (0 : Nat) NODE_FLAGS_DISCONNECTED = false
    ∧ misaligned_master_env.recmaster_nodemap = some shuffled_nodes
    ∧ (∀ m ∈ shuffled_nodes.nodes, m.pnn = 1 → flag_test m.flags NODE_FLAGS_INACTIVE = false)
    ∧ (monitor_iteration master_daemon hidden_ban_env).calls = []
    ∧ hidden_ban_env.getrecmaster = some 1
    ∧ hidden_ban_env.recmaster_nodemap = some ⟨[⟨1, NODE_FLAGS_BANNED⟩, ⟨0, 0⟩, ⟨2, 0⟩]⟩
    ∧ flag_test NODE_FLAGS_BANNED NODE_FLAGS_INACTIVE = true := by
  decide

/-- The recovery master, node `1`, shows itself banned: node `0` forces an election
and does nothing else in the iteration. -/
theorem election_forced_example :
    (monitor_iteration master_daemon banned_master_env).calls
      = [monitor_call.force_election 0 unhealthy_nodes] := by
  decide

/-! ## Theorems: the count of active nodes handed to `do_recovery` -/

/-- C22: the count of active nodes that `monitor_cluster` hands to `do_recovery` is
made before `update_local_flags` rewrites the flags of the same node map, and is
not made again.  In the iteration of `healed_env` node `1` is unhealthy in the local
node map and reports itself healthy: `do_recovery` is called with `num_active = 2`
and a node map that has three active entries, and the loop that fills the new vnn
map of two slots writes the pnn of node `2` at index `2`, past the last slot. -/
theorem stale_num_active_overruns_vnnmap :
    (monitor_iteration master_daemon healed_env).calls
      = [monitor_call.update_local_flags, monitor_call.verify_recmaster,
         monitor_call.verify_recmode,
         monitor_call.do_recovery 0 2 three_nodes ⟨5, 2, [0, 2]⟩ 1]
    ∧ (three_nodes.nodes.filter node_active).length = 3
    ∧ (do_recovery (monitor_iteration master_daemon healed_env).d small_cluster [0, 5, 7] ⟨30, 0⟩
        0 2 three_nodes ⟨5, 2, [0, 2]⟩ 1 (some 9)).vars.oob = [(2, 2)]
    ∧ (do_recovery (monitor_iteration master_daemon healed_env).d small_cluster [0, 5, 7] ⟨30, 0⟩
        0 2 three_nodes ⟨5, 2, [0, 2]⟩ 1 (some 9)).vars.vnnmap = ⟨7, 2, [0, 1]⟩
    ∧ (do_recovery (monitor_iteration master_daemon healed_env).d small_cluster [0, 5, 7] ⟨30, 0⟩
        0 2 three_nodes ⟨5, 2, [0, 2]⟩ 1 (some 9)).ret = some 0 := by
  refine ⟨by decide, by decide, ?_, ?_, ?_⟩
  · decide
  · decide
  · decide
/-! ## Theorems: the culprit of a consistency mismatch -/

/-- A sequence of two checks that ends in a recovery: the first does, or the first
falls through and the second does. -/
theorem then_check_recovery (a b : check_result) (c : Nat)
    (h : a.then_check b = check_result.recovery c) :
    a = check_result.recovery c ∨ (a = check_result.pass ∧ b = check_result.recovery c) := by
  cases a with
  | pass => exact Or.inr ⟨rfl, h⟩
  | again => exact absurd h (by simp [check_result.then_check])
  | recovery c2 => exact Or.inl h

/-- A loop of checks that ends in a recovery: the check of one element does. -/
theorem check_all_recovery {α : Type} (f : α → check_result) (c : Nat) (l : List α)
    (h : check_all f l = check_result.recovery c) : ∃ a ∈ l, f a = check_result.recovery c := by
  induction l with
  | nil => exact absurd h (by simp [check_all])
  | cons x rest ih =>
    unfold check_all at h
    rcases then_check_recovery _ _ c h with h1 | ⟨_, h2⟩
    · exact ⟨x, List.mem_cons_self _ _, h1⟩
    · obtain ⟨a, ha, hfa⟩ := ih h2
      exact ⟨a, List.mem_cons_of_mem _ ha, hfa⟩

/-- A loop of checks ends as the check of the first element that does not fall
through. -/
theorem check_all_first {α : Type} (f : α → check_result) (pre : List α) (a : α)
    (post : List α) (hpre : ∀ x ∈ pre, f x = check_result.pass) :
    check_all f (pre ++ a :: post) = (f a).then_check (check_all f post) := by
  induction pre with
  | nil => rfl
  | cons x rest ih =>
    show (f x).then_check (check_all f (rest ++ a :: post)) = _
    rw [hpre x (List.mem_cons_self _ _)]
    exact ih (fun y hy => hpre y (List.mem_cons_of_mem _ hy))

/-- A loop of checks that all name the same culprit: it ends in a recovery with that
culprit exactly when one of the checks does, and falls through otherwise. -/
theorem check_all_one_culprit {α : Type} (f : α → check_result) (c : Nat)
    (p : α → Bool)
    (hf : ∀ a, f a = if p a then check_result.recovery c else check_result.pass)
    (l : List α) :
    check_all f l = if l.any p then check_result.recovery c else check_result.pass := by
  induction l with
  | nil => rfl
  | cons x rest ih =>
    unfold check_all
    rw [hf x, ih]
    cases hp : p x <;> simp [check_result.then_check, hp]

/-- The comparison of the node map of an active node other than the local one. -/
theorem check_remote_nodemap_eq (nodemap : ctdb_node_map) (pnn : Nat)
    (getnodemap : Nat → Option ctdb_node_map) (n : ctdb_node_and_flags)
    (remote : ctdb_node_map) (hact : node_active n = true) (hpnn : n.pnn ≠ pnn)
    (hget : getnodemap n.pnn = some remote) :
    check_remote_nodemap nodemap pnn getnodemap n
      = if nodemap_differs remote nodemap then check_result.recovery n.pnn
        else check_result.pass := by
  have hfl : flag_test n.flags NODE_FLAGS_INACTIVE = false := by
    simpa [node_active] using hact
  unfold check_remote_nodemap nodemap_differs
  rw [hfl, if_neg (by simp), if_neg hpnn, hget]
  simp only []
  by_cases hnum : remote.num = nodemap.num
  · rw [if_neg (by simpa using hnum)]
    rw [check_all_one_culprit _ n.pnn (fun e =>
        e.1.pnn != e.2.pnn
        || (e.1.flags &&& NODE_FLAGS_INACTIVE) != (e.2.flags &&& NODE_FLAGS_INACTIVE))]
    · have hb : (remote.num != nodemap.num) = false := by rw [hnum]; exact bne_self_eq_false _
      rw [hb, Bool.false_or]
    · intro e
      by_cases h1 : e.1.pnn = e.2.pnn
      · by_cases h2 : (e.1.flags &&& NODE_FLAGS_INACTIVE) = (e.2.flags &&& NODE_FLAGS_INACTIVE)
        · simp [h1, h2]
        · simp [h1, h2]
      · simp [h1]
  · rw [if_pos hnum]
    simp [hnum]

/-- The comparison of the vnn map of an active node other than the local one. -/
theorem check_remote_vnnmap_eq (pnn : Nat) (vnnmap : ctdb_vnn_map)
    (getvnnmap : Nat → Option ctdb_vnn_map) (n : ctdb_node_and_flags)
    (remote : ctdb_vnn_map) (hact : node_active n = true) (hpnn : n.pnn ≠ pnn)
    (hget : getvnnmap n.pnn = some remote) :
    check_remote_vnnmap pnn vnnmap getvnnmap n
      = if vnnmap_differs remote vnnmap then check_result.recovery n.pnn
        else check_result.pass := by
  have hfl : flag_test n.flags NODE_FLAGS_INACTIVE = false := by
    simpa [node_active] using hact
  unfold check_remote_vnnmap vnnmap_differs
  rw [hfl, if_neg (by simp), if_neg hpnn, hget]
  simp only []
  by_cases hgen : vnnmap.generation = remote.generation
  · rw [if_neg (by simpa using hgen)]
    by_cases hsize : vnnmap.size = remote.size
    · rw [if_neg (by simpa using hsize)]
      rw [check_all_one_culprit _ n.pnn (fun i => remote.map[i]? != vnnmap.map[i]?)]
      · simp [hgen, hsize]
      · intro i
        by_cases h1 : remote.map[i]? = vnnmap.map[i]?
        · simp [h1]
        · simp [h1]
    · rw [if_pos hsize]
      simp [hsize]
  · rw [if_pos hgen]
    simp [hgen]

/-- A comparison of node maps that ends in a recovery names the node whose reply
differs. -/
theorem check_remote_nodemap_recovery (nodemap : ctdb_node_map) (pnn : Nat)
    (getnodemap : Nat → Option ctdb_node_map) (n : ctdb_node_and_flags) (c : Nat)
    (h : check_remote_nodemap nodemap pnn getnodemap n = check_result.recovery c) :
    node_active n = true ∧ n.pnn ≠ pnn ∧ c = n.pnn
    ∧ ∃ remote, getnodemap n.pnn = some remote ∧ nodemap_differs remote nodemap = true := by
  by_cases hact : node_active n = true
  · by_cases hpnn : n.pnn = pnn
    · unfold check_remote_nodemap at h
      rw [if_pos hpnn] at h
      split at h <;> exact absurd h (by simp)
    · cases hget : getnodemap n.pnn with
      | none =>
        have hfl : flag_test n.flags NODE_FLAGS_INACTIVE = false := by
          simpa [node_active] using hact
        unfold check_remote_nodemap at h
        rw [hfl, if_neg (by simp), if_neg hpnn, hget] at h
        exact absurd h (by simp)
      | some remote =>
        rw [check_remote_nodemap_eq nodemap pnn getnodemap n remote hact hpnn hget] at h
        by_cases hd : nodemap_differs remote nodemap = true
        · rw [if_pos hd] at h
          have hc : n.pnn = c := by simpa using h
          exact ⟨hact, hpnn, hc.symm, remote, rfl, hd⟩
        · rw [if_neg hd] at h
          exact absurd h (by simp)
  · have hfl : flag_test n.flags NODE_FLAGS_INACTIVE = true := by
      simpa [node_active] using hact
    unfold check_remote_nodemap at h
    rw [if_pos hfl] at h
    exact absurd h (by simp)

/-- A comparison of vnn maps that ends in a recovery names the node whose reply
differs. -/
theorem check_remote_vnnmap_recovery (pnn : Nat) (vnnmap : ctdb_vnn_map)
    (getvnnmap : Nat → Option ctdb_vnn_map) (n : ctdb_node_and_flags) (c : Nat)
    (h : check_remote_vnnmap pnn vnnmap getvnnmap n = check_result.recovery c) :
    node_active n = true ∧ n.pnn ≠ pnn ∧ c = n.pnn
    ∧ ∃ remote, getvnnmap n.pnn = some remote ∧ vnnmap_differs remote vnnmap = true := by
  by_cases hact : node_active n = true
  · by_cases hpnn : n.pnn = pnn
    · unfold check_remote_vnnmap at h
      rw [if_pos hpnn] at h
      split at h <;> exact absurd h (by simp)
    · cases hget : getvnnmap n.pnn with
      | none =>
        have hfl : flag_test n.flags NODE_FLAGS_INACTIVE = false := by
          simpa [node_active] using hact
        unfold check_remote_vnnmap at h
        rw [hfl, if_neg (by simp), if_neg hpnn, hget] at h
        exact absurd h (by simp)
      | some remote =>
        rw [check_remote_vnnmap_eq pnn vnnmap getvnnmap n remote hact hpnn hget] at h
        by_cases hd : vnnmap_differs remote vnnmap = true
        · rw [if_pos hd] at h
          have hc : n.pnn = c := by simpa using h
          exact ⟨hact, hpnn, hc.symm, remote, rfl, hd⟩
        · rw [if_neg hd] at h
          exact absurd h (by simp)
  · have hfl : flag_test n.flags NODE_FLAGS_INACTIVE = true := by
      simpa [node_active] using hact
    unfold check_remote_vnnmap at h
    rw [if_pos hfl] at h
    exact absurd h (by simp)

/-- A search of the vnn map that ends in a recovery names the active node that is
not in the map. -/
theorem check_active_in_vnnmap_recovery (pnn : Nat) (vnnmap : ctdb_vnn_map)
    (n : ctdb_node_and_flags) (c : Nat)
    (h : check_active_in_vnnmap pnn vnnmap n = check_result.recovery c) :
    node_active n = true ∧ n.pnn ≠ pnn ∧ c = n.pnn ∧ vnnmap_has vnnmap n.pnn = false := by
  unfold check_active_in_vnnmap at h
  by_cases hfl : flag_test n.flags NODE_FLAGS_INACTIVE = true
  · rw [if_pos hfl] at h
    exact absurd h (by simp)
  · rw [if_neg hfl] at h
    by_cases hpnn : n.pnn = pnn
    · rw [if_pos hpnn] at h
      exact absurd h (by simp)
    · rw [if_neg hpnn] at h
      by_cases hhas : vnnmap_has vnnmap n.pnn = true
      · rw [if_neg (by simpa using hhas)] at h
        exact absurd h (by simp)
      · rw [if_pos (by simpa using hhas)] at h
        have hc : n.pnn = c := by simpa using h
        exact ⟨by simpa [node_active] using hfl, hpnn, hc.symm, by simpa using hhas⟩

/-- C26, as the code has it: in a master iteration of `monitor_cluster` in which every
earlier check passes, a consistency check that fails calls `do_recovery` with the
culprit of the check; the first active node other than the local one whose node map
differs from the local node map is that culprit; when the node maps agree, the vnn
map has `num_active` slots and holds every other active node, the first such node
whose vnn map differs (in generation, size or a slot) is that culprit; and the culprit
of a failed check is always either an active node other than the local one whose
node map or vnn map differs or that is missing from the local vnn map, or the local
node `ctdb->pnn`, for a local vnn map whose size is not `num_active`. -/
theorem mismatch_culprit (s : daemon) (env : monitor_env) (pnn num_active : Nat)
    (nodemap : ctdb_node_map) (vnnmap : ctdb_vnn_map)
    (hips : refresh_public_ips env.node_public_ips nodemap.nodes 0 = true)
    (hmaster : verify_recmaster nodemap pnn env.recmaster_sent env.recmaster_completions
      = some monitor_result.MONITOR_OK)
    (hneed : s.recd.need_recovery = false)
    (hmode : verify_recmode nodemap env.recmode_sent env.recmode_completions
      = some monitor_result.MONITOR_OK)
    (hfd : s.ctdb.recovery_lock_fd ≠ -1) (hlock : env.lock_read_ok = true) :
    (∀ culprit,
      monitor_consistency s.ctdb.pnn pnn num_active nodemap vnnmap env.check_nodemap
          env.check_vnnmap = check_result.recovery culprit →
      (monitor_duties s env pnn num_active nodemap vnnmap).calls
        = [monitor_call.verify_recmaster, monitor_call.verify_recmode,
           monitor_call.do_recovery pnn num_active nodemap vnnmap culprit])
    ∧ (∀ (pre : List ctdb_node_and_flags) (p : ctdb_node_and_flags)
        (post : List ctdb_node_and_flags) (remote : ctdb_node_map),
      nodemap.nodes = pre ++ p :: post →
      (∀ n ∈ pre, check_remote_nodemap nodemap pnn env.check_nodemap n = check_result.pass) →
      node_active p = true → p.pnn ≠ pnn →
      env.check_nodemap p.pnn = some remote → nodemap_differs remote nodemap = true →
      monitor_consistency s.ctdb.pnn pnn num_active nodemap vnnmap env.check_nodemap
          env.check_vnnmap = check_result.recovery p.pnn)
    ∧ (∀ (pre : List ctdb_node_and_flags) (p : ctdb_node_and_flags)
        (post : List ctdb_node_and_flags) (remote : ctdb_vnn_map),
      nodemap.nodes = pre ++ p :: post →
      check_all (check_remote_nodemap nodemap pnn env.check_nodemap) nodemap.nodes
        = check_result.pass →
      vnnmap.size = num_active →
      check_all (check_active_in_vnnmap pnn vnnmap) nodemap.nodes = check_result.pass →
      (∀ n ∈ pre, check_remote_vnnmap pnn vnnmap env.check_vnnmap n = check_result.pass) →
      node_active p = true → p.pnn ≠ pnn →
      env.check_vnnmap p.pnn = some remote → vnnmap_differs remote vnnmap = true →
      monitor_consistency s.ctdb.pnn pnn num_active nodemap vnnmap env.check_nodemap
          env.check_vnnmap = check_result.recovery p.pnn)
    ∧ (∀ culprit,
      monitor_consistency s.ctdb.pnn pnn num_active nodemap vnnmap env.check_nodemap
          env.check_vnnmap = check_result.recovery culprit →
      (∃ n ∈ nodemap.nodes, node_active n = true ∧ n.pnn ≠ pnn ∧ culprit = n.pnn
          ∧ ((∃ remote, env.check_nodemap n.pnn = some remote
                ∧ nodemap_differs remote nodemap = true)
            ∨ vnnmap_has vnnmap n.pnn = false
            ∨ (∃ remote, env.check_vnnmap n.pnn = some remote
                ∧ vnnmap_differs remote vnnmap = true)))
      ∨ (culprit = s.ctdb.pnn ∧ vnnmap.size ≠ num_active)) := by
  refine ⟨?_, ?_, ?_, ?_⟩
  · intro culprit h
    have hfd2 : ¬ (s.ctdb.recovery_lock_fd = -1) := hfd
    unfold monitor_duties
    rw [hips, if_neg (by simp), hmaster]
    simp only []
    rw [hneed, if_neg (by simp), hmode]
    simp only []
    rw [if_neg hfd2, hlock, if_neg (by simp), h]
  · intro pre p post remote hsplit hpre hact hpnn hget hdiff
    unfold monitor_consistency
    rw [hsplit, check_all_first _ pre p post hpre,
      check_remote_nodemap_eq nodemap pnn env.check_nodemap p remote hact hpnn hget,
      if_pos hdiff]
    rfl
  · intro pre p post remote hsplit hmaps hsize hin hpre hact hpnn hget hdiff
    unfold monitor_consistency
    rw [hmaps, if_neg (by simpa using hsize), hin]
    show check_all (check_remote_vnnmap pnn vnnmap env.check_vnnmap) nodemap.nodes = _
    rw [hsplit, check_all_first _ pre p post hpre,
      check_remote_vnnmap_eq pnn vnnmap env.check_vnnmap p remote hact hpnn hget,
      if_pos hdiff]
    rfl
  · intro culprit h
    unfold monitor_consistency at h
    rcases then_check_recovery _ _ culprit h with h1 | ⟨_, h2⟩
    · obtain ⟨n, hn, hc⟩ := check_all_recovery _ culprit _ h1
      obtain ⟨ha, hp, he, hr⟩ := check_remote_nodemap_recovery _ _ _ _ _ hc
      exact Or.inl ⟨n, hn, ha, hp, he, Or.inl hr⟩
    · rcases then_check_recovery _ _ culprit h2 with h3 | ⟨_, h4⟩
      · by_cases hsize : vnnmap.size = num_active
        · rw [if_neg (by simpa using hsize)] at h3
          exact absurd h3 (by simp)
        · rw [if_pos hsize] at h3
          have hc : s.ctdb.pnn = culprit := by simpa using h3
          exact Or.inr ⟨hc.symm, hsize⟩
      · rcases then_check_recovery _ _ culprit h4 with h5 | ⟨_, h6⟩
        · obtain ⟨n, hn, hc⟩ := check_all_recovery _ culprit _ h5
          obtain ⟨ha, hp, he, hr⟩ := check_active_in_vnnmap_recovery _ _ _ _ hc
          exact Or.inl ⟨n, hn, ha, hp, he, Or.inr (Or.inl hr)⟩
        · obtain ⟨n, hn, hc⟩ := check_all_recovery _ culprit _ h6
          obtain ⟨ha, hp, he, hr⟩ := check_remote_vnnmap_recovery _ _ _ _ _ hc
          exact Or.inl ⟨n, hn, ha, hp, he, Or.inr (Or.inr hr)⟩

/-- Node `2` of three active nodes returns a vnn map of generation `4`, the master,
node `0`, has generation `5`: the master calls `do_recovery` with culprit `2`. -/
theorem mismatch_culprit_witness :
    (monitor_duties master_daemon diverged_env 0 3 three_nodes ⟨5, 3, [0, 1, 2]⟩).calls
      = [monitor_call.verify_recmaster, monitor_call.verify_recmode,
         monitor_call.do_recovery 0 3 three_nodes ⟨5, 3, [0, 1, 2]⟩ 2] :=
  (mismatch_culprit master_daemon diverged_env 0 3 three_nodes ⟨5, 3, [0, 1, 2]⟩
    (by decide) (by decide) (by decide) (by decide) (by decide) (by decide)).1 2 (by decide)

/-- C26, counterexample: three active nodes that all return the node map of the
master and its vnn map `[1, 2]` of two slots.  No reply differs from the local state
and both other nodes are in the vnn map; the iteration of the master, node `0`, calls
`do_recovery` with culprit `0`, the local node. -/
theorem mismatch_culprit_counterexample :
    (monitor_iteration master_daemon short_vnnmap_env).calls
      = [monitor_call.update_local_flags, monitor_call.verify_recmaster,
         monitor_call.verify_recmode,
         monitor_call.do_recovery 0 3 three_nodes ⟨5, 2, [1, 2]⟩ 0]
    ∧ master_daemon.ctdb.pnn = 0
    ∧ (∀ n ∈ three_nodes.nodes, short_vnnmap_env.check_nodemap n.pnn = some three_nodes)
    ∧ nodemap_differs three_nodes three_nodes = false
    ∧ (∀ n ∈ three_nodes.nodes,
        short_vnnmap_env.check_vnnmap n.pnn = some ⟨5, 2, [1, 2]⟩)
    ∧ vnnmap_differs ⟨5, 2, [1, 2]⟩ ⟨5, 2, [1, 2]⟩ = false
    ∧ (∀ n ∈ three_nodes.nodes, n.pnn ≠ 0 → vnnmap_has ⟨5, 2, [1, 2]⟩ n.pnn = true) := by
  decide

/-- The iteration of the example with the generation that differs. -/
theorem diverged_generation_example :
    (monitor_iteration master_daemon diverged_env).calls
      = [monitor_call.update_local_flags, monitor_call.verify_recmaster,
         monitor_call.verify_recmode,
         monitor_call.do_recovery 0 3 three_nodes ⟨5, 3, [0, 1, 2]⟩ 2] := by
  decide

/-! ## Theorems: the takeover run asked for by a flag change -/

/-- C23, as the code has it: for every `NODE_FLAGS_CHANGED` message of the right size
that names a node of the node map, when the local node map was read:
`monitor_handler` returns, and `need_takeover_run` is `true` afterwards if the
recovery master and the recovery mode were both read, the master is the local node,
the mode is `NORMAL`, public addresses are configured (`ctdb->vnn` is not `NULL`) and
`old_flags ^ new_flags` has a bit of `DISABLED`; in every other case it is as it
was. -/
theorem takeover_run_requested (s : daemon) (data : List Nat) (nodemap : ctdb_node_map)
    (getrecmaster getrecmode : Option Nat) (i : Nat)
    (hlen : data.length = 12)
    (hi : node_index nodemap.nodes (u32_at data 0) = some i) :
    ∃ d r, monitor_handler s data (some nodemap) getrecmaster getrecmode = some (d, r)
      ∧ d.recd.need_takeover_run
          = (if getrecmaster = some s.ctdb.pnn ∧ getrecmode = some CTDB_RECOVERY_NORMAL
                ∧ s.ctdb.vnn = true
                ∧ flag_test (u32_at data 4 ^^^ u32_at data 8) NODE_FLAGS_DISABLED = true
             then true else s.recd.need_takeover_run) := by
  unfold monitor_handler
  simp only [hlen, ne_eq, not_true_eq_false, if_false, hi]
  cases getrecmaster with
  | none => exact ⟨_, _, rfl, by simp⟩
  | some m =>
    cases getrecmode with
    | none => exact ⟨_, _, rfl, by simp⟩
    | some md =>
      simp only [Option.isSome_some, Bool.and_self, Bool.true_and]
      by_cases hm : m = s.ctdb.pnn
      · by_cases hmd : md = CTDB_RECOVERY_NORMAL
        · by_cases hv : s.ctdb.vnn = true
          · by_cases hf : flag_test (u32_at data 4 ^^^ u32_at data 8) NODE_FLAGS_DISABLED = true
            · simp [hm, hmd, hv, hf]
            · simp [hm, hmd, hv, hf]
          · simp [hm, hmd, hv]
        · simp [hm, hmd]
      · simp [hm]

/-- Node `0` serves public addresses, is the recovery master and in normal mode when
it hears that node `1` became unhealthy. -/
theorem takeover_run_requested_witness :
    ∃ d r, monitor_handler serving_daemon unhealthy_payload (some three_nodes) (some 0)
          (some 0) = some (d, r)
      ∧ d.recd.need_takeover_run
          = (if (some 0 : Option Nat) = some serving_daemon.ctdb.pnn
                ∧ (some 0 : Option Nat) = some CTDB_RECOVERY_NORMAL
                ∧ serving_daemon.ctdb.vnn = true
                ∧ flag_test (u32_at unhealthy_payload 4 ^^^ u32_at unhealthy_payload 8)
                    NODE_FLAGS_DISABLED = true
             then true else serving_daemon.recd.need_takeover_run) :=
  takeover_run_requested serving_daemon unhealthy_payload three_nodes (some 0) (some 0) 1
    (by decide) (by decide)

/-- The handler run of the example asks for a takeover run. -/
theorem takeover_run_requested_example :
    (monitor_handler serving_daemon unhealthy_payload (some three_nodes) (some 0)
        (some CTDB_RECOVERY_NORMAL)).map (fun r => r.1.recd.need_takeover_run)
      = some true := by
  decide

/-- C23, counterexample: node `0` has no public addresses configured.  It is the
recovery master and in normal mode when a message says that node `1`, a node of the
node map, became unhealthy, a bit of `DISABLED`; `need_takeover_run` stays
`false`. -/
theorem takeover_run_requested_counterexample :
    quiet_daemon.ctdb.pnn = 0
    ∧ quiet_daemon.recd.need_takeover_run = false
    ∧ node_index three_nodes.nodes (u32_at unhealthy_payload 0) = some 1
    ∧ flag_test (u32_at unhealthy_payload 4 ^^^ u32_at unhealthy_payload 8)
        NODE_FLAGS_DISABLED = true
    ∧ (monitor_handler quiet_daemon unhealthy_payload (some three_nodes) (some 0)
        (some CTDB_RECOVERY_NORMAL)).map
          (fun r => (r.1.recd.need_takeover_run, r.1.ctdb.recovery_master,
                     r.1.ctdb.recovery_mode))
      = some (false, 0, CTDB_RECOVERY_NORMAL) := by
  decide

/-! ## Theorems: the arguments of `do_recovery` -/

/-- Every call of `do_recovery` among the duties of the master has the pnn, the count
of active nodes, the node map and the vnn map that the duties were given. -/
theorem monitor_duties_recovery_arguments (s : daemon) (env : monitor_env)
    (pnn num_active : Nat) (nodemap : ctdb_node_map) (vnnmap : ctdb_vnn_map)
    (p k : Nat) (nm : ctdb_node_map) (v : ctdb_vnn_map) (c : Nat)
    (h : monitor_call.do_recovery p k nm v c
      ∈ (monitor_duties s env pnn num_active nodemap vnnmap).calls) :
    p = pnn ∧ k = num_active ∧ nm = nodemap ∧ v = vnnmap := by
  unfold monitor_duties at h
  repeat' split at h
  all_goals simp at h
  all_goals first
    | exact h.elim
    | exact ⟨h.1, h.2.1, h.2.2.1, h.2.2.2.1⟩

/-- The loop of the public IP check only freezes the local node and sets its recovery
mode. -/
theorem check_public_ips_calls (pnn : Nat) (ips : List public_ip) :
    ∀ call ∈ (check_public_ips pnn ips).1,
      call = monitor_call.freeze_self ∨ call = monitor_call.setrecmode_self := by
  induction ips with
  | nil => intro call h; simp [check_public_ips] at h
  | cons ip rest ih =>
    intro call h
    unfold check_public_ips at h
    repeat' split at h
    all_goals try simp only [List.mem_cons, List.mem_singleton, List.not_mem_nil, or_false] at h
    all_goals first
      | exact ih call h
      | (rcases h with h | h | h
         · exact Or.inl h
         · exact Or.inr h
         · exact ih call h)
      | (rcases h with h | h
         · exact Or.inl h
         · exact Or.inr h)
      | exact Or.inl h

/-- The public IP check of an iteration never calls `do_recovery`. -/
theorem monitor_public_ip_check_no_recovery (s : daemon) (env : monitor_env) (pnn : Nat)
    (p k : Nat) (nm : ctdb_node_map) (v : ctdb_vnn_map) (c : Nat) :
    monitor_call.do_recovery p k nm v c ∉ (monitor_public_ip_check s env pnn).1 := by
  intro h
  unfold monitor_public_ip_check at h
  repeat' split at h
  all_goals simp at h
  rcases check_public_ips_calls _ _ _ h with h2 | h2 <;> exact absurd h2 (by simp)

/-- Every call of `do_recovery` in the master part of an iteration has the pnn, the
count of active nodes and the vnn map that the part was given, and the node map
that `update_local_flags` left. -/
theorem monitor_master_recovery_arguments (s : daemon) (env : monitor_env)
    (pnn num_active : Nat) (nodemap : ctdb_node_map) (vnnmap : ctdb_vnn_map)
    (p k : Nat) (nm : ctdb_node_map) (v : ctdb_vnn_map) (c : Nat)
    (h : monitor_call.do_recovery p k nm v c
      ∈ (monitor_master s env pnn num_active nodemap vnnmap).calls) :
    p = pnn ∧ k = num_active
    ∧ nm = (update_local_flags s.ctdb.pnn nodemap env.flags_nodemap).1 ∧ v = vnnmap := by
  unfold monitor_master at h
  split at h
  · simp at h
  · simp only [List.mem_cons] at h
    rcases h with h | h
    · exact absurd h (by simp)
    · exact monitor_duties_recovery_arguments _ _ _ _ _ _ _ _ _ _ _ h

/-- The counting loop reads nothing of the recovery daemon but the ban registry. -/
theorem count_active_nodes_registry (r1 r2 : ctdb_recoverd)
    (h : r1.banned_nodes = r2.banned_nodes) (nodes : List ctdb_node_and_flags) :
    ∀ k, count_active_nodes r1 nodes k = count_active_nodes r2 nodes k := by
  have hb : ∀ pnn, banned_entry r1 pnn = banned_entry r2 pnn := by
    intro pnn
    unfold banned_entry
    rw [h]
  induction nodes with
  | nil => intro k; rfl
  | cons x rest ih =>
    intro k
    unfold count_active_nodes
    simp only [hb, ih]

/-- The arguments of `do_recovery` in an iteration of `monitor_cluster` whose reads
succeed: whenever the iteration calls `do_recovery`, `num_active` is the number of
active entries of the node map as the counting loop left it, and the node map
handed over is that node map after `update_local_flags` rewrote its flags. -/
theorem recovery_arguments (s : daemon) (env : monitor_env) (tunable : ctdb_tunable)
    (vnnmap : ctdb_vnn_map) (nodemap : ctdb_node_map) (recmaster : Nat)
    (p k : Nat) (nm : ctdb_node_map) (v : ctdb_vnn_map) (c : Nat)
    (ht : env.tunables = some tunable) (hpnn : env.getpnn ≠ 0xFFFFFFFF)
    (hv : env.getvnnmap = some vnnmap) (hn : env.getnodemap = some nodemap)
    (hr : env.getrecmaster = some recmaster) (hlen : nodemap.nodes.length < 2 ^ 32)
    (h : monitor_call.do_recovery p k nm v c ∈ (monitor_iteration s env).calls) :
    p = env.getpnn
    ∧ k = ((count_active_nodes s.recd nodemap.nodes 0).1.filter node_active).length
    ∧ nm = (update_local_flags s.ctdb.pnn ⟨(count_active_nodes s.recd nodemap.nodes 0).1⟩
              env.flags_nodemap).1
    ∧ v = vnnmap := by
  have hc : ∀ j, count_active_nodes { s.recd with
        node_flags := (nodemap.nodes.getD env.getpnn ⟨0, 0⟩).flags } nodemap.nodes j
      = count_active_nodes s.recd nodemap.nodes j :=
    fun j => count_active_nodes_registry
      { s.recd with node_flags := (nodemap.nodes.getD env.getpnn ⟨0, 0⟩).flags } s.recd rfl
      nodemap.nodes j
  have hk := (count_active_nodes_eq s.recd nodemap.nodes 0 (by omega)).2
  rw [Nat.zero_add] at hk
  unfold monitor_iteration at h
  rw [ht] at h
  simp only [] at h
  rw [if_neg hpnn, hv] at h
  simp only [] at h
  rw [hn] at h
  simp only [] at h
  rw [hr] at h
  simp only [hc] at h
  split at h
  · simp at h
  · split_ifs at h with h1 h2
    · exact absurd h (monitor_public_ip_check_no_recovery _ _ _ _ _ _ _ _)
    · exact absurd h (monitor_public_ip_check_no_recovery _ _ _ _ _ _ _ _)
    · simp only [List.mem_append] at h
      rcases h with h | h
      · exact absurd h (monitor_public_ip_check_no_recovery _ _ _ _ _ _ _ _)
      · obtain ⟨e1, e2, e3, e4⟩ := monitor_master_recovery_arguments _ _ _ _ _ _ _ _ _ _ _ h
        exact ⟨e1, by rw [e2, hk], e3, e4⟩
  · simp at h

/-- The iteration of `healed_env`: the count `2` was made on the node map in which
node `1` is unhealthy, the node map handed over is the one that `update_local_flags`
left. -/
theorem recovery_arguments_witness :
    (0 : Nat) = healed_env.getpnn
    ∧ 2 = ((count_active_nodes master_daemon.recd unhealthy_nodes.nodes 0).1.filter
            node_active).length
    ∧ three_nodes
        = (update_local_flags master_daemon.ctdb.pnn
            ⟨(count_active_nodes master_daemon.recd unhealthy_nodes.nodes 0).1⟩
            healed_env.flags_nodemap).1
    ∧ (⟨5, 2, [0, 2]⟩ : ctdb_vnn_map) = ⟨5, 2, [0, 2]⟩ :=
  recovery_arguments master_daemon healed_env
    { enable_bans := 1, recovery_grace_period := 120, recovery_ban_period := 300 }
    ⟨5, 2, [0, 2]⟩ unhealthy_nodes 0 0 2 three_nodes ⟨5, 2, [0, 2]⟩ 1
    rfl (by decide) rfl rfl rfl (by decide) (by decide)

end Ctdb
